import Mathlib

/-!
# ButtplugUnreal: a shallow embedding of the protocol and session engine

The development follows the plugin sources under `Source/Buttplug`:

* `ButtplugMessage.h` / `ButtplugMessage.cpp`: the message kinds, their JSON form,
  `WriteButtplugMessagesToJson` and `ReadButtplugMessagesFromJson`;
* `ButtplugFeature.*`, `ButtplugDevice.*`: features, devices and the per-tick flush;
* `ButtplugSubsystem.*`: the session (socket callbacks, message handlers, tick).

Conventions of the embedding:

* `uint32` members are natural numbers; where the code can overflow the model
  reduces modulo `2 ^ 32`. `INDEX_NONE` stored in a `uint32` is `4294967295`.
* `float` / `double` values are the rational numbers they denote. The `float` sum of
  the timing gate and the `float` product behind a `LinearCmd` duration are rounded as
  the machine rounds them (see "Arithmetic on `float`"); quotients that are stored and
  handed on (the default timing gap, the ping rate, the battery level) are kept exact.
  The value `INFINITY` of a duration is a separate constructor.
* `check`, `checkf`, `unimplemented` and null dereferences are faults: every
  operation that can reach one returns `Except Fault _`.
* Text frames are represented by the JSON document the engine parser produces
  from them (or its failure); the engine's JSON reader and enum reflection are
  modelled where the sources only call them.
-/

namespace Buttplug

/-! ## Machine constants and faults -/

/-- The engine constant `INDEX_NONE` (`-1`) as it is held by a `uint32` member. -/
def INDEX_NONE : Nat := 4294967295

/-- Largest `uint32`. -/
def MAX_uint32 : Nat := 4294967295

/-- Number of `uint32` values. -/
def UINT32_MODULUS : Nat := 4294967296

/-- Ways in which an operation of the plugin aborts instead of returning. -/
inductive Fault
  | CheckFailed
  | Unimplemented
  | NullDereference
  deriving DecidableEq, Repr

/-! ## Enumerations (`ButtplugMessage.h`, `ButtplugFeature.h`) -/

/-- The message kinds, in declaration order. -/
inductive EButtplugMessageType
  | Ok
  | Error
  | Ping
  | RequestServerInfo
  | ServerInfo
  | StartScanning
  | StopScanning
  | ScanningFinished
  | RequestDeviceList
  | DeviceList
  | DeviceAdded
  | DeviceRemoved
  | StopDeviceCmd
  | StopAllDevices
  | ScalarCmd
  | LinearCmd
  | RotateCmd
  | SensorReadCmd
  | SensorReading
  | SensorSubscribeCmd
  | SensorUnsubscribeCmd
  deriving DecidableEq, Repr

/-- The feature kinds, in declaration order; `Unknown` is the zero value. -/
inductive EButtplugFeatureType
  | Unknown
  | Vibrate
  | Rotate
  | Oscillate
  | Constrict
  | Inflate
  | Position
  | Battery
  | RSSI
  | Button
  | Pressure
  deriving DecidableEq, Repr

/-- Result of a connect request (`ButtplugSubsystem.h`). -/
inductive EButtplugClientStartResult
  | Succeeded
  | ConnectionFailed
  deriving DecidableEq, Repr

/-- Every message kind, in declaration order. -/
def EButtplugMessageType.Enumerators : List EButtplugMessageType :=
  [.Ok, .Error, .Ping, .RequestServerInfo, .ServerInfo, .StartScanning, .StopScanning,
   .ScanningFinished, .RequestDeviceList, .DeviceList, .DeviceAdded, .DeviceRemoved,
   .StopDeviceCmd, .StopAllDevices, .ScalarCmd, .LinearCmd, .RotateCmd, .SensorReadCmd,
   .SensorReading, .SensorSubscribeCmd, .SensorUnsubscribeCmd]

/-- Every feature kind, in declaration order. -/
def EButtplugFeatureType.Enumerators : List EButtplugFeatureType :=
  [.Unknown, .Vibrate, .Rotate, .Oscillate, .Constrict, .Inflate, .Position, .Battery,
   .RSSI, .Button, .Pressure]

/-- Embeds `Buttplug::Private::GetEnumAsString` at `EButtplugMessageType`: the enumerator name. -/
def EButtplugMessageType.GetEnumAsString : EButtplugMessageType → String
  | .Ok => "Ok"
  | .Error => "Error"
  | .Ping => "Ping"
  | .RequestServerInfo => "RequestServerInfo"
  | .ServerInfo => "ServerInfo"
  | .StartScanning => "StartScanning"
  | .StopScanning => "StopScanning"
  | .ScanningFinished => "ScanningFinished"
  | .RequestDeviceList => "RequestDeviceList"
  | .DeviceList => "DeviceList"
  | .DeviceAdded => "DeviceAdded"
  | .DeviceRemoved => "DeviceRemoved"
  | .StopDeviceCmd => "StopDeviceCmd"
  | .StopAllDevices => "StopAllDevices"
  | .ScalarCmd => "ScalarCmd"
  | .LinearCmd => "LinearCmd"
  | .RotateCmd => "RotateCmd"
  | .SensorReadCmd => "SensorReadCmd"
  | .SensorReading => "SensorReading"
  | .SensorSubscribeCmd => "SensorSubscribeCmd"
  | .SensorUnsubscribeCmd => "SensorUnsubscribeCmd"

/-- Embeds `Buttplug::Private::GetEnumAsString` at `EButtplugFeatureType`: the enumerator name. -/
def EButtplugFeatureType.GetEnumAsString : EButtplugFeatureType → String
  | .Unknown => "Unknown"
  | .Vibrate => "Vibrate"
  | .Rotate => "Rotate"
  | .Oscillate => "Oscillate"
  | .Constrict => "Constrict"
  | .Inflate => "Inflate"
  | .Position => "Position"
  | .Battery => "Battery"
  | .RSSI => "RSSI"
  | .Button => "Button"
  | .Pressure => "Pressure"

/-- Modelled from the spec: the engine lookup `UEnum::GetIndexByNameString`, which
`GetEnumByName` calls and which is not part of the plugin sources. The spec resolves a
key by exact, case-sensitive match against the enumerator names; `none` is `INDEX_NONE`. -/
def EButtplugMessageType.GetIndexByNameString (InName : String) : Option EButtplugMessageType :=
  EButtplugMessageType.Enumerators.find? (fun T => T.GetEnumAsString == InName)

/-- Modelled from the spec: `UEnum::GetIndexByNameString` at the feature enumeration,
resolved like the message kinds by exact match against the enumerator names. -/
def EButtplugFeatureType.GetIndexByNameString (InName : String) : Option EButtplugFeatureType :=
  EButtplugFeatureType.Enumerators.find? (fun T => T.GetEnumAsString == InName)

/-- Embeds `GetEnumByName(const FString&, EnumType&)` at the message kinds
(`ButtplugConversions.h`, lines 11-20): `none` when it returns `false`. -/
def EButtplugMessageType.GetEnumByName (InName : String) : Option EButtplugMessageType :=
  match EButtplugMessageType.GetIndexByNameString InName with
  | none => none
  | some T => some T

/-- Embeds `GetEnumByName<EButtplugFeatureType>(const FString&)` (`ButtplugConversions.h`,
lines 22-29): the value-initialised enumerator `Unknown` when the name is not found. -/
def EButtplugFeatureType.GetEnumByName (InName : String) : EButtplugFeatureType :=
  match EButtplugFeatureType.GetIndexByNameString InName with
  | none => .Unknown
  | some T => T

/-! ## JSON documents (the engine's `FJsonValue` / `FJsonObject`) -/

/-- A parsed JSON value. Numbers are exact rationals; an object keeps its fields in
document order. -/
inductive FJsonValue
  | null
  | boolean (Value : Bool)
  | number (Value : ℚ)
  | string (Value : String)
  | array (Values : List FJsonValue)
  | object (Values : List (String × FJsonValue))

/-- The field table `FJsonObject::Values`. -/
abbrev FJsonObject := List (String × FJsonValue)

/-- Modelled from the spec: the engine's `FJsonValue::AsObject`, not part of the plugin
sources: the object held, or an empty object for any other value. -/
def FJsonValue.AsObject : FJsonValue → FJsonObject
  | .object Values => Values
  | _ => []

/-- Modelled from the spec: the engine's `FJsonValue::AsArray`, not part of the plugin
sources: the array held, or an empty array for any other value. -/
def FJsonValue.AsArray : FJsonValue → List FJsonValue
  | .array Values => Values
  | _ => []

/-- Modelled from the spec: the engine's `FJsonValue::AsNumber`, not part of the plugin
sources: the number held, or zero for any other value. -/
def FJsonValue.AsNumber : FJsonValue → ℚ
  | .number Value => Value
  | _ => 0

/-- Modelled from the spec: the engine's `FJsonObject::GetField`, not part of the plugin
sources: the value stored under a name (exact match), if any. -/
def FJsonObject.GetField (Object : FJsonObject) (Name : String) : Option FJsonValue :=
  (Object.find? (fun Field => Field.1 == Name)).map (fun Field => Field.2)

/-- The nearest integer to a rational, halves rounded up (`floor (F + 0.5)`). -/
def RoundHalfUp (F : ℚ) : Int := Int.floor (F + 1 / 2)

/-- The value an out-of-range conversion to `int32` yields on the target platform. -/
def INT32_INDEFINITE : Int := -2147483648

/-- Modelled from the spec: the engine's `FMath::RoundToInt32`, not part of the plugin
sources: the nearest integer (the spec's rounding of seconds × 1000), halves rounded up,
as an `int32`; a result that does not fit is the platform's indefinite value. -/
def RoundToInt32 (F : ℚ) : Int :=
  if -2147483648 ≤ RoundHalfUp F ∧ RoundHalfUp F ≤ 2147483647 then RoundHalfUp F
  else INT32_INDEFINITE

/-! ### Arithmetic on `float`

A `float` of the program (IEEE 754 binary32) is modelled by the rational it denotes, and
the two infinities by `FloatInfinity` and its negation. The result of an arithmetic
operation is the exact result rounded to the nearest `float`, ties to the even neighbour,
and an infinity where the rounded magnitude reaches `2 ^ 128` (which it does from the
exact magnitude `2 ^ 128 - 2 ^ 103` on). NaN is not modelled. -/

/-- The rational that stands for the `float` infinity: the first power of two above the
largest finite `float`. -/
def FloatInfinity : ℚ := 2 ^ 128

/-- The nearest integer to a rational, halves rounded to the even neighbour. -/
def RoundHalfEven (F : ℚ) : Int :=
  if F - Int.floor F < 1 / 2 then Int.floor F
  else if 1 / 2 < F - Int.floor F then Int.floor F + 1
  else if Int.floor F % 2 = 0 then Int.floor F
  else Int.floor F + 1

/-- Overflow of a rounded result: a magnitude that no finite `float` has is an infinity. -/
def ClampToFloat (Rounded : ℚ) : ℚ :=
  if FloatInfinity ≤ Rounded then FloatInfinity
  else if Rounded ≤ -FloatInfinity then -FloatInfinity
  else Rounded

/-- The `float` nearest to a rational: 24 significant bits, the exponent of the leading bit
not below -126 (below it the spacing stays `2 ^ -149`, the subnormal range), ties to
even, overflow to an infinity. -/
@[irreducible]
def RoundToFloat (Value : ℚ) : ℚ :=
  if Value = 0 then 0
  else
    let Exponent : Int := max (Int.log 2 |Value|) (-126)
    ClampToFloat
      ((RoundHalfEven (Value / (2 : ℚ) ^ (Exponent - 23)) : ℚ) * (2 : ℚ) ^ (Exponent - 23))

/-- The sum of two `float`s as the program computes it: an infinite operand is the result,
otherwise the exact sum is rounded. -/
@[irreducible]
def FloatAdd (A B : ℚ) : ℚ :=
  if FloatInfinity ≤ |A| then A
  else if FloatInfinity ≤ |B| then B
  else RoundToFloat (A + B)

/-- The product of two finite `float`s as the program computes it. -/
@[irreducible]
def FloatMul (A B : ℚ) : ℚ := RoundToFloat (A * B)

/-- Conversion of an `int32` to `uint32` (reduction modulo `2 ^ 32`). -/
def Int32ToUInt32 (Value : Int) : Nat := (Value % 4294967296).toNat

/-- Conversion of a `uint32` to `int32` (two's complement). -/
def UInt32ToInt32 (Value : Nat) : Int :=
  if Value % 4294967296 < 2147483648 then (Value % 4294967296 : Nat)
  else ((Value % 4294967296 : Nat) : Int) - 4294967296

/-! ### The engine's JSON reader

`BEGIN_JSON_SERIALIZER` ... `END_JSON_SERIALIZER` expand to one `Serialize` function
that loads or saves each listed member. The loading half is the engine's
`FJsonSerializerReader`; it is modelled below. -/

/-- Modelled from the spec: loading a `uint32` member with `JSON_SERIALIZE` or
`JSON_SERIALIZE_WITHDEFAULT` (engine macros, absent from the sources). A present number
that fits a `uint32` is loaded; otherwise the member keeps `Default`, the wire-optional
default the spec requires the decoder to apply. -/
def FJsonSerializerReader.SerializeUInt32 (Object : FJsonObject) (Name : String)
    (Default : Nat) : Nat :=
  match Object.GetField Name with
  | some (.number Value) =>
      if 0 ≤ Value ∧ Value ≤ (MAX_uint32 : ℚ) then (RoundHalfUp Value).toNat else Default
  | _ => Default

/-- Modelled from the spec: loading an `int64` member (used by
`JSON_SERIALIZE_ENUM_AS_INT`); a present number is loaded, otherwise the default stays. -/
def FJsonSerializerReader.SerializeInt64 (Object : FJsonObject) (Name : String)
    (Default : Int) : Int :=
  match Object.GetField Name with
  | some (.number Value) => RoundHalfUp Value
  | _ => Default

/-- Modelled from the spec: loading a `double` member. -/
def FJsonSerializerReader.SerializeDouble (Object : FJsonObject) (Name : String)
    (Default : ℚ) : ℚ :=
  match Object.GetField Name with
  | some (.number Value) => Value
  | _ => Default

/-- Modelled from the spec: loading a `bool` member. -/
def FJsonSerializerReader.SerializeBool (Object : FJsonObject) (Name : String)
    (Default : Bool) : Bool :=
  match Object.GetField Name with
  | some (.boolean Value) => Value
  | _ => Default

/-- Modelled from the spec: loading an `FString` member; an absent field leaves the
default (the empty string for every wire-optional name). -/
def FJsonSerializerReader.SerializeString (Object : FJsonObject) (Name : String)
    (Default : String) : String :=
  match Object.GetField Name with
  | some (.string Value) => Value
  | _ => Default

/-- Modelled from the spec: `JSON_SERIALIZE_ARRAY` on a `TArray<int32>` member: the
numbers of a present array, in order. -/
def FJsonSerializerReader.SerializeArrayInt32 (Object : FJsonObject) (Name : String)
    (Default : List Int) : List Int :=
  match Object.GetField Name with
  | some (.array Values) => Values.map (fun Value => RoundToInt32 Value.AsNumber)
  | _ => Default

/-- Modelled from the spec: `JSON_SERIALIZE_ARRAY_SERIALIZABLE` (with or without default):
every element of a present array is loaded with the element loader, in order. -/
def FJsonSerializerReader.SerializeArraySerializable {α : Type} (Object : FJsonObject)
    (Name : String) (ElementFromJson : FJsonObject → α) : List α :=
  match Object.GetField Name with
  | some (.array Values) => Values.map (fun Value => ElementFromJson Value.AsObject)
  | _ => []

/-! ## Message payloads (`ButtplugMessage.h`) -/

/-- Embeds `FInt32Interval`: one `[min, max]` range of a sensor dimension. -/
structure FInt32Interval where
  Min : Int
  Max : Int
  deriving DecidableEq, Repr

/-- Embeds `FButtplugMessage::DeviceMessageAttributes` (lines 341-384). -/
structure FButtplugMessage.DeviceMessageAttributes where
  FeatureDescriptor : String
  StepCount : Nat
  ActuatorType : String
  SensorType : String
  SensorRange : List FInt32Interval
  deriving DecidableEq, Repr

/-- Embeds `FButtplugMessage::DeviceMessages`. -/
structure FButtplugMessage.DeviceMessages where
  ScalarCmd : List FButtplugMessage.DeviceMessageAttributes
  LinearCmd : List FButtplugMessage.DeviceMessageAttributes
  RotateCmd : List FButtplugMessage.DeviceMessageAttributes
  SensorReadCmd : List FButtplugMessage.DeviceMessageAttributes
  SensorSubscribeCmd : List FButtplugMessage.DeviceMessageAttributes
  deriving DecidableEq, Repr

/-- Embeds `FButtplugMessage::Device`. -/
structure FButtplugMessage.Device where
  Name : String
  Index : Nat
  MessageTimingGap : Nat
  DisplayName : String
  Messages : FButtplugMessage.DeviceMessages
  deriving DecidableEq, Repr

/-- Embeds `FButtplugMessage::Scalar`. -/
structure FButtplugMessage.Scalar where
  Index : Nat
  Value : ℚ
  ActuatorType : String
  deriving DecidableEq, Repr

/-- Embeds `FButtplugMessage::Vector`. -/
structure FButtplugMessage.Vector where
  Index : Nat
  Duration : Nat
  Position : ℚ
  deriving DecidableEq, Repr

/-- Embeds `FButtplugMessage::Rotation`. -/
structure FButtplugMessage.Rotation where
  Index : Nat
  Speed : ℚ
  Clockwise : Bool
  deriving DecidableEq, Repr

/-- The members each `TButtplugMessage<MessageType>` specialisation adds to the base
`FButtplugMessage`; `FButtplugMessage::ErrorCode` is kept as its `uint8` value. -/
inductive TButtplugMessage
  | Ok
  | Error (Message : String) (Code : Nat)
  | Ping
  | RequestServerInfo (ClientName : String) (MessageVersion : Nat)
  | ServerInfo (ServerName : String) (MessageVersion : Nat) (MaxPingTime : Nat)
  | StartScanning
  | StopScanning
  | ScanningFinished
  | RequestDeviceList
  | DeviceList (Devices : List FButtplugMessage.Device)
  | DeviceAdded (Device : FButtplugMessage.Device)
  | DeviceRemoved (DeviceIndex : Nat)
  | StopDeviceCmd (DeviceIndex : Nat)
  | StopAllDevices
  | ScalarCmd (DeviceIndex : Nat) (Scalars : List FButtplugMessage.Scalar)
  | LinearCmd (DeviceIndex : Nat) (Vectors : List FButtplugMessage.Vector)
  | RotateCmd (DeviceIndex : Nat) (Rotations : List FButtplugMessage.Rotation)
  | SensorReadCmd (DeviceIndex : Nat) (SensorIndex : Nat) (SensorType : String)
  | SensorReading (DeviceIndex : Nat) (SensorIndex : Nat) (SensorType : String)
      (Data : List Int)
  | SensorSubscribeCmd (DeviceIndex : Nat) (SensorIndex : Nat) (SensorType : String)
  | SensorUnsubscribeCmd (DeviceIndex : Nat) (SensorIndex : Nat) (SensorType : String)
  deriving DecidableEq, Repr

/-- Embeds `FButtplugMessage`: the base member `Id` together with the members of the concrete
message kind. -/
structure FButtplugMessage where
  Id : Nat
  Fields : TButtplugMessage
  deriving DecidableEq, Repr

/-- Embeds `FButtplugMessageArray`. -/
abbrev FButtplugMessageArray := List FButtplugMessage

/-- Embeds `FButtplugMessage::SpecVersion`. -/
def FButtplugMessage.SpecVersion : Nat := 3

/-- Embeds `GetMessageType` of each specialisation. -/
def TButtplugMessage.GetMessageType : TButtplugMessage → EButtplugMessageType
  | .Ok => .Ok
  | .Error _ _ => .Error
  | .Ping => .Ping
  | .RequestServerInfo _ _ => .RequestServerInfo
  | .ServerInfo _ _ _ => .ServerInfo
  | .StartScanning => .StartScanning
  | .StopScanning => .StopScanning
  | .ScanningFinished => .ScanningFinished
  | .RequestDeviceList => .RequestDeviceList
  | .DeviceList _ => .DeviceList
  | .DeviceAdded _ => .DeviceAdded
  | .DeviceRemoved _ => .DeviceRemoved
  | .StopDeviceCmd _ => .StopDeviceCmd
  | .StopAllDevices => .StopAllDevices
  | .ScalarCmd _ _ => .ScalarCmd
  | .LinearCmd _ _ => .LinearCmd
  | .RotateCmd _ _ => .RotateCmd
  | .SensorReadCmd _ _ _ => .SensorReadCmd
  | .SensorReading _ _ _ _ => .SensorReading
  | .SensorSubscribeCmd _ _ _ => .SensorSubscribeCmd
  | .SensorUnsubscribeCmd _ _ _ => .SensorUnsubscribeCmd

/-- Embeds `FButtplugMessage::GetMessageType`. -/
def FButtplugMessage.GetMessageType (Message : FButtplugMessage) : EButtplugMessageType :=
  Message.Fields.GetMessageType

/-! ## Saving messages: the `Serialize` functions in saving mode -/

/-- Embeds `DeviceMessageAttributes::Serialize` when saving. It ends in `JSON_SERIALIZE_CUSTOM`,
whose saving arm calls `SaveSensorRangeToJson`, which is `unimplemented()`
(lines 380-383): saving an attribute record always aborts. -/
def FButtplugMessage.DeviceMessageAttributes.ToJson
    (_Attributes : FButtplugMessage.DeviceMessageAttributes) : Except Fault FJsonObject :=
  .error .Unimplemented

/-- Saving one `TArray<DeviceMessageAttributes>` member as a JSON array of objects. -/
def FButtplugMessage.DeviceMessageAttributes.ArrayToJson :
    List FButtplugMessage.DeviceMessageAttributes → Except Fault (List FJsonValue)
  | [] => .ok []
  | Attributes :: Rest => do
      let Object ← Attributes.ToJson
      let Others ← ArrayToJson Rest
      pure (.object Object :: Others)

/-- Embeds `DeviceMessages::Serialize` when saving: the five attribute arrays, in order. -/
def FButtplugMessage.DeviceMessages.ToJson (Messages : FButtplugMessage.DeviceMessages) :
    Except Fault FJsonObject := do
  let ScalarCmd ← FButtplugMessage.DeviceMessageAttributes.ArrayToJson Messages.ScalarCmd
  let LinearCmd ← FButtplugMessage.DeviceMessageAttributes.ArrayToJson Messages.LinearCmd
  let RotateCmd ← FButtplugMessage.DeviceMessageAttributes.ArrayToJson Messages.RotateCmd
  let SensorReadCmd ←
    FButtplugMessage.DeviceMessageAttributes.ArrayToJson Messages.SensorReadCmd
  let SensorSubscribeCmd ←
    FButtplugMessage.DeviceMessageAttributes.ArrayToJson Messages.SensorSubscribeCmd
  pure [("ScalarCmd", .array ScalarCmd), ("LinearCmd", .array LinearCmd),
        ("RotateCmd", .array RotateCmd), ("SensorReadCmd", .array SensorReadCmd),
        ("SensorSubscribeCmd", .array SensorSubscribeCmd)]

/-- Embeds `Device::Serialize` when saving (lines 411-417). -/
def FButtplugMessage.Device.ToJson (Device : FButtplugMessage.Device) :
    Except Fault FJsonObject := do
  let Messages ← Device.Messages.ToJson
  pure [("DeviceName", .string Device.Name), ("DeviceIndex", .number Device.Index),
        ("DeviceMessageTimingGap", .number Device.MessageTimingGap),
        ("DeviceDisplayName", .string Device.DisplayName),
        ("DeviceMessages", .object Messages)]

/-- Saving the `Devices` member of a `DeviceList` as a JSON array of objects. -/
def FButtplugMessage.Device.ArrayToJson :
    List FButtplugMessage.Device → Except Fault (List FJsonValue)
  | [] => .ok []
  | Device :: Rest => do
      let Object ← Device.ToJson
      let Others ← ArrayToJson Rest
      pure (.object Object :: Others)

/-- Embeds `Scalar::Serialize` when saving. -/
def FButtplugMessage.Scalar.ToJson (Scalar : FButtplugMessage.Scalar) : FJsonObject :=
  [("Index", .number Scalar.Index), ("Scalar", .number Scalar.Value),
   ("ActuatorType", .string Scalar.ActuatorType)]

/-- Embeds `Vector::Serialize` when saving. -/
def FButtplugMessage.Vector.ToJson (Vector : FButtplugMessage.Vector) : FJsonObject :=
  [("Index", .number Vector.Index), ("Duration", .number Vector.Duration),
   ("Position", .number Vector.Position)]

/-- Embeds `Rotation::Serialize` when saving. -/
def FButtplugMessage.Rotation.ToJson (Rotation : FButtplugMessage.Rotation) : FJsonObject :=
  [("Index", .number Rotation.Index), ("Speed", .number Rotation.Speed),
   ("Clockwise", .boolean Rotation.Clockwise)]

/-- Embeds `ToJson(JsonWriter, bFlatObject = true)` of each message kind: the fields its
serializer block lists, in order. -/
def FButtplugMessage.ToJson (Message : FButtplugMessage) : Except Fault FJsonObject :=
  match Message.Fields with
  | .Ok => pure [("Id", .number Message.Id)]
  | .Error ErrorMessage Code =>
      pure [("Id", .number Message.Id), ("ErrorMessage", .string ErrorMessage),
            ("ErrorCode", .number Code)]
  | .Ping => pure [("Id", .number Message.Id)]
  | .RequestServerInfo ClientName MessageVersion =>
      pure [("Id", .number Message.Id), ("ClientName", .string ClientName),
            ("MessageVersion", .number MessageVersion)]
  | .ServerInfo ServerName MessageVersion MaxPingTime =>
      pure [("Id", .number Message.Id), ("ServerName", .string ServerName),
            ("MessageVersion", .number MessageVersion), ("MaxPingTime", .number MaxPingTime)]
  | .StartScanning => pure [("Id", .number Message.Id)]
  | .StopScanning => pure [("Id", .number Message.Id)]
  | .ScanningFinished => pure [("Id", .number Message.Id)]
  | .RequestDeviceList => pure [("Id", .number Message.Id)]
  | .DeviceList Devices => do
      let Array ← FButtplugMessage.Device.ArrayToJson Devices
      pure [("Id", .number Message.Id), ("Devices", .array Array)]
  | .DeviceAdded Device => do
      let Flat ← Device.ToJson
      pure (("Id", .number Message.Id) :: Flat)
  | .DeviceRemoved DeviceIndex =>
      pure [("Id", .number Message.Id), ("DeviceIndex", .number DeviceIndex)]
  | .StopDeviceCmd DeviceIndex =>
      pure [("Id", .number Message.Id), ("DeviceIndex", .number DeviceIndex)]
  | .StopAllDevices => pure [("Id", .number Message.Id)]
  | .ScalarCmd DeviceIndex Scalars =>
      pure [("Id", .number Message.Id), ("DeviceIndex", .number DeviceIndex),
            ("Scalars", .array (Scalars.map (fun Scalar => .object Scalar.ToJson)))]
  | .LinearCmd DeviceIndex Vectors =>
      pure [("Id", .number Message.Id), ("DeviceIndex", .number DeviceIndex),
            ("Vectors", .array (Vectors.map (fun Vector => .object Vector.ToJson)))]
  | .RotateCmd DeviceIndex Rotations =>
      pure [("Id", .number Message.Id), ("DeviceIndex", .number DeviceIndex),
            ("Rotations", .array (Rotations.map (fun Rotation => .object Rotation.ToJson)))]
  | .SensorReadCmd DeviceIndex SensorIndex SensorType =>
      pure [("Id", .number Message.Id), ("DeviceIndex", .number DeviceIndex),
            ("SensorIndex", .number SensorIndex), ("SensorType", .string SensorType)]
  | .SensorReading DeviceIndex SensorIndex SensorType Data =>
      pure [("Id", .number Message.Id), ("DeviceIndex", .number DeviceIndex),
            ("SensorIndex", .number SensorIndex), ("SensorType", .string SensorType),
            ("Data", .array (Data.map (fun (Value : Int) => .number (Value : ℚ))))]
  | .SensorSubscribeCmd DeviceIndex SensorIndex SensorType =>
      pure [("Id", .number Message.Id), ("DeviceIndex", .number DeviceIndex),
            ("SensorIndex", .number SensorIndex), ("SensorType", .string SensorType)]
  | .SensorUnsubscribeCmd DeviceIndex SensorIndex SensorType =>
      pure [("Id", .number Message.Id), ("DeviceIndex", .number DeviceIndex),
            ("SensorIndex", .number SensorIndex), ("SensorType", .string SensorType)]

/-- The loop of `WriteButtplugMessagesToJson` (`ButtplugMessage.cpp`, lines 47-55): one
single-key object per message, keyed by the name of its kind. -/
def WriteButtplugMessagesToJson.Elements :
    FButtplugMessageArray → Except Fault (List FJsonValue)
  | [] => .ok []
  | Message :: Rest => do
      let MessageTypeName := Message.GetMessageType.GetEnumAsString
      let Object ← Message.ToJson
      let Others ← Elements Rest
      pure (.object [(MessageTypeName, .object Object)] :: Others)

/-- Embeds `WriteButtplugMessagesToJson` (`ButtplugMessage.cpp`, lines 43-58): the JSON array the
writer emits, given as the list of its elements. -/
def WriteButtplugMessagesToJson (Messages : FButtplugMessageArray) :
    Except Fault (List FJsonValue) :=
  WriteButtplugMessagesToJson.Elements Messages

/-! ## Loading messages: the `Serialize` functions in loading mode -/

/-- One entry of the loop of `LoadSensorRangeFromJson` (lines 368-377): a two-element
array gives an interval, any other value gives nothing. -/
def FButtplugMessage.DeviceMessageAttributes.LoadSensorRange :
    List FJsonValue → List FInt32Interval
  | [] => []
  | JsonRange :: Rest =>
      match JsonRange.AsArray with
      | [Lower, Upper] =>
          FInt32Interval.mk (RoundToInt32 Lower.AsNumber) (RoundToInt32 Upper.AsNumber)
            :: LoadSensorRange Rest
      | _ => LoadSensorRange Rest

/-- Embeds `LoadSensorRangeFromJson` (lines 358-378); `none` is the invalid pointer passed when
the field is absent. -/
def FButtplugMessage.DeviceMessageAttributes.LoadSensorRangeFromJson
    (JsonValue : Option FJsonValue) : List FInt32Interval :=
  match JsonValue with
  | none => []
  | some Value => FButtplugMessage.DeviceMessageAttributes.LoadSensorRange Value.AsArray

/-- Embeds `DeviceMessageAttributes::Serialize` when loading (lines 349-355). -/
def FButtplugMessage.DeviceMessageAttributes.FromJson (Object : FJsonObject) :
    FButtplugMessage.DeviceMessageAttributes where
  FeatureDescriptor := FJsonSerializerReader.SerializeString Object "FeatureDescriptor" ""
  StepCount := FJsonSerializerReader.SerializeUInt32 Object "StepCount" 0
  ActuatorType := FJsonSerializerReader.SerializeString Object "ActuatorType" ""
  SensorType := FJsonSerializerReader.SerializeString Object "SensorType" ""
  SensorRange :=
    FButtplugMessage.DeviceMessageAttributes.LoadSensorRangeFromJson
      (Object.GetField "SensorRange")

/-- Embeds `DeviceMessages::Serialize` when loading (lines 394-400). -/
def FButtplugMessage.DeviceMessages.FromJson (Object : FJsonObject) :
    FButtplugMessage.DeviceMessages where
  ScalarCmd := FJsonSerializerReader.SerializeArraySerializable Object "ScalarCmd"
    FButtplugMessage.DeviceMessageAttributes.FromJson
  LinearCmd := FJsonSerializerReader.SerializeArraySerializable Object "LinearCmd"
    FButtplugMessage.DeviceMessageAttributes.FromJson
  RotateCmd := FJsonSerializerReader.SerializeArraySerializable Object "RotateCmd"
    FButtplugMessage.DeviceMessageAttributes.FromJson
  SensorReadCmd := FJsonSerializerReader.SerializeArraySerializable Object "SensorReadCmd"
    FButtplugMessage.DeviceMessageAttributes.FromJson
  SensorSubscribeCmd :=
    FJsonSerializerReader.SerializeArraySerializable Object "SensorSubscribeCmd"
      FButtplugMessage.DeviceMessageAttributes.FromJson

/-- Embeds `Device::Serialize` when loading (lines 411-417); `JSON_SERIALIZE_OBJECT_SERIALIZABLE`
loads the nested object when the field holds one. -/
def FButtplugMessage.Device.FromJson (Object : FJsonObject) : FButtplugMessage.Device where
  Name := FJsonSerializerReader.SerializeString Object "DeviceName" ""
  Index := FJsonSerializerReader.SerializeUInt32 Object "DeviceIndex" 0
  MessageTimingGap := FJsonSerializerReader.SerializeUInt32 Object "DeviceMessageTimingGap" 0
  DisplayName := FJsonSerializerReader.SerializeString Object "DeviceDisplayName" ""
  Messages :=
    match Object.GetField "DeviceMessages" with
    | some (.object Nested) => FButtplugMessage.DeviceMessages.FromJson Nested
    | _ => FButtplugMessage.DeviceMessages.mk [] [] [] [] []

/-- Embeds `Scalar::Serialize` when loading. -/
def FButtplugMessage.Scalar.FromJson (Object : FJsonObject) : FButtplugMessage.Scalar where
  Index := FJsonSerializerReader.SerializeUInt32 Object "Index" 0
  Value := FJsonSerializerReader.SerializeDouble Object "Scalar" 0
  ActuatorType := FJsonSerializerReader.SerializeString Object "ActuatorType" ""

/-- Embeds `Vector::Serialize` when loading. -/
def FButtplugMessage.Vector.FromJson (Object : FJsonObject) : FButtplugMessage.Vector where
  Index := FJsonSerializerReader.SerializeUInt32 Object "Index" 0
  Duration := FJsonSerializerReader.SerializeUInt32 Object "Duration" 0
  Position := FJsonSerializerReader.SerializeDouble Object "Position" 0

/-- Embeds `Rotation::Serialize` when loading. -/
def FButtplugMessage.Rotation.FromJson (Object : FJsonObject) :
    FButtplugMessage.Rotation where
  Index := FJsonSerializerReader.SerializeUInt32 Object "Index" 0
  Speed := FJsonSerializerReader.SerializeDouble Object "Speed" 0
  Clockwise := FJsonSerializerReader.SerializeBool Object "Clockwise" false

/-- The members loaded by the serializer block of each message kind, starting from the
value `FButtplugMessage::Make` constructs (every member at its initialiser).
`JSON_SERIALIZE_ENUM_AS_INT` casts the loaded `int64` to the `uint8` error code. -/
def TButtplugMessage.FromJson (MessageType : EButtplugMessageType) (Object : FJsonObject) :
    TButtplugMessage :=
  match MessageType with
  | .Ok => .Ok
  | .Error =>
      .Error (FJsonSerializerReader.SerializeString Object "ErrorMessage" "")
        ((FJsonSerializerReader.SerializeInt64 Object "ErrorCode" 0) % 256).toNat
  | .Ping => .Ping
  | .RequestServerInfo =>
      .RequestServerInfo (FJsonSerializerReader.SerializeString Object "ClientName" "")
        (FJsonSerializerReader.SerializeUInt32 Object "MessageVersion" 0)
  | .ServerInfo =>
      .ServerInfo (FJsonSerializerReader.SerializeString Object "ServerName" "")
        (FJsonSerializerReader.SerializeUInt32 Object "MessageVersion" 0)
        (FJsonSerializerReader.SerializeUInt32 Object "MaxPingTime" 0)
  | .StartScanning => .StartScanning
  | .StopScanning => .StopScanning
  | .ScanningFinished => .ScanningFinished
  | .RequestDeviceList => .RequestDeviceList
  | .DeviceList =>
      .DeviceList (FJsonSerializerReader.SerializeArraySerializable Object "Devices"
        FButtplugMessage.Device.FromJson)
  | .DeviceAdded => .DeviceAdded (FButtplugMessage.Device.FromJson Object)
  | .DeviceRemoved => .DeviceRemoved (FJsonSerializerReader.SerializeUInt32 Object "DeviceIndex" 0)
  | .StopDeviceCmd => .StopDeviceCmd (FJsonSerializerReader.SerializeUInt32 Object "DeviceIndex" 0)
  | .StopAllDevices => .StopAllDevices
  | .ScalarCmd =>
      .ScalarCmd (FJsonSerializerReader.SerializeUInt32 Object "DeviceIndex" 0)
        (FJsonSerializerReader.SerializeArraySerializable Object "Scalars"
          FButtplugMessage.Scalar.FromJson)
  | .LinearCmd =>
      .LinearCmd (FJsonSerializerReader.SerializeUInt32 Object "DeviceIndex" 0)
        (FJsonSerializerReader.SerializeArraySerializable Object "Vectors"
          FButtplugMessage.Vector.FromJson)
  | .RotateCmd =>
      .RotateCmd (FJsonSerializerReader.SerializeUInt32 Object "DeviceIndex" 0)
        (FJsonSerializerReader.SerializeArraySerializable Object "Rotations"
          FButtplugMessage.Rotation.FromJson)
  | .SensorReadCmd =>
      .SensorReadCmd (FJsonSerializerReader.SerializeUInt32 Object "DeviceIndex" 0)
        (FJsonSerializerReader.SerializeUInt32 Object "SensorIndex" 0)
        (FJsonSerializerReader.SerializeString Object "SensorType" "")
  | .SensorReading =>
      .SensorReading (FJsonSerializerReader.SerializeUInt32 Object "DeviceIndex" 0)
        (FJsonSerializerReader.SerializeUInt32 Object "SensorIndex" 0)
        (FJsonSerializerReader.SerializeString Object "SensorType" "")
        (FJsonSerializerReader.SerializeArrayInt32 Object "Data" [])
  | .SensorSubscribeCmd =>
      .SensorSubscribeCmd (FJsonSerializerReader.SerializeUInt32 Object "DeviceIndex" 0)
        (FJsonSerializerReader.SerializeUInt32 Object "SensorIndex" 0)
        (FJsonSerializerReader.SerializeString Object "SensorType" "")
  | .SensorUnsubscribeCmd =>
      .SensorUnsubscribeCmd (FJsonSerializerReader.SerializeUInt32 Object "DeviceIndex" 0)
        (FJsonSerializerReader.SerializeUInt32 Object "SensorIndex" 0)
        (FJsonSerializerReader.SerializeString Object "SensorType" "")

/-- Modelled from the spec: the flag returned by the engine's
`FJsonSerializable::FromJson(TSharedPtr<FJsonObject>)`, which is absent from the sources.
Loading reports success for every object it is handed: a missing field takes its default
rather than fail, and `AsObject` always hands an object over. -/
def FJsonSerializable.FromJsonResult (_Object : FJsonObject) : Bool := true

/-- Embeds `FButtplugMessage::Make` followed by `FromJson` (`ButtplugMessage.cpp`, lines 81-82):
the flag `FromJson` returns and the loaded message. -/
def FButtplugMessage.FromJson (MessageType : EButtplugMessageType) (Object : FJsonObject) :
    Bool × FButtplugMessage :=
  (FJsonSerializable.FromJsonResult Object,
   { Id := FJsonSerializerReader.SerializeUInt32 Object "Id" 0,
     Fields := TButtplugMessage.FromJson MessageType Object })

/-- The inner loop of `ReadButtplugMessagesFromJson` (lines 76-89) over the fields of
one object, threading `bSuccess` and `OutMessages`. -/
def ReadButtplugMessagesFromJson.Fields :
    FJsonObject → Bool × FButtplugMessageArray → Bool × FButtplugMessageArray
  | [], State => State
  | Field :: Rest, (bSuccess, OutMessages) =>
      match EButtplugMessageType.GetEnumByName Field.1 with
      | some MessageType =>
          let Loaded := FButtplugMessage.FromJson MessageType Field.2.AsObject
          Fields Rest (bSuccess && Loaded.1, OutMessages ++ [Loaded.2])
      | none => Fields Rest (false, OutMessages)

/-- The outer loop of `ReadButtplugMessagesFromJson` (lines 72-90) over the array. -/
def ReadButtplugMessagesFromJson.Values :
    List FJsonValue → Bool × FButtplugMessageArray → Bool × FButtplugMessageArray
  | [], State => State
  | JsonValue :: Rest, (bSuccess, OutMessages) =>
      let JsonObject := JsonValue.AsObject
      Values Rest
        (ReadButtplugMessagesFromJson.Fields JsonObject
          (bSuccess && (JsonObject.length != 0), OutMessages))

/-- Embeds `ReadButtplugMessagesFromJson` (`ButtplugMessage.cpp`, lines 61-93). `Json` is what
`FJsonSerializer::Deserialize` makes of the text: `none` when it fails, else the
elements of the top-level array. The result is the returned flag and the final
`OutMessages`, which is left as passed in when the parse fails. -/
def ReadButtplugMessagesFromJson (Json : Option (List FJsonValue))
    (OutMessages : FButtplugMessageArray) : Bool × FButtplugMessageArray :=
  match Json with
  | none => (false, OutMessages)
  | some JsonValueArray => ReadButtplugMessagesFromJson.Values JsonValueArray (true, [])

/-! ## Features (`ButtplugFeature.h`, `ButtplugFeature.cpp`) -/

/-- A `float` duration: a rational number of seconds, or the value `INFINITY`. -/
inductive FFloat
  | Finite (Value : ℚ)
  | Infinity
  deriving DecidableEq, Repr

/-- Embeds `UButtplugFeature::FQueuedActuation`. -/
structure FQueuedActuation where
  Value : ℚ
  Duration : FFloat
  deriving DecidableEq, Repr

/-- What a feature lets the outside observe: its `OnSensorReading` delegate, and a
pending read handle being handed its reading and marked ready. -/
inductive FFeatureEvent
  | OnSensorReading (Reading : List Int)
  | LatentSensorActionReady (Handle : Nat) (Reading : List Int)
  deriving DecidableEq, Repr

/-- Embeds `UButtplugFeature`. `LatentSensorActions` holds the handles of the pending reads;
`ResetTimer` holds the rate last handed to the timer manager for the automatic stop
(`none` while the handle was never set). -/
structure UButtplugFeature where
  FeatureDescriptor : String
  FeatureType : EButtplugFeatureType
  ActuatorStepCount : Int
  SensorRange : List FInt32Interval
  LastSensorReading : List Int
  LatentSensorActions : List Nat
  ResetTimer : Option FFloat
  ScalarCmdIndex : Nat
  RotateCmdIndex : Nat
  LinearCmdIndex : Nat
  SensorReadCmdIndex : Nat
  SensorSubscribeCmdIndex : Nat
  bHasQueuedActuation : Bool
  QueuedActuation : FQueuedActuation
  deriving DecidableEq, Repr

/-- Embeds `NewObject<UButtplugFeature>`: every member at its initialiser. -/
def UButtplugFeature.NewObject : UButtplugFeature where
  FeatureDescriptor := ""
  FeatureType := .Unknown
  ActuatorStepCount := 0
  SensorRange := []
  LastSensorReading := []
  LatentSensorActions := []
  ResetTimer := none
  ScalarCmdIndex := INDEX_NONE
  RotateCmdIndex := INDEX_NONE
  LinearCmdIndex := INDEX_NONE
  SensorReadCmdIndex := INDEX_NONE
  SensorSubscribeCmdIndex := INDEX_NONE
  bHasQueuedActuation := false
  QueuedActuation := { Value := 0, Duration := .Finite 0 }

/-- Embeds `UButtplugFeature::IsActuator`. -/
def UButtplugFeature.IsActuator (Feature : UButtplugFeature) : Bool :=
  Feature.ScalarCmdIndex != INDEX_NONE || Feature.RotateCmdIndex != INDEX_NONE
    || Feature.LinearCmdIndex != INDEX_NONE

/-- Embeds `UButtplugFeature::IsSensor`. -/
def UButtplugFeature.IsSensor (Feature : UButtplugFeature) : Bool :=
  Feature.SensorReadCmdIndex != INDEX_NONE || Feature.SensorSubscribeCmdIndex != INDEX_NONE

/-- Embeds `UButtplugFeature::CanRead`. -/
def UButtplugFeature.CanRead (Feature : UButtplugFeature) : Bool :=
  Feature.SensorReadCmdIndex != INDEX_NONE

/-- Embeds `UButtplugFeature::CanSubscribe`. -/
def UButtplugFeature.CanSubscribe (Feature : UButtplugFeature) : Bool :=
  Feature.SensorSubscribeCmdIndex != INDEX_NONE

/-- Embeds `UButtplugFeature::Actuate` (lines 90-99). -/
def UButtplugFeature.Actuate (Feature : UButtplugFeature) (Value : ℚ) (Duration : FFloat) :
    UButtplugFeature :=
  if Feature.IsActuator then
    { Feature with
        QueuedActuation := { Value := Value, Duration := Duration }
        bHasQueuedActuation := true
        ResetTimer := some Duration }
  else Feature

/-- Embeds `UButtplugFeature::Stop`: `Actuate(0)` with the default duration `0.0`. -/
def UButtplugFeature.Stop (Feature : UButtplugFeature) : UButtplugFeature :=
  Feature.Actuate 0 (.Finite 0)

/-- Embeds `UButtplugFeature::SetSensorReading` (lines 185-198): the updated feature and what it
fires, in order. -/
def UButtplugFeature.SetSensorReading (Feature : UButtplugFeature) (Reading : List Int) :
    UButtplugFeature × List FFeatureEvent :=
  ({ Feature with LastSensorReading := Reading, LatentSensorActions := [] },
   FFeatureEvent.OnSensorReading Reading ::
     Feature.LatentSensorActions.map
       (fun Handle => FFeatureEvent.LatentSensorActionReady Handle Reading))

/-! ## Devices (`ButtplugDevice.h`, `ButtplugDevice.cpp`) -/

/-- The delegates of a device. -/
inductive FDeviceEvent
  | OnConnected
  | OnDisconnected
  deriving DecidableEq, Repr

/-- Embeds `UButtplugDevice`. -/
structure UButtplugDevice where
  DescriptiveName : String
  DisplayName : String
  DefaultMessageTimingGap : ℚ
  MessageTimingGapOverride : ℚ
  DeviceIndex : Nat
  bConnected : Bool
  bHasQueuedStopDevice : Bool
  MessageQueue : FButtplugMessageArray
  TimeSinceLastMessage : ℚ
  Features : List UButtplugFeature
  deriving DecidableEq, Repr

/-- Embeds `NewObject<UButtplugDevice>`: every member at its initialiser. -/
def UButtplugDevice.NewObject : UButtplugDevice where
  DescriptiveName := ""
  DisplayName := ""
  DefaultMessageTimingGap := 0
  MessageTimingGapOverride := -1
  DeviceIndex := INDEX_NONE
  bConnected := false
  bHasQueuedStopDevice := false
  MessageQueue := []
  TimeSinceLastMessage := 0
  Features := []

/-- Embeds `UButtplugDevice::IsConnected`. -/
def UButtplugDevice.IsConnected (Device : UButtplugDevice) : Bool := Device.bConnected

/-- Embeds `UButtplugDevice::GetMessageTimingGap` (lines 54-57). -/
def UButtplugDevice.GetMessageTimingGap (Device : UButtplugDevice) : ℚ :=
  if Device.MessageTimingGapOverride ≥ 0 then Device.MessageTimingGapOverride
  else Device.DefaultMessageTimingGap

/-- Embeds `UButtplugDevice::SetMessageTimingGap`. -/
def UButtplugDevice.SetMessageTimingGap (Device : UButtplugDevice) (Override : ℚ) :
    UButtplugDevice :=
  { Device with MessageTimingGapOverride := Override }

/-- Embeds `UButtplugDevice::ActuateAll` (lines 136-147). -/
def UButtplugDevice.ActuateAll (Device : UButtplugDevice) (ActuatorType : EButtplugFeatureType)
    (Value : ℚ) (Duration : FFloat) : UButtplugDevice :=
  if !Device.IsConnected then Device
  else
    { Device with
        Features := Device.Features.map (fun Feature =>
          if Feature.FeatureType = ActuatorType ∧ Feature.IsActuator then
            Feature.Actuate Value Duration
          else Feature) }

/-- Embeds `UButtplugDevice::StopAll` (lines 149-160). -/
def UButtplugDevice.StopAll (Device : UButtplugDevice) (ActuatorType : EButtplugFeatureType) :
    UButtplugDevice :=
  if !Device.IsConnected then Device
  else
    { Device with
        Features := Device.Features.map (fun Feature =>
          if Feature.FeatureType = ActuatorType ∧ Feature.IsActuator then
            Feature.Actuate 0 .Infinity
          else Feature) }

/-- Embeds `UButtplugDevice::Stop` (lines 162-167). -/
def UButtplugDevice.Stop (Device : UButtplugDevice) : UButtplugDevice :=
  if !Device.IsConnected then Device
  else { Device with bHasQueuedStopDevice := true }

/-- Embeds `UButtplugDevice::CanActuate` (lines 94-104): the loop returns at the first
feature whose type is the requested one. -/
def UButtplugDevice.CanActuate (Device : UButtplugDevice)
    (ActuatorType : EButtplugFeatureType) : Bool :=
  Device.Features.any (fun Feature => Feature.FeatureType == ActuatorType)

/-- Embeds `UButtplugDevice::CanVibrate`. -/
def UButtplugDevice.CanVibrate (Device : UButtplugDevice) : Bool :=
  Device.CanActuate .Vibrate

/-- Embeds `UButtplugDevice::CanRotate`. -/
def UButtplugDevice.CanRotate (Device : UButtplugDevice) : Bool :=
  Device.CanActuate .Rotate

/-- Embeds `UButtplugDevice::CanOscillate`. -/
def UButtplugDevice.CanOscillate (Device : UButtplugDevice) : Bool :=
  Device.CanActuate .Oscillate

/-- Embeds `UButtplugDevice::CanConstrict`. -/
def UButtplugDevice.CanConstrict (Device : UButtplugDevice) : Bool :=
  Device.CanActuate .Constrict

/-- Embeds `UButtplugDevice::CanInflate`. -/
def UButtplugDevice.CanInflate (Device : UButtplugDevice) : Bool :=
  Device.CanActuate .Inflate

/-- Embeds `UButtplugDevice::CanPosition`. -/
def UButtplugDevice.CanPosition (Device : UButtplugDevice) : Bool :=
  Device.CanActuate .Position

/-- Embeds `UButtplugDevice::CanSense` (lines 190-200). -/
def UButtplugDevice.CanSense (Device : UButtplugDevice)
    (SensorType : EButtplugFeatureType) : Bool :=
  Device.Features.any (fun Feature => Feature.FeatureType == SensorType && Feature.IsSensor)

/-- Embeds `UButtplugDevice::HasBatteryLevel` (lines 169-172). -/
def UButtplugDevice.HasBatteryLevel (Device : UButtplugDevice) : Bool :=
  Device.CanSense .Battery

/-- The value an `int32` computation keeps: the low 32 bits, read in two's complement. -/
def WrapInt32 (Value : Int) : Int := UInt32ToInt32 (Int32ToUInt32 Value)

/-- Modelled from the spec: the engine's `TInterval<int32>::Size`, which
`GetBatteryLevel` calls and which is not part of the plugin sources. The spec divides by
`max - min`. -/
def FInt32Interval.Size (Interval : FInt32Interval) : Int :=
  WrapInt32 (Interval.Max - Interval.Min)

/-- Embeds the loop of `UButtplugDevice::GetBatteryLevel` (lines 174-188) over the features
still to visit. The returned `float` is `some` of a rational, or `none` when the division
is by zero and the result is an infinity or a NaN. `Reading[0]` is guarded by the
`IsEmpty` test, which leaves the loop; `GetSensorRange()[0]` is not guarded, and the range
check of `TArray` aborts when the list is empty. -/
def UButtplugDevice.GetBatteryLevel.Loop : List UButtplugFeature → Except Fault (Option ℚ)
  | [] => .ok (some (-1))
  | Feature :: Rest =>
    if Feature.FeatureType = .Battery ∧ Feature.IsSensor then
      match Feature.LastSensorReading with
      | [] => .ok (some (-1))
      | IntLevel :: _ =>
        match Feature.SensorRange with
        | [] => .error .CheckFailed
        | LevelRange :: _ =>
          if LevelRange.Size = 0 then .ok none
          else .ok (some ((WrapInt32 (IntLevel + LevelRange.Min) : ℚ) / (LevelRange.Size : ℚ)))
    else UButtplugDevice.GetBatteryLevel.Loop Rest

/-- Embeds `UButtplugDevice::GetBatteryLevel` (lines 174-188). -/
def UButtplugDevice.GetBatteryLevel (Device : UButtplugDevice) : Except Fault (Option ℚ) :=
  UButtplugDevice.GetBatteryLevel.Loop Device.Features

/-- Embeds `UButtplugDevice::SetConnected` (lines 207-218): the updated device and the delegate
it broadcasts. -/
def UButtplugDevice.SetConnected (Device : UButtplugDevice) (bInConnected : Bool) :
    UButtplugDevice × FDeviceEvent :=
  ({ Device with bConnected := bInConnected },
   if bInConnected then .OnConnected else .OnDisconnected)

/-! ## The session (`ButtplugSubsystem.h`, `ButtplugSubsystem.cpp`) -/

/-- The engine socket behind `TSharedPtr<IWebSocket>`, as far as the plugin observes it:
what `IsConnected` answers, and whether the implementation stops answering `true` as
soon as `Close` is called or only once the close has been reported. -/
structure IWebSocket where
  bConnected : Bool
  bDropsOnClose : Bool
  deriving DecidableEq, Repr

/-- Modelled from the spec: the transport's `close(code, reason)` (`IWebSocket::Close`, engine
code), as far as it changes what `IsConnected` answers. -/
def IWebSocket.Close (Socket : IWebSocket) : IWebSocket :=
  { Socket with bConnected := Socket.bConnected && !Socket.bDropsOnClose }

/-- Everything the session does that the outside can observe, in the order it happens:
delegates broadcast, connect handles resolved, and calls made on the socket. -/
inductive FButtplugEvent
  | OnConnected
  | OnDisconnected
  | OnScanningFinished
  | OnDeviceAdded (DeviceIndex : Nat)
  | OnDeviceRemoved (DeviceIndex : Nat)
  | Device (DeviceIndex : Nat) (Event : FDeviceEvent)
  | Feature (DeviceIndex : Nat) (FeatureIndex : Nat) (Event : FFeatureEvent)
  | LatentStartActionReady (Handle : Nat) (Result : EButtplugClientStartResult)
      (ErrorMessage : String)
  | SocketConnect (ServerAddress : String)
  | SocketSend (Json : List FJsonValue)
  | SocketClose (CloseCode : Int) (Reason : String)

/-- Embeds `UButtplugSubsystem`. `PingTimer` holds the rate of the looping timer while the
handle is set; `LatentStartAction` holds the handle of the pending connect request;
`Devices` is the `TMap`, in insertion order; `Events` is the trace of what the session
has done so far (it is not a member of the class). -/
structure UButtplugSubsystem where
  bInitialized : Bool
  ClientName : String
  ServerName : String
  ServerAddress : String
  PingTimer : Option ℚ
  NextMessageId : Nat
  MessageBuffer : FButtplugMessageArray
  WebSocket : Option IWebSocket
  LatentStartAction : Option Nat
  Devices : List (Nat × UButtplugDevice)
  Events : List FButtplugEvent

/-- Modelled from the spec: the engine container's `TMap::Find` on the device table (index →
Device). -/
def TMap.Find (Map : List (Nat × UButtplugDevice)) (Key : Nat) : Option UButtplugDevice :=
  (Map.find? (fun Entry => Entry.1 == Key)).map (fun Entry => Entry.2)

/-- Modelled from the spec: the engine container's `TMap::Contains` on the device table. -/
def TMap.Contains (Map : List (Nat × UButtplugDevice)) (Key : Nat) : Bool :=
  (TMap.Find Map Key).isSome

/-- Modelled from the spec: the engine container's `TMap::Add` on the device table: the value
under an existing key is replaced in place, a new key is appended. -/
def TMap.Add : List (Nat × UButtplugDevice) → Nat → UButtplugDevice →
    List (Nat × UButtplugDevice)
  | [], Key, Value => [(Key, Value)]
  | Entry :: Rest, Key, Value =>
      if Entry.1 == Key then (Key, Value) :: Rest else Entry :: TMap.Add Rest Key Value

/-- Embeds `UButtplugSubsystem::IsConnected` (lines 94-97). -/
def UButtplugSubsystem.IsConnected (Subsystem : UButtplugSubsystem) : Bool :=
  match Subsystem.WebSocket with
  | none => false
  | some Socket => Socket.bConnected

/-- Appending to the trace. -/
def UButtplugSubsystem.Fire (Subsystem : UButtplugSubsystem) (Fired : List FButtplugEvent) :
    UButtplugSubsystem :=
  { Subsystem with Events := Subsystem.Events ++ Fired }

/-- Embeds `UButtplugSubsystem::EnqueueMessage` (lines 261-266). The `uint32` counter wraps. -/
def UButtplugSubsystem.EnqueueMessage (Subsystem : UButtplugSubsystem)
    (Message : FButtplugMessage) : Except Fault UButtplugSubsystem :=
  if !Subsystem.IsConnected then .error .CheckFailed
  else
    .ok { Subsystem with
            NextMessageId := (Subsystem.NextMessageId + 1) % UINT32_MODULUS
            MessageBuffer := Subsystem.MessageBuffer ++ [{ Message with Id := Subsystem.NextMessageId }] }

/-- Handing a list of messages to `EnqueueMessage` one after another. -/
def UButtplugSubsystem.EnqueueMessages :
    UButtplugSubsystem → FButtplugMessageArray → Except Fault UButtplugSubsystem
  | Subsystem, [] => .ok Subsystem
  | Subsystem, Message :: Rest => do
      let Next ← Subsystem.EnqueueMessage Message
      EnqueueMessages Next Rest

/-- Embeds `UButtplugSubsystem::StartScanning`. -/
def UButtplugSubsystem.StartScanning (Subsystem : UButtplugSubsystem) :
    Except Fault UButtplugSubsystem :=
  Subsystem.EnqueueMessage { Id := 0, Fields := .StartScanning }

/-- Embeds `UButtplugSubsystem::StopScanning`. -/
def UButtplugSubsystem.StopScanning (Subsystem : UButtplugSubsystem) :
    Except Fault UButtplugSubsystem :=
  Subsystem.EnqueueMessage { Id := 0, Fields := .StopScanning }

/-! ### The per-tick flush of a device (`ButtplugDevice.cpp`, lines 220-305) -/

/-- The three command messages under construction in `FlushMessageQueue`; `none` is the
null `TUniquePtr`, `some` holds the entries added so far (the device index is fixed). -/
structure FFlushCommands where
  LinearCmd : Option (List FButtplugMessage.Vector)
  RotateCmd : Option (List FButtplugMessage.Rotation)
  ScalarCmd : Option (List FButtplugMessage.Scalar)
  deriving DecidableEq, Repr

/-- Embeds `Vector.Duration` as computed on line 262: the `float` product of the seconds and
1000, rounded to an `int32` by `FMath::RoundToInt32` and stored in a `uint32`. -/
def FQueuedActuation.DurationMs (Queued : FQueuedActuation) : Nat :=
  match Queued.Duration with
  | .Finite Seconds => Int32ToUInt32 (RoundToInt32 (FloatMul Seconds 1000))
  | .Infinity => Int32ToUInt32 INT32_INDEFINITE

/-- The body of the feature loop (lines 253-291) for a feature with a queued actuation:
the entry is added to the first command kind whose index is set. -/
def FFlushCommands.Route (Commands : FFlushCommands) (Feature : UButtplugFeature) :
    FFlushCommands :=
  if Feature.LinearCmdIndex != INDEX_NONE then
    { Commands with
        LinearCmd := some ((Commands.LinearCmd.getD []) ++
          [{ Index := Feature.LinearCmdIndex,
             Duration := Feature.QueuedActuation.DurationMs,
             Position := Feature.QueuedActuation.Value }]) }
  else if Feature.RotateCmdIndex != INDEX_NONE then
    { Commands with
        RotateCmd := some ((Commands.RotateCmd.getD []) ++
          [{ Index := Feature.RotateCmdIndex,
             Speed := |Feature.QueuedActuation.Value|,
             Clockwise := decide (Feature.QueuedActuation.Value ≥ 0) }]) }
  else if Feature.ScalarCmdIndex != INDEX_NONE then
    { Commands with
        ScalarCmd := some ((Commands.ScalarCmd.getD []) ++
          [{ Index := Feature.ScalarCmdIndex,
             Value := Feature.QueuedActuation.Value,
             ActuatorType := Feature.FeatureType.GetEnumAsString }]) }
  else Commands

/-- The feature loop of the no-stop branch (lines 246-293). -/
def UButtplugDevice.FlushFeatures :
    List UButtplugFeature → FFlushCommands →
      Except Fault (List UButtplugFeature × FFlushCommands)
  | [], Commands => .ok ([], Commands)
  | Feature :: Rest, Commands =>
      if Feature.bHasQueuedActuation then
        if !Feature.IsActuator then .error .CheckFailed
        else do
          let Done ← FlushFeatures Rest (Commands.Route Feature)
          pure ({ Feature with bHasQueuedActuation := false } :: Done.1, Done.2)
      else do
        let Done ← FlushFeatures Rest Commands
        pure (Feature :: Done.1, Done.2)

/-- Lines 295-297: the commands that were created, `LinearCmd` first, then `RotateCmd`,
then `ScalarCmd`, as the messages handed to `EnqueueMessage`. -/
def FFlushCommands.Messages (Commands : FFlushCommands) (DeviceIndex : Nat) :
    FButtplugMessageArray :=
  (match Commands.LinearCmd with
    | some Vectors => [{ Id := 0, Fields := .LinearCmd DeviceIndex Vectors }]
    | none => [])
  ++ (match Commands.RotateCmd with
    | some Rotations => [{ Id := 0, Fields := .RotateCmd DeviceIndex Rotations }]
    | none => [])
  ++ (match Commands.ScalarCmd with
    | some Scalars => [{ Id := 0, Fields := .ScalarCmd DeviceIndex Scalars }]
    | none => [])

/-- Embeds `UButtplugDevice::FlushMessageQueue` (lines 220-305). `Subsystem` is the owning
session reached through `GetSubsystem()`; the result is the device and the session
after the call. -/
def UButtplugDevice.FlushMessageQueue (Device : UButtplugDevice)
    (Subsystem : UButtplugSubsystem) (DeltaTime : ℚ) :
    Except Fault (UButtplugDevice × UButtplugSubsystem) :=
  let Timed :=
    { Device with TimeSinceLastMessage := FloatAdd Device.TimeSinceLastMessage DeltaTime }
  if Timed.TimeSinceLastMessage < Timed.GetMessageTimingGap then .ok (Timed, Subsystem)
  else do
    let Branch ←
      if Timed.bHasQueuedStopDevice then do
        let Next ← Subsystem.EnqueueMessage
          { Id := 0, Fields := .StopDeviceCmd Timed.DeviceIndex }
        pure ({ Timed with
                  Features := Timed.Features.map (fun Feature =>
                    { Feature with bHasQueuedActuation := false }) }, Next)
      else do
        let Done ← UButtplugDevice.FlushFeatures Timed.Features
          { LinearCmd := none, RotateCmd := none, ScalarCmd := none }
        let Next ← Subsystem.EnqueueMessages (Done.2.Messages Timed.DeviceIndex)
        pure ({ Timed with Features := Done.1 }, Next)
    let Final ← Branch.2.EnqueueMessages Branch.1.MessageQueue
    pure ({ Branch.1 with MessageQueue := [] }, Final)

/-! ### Tick, timers and reset -/

/-- The device loop of `Tick` (lines 219-223): every entry of the table is flushed, in
table order, against the session as the previous flushes left it. -/
def UButtplugSubsystem.FlushDevices :
    List (Nat × UButtplugDevice) → UButtplugSubsystem → ℚ →
      Except Fault (List (Nat × UButtplugDevice) × UButtplugSubsystem)
  | [], Subsystem, _ => .ok ([], Subsystem)
  | Entry :: Rest, Subsystem, DeltaTime => do
      let Flushed ← Entry.2.FlushMessageQueue Subsystem DeltaTime
      let Others ← FlushDevices Rest Flushed.2 DeltaTime
      pure ((Entry.1, Flushed.1) :: Others.1, Others.2)

/-- Embeds `UButtplugSubsystem::Tick` (lines 215-234). -/
def UButtplugSubsystem.Tick (Subsystem : UButtplugSubsystem) (DeltaTime : ℚ) :
    Except Fault UButtplugSubsystem :=
  if Subsystem.IsConnected then do
    let Flushed ← UButtplugSubsystem.FlushDevices Subsystem.Devices Subsystem DeltaTime
    let After := { Flushed.2 with Devices := Flushed.1 }
    if !After.MessageBuffer.isEmpty then do
      let Json ← WriteButtplugMessagesToJson After.MessageBuffer
      pure ({ After with MessageBuffer := [] }.Fire [.SocketSend Json])
    else pure After
  else pure Subsystem

/-- Embeds `UButtplugSubsystem::StartPingTimer` (lines 268-271). -/
def UButtplugSubsystem.StartPingTimer (Subsystem : UButtplugSubsystem) (PingRate : ℚ) :
    UButtplugSubsystem :=
  { Subsystem with PingTimer := some PingRate }

/-- Embeds `UButtplugSubsystem::TickPingTimer` (lines 273-283). -/
def UButtplugSubsystem.TickPingTimer (Subsystem : UButtplugSubsystem) :
    Except Fault UButtplugSubsystem :=
  if Subsystem.WebSocket.isSome then Subsystem.EnqueueMessage { Id := 0, Fields := .Ping }
  else .ok { Subsystem with PingTimer := none }

/-- The device loop of `Reset` (lines 289-292): every device is marked disconnected and
broadcasts its own `OnDisconnected`. -/
def UButtplugSubsystem.DisconnectDevices :
    List (Nat × UButtplugDevice) → List (Nat × UButtplugDevice) × List FButtplugEvent
  | [] => ([], [])
  | Entry :: Rest =>
      let Marked := Entry.2.SetConnected false
      let Others := DisconnectDevices Rest
      ((Entry.1, Marked.1) :: Others.1, .Device Entry.1 Marked.2 :: Others.2)

/-- Embeds `UButtplugSubsystem::Reset` (lines 285-318). -/
def UButtplugSubsystem.Reset (Subsystem : UButtplugSubsystem) (Reason : String) :
    UButtplugSubsystem :=
  let Marked := UButtplugSubsystem.DisconnectDevices Subsystem.Devices
  let Closing : List FButtplugEvent :=
    if Subsystem.WebSocket.isSome then [.SocketClose 1001 Reason] else []
  let Failing : List FButtplugEvent :=
    match Subsystem.LatentStartAction with
    | some Handle => [.LatentStartActionReady Handle .ConnectionFailed Reason]
    | none => []
  { Subsystem with
      ClientName := ""
      ServerName := ""
      ServerAddress := ""
      PingTimer := none
      NextMessageId := 1
      MessageBuffer := []
      WebSocket := none
      LatentStartAction := none
      Devices := Marked.1
      Events := Subsystem.Events ++ Marked.2 ++ Closing ++ Failing }

/-- Embeds `UButtplugSubsystem::StopClient`. -/
def UButtplugSubsystem.StopClient (Subsystem : UButtplugSubsystem) : UButtplugSubsystem :=
  Subsystem.Reset "stopping client"

/-! ### Connecting -/

/-- The client name template `StartClient` falls back to (line 192). -/
def UButtplugSubsystem.DefaultClientNameFormat : String :=
  "{AppName} - {GameName} ({BuildConfiguration})"

/-- Embeds `UButtplugSubsystem::StartClient` (lines 175-208). `Format` stands for the engine's
`FString::Format` with the application's arguments; `bDropsOnClose` describes the socket
`CreateWebSocket` returns. -/
def UButtplugSubsystem.StartClient (Subsystem : UButtplugSubsystem) (Format : String → String)
    (bDropsOnClose : Bool) (InClientName : String) (InServerAddress : String) :
    UButtplugSubsystem :=
  if Subsystem.WebSocket.isSome then Subsystem
  else
    { Subsystem with
        ClientName :=
          if InClientName.isEmpty then Format UButtplugSubsystem.DefaultClientNameFormat
          else Format InClientName
        ServerAddress := InServerAddress
        WebSocket := some { bConnected := false, bDropsOnClose := bDropsOnClose }
        Events := Subsystem.Events ++ [.SocketConnect InServerAddress] }

/-- Embeds `UButtplugSubsystem::AsyncStartClient` (lines 144-173). `bExistingAction` is the answer
of the latent action manager's `FindExistingAction`; `Handle` identifies the new request. -/
def UButtplugSubsystem.AsyncStartClient (Subsystem : UButtplugSubsystem)
    (Format : String → String) (bDropsOnClose : Bool) (bExistingAction : Bool) (Handle : Nat)
    (InClientName : String) (InServerAddress : String) : UButtplugSubsystem :=
  if bExistingAction then Subsystem
  else if Subsystem.WebSocket.isSome then
    Subsystem.Fire [.LatentStartActionReady Handle .ConnectionFailed "already connected"]
  else if Subsystem.LatentStartAction.isSome then
    Subsystem.Fire [.LatentStartActionReady Handle .ConnectionFailed "already connecting"]
  else
    UButtplugSubsystem.StartClient { Subsystem with LatentStartAction := some Handle }
      Format bDropsOnClose InClientName InServerAddress

/-! ### Socket callbacks -/

/-- Embeds `UButtplugSubsystem::OnSocketConnected` (lines 320-327). -/
def UButtplugSubsystem.OnSocketConnected (Subsystem : UButtplugSubsystem) :
    Except Fault UButtplugSubsystem :=
  Subsystem.EnqueueMessage
    { Id := 0,
      Fields := .RequestServerInfo Subsystem.ClientName FButtplugMessage.SpecVersion }

/-- Embeds `UButtplugSubsystem::OnSocketConnectionError` (lines 329-332). -/
def UButtplugSubsystem.OnSocketConnectionError (Subsystem : UButtplugSubsystem)
    (Error : String) : UButtplugSubsystem :=
  Subsystem.Reset Error

/-- Embeds `UButtplugSubsystem::OnSocketClosed` (lines 334-338). -/
def UButtplugSubsystem.OnSocketClosed (Subsystem : UButtplugSubsystem) (_StatusCode : Int)
    (Reason : String) (_bWasClean : Bool) : UButtplugSubsystem :=
  (Subsystem.Reset Reason).Fire [.OnDisconnected]

/-- Embeds `WebSocket->Close(CloseCode, Reason)` on the session's socket pointer. -/
def UButtplugSubsystem.CloseSocket (Subsystem : UButtplugSubsystem) (CloseCode : Int)
    (Reason : String) : Except Fault UButtplugSubsystem :=
  match Subsystem.WebSocket with
  | none => .error .NullDereference
  | some Socket =>
      .ok ({ Subsystem with WebSocket := some Socket.Close }.Fire
        [.SocketClose CloseCode Reason])

/-! ### Handlers of inbound messages (`OnServerMessage`, lines 340-547) -/

/-- The primary template (lines 340-346), taken by every kind without a specialisation:
the server sent a client-to-server message. -/
def UButtplugSubsystem.OnClientMessage (Subsystem : UButtplugSubsystem) :
    Except Fault UButtplugSubsystem :=
  Subsystem.CloseSocket 1008 "server sent a client-to-server message unexpectedly"

/-- Embeds `OnServerMessage<ServerInfo>` (lines 361-386). -/
def UButtplugSubsystem.OnServerInfo (Subsystem : UButtplugSubsystem) (ServerName : String)
    (MessageVersion : Nat) (MaxPingTime : Nat) : Except Fault UButtplugSubsystem :=
  let Named := { Subsystem with ServerName := ServerName }
  if MessageVersion == FButtplugMessage.SpecVersion then do
    let Resolved :=
      match Named.LatentStartAction with
      | some Handle =>
          { Named with LatentStartAction := none }.Fire
            [.LatentStartActionReady Handle .Succeeded ""]
      | none => Named
    let Enqueued ← Resolved.EnqueueMessage { Id := 0, Fields := .RequestDeviceList }
    let Timed := Enqueued.StartPingTimer ((MaxPingTime : ℚ) / 2000)
    pure (Timed.Fire [.OnConnected])
  else Named.CloseSocket 1008 "server responded with incompatible protocol version"

/-- One of the five feature loops of `OnServerMessage<DeviceAdded>` (lines 443-496):
the features built from one attribute array, `Index` counting from the given start. -/
def UButtplugSubsystem.MakeFeatures
    (Make : Nat → FButtplugMessage.DeviceMessageAttributes → UButtplugFeature) :
    Nat → List FButtplugMessage.DeviceMessageAttributes → List UButtplugFeature
  | _, [] => []
  | Index, Attributes :: Rest => Make Index Attributes :: MakeFeatures Make (Index + 1) Rest

/-- The feature built from a `ScalarCmd` attribute record (lines 446-450). -/
def UButtplugSubsystem.MakeScalarFeature (Index : Nat)
    (ScalarCmd : FButtplugMessage.DeviceMessageAttributes) : UButtplugFeature :=
  { UButtplugFeature.NewObject with
      ScalarCmdIndex := Index
      FeatureDescriptor := ScalarCmd.FeatureDescriptor
      ActuatorStepCount := UInt32ToInt32 ScalarCmd.StepCount
      FeatureType := EButtplugFeatureType.GetEnumByName ScalarCmd.ActuatorType }

/-- The feature built from a `LinearCmd` attribute record (lines 457-461). -/
def UButtplugSubsystem.MakeLinearFeature (Index : Nat)
    (LinearCmd : FButtplugMessage.DeviceMessageAttributes) : UButtplugFeature :=
  { UButtplugFeature.NewObject with
      LinearCmdIndex := Index
      FeatureDescriptor := LinearCmd.FeatureDescriptor
      ActuatorStepCount := UInt32ToInt32 LinearCmd.StepCount
      FeatureType := EButtplugFeatureType.GetEnumByName LinearCmd.ActuatorType }

/-- The feature built from a `RotateCmd` attribute record (lines 468-472). -/
def UButtplugSubsystem.MakeRotateFeature (Index : Nat)
    (RotateCmd : FButtplugMessage.DeviceMessageAttributes) : UButtplugFeature :=
  { UButtplugFeature.NewObject with
      RotateCmdIndex := Index
      FeatureDescriptor := RotateCmd.FeatureDescriptor
      ActuatorStepCount := UInt32ToInt32 RotateCmd.StepCount
      FeatureType := EButtplugFeatureType.GetEnumByName RotateCmd.ActuatorType }

/-- The feature built from a `SensorReadCmd` attribute record (lines 479-483). -/
def UButtplugSubsystem.MakeSensorReadFeature (Index : Nat)
    (SensorReadCmd : FButtplugMessage.DeviceMessageAttributes) : UButtplugFeature :=
  { UButtplugFeature.NewObject with
      SensorReadCmdIndex := Index
      FeatureDescriptor := SensorReadCmd.FeatureDescriptor
      SensorRange := SensorReadCmd.SensorRange
      FeatureType := EButtplugFeatureType.GetEnumByName SensorReadCmd.SensorType }

/-- The feature built from a `SensorSubscribeCmd` attribute record (lines 490-494). -/
def UButtplugSubsystem.MakeSensorSubscribeFeature (Index : Nat)
    (SensorSubscribeCmd : FButtplugMessage.DeviceMessageAttributes) : UButtplugFeature :=
  { UButtplugFeature.NewObject with
      SensorSubscribeCmdIndex := Index
      FeatureDescriptor := SensorSubscribeCmd.FeatureDescriptor
      SensorRange := SensorSubscribeCmd.SensorRange
      FeatureType := EButtplugFeatureType.GetEnumByName SensorSubscribeCmd.SensorType }

/-- The device constructed by `OnServerMessage<DeviceAdded>` (lines 434-496), before it
is marked connected. -/
def UButtplugSubsystem.MakeDevice (Device : FButtplugMessage.Device) : UButtplugDevice :=
  { UButtplugDevice.NewObject with
      DeviceIndex := Device.Index
      DescriptiveName := Device.Name
      DisplayName := Device.DisplayName
      DefaultMessageTimingGap := (Device.MessageTimingGap : ℚ) / 1000
      Features :=
        UButtplugSubsystem.MakeFeatures UButtplugSubsystem.MakeScalarFeature 0
          Device.Messages.ScalarCmd
        ++ UButtplugSubsystem.MakeFeatures UButtplugSubsystem.MakeLinearFeature 0
          Device.Messages.LinearCmd
        ++ UButtplugSubsystem.MakeFeatures UButtplugSubsystem.MakeRotateFeature 0
          Device.Messages.RotateCmd
        ++ UButtplugSubsystem.MakeFeatures UButtplugSubsystem.MakeSensorReadFeature 0
          Device.Messages.SensorReadCmd
        ++ UButtplugSubsystem.MakeFeatures UButtplugSubsystem.MakeSensorSubscribeFeature 0
          Device.Messages.SensorSubscribeCmd }

/-- The tail of `OnServerMessage<DeviceAdded>` (lines 434-499): a fresh device is stored
under the index, marked connected and announced. -/
def UButtplugSubsystem.AddNewDevice (Subsystem : UButtplugSubsystem)
    (Device : FButtplugMessage.Device) : UButtplugSubsystem :=
  let Connected := (UButtplugSubsystem.MakeDevice Device).SetConnected true
  { Subsystem with
      Devices := TMap.Add Subsystem.Devices Device.Index Connected.1
      Events := Subsystem.Events ++
        [.Device Device.Index Connected.2, .OnDeviceAdded Device.Index] }

/-- Embeds `OnServerMessage<DeviceAdded>` (lines 412-500). -/
def UButtplugSubsystem.OnDeviceAdded (Subsystem : UButtplugSubsystem)
    (Device : FButtplugMessage.Device) : UButtplugSubsystem :=
  match TMap.Find Subsystem.Devices Device.Index with
  | some Existing =>
      if Existing.DescriptiveName = Device.Name ∧ Existing.DisplayName = Device.DisplayName
      then
        let Connected := Existing.SetConnected true
        { Subsystem with
            Devices := TMap.Add Subsystem.Devices Device.Index Connected.1
            Events := Subsystem.Events ++
              [.Device Device.Index Connected.2, .OnDeviceAdded Device.Index] }
      else Subsystem.AddNewDevice Device
  | none => Subsystem.AddNewDevice Device

/-- Embeds `OnServerMessage<DeviceList>` (lines 397-410): each listed device is handed to the
`DeviceAdded` handler, in order. -/
def UButtplugSubsystem.OnDeviceList :
    UButtplugSubsystem → List FButtplugMessage.Device → UButtplugSubsystem
  | Subsystem, [] => Subsystem
  | Subsystem, Device :: Rest => OnDeviceList (Subsystem.OnDeviceAdded Device) Rest

/-- Embeds `OnServerMessage<DeviceRemoved>` (lines 502-514). -/
def UButtplugSubsystem.OnDeviceRemoved (Subsystem : UButtplugSubsystem) (DeviceIndex : Nat) :
    UButtplugSubsystem :=
  match TMap.Find Subsystem.Devices DeviceIndex with
  | none => Subsystem
  | some Device =>
      let Marked := Device.SetConnected false
      { Subsystem with
          Devices := TMap.Add Subsystem.Devices DeviceIndex Marked.1
          Events := Subsystem.Events ++
            [.Device DeviceIndex Marked.2, .OnDeviceRemoved DeviceIndex] }

/-- The feature loop of `OnServerMessage<SensorReading>` (lines 529-541): the features
after the loop and what they fired; `FeatureIndex` is the position of the head. -/
def UButtplugSubsystem.DeliverSensorReading (FeatureType : EButtplugFeatureType)
    (SensorIndex : Nat) (Data : List Int) :
    Nat → List UButtplugFeature → List UButtplugFeature × List (Nat × FFeatureEvent)
  | _, [] => ([], [])
  | FeatureIndex, Feature :: Rest =>
      let Others := DeliverSensorReading FeatureType SensorIndex Data (FeatureIndex + 1) Rest
      if Feature.FeatureType = FeatureType ∧
          (Feature.SensorReadCmdIndex = SensorIndex ∨
            Feature.SensorSubscribeCmdIndex = SensorIndex) then
        let Read := Feature.SetSensorReading Data
        (Read.1 :: Others.1, Read.2.map (fun Event => (FeatureIndex, Event)) ++ Others.2)
      else (Feature :: Others.1, Others.2)

/-- Embeds `OnServerMessage<SensorReading>` (lines 516-547). -/
def UButtplugSubsystem.OnSensorReading (Subsystem : UButtplugSubsystem) (DeviceIndex : Nat)
    (SensorIndex : Nat) (SensorType : String) (Data : List Int) : UButtplugSubsystem :=
  match TMap.Find Subsystem.Devices DeviceIndex with
  | none => Subsystem
  | some Device =>
      let Delivered :=
        UButtplugSubsystem.DeliverSensorReading
          (EButtplugFeatureType.GetEnumByName SensorType) SensorIndex Data 0 Device.Features
      { Subsystem with
          Devices := TMap.Add Subsystem.Devices DeviceIndex
            { Device with Features := Delivered.1 }
          Events := Subsystem.Events ++
            Delivered.2.map (fun Fired => .Feature DeviceIndex Fired.1 Fired.2) }

/-- Embeds `FButtplugMessage::Dispatch` applied to `OnServerMessage` (line 555): the handler arm
of the message's kind. `Ok` and `Error` only log; `Ping` has no specialisation and takes
the primary template. -/
def UButtplugSubsystem.OnServerMessage (Subsystem : UButtplugSubsystem)
    (Message : FButtplugMessage) : Except Fault UButtplugSubsystem :=
  match Message.Fields with
  | .Ok => .ok Subsystem
  | .Error _ _ => .ok Subsystem
  | .Ping => Subsystem.OnClientMessage
  | .RequestServerInfo _ _ => Subsystem.OnClientMessage
  | .ServerInfo ServerName MessageVersion MaxPingTime =>
      Subsystem.OnServerInfo ServerName MessageVersion MaxPingTime
  | .StartScanning => Subsystem.OnClientMessage
  | .StopScanning => Subsystem.OnClientMessage
  | .ScanningFinished => .ok (Subsystem.Fire [.OnScanningFinished])
  | .RequestDeviceList => Subsystem.OnClientMessage
  | .DeviceList Devices => .ok (Subsystem.OnDeviceList Devices)
  | .DeviceAdded Device => .ok (Subsystem.OnDeviceAdded Device)
  | .DeviceRemoved DeviceIndex => .ok (Subsystem.OnDeviceRemoved DeviceIndex)
  | .StopDeviceCmd _ => Subsystem.OnClientMessage
  | .StopAllDevices => Subsystem.OnClientMessage
  | .ScalarCmd _ _ => Subsystem.OnClientMessage
  | .LinearCmd _ _ => Subsystem.OnClientMessage
  | .RotateCmd _ _ => Subsystem.OnClientMessage
  | .SensorReadCmd _ _ _ => Subsystem.OnClientMessage
  | .SensorReading DeviceIndex SensorIndex SensorType Data =>
      .ok (Subsystem.OnSensorReading DeviceIndex SensorIndex SensorType Data)
  | .SensorSubscribeCmd _ _ _ => Subsystem.OnClientMessage
  | .SensorUnsubscribeCmd _ _ _ => Subsystem.OnClientMessage

/-- The dispatch loop of `OnSocketMessage` (lines 553-556). -/
def UButtplugSubsystem.DispatchMessages :
    UButtplugSubsystem → FButtplugMessageArray → Except Fault UButtplugSubsystem
  | Subsystem, [] => .ok Subsystem
  | Subsystem, Message :: Rest => do
      let Next ← Subsystem.OnServerMessage Message
      DispatchMessages Next Rest

/-- Embeds `UButtplugSubsystem::OnSocketMessage` (lines 549-557). The flag returned by
`ReadButtplugMessagesFromJson` is not looked at: whatever `MessageArray` holds after the
call is dispatched. -/
def UButtplugSubsystem.OnSocketMessage (Subsystem : UButtplugSubsystem)
    (MessageString : Option (List FJsonValue)) : Except Fault UButtplugSubsystem :=
  let MessageArray := (ReadButtplugMessagesFromJson MessageString []).2
  Subsystem.DispatchMessages MessageArray

/-! ### The transport, as the engine drives it -/

/-- The transport reports the connection open: from now on the socket answers
`IsConnected` with `true`, and its `OnConnected` delegate runs `OnSocketConnected`. -/
def UButtplugSubsystem.SocketOpened (Subsystem : UButtplugSubsystem) :
    Except Fault UButtplugSubsystem :=
  UButtplugSubsystem.OnSocketConnected
    { Subsystem with
        WebSocket := Subsystem.WebSocket.map (fun Socket => { Socket with bConnected := true }) }

/-- The transport reports the connection closed: the socket no longer answers
`IsConnected` with `true`, and its `OnClosed` delegate runs `OnSocketClosed`. -/
def UButtplugSubsystem.SocketClosed (Subsystem : UButtplugSubsystem) (StatusCode : Int)
    (Reason : String) (bWasClean : Bool) : UButtplugSubsystem :=
  UButtplugSubsystem.OnSocketClosed
    { Subsystem with
        WebSocket := Subsystem.WebSocket.map (fun Socket => { Socket with bConnected := false }) }
    StatusCode Reason bWasClean

/-! ## Sensor commands of a feature (`ButtplugFeature.cpp`, lines 106-183)

A feature reaches its device through `GetDevice()`, its outer object. The operations
below take that device, and the position of the feature in its feature list where the
feature itself changes, and return the device. -/

/-- Embeds `UButtplugFeature::EnqueueReadCmd` (lines 155-163). -/
def UButtplugFeature.EnqueueReadCmd (Feature : UButtplugFeature) (Device : UButtplugDevice) :
    UButtplugDevice :=
  { Device with
      MessageQueue := Device.MessageQueue ++
        [{ Id := 0,
           Fields := .SensorReadCmd Device.DeviceIndex Feature.SensorReadCmdIndex
             Feature.FeatureType.GetEnumAsString }] }

/-- Embeds `UButtplugFeature::EnqueueSubscribeCmd` (lines 165-173); its `SensorIndex` is
`SensorReadCmdIndex` (line 170). -/
def UButtplugFeature.EnqueueSubscribeCmd (Feature : UButtplugFeature)
    (Device : UButtplugDevice) : UButtplugDevice :=
  { Device with
      MessageQueue := Device.MessageQueue ++
        [{ Id := 0,
           Fields := .SensorSubscribeCmd Device.DeviceIndex Feature.SensorReadCmdIndex
             Feature.FeatureType.GetEnumAsString }] }

/-- Embeds `UButtplugFeature::EnqueueUnsubscribeCmd` (lines 175-183); its `SensorIndex` is
`SensorReadCmdIndex` (line 180). -/
def UButtplugFeature.EnqueueUnsubscribeCmd (Feature : UButtplugFeature)
    (Device : UButtplugDevice) : UButtplugDevice :=
  { Device with
      MessageQueue := Device.MessageQueue ++
        [{ Id := 0,
           Fields := .SensorUnsubscribeCmd Device.DeviceIndex Feature.SensorReadCmdIndex
             Feature.FeatureType.GetEnumAsString }] }

/-- Embeds `UButtplugFeature::Subscribe` (lines 106-112). -/
def UButtplugFeature.Subscribe (Feature : UButtplugFeature) (Device : UButtplugDevice) :
    UButtplugDevice :=
  if Feature.CanSubscribe then Feature.EnqueueSubscribeCmd Device else Device

/-- Embeds `UButtplugFeature::Unsubscribe` (lines 114-120). -/
def UButtplugFeature.Unsubscribe (Feature : UButtplugFeature) (Device : UButtplugDevice) :
    UButtplugDevice :=
  if Feature.CanSubscribe then Feature.EnqueueUnsubscribeCmd Device else Device

/-- The device with the feature object at one position of its feature list updated. -/
def UButtplugDevice.SetFeature (Device : UButtplugDevice) (FeatureIndex : Nat)
    (Feature : UButtplugFeature) : UButtplugDevice :=
  { Device with Features := Device.Features.set FeatureIndex Feature }

/-- Embeds `UButtplugFeature::Read` (lines 143-153): the device afterwards and what the
feature fires. -/
def UButtplugFeature.Read (Feature : UButtplugFeature) (FeatureIndex : Nat)
    (Device : UButtplugDevice) : UButtplugDevice × List FFeatureEvent :=
  if Feature.CanRead then (Feature.EnqueueReadCmd Device, [])
  else
    let Emptied := Feature.SetSensorReading []
    (Device.SetFeature FeatureIndex Emptied.1, Emptied.2)

/-- Embeds `UButtplugFeature::AsyncRead` (lines 127-141). `bExistingAction` is the answer of
the latent action manager's `FindExistingAction`; `Handle` identifies the new request. -/
def UButtplugFeature.AsyncRead (Feature : UButtplugFeature) (FeatureIndex : Nat)
    (Device : UButtplugDevice) (bExistingAction : Bool) (Handle : Nat) :
    UButtplugDevice × List FFeatureEvent :=
  if bExistingAction then (Device, [])
  else
    let Pending :=
      { Feature with LatentSensorActions := Feature.LatentSensorActions ++ [Handle] }
    let Held := Device.SetFeature FeatureIndex Pending
    if Pending.LatentSensorActions.length == 1 then Pending.Read FeatureIndex Held
    else (Held, [])

/-- Embeds `FLatentSensorAction::NotifyActionAborted` (lines 39-42): the request is removed
from the pending reads of its feature. -/
def UButtplugFeature.NotifyActionAborted (Feature : UButtplugFeature) (Handle : Nat) :
    UButtplugFeature :=
  { Feature with
      LatentSensorActions := Feature.LatentSensorActions.filter (fun Held => Held != Handle) }

/-! ## The interface as a whole

What the game, the engine and the transport can do to a session, one call at a time. -/

/-- A call on a feature: its public operations, and the engine aborting one of its pending
reads. -/
inductive FFeatureCall
  | Actuate (Value : ℚ) (Duration : FFloat)
  | Stop
  | Subscribe
  | Unsubscribe
  | Read
  | AsyncRead (bExistingAction : Bool) (Handle : Nat)
  | NotifyActionAborted (Handle : Nat)
  deriving DecidableEq, Repr

/-- A call on a device: its public operations that change state, and the calls on its
features. The typed operations (`VibrateAll` and the like) are `ActuateAll` at their
type. -/
inductive FDeviceCall
  | SetMessageTimingGap (Override : ℚ)
  | ActuateAll (ActuatorType : EButtplugFeatureType) (Value : ℚ) (Duration : FFloat)
  | StopAll (ActuatorType : EButtplugFeatureType)
  | Stop
  | Feature (FeatureIndex : Nat) (Call : FFeatureCall)
  deriving DecidableEq, Repr

/-- One call on the feature at a position of the device's feature list: the device
afterwards and what the feature fires. A position past the end names no feature. -/
def UButtplugDevice.CallFeature (Device : UButtplugDevice) (FeatureIndex : Nat)
    (Call : FFeatureCall) : UButtplugDevice × List FFeatureEvent :=
  match Device.Features.get? FeatureIndex with
  | none => (Device, [])
  | some Feature =>
      match Call with
      | .Actuate Value Duration =>
          (Device.SetFeature FeatureIndex (Feature.Actuate Value Duration), [])
      | .Stop => (Device.SetFeature FeatureIndex Feature.Stop, [])
      | .Subscribe => (Feature.Subscribe Device, [])
      | .Unsubscribe => (Feature.Unsubscribe Device, [])
      | .Read => Feature.Read FeatureIndex Device
      | .AsyncRead bExistingAction Handle =>
          Feature.AsyncRead FeatureIndex Device bExistingAction Handle
      | .NotifyActionAborted Handle =>
          (Device.SetFeature FeatureIndex (Feature.NotifyActionAborted Handle), [])

/-- A run of calls on the feature at one position, in order: the device afterwards and
everything the feature fired. -/
def UButtplugDevice.CallFeatureMany (Device : UButtplugDevice) (FeatureIndex : Nat) :
    List FFeatureCall → UButtplugDevice × List FFeatureEvent
  | [] => (Device, [])
  | Call :: Rest =>
      let First := Device.CallFeature FeatureIndex Call
      let Others := UButtplugDevice.CallFeatureMany First.1 FeatureIndex Rest
      (Others.1, First.2 ++ Others.2)

/-- One call on a device: the device afterwards and what its features fire, each with the
position of the feature. -/
def UButtplugDevice.Call (Device : UButtplugDevice) :
    FDeviceCall → UButtplugDevice × List (Nat × FFeatureEvent)
  | .SetMessageTimingGap Override => (Device.SetMessageTimingGap Override, [])
  | .ActuateAll ActuatorType Value Duration =>
      (Device.ActuateAll ActuatorType Value Duration, [])
  | .StopAll ActuatorType => (Device.StopAll ActuatorType, [])
  | .Stop => (Device.Stop, [])
  | .Feature FeatureIndex Call =>
      let Called := Device.CallFeature FeatureIndex Call
      (Called.1, Called.2.map (fun Event => (FeatureIndex, Event)))

/-- One call on the device the table holds under an index; an index the table does not
hold names no device. -/
def UButtplugSubsystem.CallDevice (Subsystem : UButtplugSubsystem) (DeviceIndex : Nat)
    (Call : FDeviceCall) : UButtplugSubsystem :=
  match TMap.Find Subsystem.Devices DeviceIndex with
  | none => Subsystem
  | some Device =>
      let Called := Device.Call Call
      { Subsystem with
          Devices := TMap.Add Subsystem.Devices DeviceIndex Called.1
          Events := Subsystem.Events ++
            Called.2.map (fun Fired => .Feature DeviceIndex Fired.1 Fired.2) }

/-- Embeds `NewObject<UButtplugSubsystem>`: every member at its initialiser
(`ButtplugSubsystem.h`, lines 139-159), with nothing done yet. -/
def UButtplugSubsystem.NewObject : UButtplugSubsystem where
  bInitialized := false
  ClientName := ""
  ServerName := ""
  ServerAddress := ""
  PingTimer := none
  NextMessageId := 1
  MessageBuffer := []
  WebSocket := none
  LatentStartAction := none
  Devices := []
  Events := []

/-- Embeds `UButtplugSubsystem::Initialize` (lines 70-85); `AppName` is `FApp::GetName()`. -/
def UButtplugSubsystem.Initialize (Subsystem : UButtplugSubsystem) (AppName : String) :
    UButtplugSubsystem :=
  { Subsystem with bInitialized := true, ClientName := AppName }

/-- Embeds `UButtplugSubsystem::Deinitialize` (lines 87-92). -/
def UButtplugSubsystem.Deinitialize (Subsystem : UButtplugSubsystem) : UButtplugSubsystem :=
  { Subsystem.Reset "Shutting down" with ClientName := "", bInitialized := false }

/-- Embeds `FLatentStartAction::NotifyActionAborted` (lines 47-51) for the request with the
given handle. -/
def UButtplugSubsystem.NotifyActionAborted (Subsystem : UButtplugSubsystem) (Handle : Nat) :
    Except Fault UButtplugSubsystem :=
  if Subsystem.LatentStartAction = some Handle then
    .ok { Subsystem with LatentStartAction := none }
  else .error .CheckFailed

/-- One thing that happens to a session: a call of its public interface, a callback of the
engine or of the transport, or a call on one of its devices. -/
inductive FSessionStep
  | Initialize (AppName : String)
  | Deinitialize
  | StartClient (Format : String → String) (bDropsOnClose : Bool) (InClientName : String)
      (InServerAddress : String)
  | AsyncStartClient (Format : String → String) (bDropsOnClose : Bool)
      (bExistingAction : Bool) (Handle : Nat) (InClientName : String)
      (InServerAddress : String)
  | NotifyActionAborted (Handle : Nat)
  | StopClient
  | StartScanning
  | StopScanning
  | Tick (DeltaTime : ℚ)
  | TickPingTimer
  | SocketOpened
  | SocketConnectionError (Error : String)
  | SocketClosed (StatusCode : Int) (Reason : String) (bWasClean : Bool)
  | SocketMessage (MessageString : Option (List FJsonValue))
  | Device (DeviceIndex : Nat) (Call : FDeviceCall)

/-- The session after one step; a failed assertion ends the program. -/
def UButtplugSubsystem.Step (Subsystem : UButtplugSubsystem) :
    FSessionStep → Except Fault UButtplugSubsystem
  | .Initialize AppName => .ok (Subsystem.Initialize AppName)
  | FSessionStep.Deinitialize => .ok (UButtplugSubsystem.Deinitialize Subsystem)
  | .StartClient Format bDropsOnClose InClientName InServerAddress =>
      .ok (Subsystem.StartClient Format bDropsOnClose InClientName InServerAddress)
  | .AsyncStartClient Format bDropsOnClose bExistingAction Handle InClientName
      InServerAddress =>
      .ok (Subsystem.AsyncStartClient Format bDropsOnClose bExistingAction Handle
        InClientName InServerAddress)
  | .NotifyActionAborted Handle => Subsystem.NotifyActionAborted Handle
  | .StopClient => .ok Subsystem.StopClient
  | .StartScanning => Subsystem.StartScanning
  | .StopScanning => Subsystem.StopScanning
  | .Tick DeltaTime => Subsystem.Tick DeltaTime
  | .TickPingTimer => Subsystem.TickPingTimer
  | .SocketOpened => Subsystem.SocketOpened
  | .SocketConnectionError Error => .ok (Subsystem.OnSocketConnectionError Error)
  | .SocketClosed StatusCode Reason bWasClean =>
      .ok (Subsystem.SocketClosed StatusCode Reason bWasClean)
  | .SocketMessage MessageString => Subsystem.OnSocketMessage MessageString
  | .Device DeviceIndex Call => .ok (Subsystem.CallDevice DeviceIndex Call)

/-- The session after a run of steps, in order. -/
def UButtplugSubsystem.Run :
    UButtplugSubsystem → List FSessionStep → Except Fault UButtplugSubsystem
  | Subsystem, [] => .ok Subsystem
  | Subsystem, Taken :: Rest => do
      let Next ← Subsystem.Step Taken
      Run Next Rest

/-! ## Typing side conditions on messages

The members of the C++ message structs are `uint32`, `int32` or `uint8`; the embedding
keeps them as unbounded numbers, so statements about all messages of the program carry
the ranges of the member types as a hypothesis. -/

/-- The members of a `Scalar` fit their C++ types. -/
def FButtplugMessage.Scalar.InRange (Scalar : FButtplugMessage.Scalar) : Prop :=
  Scalar.Index ≤ MAX_uint32

/-- The members of a `Vector` fit their C++ types. -/
def FButtplugMessage.Vector.InRange (Vector : FButtplugMessage.Vector) : Prop :=
  Vector.Index ≤ MAX_uint32 ∧ Vector.Duration ≤ MAX_uint32

/-- The members of a `Rotation` fit their C++ types. -/
def FButtplugMessage.Rotation.InRange (Rotation : FButtplugMessage.Rotation) : Prop :=
  Rotation.Index ≤ MAX_uint32

/-- The scalar members of a `Device` payload fit their C++ types. -/
def FButtplugMessage.Device.InRange (Device : FButtplugMessage.Device) : Prop :=
  Device.Index ≤ MAX_uint32 ∧ Device.MessageTimingGap ≤ MAX_uint32

/-- The `Device` payload carries at least one attribute record. -/
def FButtplugMessage.Device.HasAttributes (Device : FButtplugMessage.Device) : Bool :=
  !(Device.Messages.ScalarCmd.isEmpty && Device.Messages.LinearCmd.isEmpty
    && Device.Messages.RotateCmd.isEmpty && Device.Messages.SensorReadCmd.isEmpty
    && Device.Messages.SensorSubscribeCmd.isEmpty)

/-- The attribute arrays of a `Device` payload fit a `TArray`, whose element count is an
`int32`. -/
def FButtplugMessage.Device.ArraysFit (Device : FButtplugMessage.Device) : Bool :=
  decide (Device.Messages.ScalarCmd.length ≤ 2147483647) &&
  decide (Device.Messages.LinearCmd.length ≤ 2147483647) &&
  decide (Device.Messages.RotateCmd.length ≤ 2147483647) &&
  decide (Device.Messages.SensorReadCmd.length ≤ 2147483647) &&
  decide (Device.Messages.SensorSubscribeCmd.length ≤ 2147483647)

/-- The attribute arrays a message carries fit a `TArray`. -/
def TButtplugMessage.ArraysFit : TButtplugMessage → Bool
  | .DeviceList Devices => Devices.all (fun Device => Device.ArraysFit)
  | .DeviceAdded Device => Device.ArraysFit
  | _ => true

/-- The attribute arrays of the messages a frame decodes to fit a `TArray`; every other
step carries no array. -/
def FSessionStep.ArraysFit : FSessionStep → Bool
  | .SocketMessage MessageString =>
      (ReadButtplugMessagesFromJson MessageString []).2.all
        (fun Message => Message.Fields.ArraysFit)
  | _ => true

/-- The members of a message kind fit their C++ types. -/
def TButtplugMessage.InRange : TButtplugMessage → Prop
  | .Error _ Code => Code < 256
  | .RequestServerInfo _ MessageVersion => MessageVersion ≤ MAX_uint32
  | .ServerInfo _ MessageVersion MaxPingTime =>
      MessageVersion ≤ MAX_uint32 ∧ MaxPingTime ≤ MAX_uint32
  | .DeviceList Devices => ∀ Device ∈ Devices, Device.InRange
  | .DeviceAdded Device => Device.InRange
  | .DeviceRemoved DeviceIndex => DeviceIndex ≤ MAX_uint32
  | .StopDeviceCmd DeviceIndex => DeviceIndex ≤ MAX_uint32
  | .ScalarCmd DeviceIndex Scalars =>
      DeviceIndex ≤ MAX_uint32 ∧ ∀ Scalar ∈ Scalars, Scalar.InRange
  | .LinearCmd DeviceIndex Vectors =>
      DeviceIndex ≤ MAX_uint32 ∧ ∀ Vector ∈ Vectors, Vector.InRange
  | .RotateCmd DeviceIndex Rotations =>
      DeviceIndex ≤ MAX_uint32 ∧ ∀ Rotation ∈ Rotations, Rotation.InRange
  | .SensorReadCmd DeviceIndex SensorIndex _ =>
      DeviceIndex ≤ MAX_uint32 ∧ SensorIndex ≤ MAX_uint32
  | .SensorReading DeviceIndex SensorIndex _ Data =>
      DeviceIndex ≤ MAX_uint32 ∧ SensorIndex ≤ MAX_uint32 ∧
        ∀ Value ∈ Data, -2147483648 ≤ Value ∧ Value ≤ 2147483647
  | .SensorSubscribeCmd DeviceIndex SensorIndex _ =>
      DeviceIndex ≤ MAX_uint32 ∧ SensorIndex ≤ MAX_uint32
  | .SensorUnsubscribeCmd DeviceIndex SensorIndex _ =>
      DeviceIndex ≤ MAX_uint32 ∧ SensorIndex ≤ MAX_uint32
  | _ => True

/-- The members of a message fit their C++ types. -/
def FButtplugMessage.InRange (Message : FButtplugMessage) : Prop :=
  Message.Id ≤ MAX_uint32 ∧ Message.Fields.InRange

/-- The message is a `DeviceList` or `DeviceAdded` with at least one attribute record. -/
def TButtplugMessage.CarriesAttributes : TButtplugMessage → Bool
  | .DeviceList Devices => Devices.any (fun Device => Device.HasAttributes)
  | .DeviceAdded Device => Device.HasAttributes
  | _ => false

/-! ## State conditions used as hypotheses -/

/-- Every feature of the device that has an actuation queued is an actuator (what
`Actuate` guarantees, and what the `checkf` in `FlushMessageQueue` asserts). -/
def UButtplugDevice.QueuedAreActuators (Device : UButtplugDevice) : Prop :=
  ∀ Feature ∈ Device.Features,
    Feature.bHasQueuedActuation = true → Feature.IsActuator = true

/-- The device has something to send: a stop request, a queued actuation or a message in
its per-tick queue. -/
def UButtplugDevice.HasPending (Device : UButtplugDevice) : Prop :=
  Device.bHasQueuedStopDevice = true ∨
    (∃ Feature ∈ Device.Features, Feature.bHasQueuedActuation = true) ∨
    Device.MessageQueue ≠ []

/-- The message is one of the three sensor commands a feature puts on the per-tick queue
of its device. -/
def TButtplugMessage.IsSensorCmd : TButtplugMessage → Bool
  | .SensorReadCmd _ _ _ => true
  | .SensorSubscribeCmd _ _ _ => true
  | .SensorUnsubscribeCmd _ _ _ => true
  | _ => false

/-- The message is one of the three actuation commands. -/
def TButtplugMessage.IsActuationCmd : TButtplugMessage → Bool
  | .ScalarCmd _ _ => true
  | .RotateCmd _ _ => true
  | .LinearCmd _ _ => true
  | _ => false

/-- The features of the device that have an actuation queued, in feature order. -/
def UButtplugDevice.QueuedFeatures (Device : UButtplugDevice) : List UButtplugFeature :=
  Device.Features.filter (fun Feature => Feature.bHasQueuedActuation)

/-- The entries of the `LinearCmd` batch: one per queued feature whose `LinearCmdIndex`
is set, in feature order, addressed by that index. -/
def UButtplugDevice.LinearEntries (Device : UButtplugDevice) :
    List FButtplugMessage.Vector :=
  (Device.QueuedFeatures.filter (fun Feature => Feature.LinearCmdIndex != INDEX_NONE)).map
    (fun Feature =>
      { Index := Feature.LinearCmdIndex,
        Duration := Feature.QueuedActuation.DurationMs,
        Position := Feature.QueuedActuation.Value })

/-- The entries of the `RotateCmd` batch: one per queued feature whose `LinearCmdIndex`
is unset and whose `RotateCmdIndex` is set, in feature order. -/
def UButtplugDevice.RotateEntries (Device : UButtplugDevice) :
    List FButtplugMessage.Rotation :=
  (Device.QueuedFeatures.filter (fun Feature =>
      Feature.LinearCmdIndex == INDEX_NONE && Feature.RotateCmdIndex != INDEX_NONE)).map
    (fun Feature =>
      { Index := Feature.RotateCmdIndex,
        Speed := |Feature.QueuedActuation.Value|,
        Clockwise := decide (Feature.QueuedActuation.Value ≥ (0 : ℚ)) })

/-- The entries of the `ScalarCmd` batch: one per queued feature whose `LinearCmdIndex`
and `RotateCmdIndex` are unset and whose `ScalarCmdIndex` is set, in feature order. -/
def UButtplugDevice.ScalarEntries (Device : UButtplugDevice) :
    List FButtplugMessage.Scalar :=
  (Device.QueuedFeatures.filter (fun Feature =>
      Feature.LinearCmdIndex == INDEX_NONE && Feature.RotateCmdIndex == INDEX_NONE
        && Feature.ScalarCmdIndex != INDEX_NONE)).map
    (fun Feature =>
      { Index := Feature.ScalarCmdIndex,
        Value := Feature.QueuedActuation.Value,
        ActuatorType := Feature.FeatureType.GetEnumAsString })

/-- The actuation commands of one tick: at most one `LinearCmd`, one `RotateCmd` and one
`ScalarCmd`, in this order, each present exactly when its batch has an entry. -/
def UButtplugDevice.BatchedCommands (Device : UButtplugDevice) : List TButtplugMessage :=
  (if Device.LinearEntries.isEmpty then []
    else [TButtplugMessage.LinearCmd Device.DeviceIndex Device.LinearEntries])
  ++ (if Device.RotateEntries.isEmpty then []
    else [TButtplugMessage.RotateCmd Device.DeviceIndex Device.RotateEntries])
  ++ (if Device.ScalarEntries.isEmpty then []
    else [TButtplugMessage.ScalarCmd Device.DeviceIndex Device.ScalarEntries])

/-- The five command-slot indices of a feature, in the order `ScalarCmdIndex`,
`LinearCmdIndex`, `RotateCmdIndex`, `SensorReadCmdIndex`, `SensorSubscribeCmdIndex`. -/
def UButtplugFeature.CommandSlots (Feature : UButtplugFeature) :
    Nat × Nat × Nat × Nat × Nat :=
  (Feature.ScalarCmdIndex, Feature.LinearCmdIndex, Feature.RotateCmdIndex,
   Feature.SensorReadCmdIndex, Feature.SensorSubscribeCmdIndex)

/-- The test the spec gives for a feature to receive a sensor reading: its feature type is
the type parsed from `SensorType`, and its `SensorReadCmdIndex` or its
`SensorSubscribeCmdIndex` equals `SensorIndex`. -/
def UButtplugFeature.ReceivesReading (Feature : UButtplugFeature) (SensorType : String)
    (SensorIndex : Nat) : Bool :=
  decide (Feature.FeatureType = EButtplugFeatureType.GetEnumByName SensorType) &&
    (decide (Feature.SensorReadCmdIndex = SensorIndex) ||
      decide (Feature.SensorSubscribeCmdIndex = SensorIndex))

/-- The invariant the spec states for a feature: it is an actuator or a sensor and not
both, and as an actuator it has exactly one of `ScalarCmdIndex`, `RotateCmdIndex` and
`LinearCmdIndex` set. -/
def UButtplugFeature.IsActuatorOrSensor (Feature : UButtplugFeature) : Prop :=
  ((Feature.IsActuator = true ∧ Feature.IsSensor = false) ∨
    (Feature.IsActuator = false ∧ Feature.IsSensor = true)) ∧
  (Feature.IsActuator = true →
    ([Feature.ScalarCmdIndex, Feature.RotateCmdIndex, Feature.LinearCmdIndex].filter
      (fun Slot => Slot != INDEX_NONE)).length = 1)

/-- Every feature of the device satisfies the invariant of the spec. -/
def UButtplugDevice.FeaturesWellFormed (Device : UButtplugDevice) : Prop :=
  ∀ Feature ∈ Device.Features, Feature.IsActuatorOrSensor

/-- Every feature of every device in the table satisfies the invariant of the spec. -/
def UButtplugSubsystem.FeaturesWellFormed (Subsystem : UButtplugSubsystem) : Prop :=
  ∀ Entry ∈ Subsystem.Devices, Entry.2.FeaturesWellFormed

/-- The kinds the spec lists as client-to-server only: `RequestServerInfo`,
`StartScanning`, `StopScanning`, `RequestDeviceList`, `StopDeviceCmd`, `StopAllDevices`,
`ScalarCmd`, `LinearCmd`, `RotateCmd`, `SensorReadCmd`, `SensorSubscribeCmd`,
`SensorUnsubscribeCmd`. -/
def TButtplugMessage.IsClientToServerOnly : TButtplugMessage → Bool
  | .RequestServerInfo _ _ => true
  | .StartScanning => true
  | .StopScanning => true
  | .RequestDeviceList => true
  | .StopDeviceCmd _ => true
  | .StopAllDevices => true
  | .ScalarCmd _ _ => true
  | .LinearCmd _ _ => true
  | .RotateCmd _ _ => true
  | .SensorReadCmd _ _ _ => true
  | .SensorSubscribeCmd _ _ _ => true
  | .SensorUnsubscribeCmd _ _ _ => true
  | _ => false

/-- The event is the session's own `OnDisconnected` delegate. -/
def FButtplugEvent.IsSessionDisconnected : FButtplugEvent → Bool
  | .OnDisconnected => true
  | _ => false

/-- The event is the `OnDisconnected` delegate of a device. -/
def FButtplugEvent.IsDeviceDisconnected : FButtplugEvent → Bool
  | .Device _ .OnDisconnected => true
  | _ => false

/-- The event is a call of `Close` on the socket. -/
def FButtplugEvent.IsSocketClose : FButtplugEvent → Bool
  | .SocketClose _ _ => true
  | _ => false

/-! ## Sample states used to instantiate the theorems -/

/-- A session as `Initialize` leaves it: every member at its initialiser. -/
def Sample.Idle : UButtplugSubsystem where
  bInitialized := true
  ClientName := ""
  ServerName := ""
  ServerAddress := ""
  PingTimer := none
  NextMessageId := 1
  MessageBuffer := []
  WebSocket := none
  LatentStartAction := none
  Devices := []
  Events := []

/-- The idle session at the moment the transport reports the connection open, before
`OnSocketConnected` runs. -/
def Sample.Opened : UButtplugSubsystem :=
  { Sample.Idle with WebSocket := some { bConnected := true, bDropsOnClose := false } }

/-- A session whose socket is open and whose handshake request is still buffered, with a
connect request (handle 7) pending. -/
def Sample.Handshaking : UButtplugSubsystem where
  bInitialized := true
  ClientName := "X"
  ServerName := ""
  ServerAddress := "ws://127.0.0.1:12345"
  PingTimer := none
  NextMessageId := 2
  MessageBuffer := [{ Id := 1, Fields := .RequestServerInfo "X" 3 }]
  WebSocket := some { bConnected := true, bDropsOnClose := false }
  LatentStartAction := some 7
  Devices := []
  Events := [.SocketConnect "ws://127.0.0.1:12345"]

/-- A vibrating feature in scalar slot 0 with an actuation of one half queued. -/
def Sample.Vibrator : UButtplugFeature :=
  { UButtplugFeature.NewObject with
      FeatureType := .Vibrate
      ScalarCmdIndex := 0
      bHasQueuedActuation := true
      QueuedActuation := { Value := 1 / 2, Duration := .Finite 0 } }

/-- A connected device (index 5) with a timing gap of a tenth of a second and the sample
vibrating feature. -/
def Sample.Device : UButtplugDevice :=
  { UButtplugDevice.NewObject with
      DescriptiveName := "Foo"
      DefaultMessageTimingGap := 1 / 10
      DeviceIndex := 5
      bConnected := true
      Features := [Sample.Vibrator] }

/-- A connected session after the handshake, holding the sample device. -/
def Sample.Connected : UButtplugSubsystem where
  bInitialized := true
  ClientName := "X"
  ServerName := "S"
  ServerAddress := "ws://127.0.0.1:12345"
  PingTimer := some 3
  NextMessageId := 3
  MessageBuffer := []
  WebSocket := some { bConnected := true, bDropsOnClose := false }
  LatentStartAction := none
  Devices := [(5, Sample.Device)]
  Events := []

/-- A linear (position) feature in linear slot 0 with a move to one half queued, to be
made in the given number of seconds. -/
def Sample.Positioner (Seconds : ℚ) : UButtplugFeature :=
  { UButtplugFeature.NewObject with
      FeatureType := .Position
      LinearCmdIndex := 0
      bHasQueuedActuation := true
      QueuedActuation := { Value := 1 / 2, Duration := .Finite Seconds } }

/-- A connected device (index 6) with the sample position feature and no timing gap; a
sensor read command waits in its per-tick queue. -/
def Sample.Stroker (Seconds : ℚ) : UButtplugDevice :=
  { UButtplugDevice.NewObject with
      DescriptiveName := "Bar"
      DeviceIndex := 6
      bConnected := true
      Features := [Sample.Positioner Seconds]
      MessageQueue := [{ Id := 0, Fields := .SensorReadCmd 6 0 "Battery" }] }

/-- A vibrating feature in the given scalar slot with the given value queued. -/
def Sample.VibratorAt (Slot : Nat) (Value : ℚ) : UButtplugFeature :=
  { UButtplugFeature.NewObject with
      FeatureType := .Vibrate
      ScalarCmdIndex := Slot
      bHasQueuedActuation := true
      QueuedActuation := { Value := Value, Duration := .Finite 0 } }

/-- A connected device (index 7, no timing gap) with three queued scalar features. -/
def Sample.TripleVibrator : UButtplugDevice :=
  { UButtplugDevice.NewObject with
      DescriptiveName := "Baz"
      DeviceIndex := 7
      bConnected := true
      Features := [Sample.VibratorAt 0 (1 / 4), Sample.VibratorAt 1 (1 / 2),
                   Sample.VibratorAt 2 (3 / 4)] }

/-- A battery sensor in sensor-read slot 0, with one read pending under handle 11. -/
def Sample.Battery : UButtplugFeature :=
  { UButtplugFeature.NewObject with
      FeatureType := .Battery
      SensorReadCmdIndex := 0
      SensorRange := [{ Min := 0, Max := 100 }]
      LatentSensorActions := [11] }

/-- A connected device (index 8) with a vibrating feature and the sample battery sensor. -/
def Sample.Gauge : UButtplugDevice :=
  { UButtplugDevice.NewObject with
      DescriptiveName := "Qux"
      DeviceIndex := 8
      bConnected := true
      Features := [Sample.VibratorAt 0 0, Sample.Battery] }

/-- A connected session holding the sample device and the sample gauge. -/
def Sample.Sensing : UButtplugSubsystem :=
  { Sample.Connected with Devices := [(5, Sample.Device), (8, Sample.Gauge)] }

/-- The device record of the sample `DeviceAdded`: index 5 under the name "Foo". -/
def Sample.Readded : FButtplugMessage.Device :=
  { Name := "Foo", Index := 5, MessageTimingGap := 100, DisplayName := "",
    Messages :=
      { ScalarCmd := [{ FeatureDescriptor := "", StepCount := 20, ActuatorType := "Vibrate",
                        SensorType := "", SensorRange := [] }],
        LinearCmd := [], RotateCmd := [], SensorReadCmd := [], SensorSubscribeCmd := [] } }

/-- A `DeviceAdded` announcing a device with one scalar actuator. -/
def Sample.DeviceAdded : FButtplugMessage where
  Id := 0
  Fields := .DeviceAdded
    { Name := "Foo", Index := 5, MessageTimingGap := 100, DisplayName := "",
      Messages :=
        { ScalarCmd := [{ FeatureDescriptor := "", StepCount := 20, ActuatorType := "Vibrate",
                          SensorType := "", SensorRange := [] }],
          LinearCmd := [], RotateCmd := [], SensorReadCmd := [], SensorSubscribeCmd := [] } }

/-- A device record announcing index 9 with one pressure sensor that can be subscribed
to. -/
def Sample.Subscribable : FButtplugMessage.Device :=
  { Name := "Pad", Index := 9, MessageTimingGap := 0, DisplayName := "",
    Messages :=
      { ScalarCmd := [], LinearCmd := [], RotateCmd := [], SensorReadCmd := [],
        SensorSubscribeCmd := [{ FeatureDescriptor := "pressure", StepCount := 0,
                                 ActuatorType := "", SensorType := "Pressure",
                                 SensorRange := [{ Min := 0, Max := 1000 }] }] } }

/-- The device the `DeviceAdded` handler builds from the subscribable sample record. -/
def Sample.Pad : UButtplugDevice :=
  ((UButtplugSubsystem.MakeDevice Sample.Subscribable).SetConnected true).1

/-- A frame holding a `DeviceAdded` for index 5 with one scalar actuator and one battery
sensor that can be read, as the engine parser hands it over. -/
def Sample.DeviceFrame : Option (List FJsonValue) :=
  some [.object [("DeviceAdded", .object
    [("Id", .number 0), ("DeviceName", .string "Foo"), ("DeviceIndex", .number 5),
     ("DeviceMessageTimingGap", .number 100),
     ("DeviceMessages", .object
       [("ScalarCmd", .array [.object
          [("StepCount", .number 20), ("ActuatorType", .string "Vibrate")]]),
        ("SensorReadCmd", .array [.object
          [("SensorType", .string "Battery")]])])])]]

/-- A short life of a session: it is initialised, a client is started, the transport
opens, and the sample device frame arrives. -/
def Sample.Steps : List FSessionStep :=
  [.Initialize "App",
   .StartClient (fun Name => Name) false "X" "ws://127.0.0.1:12345",
   .SocketOpened,
   .SocketMessage Sample.DeviceFrame]

/-- The session at the end of the sample steps. -/
def Sample.Listed : UButtplugSubsystem where
  bInitialized := true
  ClientName := "X"
  ServerName := ""
  ServerAddress := "ws://127.0.0.1:12345"
  PingTimer := none
  NextMessageId := 2
  MessageBuffer := [{ Id := 1, Fields := .RequestServerInfo "X" 3 }]
  WebSocket := some { bConnected := true, bDropsOnClose := false }
  LatentStartAction := none
  Devices :=
    [(5, { UButtplugDevice.NewObject with
             DescriptiveName := "Foo"
             DefaultMessageTimingGap := 1 / 10
             DeviceIndex := 5
             bConnected := true
             Features :=
               [{ UButtplugFeature.NewObject with
                    ScalarCmdIndex := 0, ActuatorStepCount := 20, FeatureType := .Vibrate },
                { UButtplugFeature.NewObject with
                    SensorReadCmdIndex := 0, FeatureType := .Battery }] })]
  Events := [.SocketConnect "ws://127.0.0.1:12345", .Device 5 .OnConnected, .OnDeviceAdded 5]

/-- A device record announcing index 4 with one battery sensor that can be read, its
range running from 10 to 110. -/
def Sample.Metered : FButtplugMessage.Device :=
  { Name := "Cell", Index := 4, MessageTimingGap := 0, DisplayName := "",
    Messages :=
      { ScalarCmd := [], LinearCmd := [], RotateCmd := [],
        SensorReadCmd := [{ FeatureDescriptor := "", StepCount := 0, ActuatorType := "",
                            SensorType := "Battery",
                            SensorRange := [{ Min := 10, Max := 110 }] }],
        SensorSubscribeCmd := [] } }

/-- A device record announcing index 3 with one scalar actuator whose advertised type,
"Heat", is not an enumerator of `EButtplugFeatureType`. -/
def Sample.Heated : FButtplugMessage.Device :=
  { Name := "Pad", Index := 3, MessageTimingGap := 0, DisplayName := "",
    Messages :=
      { ScalarCmd := [{ FeatureDescriptor := "", StepCount := 10, ActuatorType := "Heat",
                        SensorType := "", SensorRange := [] }],
        LinearCmd := [], RotateCmd := [], SensorReadCmd := [], SensorSubscribeCmd := [] } }

/-- A frame holding one valid message and one object with an unrecognised key, as the
engine parser hands it over. -/
def Sample.GarbledFrame : Option (List FJsonValue) :=
  some [.object [("ScanningFinished", .object [("Id", .number 0)])],
        .object [("Bogus", .object [])]]

/-! # Theorems -/

/-! ## Helper lemmas -/

/-- The exponent of the leading bit of a positive rational, from its two bounds. -/
theorem RoundToFloat.log_eq (Value : ℚ) (Exponent : ℤ) (hLow : (2 : ℚ) ^ Exponent ≤ Value)
    (hHigh : Value < (2 : ℚ) ^ (Exponent + 1)) : Int.log 2 Value = Exponent := by
  have hPos : 0 < Value := lt_of_lt_of_le (by positivity) hLow
  have h1 : Exponent ≤ Int.log 2 Value :=
    (Int.zpow_le_iff_le_log (by norm_num) hPos).mp (by exact_mod_cast hLow)
  have h2 : Int.log 2 Value < Exponent + 1 :=
    (Int.lt_zpow_iff_log_lt (by norm_num) hPos).mp (by exact_mod_cast hHigh)
  omega

/-- Rounding to a `float`, given the exponent of the leading bit. -/
theorem RoundToFloat.of_exponent (Value : ℚ) (Exponent : ℤ)
    (hLow : (2 : ℚ) ^ Exponent ≤ |Value|) (hHigh : |Value| < (2 : ℚ) ^ (Exponent + 1)) :
    RoundToFloat Value =
      ClampToFloat
        ((RoundHalfEven (Value / (2 : ℚ) ^ (max Exponent (-126) - 23)) : ℚ)
          * (2 : ℚ) ^ (max Exponent (-126) - 23)) := by
  have hNe : Value ≠ 0 := by
    intro h
    rw [h, abs_zero] at hLow
    exact absurd hLow (not_le.mpr (by positivity))
  unfold RoundToFloat
  rw [if_neg hNe, RoundToFloat.log_eq _ Exponent hLow hHigh]

/-- Adding to the `float` zero rounds the addend. -/
theorem FloatAdd.zero_left (B : ℚ) (hB : |B| < (2 : ℚ) ^ 128) :
    FloatAdd 0 B = RoundToFloat B := by
  unfold FloatAdd FloatInfinity
  rw [if_neg (by norm_num), if_neg (not_le.mpr hB), zero_add]

/-- The sum of two finite `float`s is the rounded exact sum. -/
theorem FloatAdd.of_finite (A B : ℚ) (hA : |A| < (2 : ℚ) ^ 128) (hB : |B| < (2 : ℚ) ^ 128) :
    FloatAdd A B = RoundToFloat (A + B) := by
  unfold FloatAdd FloatInfinity
  rw [if_neg (not_le.mpr hA), if_neg (not_le.mpr hB)]

/-- The `float` nearest to 1/20 (`0.05f`). -/
theorem RoundToFloat.one_twentieth : RoundToFloat (1 / 20) = 13421773 / 268435456 := by
  rw [RoundToFloat.of_exponent _ (-5) (by norm_num [abs_of_nonneg])
    (by norm_num [abs_of_nonneg])]
  norm_num [RoundHalfEven, ClampToFloat, FloatInfinity]

/-- The `float` nearest to 1/10 (`0.1f`). -/
theorem RoundToFloat.one_tenth : RoundToFloat (1 / 10) = 13421773 / 134217728 := by
  rw [RoundToFloat.of_exponent _ (-4) (by norm_num [abs_of_nonneg])
    (by norm_num [abs_of_nonneg])]
  norm_num [RoundHalfEven, ClampToFloat, FloatInfinity]

/-- The `float` nearest to 1/5 (`0.2f`). -/
theorem RoundToFloat.one_fifth : RoundToFloat (1 / 5) = 13421773 / 67108864 := by
  rw [RoundToFloat.of_exponent _ (-3) (by norm_num [abs_of_nonneg])
    (by norm_num [abs_of_nonneg])]
  norm_num [RoundHalfEven, ClampToFloat, FloatInfinity]

/-- The `float` nearest to 3/100 (`0.03f`). -/
theorem RoundToFloat.three_hundredths : RoundToFloat (3 / 100) = 16106127 / 536870912 := by
  rw [RoundToFloat.of_exponent _ (-6) (by norm_num [abs_of_nonneg])
    (by norm_num [abs_of_nonneg])]
  norm_num [RoundHalfEven, ClampToFloat, FloatInfinity]

/-- The `float` nearest to 3/10 (`0.3f`). -/
theorem RoundToFloat.three_tenths : RoundToFloat (3 / 10) = 5033165 / 16777216 := by
  rw [RoundToFloat.of_exponent _ (-2) (by norm_num [abs_of_nonneg])
    (by norm_num [abs_of_nonneg])]
  norm_num [RoundHalfEven, ClampToFloat, FloatInfinity]

/-- The `float` sum `0.05f + 0.03f`. -/
theorem FloatAdd.twentieth_three_hundredths :
    FloatAdd (13421773 / 268435456) (16106127 / 536870912) = 5368709 / 67108864 := by
  rw [FloatAdd.of_finite _ _ (by norm_num [abs_of_nonneg]) (by norm_num [abs_of_nonneg]),
    RoundToFloat.of_exponent _ (-4) (by norm_num [abs_of_nonneg])
      (by norm_num [abs_of_nonneg])]
  norm_num [RoundHalfEven, ClampToFloat, FloatInfinity]

/-- The `float` sum `(0.05f + 0.03f) + 0.05f`. -/
theorem FloatAdd.eight_hundredths_twentieth :
    FloatAdd (5368709 / 67108864) (13421773 / 268435456) = 1090519 / 8388608 := by
  rw [FloatAdd.of_finite _ _ (by norm_num [abs_of_nonneg]) (by norm_num [abs_of_nonneg]),
    RoundToFloat.of_exponent _ (-3) (by norm_num [abs_of_nonneg])
      (by norm_num [abs_of_nonneg])]
  norm_num [RoundHalfEven, ClampToFloat, FloatInfinity]

/-- The `float` sum `0.2f + 0.1f` is `0.3f`, although the exact sum of the two is below
it. -/
theorem FloatAdd.fifth_tenth :
    FloatAdd (13421773 / 67108864) (13421773 / 134217728) = 5033165 / 16777216 := by
  rw [FloatAdd.of_finite _ _ (by norm_num [abs_of_nonneg]) (by norm_num [abs_of_nonneg]),
    RoundToFloat.of_exponent _ (-2) (by norm_num [abs_of_nonneg])
      (by norm_num [abs_of_nonneg])]
  norm_num [RoundHalfEven, ClampToFloat, FloatInfinity]

/-- Nothing added to the `float` zero. -/
theorem FloatAdd.zero_zero : FloatAdd 0 0 = 0 := by
  unfold FloatAdd RoundToFloat FloatInfinity
  norm_num

/-- The `float` sum `0.0f + 0.1f`, the addend given as the rational 1/10. -/
theorem FloatAdd.zero_one_tenth : FloatAdd 0 (1 / 10) = 13421773 / 134217728 := by
  rw [FloatAdd.zero_left _ (by norm_num [abs_of_nonneg]), RoundToFloat.one_tenth]

/-- The `float` sum `0.0f + 0.2f`, the addend given as the rational 1/5. -/
theorem FloatAdd.zero_one_fifth : FloatAdd 0 (1 / 5) = 13421773 / 67108864 := by
  rw [FloatAdd.zero_left _ (by norm_num [abs_of_nonneg]), RoundToFloat.one_fifth]

/-- The `float` sum `0.2f + 0.01f`, the addend given as the rational 1/100. -/
theorem FloatAdd.fifth_hundredth :
    FloatAdd (13421773 / 67108864) (1 / 100) = 7046431 / 33554432 := by
  rw [FloatAdd.of_finite _ _ (by norm_num [abs_of_nonneg]) (by norm_num [abs_of_nonneg]),
    RoundToFloat.of_exponent _ (-3) (by norm_num [abs_of_nonneg])
      (by norm_num [abs_of_nonneg])]
  norm_num [RoundHalfEven, ClampToFloat, FloatInfinity]

/-- The `float` sum `0.2f + 0.2f`, the addend given as the rational 1/5. -/
theorem FloatAdd.fifth_fifth :
    FloatAdd (13421773 / 67108864) (1 / 5) = 13421773 / 33554432 := by
  rw [FloatAdd.of_finite _ _ (by norm_num [abs_of_nonneg]) (by norm_num [abs_of_nonneg]),
    RoundToFloat.of_exponent _ (-2) (by norm_num [abs_of_nonneg])
      (by norm_num [abs_of_nonneg])]
  norm_num [RoundHalfEven, ClampToFloat, FloatInfinity]

/-- The `float` product `-1.0f * 1000`. -/
theorem FloatMul.neg_one_thousand : FloatMul (-1) 1000 = -1000 := by
  unfold FloatMul
  rw [RoundToFloat.of_exponent _ 9 (by norm_num) (by norm_num)]
  norm_num [RoundHalfEven, ClampToFloat, FloatInfinity]

/-- The `float` product `1.5f * 1000`. -/
theorem FloatMul.three_halves_thousand : FloatMul (3 / 2) 1000 = 1500 := by
  unfold FloatMul
  rw [RoundToFloat.of_exponent _ 10 (by norm_num) (by norm_num)]
  norm_num [RoundHalfEven, ClampToFloat, FloatInfinity]

/-- The `float` nearest to 1/400 (`0.0025f`), which is below 1/400. -/
theorem RoundToFloat.one_four_hundredth :
    RoundToFloat (1 / 400) = 5368709 / 2147483648 := by
  rw [RoundToFloat.of_exponent _ (-9) (by norm_num [abs_of_nonneg])
    (by norm_num [abs_of_nonneg])]
  norm_num [RoundHalfEven, ClampToFloat, FloatInfinity]

/-- The `float` product `0.0025f * 1000` is `2.5f`, although the exact product is below
it. -/
theorem FloatMul.four_hundredth_thousand :
    FloatMul (5368709 / 2147483648) 1000 = 5 / 2 := by
  unfold FloatMul
  rw [RoundToFloat.of_exponent _ 1 (by norm_num [abs_of_nonneg])
    (by norm_num [abs_of_nonneg])]
  norm_num [RoundHalfEven, ClampToFloat, FloatInfinity]

/-- One is a `float`. -/
theorem RoundToFloat.one : RoundToFloat 1 = 1 := by
  rw [RoundToFloat.of_exponent _ 0 (by norm_num) (by norm_num)]
  norm_num [RoundHalfEven, ClampToFloat, FloatInfinity]

/-- The `float` sum `0.0f + 1.0f`. -/
theorem FloatAdd.zero_one : FloatAdd 0 1 = 1 := by
  rw [FloatAdd.zero_left _ (by norm_num), RoundToFloat.one]

theorem UButtplugSubsystem.EnqueueMessage_ok (S : UButtplugSubsystem) (M : FButtplugMessage)
    (h : S.IsConnected = true) :
    S.EnqueueMessage M = .ok { S with
      NextMessageId := (S.NextMessageId + 1) % UINT32_MODULUS
      MessageBuffer := S.MessageBuffer ++ [{ M with Id := S.NextMessageId }] } := by
  simp [UButtplugSubsystem.EnqueueMessage, h]

theorem EButtplugMessageType.mem_Enumerators (T : EButtplugMessageType) :
    T ∈ EButtplugMessageType.Enumerators := by
  cases T <;> simp [EButtplugMessageType.Enumerators]

theorem EButtplugMessageType.GetEnumByName_isSome_iff (InName : String) :
    (EButtplugMessageType.GetEnumByName InName).isSome = true ↔
      ∃ T : EButtplugMessageType, T.GetEnumAsString = InName := by
  have h : EButtplugMessageType.GetEnumByName InName
      = EButtplugMessageType.Enumerators.find? (fun T => T.GetEnumAsString == InName) := by
    unfold EButtplugMessageType.GetEnumByName EButtplugMessageType.GetIndexByNameString
    cases List.find? (fun T => T.GetEnumAsString == InName)
      EButtplugMessageType.Enumerators <;> rfl
  rw [h, List.find?_isSome]
  constructor
  · rintro ⟨T, _, hT⟩
    exact ⟨T, by simpa using hT⟩
  · rintro ⟨T, hT⟩
    exact ⟨T, EButtplugMessageType.mem_Enumerators T, by simpa using hT⟩

theorem ReadButtplugMessagesFromJson.Fields_flag (JsonObject : FJsonObject) (bSuccess : Bool)
    (OutMessages : FButtplugMessageArray) :
    (ReadButtplugMessagesFromJson.Fields JsonObject (bSuccess, OutMessages)).1 =
      (bSuccess && JsonObject.all (fun Field =>
        (EButtplugMessageType.GetEnumByName Field.1).isSome)) := by
  induction JsonObject generalizing bSuccess OutMessages with
  | nil => simp [ReadButtplugMessagesFromJson.Fields]
  | cons Field Rest ih =>
      unfold ReadButtplugMessagesFromJson.Fields
      cases h : EButtplugMessageType.GetEnumByName Field.1 with
      | none => simp [ih, h]
      | some T => simp [ih, h, FButtplugMessage.FromJson, FJsonSerializable.FromJsonResult]

theorem ReadButtplugMessagesFromJson.Values_flag (JsonValueArray : List FJsonValue)
    (bSuccess : Bool) (OutMessages : FButtplugMessageArray) :
    (ReadButtplugMessagesFromJson.Values JsonValueArray (bSuccess, OutMessages)).1 =
      (bSuccess && JsonValueArray.all (fun JsonValue =>
        JsonValue.AsObject.length != 0 && JsonValue.AsObject.all (fun Field =>
          (EButtplugMessageType.GetEnumByName Field.1).isSome))) := by
  induction JsonValueArray generalizing bSuccess OutMessages with
  | nil => simp [ReadButtplugMessagesFromJson.Values]
  | cons JsonValue Rest ih =>
      unfold ReadButtplugMessagesFromJson.Values
      simp only []
      rw [← Prod.mk.eta (p := ReadButtplugMessagesFromJson.Fields _ _), ih,
        ReadButtplugMessagesFromJson.Fields_flag]
      simp [Bool.and_assoc]

theorem RoundHalfUp_natCast (n : ℕ) : RoundHalfUp (n : ℚ) = n := by
  unfold RoundHalfUp
  rw [Int.floor_eq_iff]
  constructor <;> push_cast <;> linarith

theorem RoundHalfUp_intCast (z : ℤ) : RoundHalfUp (z : ℚ) = z := by
  unfold RoundHalfUp
  rw [Int.floor_eq_iff]
  constructor <;> linarith

theorem RoundToInt32_intCast (z : ℤ) (h : -2147483648 ≤ z ∧ z ≤ 2147483647) :
    RoundToInt32 (z : ℚ) = z := by
  simp [RoundToInt32, RoundHalfUp_intCast, h]

theorem natCast_le_MAX_uint32 (n : ℕ) (h : n ≤ MAX_uint32) : (n : ℚ) ≤ (MAX_uint32 : ℚ) := by
  exact_mod_cast h

theorem FButtplugMessage.Scalar.roundtrip_Scalar (Scalar : FButtplugMessage.Scalar)
    (h : Scalar.InRange) :
    FButtplugMessage.Scalar.FromJson (FJsonValue.object Scalar.ToJson).AsObject = Scalar := by
  unfold FButtplugMessage.Scalar.InRange at h
  simp [FButtplugMessage.Scalar.FromJson, FButtplugMessage.Scalar.ToJson, FJsonValue.AsObject,
    FJsonSerializerReader.SerializeUInt32, FJsonSerializerReader.SerializeDouble,
    FJsonSerializerReader.SerializeString, FJsonObject.GetField, RoundHalfUp_natCast,
    natCast_le_MAX_uint32 _ h]

theorem FButtplugMessage.Vector.roundtrip_Vector (Vector : FButtplugMessage.Vector)
    (h : Vector.InRange) :
    FButtplugMessage.Vector.FromJson (FJsonValue.object Vector.ToJson).AsObject = Vector := by
  unfold FButtplugMessage.Vector.InRange at h
  simp [FButtplugMessage.Vector.FromJson, FButtplugMessage.Vector.ToJson, FJsonValue.AsObject,
    FJsonSerializerReader.SerializeUInt32, FJsonSerializerReader.SerializeDouble,
    FJsonObject.GetField, RoundHalfUp_natCast,
    natCast_le_MAX_uint32 _ h.1, natCast_le_MAX_uint32 _ h.2]

theorem FButtplugMessage.Rotation.roundtrip_Rotation (Rotation : FButtplugMessage.Rotation)
    (h : Rotation.InRange) :
    FButtplugMessage.Rotation.FromJson (FJsonValue.object Rotation.ToJson).AsObject
      = Rotation := by
  unfold FButtplugMessage.Rotation.InRange at h
  simp [FButtplugMessage.Rotation.FromJson, FButtplugMessage.Rotation.ToJson,
    FJsonValue.AsObject, FJsonSerializerReader.SerializeUInt32,
    FJsonSerializerReader.SerializeDouble, FJsonSerializerReader.SerializeBool,
    FJsonObject.GetField, RoundHalfUp_natCast, natCast_le_MAX_uint32 _ h]

theorem FButtplugMessage.DeviceMessageAttributes.ArrayToJson_nil_of_isEmpty
    (l : List FButtplugMessage.DeviceMessageAttributes) (h : l.isEmpty = true) :
    FButtplugMessage.DeviceMessageAttributes.ArrayToJson l = .ok [] := by
  cases l with
  | nil => rfl
  | cons a l => simp at h

theorem FButtplugMessage.Device.ToJson_of_no_attributes (Device : FButtplugMessage.Device)
    (h : Device.HasAttributes = false) :
    Device.ToJson = .ok
      [("DeviceName", .string Device.Name), ("DeviceIndex", .number Device.Index),
       ("DeviceMessageTimingGap", .number Device.MessageTimingGap),
       ("DeviceDisplayName", .string Device.DisplayName),
       ("DeviceMessages", .object
          [("ScalarCmd", .array []), ("LinearCmd", .array []), ("RotateCmd", .array []),
           ("SensorReadCmd", .array []), ("SensorSubscribeCmd", .array [])])] := by
  simp only [FButtplugMessage.Device.HasAttributes, Bool.not_eq_false', Bool.and_eq_true] at h
  obtain ⟨⟨⟨⟨h1, h2⟩, h3⟩, h4⟩, h5⟩ := h
  simp [FButtplugMessage.Device.ToJson, FButtplugMessage.DeviceMessages.ToJson,
    FButtplugMessage.DeviceMessageAttributes.ArrayToJson_nil_of_isEmpty, h1, h2, h3, h4, h5,
    bind, Except.bind, pure, Except.pure]

theorem FButtplugMessage.Device.ToJson_of_attributes (Device : FButtplugMessage.Device)
    (h : Device.HasAttributes = true) : Device.ToJson = .error .Unimplemented := by
  obtain ⟨Name, Index, Gap, Display, ⟨a, b, c, d, e⟩⟩ := Device
  cases a <;> cases b <;> cases c <;> cases d <;> cases e <;>
    simp_all [FButtplugMessage.Device.HasAttributes, FButtplugMessage.Device.ToJson,
      FButtplugMessage.DeviceMessages.ToJson,
      FButtplugMessage.DeviceMessageAttributes.ArrayToJson,
      FButtplugMessage.DeviceMessageAttributes.ToJson, bind, Except.bind, pure, Except.pure]

theorem FButtplugMessage.Device.roundtrip_Device (Device : FButtplugMessage.Device)
    (hRange : Device.InRange) (h : Device.HasAttributes = false) :
    ∃ Object, Device.ToJson = .ok Object ∧ FButtplugMessage.Device.FromJson Object = Device := by
  refine ⟨_, FButtplugMessage.Device.ToJson_of_no_attributes Device h, ?_⟩
  simp only [FButtplugMessage.Device.HasAttributes, Bool.not_eq_false', Bool.and_eq_true,
    List.isEmpty_iff] at h
  obtain ⟨⟨⟨⟨h1, h2⟩, h3⟩, h4⟩, h5⟩ := h
  obtain ⟨Name, Index, Gap, Display, ⟨a, b, c, d, e⟩⟩ := Device
  simp only at h1 h2 h3 h4 h5
  subst h1 h2 h3 h4 h5
  unfold FButtplugMessage.Device.InRange at hRange
  simp [FButtplugMessage.Device.FromJson, FButtplugMessage.DeviceMessages.FromJson,
    FJsonSerializerReader.SerializeUInt32, FJsonSerializerReader.SerializeString,
    FJsonSerializerReader.SerializeArraySerializable,
    FJsonObject.GetField, RoundHalfUp_natCast,
    natCast_le_MAX_uint32 _ hRange.1, natCast_le_MAX_uint32 _ hRange.2]

theorem FButtplugMessage.Device.FromJson_flat (Device : FButtplugMessage.Device)
    (hRange : Device.InRange) (h : Device.HasAttributes = false) :
    FButtplugMessage.Device.FromJson
      [("DeviceName", .string Device.Name), ("DeviceIndex", .number Device.Index),
       ("DeviceMessageTimingGap", .number Device.MessageTimingGap),
       ("DeviceDisplayName", .string Device.DisplayName),
       ("DeviceMessages", .object
          [("ScalarCmd", .array []), ("LinearCmd", .array []), ("RotateCmd", .array []),
           ("SensorReadCmd", .array []), ("SensorSubscribeCmd", .array [])])] = Device := by
  obtain ⟨Object, hTo, hFrom⟩ := FButtplugMessage.Device.roundtrip_Device Device hRange h
  rw [FButtplugMessage.Device.ToJson_of_no_attributes Device h] at hTo
  cases hTo
  exact hFrom

theorem FButtplugMessage.Device.ArrayToJson_of_no_attributes
    (Devices : List FButtplugMessage.Device)
    (h : Devices.any (fun Device => Device.HasAttributes) = false) :
    FButtplugMessage.Device.ArrayToJson Devices = .ok (Devices.map (fun Device =>
      .object
        [("DeviceName", .string Device.Name), ("DeviceIndex", .number Device.Index),
         ("DeviceMessageTimingGap", .number Device.MessageTimingGap),
         ("DeviceDisplayName", .string Device.DisplayName),
         ("DeviceMessages", .object
            [("ScalarCmd", .array []), ("LinearCmd", .array []), ("RotateCmd", .array []),
             ("SensorReadCmd", .array []), ("SensorSubscribeCmd", .array [])])])) := by
  induction Devices with
  | nil => rfl
  | cons Device Rest ih =>
      simp only [List.any_cons, Bool.or_eq_false_iff] at h
      simp [FButtplugMessage.Device.ArrayToJson,
        FButtplugMessage.Device.ToJson_of_no_attributes Device h.1, ih h.2, bind, Except.bind,
        pure, Except.pure]

theorem FButtplugMessage.Device.ArrayToJson_of_attributes
    (Devices : List FButtplugMessage.Device)
    (h : Devices.any (fun Device => Device.HasAttributes) = true) :
    FButtplugMessage.Device.ArrayToJson Devices = .error .Unimplemented := by
  induction Devices with
  | nil => simp at h
  | cons Device Rest ih =>
      cases hD : Device.HasAttributes with
      | true =>
          simp [FButtplugMessage.Device.ArrayToJson,
            FButtplugMessage.Device.ToJson_of_attributes Device hD, bind, Except.bind]
      | false =>
          simp only [List.any_cons, hD, Bool.false_or] at h
          simp [FButtplugMessage.Device.ArrayToJson,
            FButtplugMessage.Device.ToJson_of_no_attributes Device hD, ih h, bind, Except.bind]

theorem FJsonValue.AsObject_object (Values : List (String × FJsonValue)) :
    (FJsonValue.object Values).AsObject = Values := rfl

theorem FJsonValue.AsNumber_number (Value : ℚ) : (FJsonValue.number Value).AsNumber = Value :=
  rfl

theorem map_eq_self_of_forall {α : Type} (f : α → α) (l : List α)
    (h : ∀ a ∈ l, f a = a) : l.map f = l := by
  induction l with
  | nil => rfl
  | cons a l ih =>
      simp only [List.map_cons, List.cons.injEq]
      exact ⟨h a (by simp), ih (fun b hb => h b (by simp [hb]))⟩

theorem FButtplugMessage.Device.FromJson_cons_Id (Value : FJsonValue) (Object : FJsonObject) :
    FButtplugMessage.Device.FromJson (("Id", Value) :: Object)
      = FButtplugMessage.Device.FromJson Object := by
  simp [FButtplugMessage.Device.FromJson, FJsonSerializerReader.SerializeUInt32,
    FJsonSerializerReader.SerializeString, FJsonObject.GetField]

theorem WriteButtplugMessagesToJson_singleton (Message : FButtplugMessage)
    (Object : FJsonObject) (h : Message.ToJson = .ok Object) :
    WriteButtplugMessagesToJson [Message] =
      .ok [.object [(Message.GetMessageType.GetEnumAsString, .object Object)]] := by
  simp [WriteButtplugMessagesToJson, WriteButtplugMessagesToJson.Elements, h, bind,
    Except.bind, pure, Except.pure]

theorem WriteButtplugMessagesToJson_singleton_error (Message : FButtplugMessage)
    (Error : Fault) (h : Message.ToJson = .error Error) :
    WriteButtplugMessagesToJson [Message] = .error Error := by
  simp [WriteButtplugMessagesToJson, WriteButtplugMessagesToJson.Elements, h, bind,
    Except.bind]

theorem FButtplugMessage.ToJson_DeviceList (Id : Nat) (Devices : List FButtplugMessage.Device)
    (Array : List FJsonValue) (h : FButtplugMessage.Device.ArrayToJson Devices = .ok Array) :
    FButtplugMessage.ToJson { Id := Id, Fields := .DeviceList Devices }
      = .ok [("Id", .number Id), ("Devices", .array Array)] := by
  simp [FButtplugMessage.ToJson, h, bind, Except.bind, pure, Except.pure]

theorem FButtplugMessage.ToJson_DeviceAdded (Id : Nat) (Device : FButtplugMessage.Device)
    (Flat : FJsonObject) (h : Device.ToJson = .ok Flat) :
    FButtplugMessage.ToJson { Id := Id, Fields := .DeviceAdded Device }
      = .ok (("Id", .number Id) :: Flat) := by
  simp [FButtplugMessage.ToJson, h, bind, Except.bind, pure, Except.pure]

/-- Enqueuing a list of messages in a connected session: the ids handed out are the
counter values reduced modulo `2 ^ 32`, the other members of the messages are kept, and
only the counter and the buffer change. -/
theorem UButtplugSubsystem.EnqueueMessages_ok (Ms : FButtplugMessageArray) :
    ∀ S : UButtplugSubsystem, S.IsConnected = true → S.NextMessageId < UINT32_MODULUS →
      ∃ S' : UButtplugSubsystem, S.EnqueueMessages Ms = .ok S' ∧
        S'.MessageBuffer.map (fun M => M.Id) = S.MessageBuffer.map (fun M => M.Id) ++
          (List.range Ms.length).map (fun i => (S.NextMessageId + i) % UINT32_MODULUS) ∧
        S'.MessageBuffer.map (fun M => M.Fields) =
          S.MessageBuffer.map (fun M => M.Fields) ++ Ms.map (fun M => M.Fields) ∧
        S'.NextMessageId = (S.NextMessageId + Ms.length) % UINT32_MODULUS ∧
        S'.WebSocket = S.WebSocket ∧ S'.Devices = S.Devices ∧ S'.Events = S.Events ∧
        S'.PingTimer = S.PingTimer ∧ S'.LatentStartAction = S.LatentStartAction := by
  induction Ms with
  | nil =>
      intro S _ hLt
      exact ⟨S, rfl, by simp, by simp, by simp [Nat.mod_eq_of_lt hLt], rfl, rfl, rfl, rfl, rfl⟩
  | cons M Rest ih =>
      intro S hC hLt
      have hStep := UButtplugSubsystem.EnqueueMessage_ok S M hC
      obtain ⟨S', hRun, hIds, hFields, hNext, hSock, hDev, hEv, hPing, hLat⟩ :=
        ih { S with
              NextMessageId := (S.NextMessageId + 1) % UINT32_MODULUS
              MessageBuffer := S.MessageBuffer ++ [{ M with Id := S.NextMessageId }] }
          (by simpa [UButtplugSubsystem.IsConnected] using hC)
          (Nat.mod_lt _ (by decide))
      refine ⟨S', ?_, ?_, ?_, ?_, hSock, hDev, hEv, hPing, hLat⟩
      · simp [UButtplugSubsystem.EnqueueMessages, hStep, bind, Except.bind, hRun]
      · rw [hIds]
        simp only [List.map_append, List.map_cons, List.map_nil, List.append_assoc,
          List.singleton_append, List.length_cons, List.range_succ_eq_map, List.map_map,
          Nat.add_zero, Nat.mod_eq_of_lt hLt]
        congr 2
        apply List.map_congr_left
        intro i _
        simp only [Function.comp, UINT32_MODULUS]
        omega
      · rw [hFields]
        simp
      · rw [hNext]
        simp only [List.length_cons, UINT32_MODULUS]
        omega

/-- Enqueuing a list of messages in a connected session succeeds; the buffer grows by the
messages in order (with ids assigned), and nothing else changes but the counter. -/
theorem UButtplugSubsystem.EnqueueMessages_spec (Ms : FButtplugMessageArray) :
    ∀ S : UButtplugSubsystem, S.IsConnected = true →
      ∃ (S' : UButtplugSubsystem) (E : FButtplugMessageArray),
        S.EnqueueMessages Ms = .ok S' ∧
        S'.MessageBuffer = S.MessageBuffer ++ E ∧
        E.map (fun M => M.Fields) = Ms.map (fun M => M.Fields) ∧
        (∀ M, E.head? = some M → M.Id = S.NextMessageId) ∧
        (Ms = [] → S' = S) ∧
        S'.WebSocket = S.WebSocket ∧ S'.Devices = S.Devices ∧ S'.Events = S.Events ∧
        S'.PingTimer = S.PingTimer ∧ S'.LatentStartAction = S.LatentStartAction := by
  induction Ms with
  | nil =>
      intro S _
      exact ⟨S, [], rfl, by simp, rfl, by simp, fun _ => rfl, rfl, rfl, rfl, rfl, rfl⟩
  | cons M Rest ih =>
      intro S hC
      have hStep := UButtplugSubsystem.EnqueueMessage_ok S M hC
      obtain ⟨S', E, hRun, hBuf, hFields, -, -, hSock, hDev, hEv, hPing, hLat⟩ :=
        ih { S with
              NextMessageId := (S.NextMessageId + 1) % UINT32_MODULUS
              MessageBuffer := S.MessageBuffer ++ [{ M with Id := S.NextMessageId }] }
          (by simpa [UButtplugSubsystem.IsConnected] using hC)
      refine ⟨S', { M with Id := S.NextMessageId } :: E, ?_, ?_, ?_, ?_, by simp,
        hSock, hDev, hEv, hPing, hLat⟩
      · simp [UButtplugSubsystem.EnqueueMessages, hStep, bind, Except.bind, hRun]
      · rw [hBuf]; simp
      · simp [hFields]
      · intro M' hM'
        simp at hM'
        rw [← hM']

/-- The feature loop of the flush succeeds when queued actuations sit on actuators: every
queued flag is cleared and the queued features are routed in order. -/
theorem UButtplugDevice.FlushFeatures_spec (Fs : List UButtplugFeature) :
    ∀ C : FFlushCommands,
      (∀ F ∈ Fs, F.bHasQueuedActuation = true → F.IsActuator = true) →
      UButtplugDevice.FlushFeatures Fs C =
        .ok (Fs.map (fun F => { F with bHasQueuedActuation := false }),
             (Fs.filter (fun F => F.bHasQueuedActuation)).foldl FFlushCommands.Route C) := by
  induction Fs with
  | nil => intro C _; rfl
  | cons F Rest ih =>
      intro C h
      have hRest : ∀ G ∈ Rest, G.bHasQueuedActuation = true → G.IsActuator = true :=
        fun G hG => h G (by simp [hG])
      unfold UButtplugDevice.FlushFeatures
      cases hQ : F.bHasQueuedActuation with
      | true =>
          have hA := h F (by simp) hQ
          simp [hA, ih _ hRest, bind, Except.bind, pure, Except.pure, hQ]
      | false =>
          simp [ih _ hRest, bind, Except.bind, pure, Except.pure, hQ]
          cases F
          simp_all

/-- A flush that does not pass the timing gate only advances the timer. -/
theorem UButtplugDevice.FlushMessageQueue_gated (D : UButtplugDevice) (S : UButtplugSubsystem)
    (DeltaTime : ℚ) (hGate : FloatAdd D.TimeSinceLastMessage DeltaTime < D.GetMessageTimingGap) :
    D.FlushMessageQueue S DeltaTime =
      .ok ({ D with TimeSinceLastMessage := FloatAdd D.TimeSinceLastMessage DeltaTime }, S) := by
  have hGap : UButtplugDevice.GetMessageTimingGap
      { D with TimeSinceLastMessage := FloatAdd D.TimeSinceLastMessage DeltaTime }
        = D.GetMessageTimingGap := rfl
  simp [UButtplugDevice.FlushMessageQueue, hGap, hGate]

/-- A flush that passes the timing gate with a stop request pending: one `StopDeviceCmd`
is enqueued, every queued flag is cleared and the per-tick queue is handed over. -/
theorem UButtplugDevice.FlushMessageQueue_stop (D : UButtplugDevice) (S : UButtplugSubsystem)
    (DeltaTime : ℚ) (hGate : ¬ FloatAdd D.TimeSinceLastMessage DeltaTime < D.GetMessageTimingGap)
    (hC : S.IsConnected = true) (hStop : D.bHasQueuedStopDevice = true) :
    ∃ (S' : UButtplugSubsystem) (E : FButtplugMessageArray),
      D.FlushMessageQueue S DeltaTime =
        .ok ({ D with
                TimeSinceLastMessage := FloatAdd D.TimeSinceLastMessage DeltaTime
                Features := D.Features.map (fun F => { F with bHasQueuedActuation := false })
                MessageQueue := [] }, S') ∧
      S'.MessageBuffer =
        S.MessageBuffer ++ { Id := S.NextMessageId, Fields := .StopDeviceCmd D.DeviceIndex } :: E ∧
      E.map (fun M => M.Fields) = D.MessageQueue.map (fun M => M.Fields) ∧
      S'.WebSocket = S.WebSocket ∧ S'.Devices = S.Devices ∧ S'.Events = S.Events ∧
      S'.PingTimer = S.PingTimer ∧ S'.LatentStartAction = S.LatentStartAction := by
  unfold UButtplugDevice.GetMessageTimingGap at hGate
  have hStep := UButtplugSubsystem.EnqueueMessage_ok S
    { Id := 0, Fields := .StopDeviceCmd D.DeviceIndex } hC
  obtain ⟨S2, E2, hRun2, hBuf2, hF2, -, -, hSock2, hDev2, hEv2, hPing2, hLat2⟩ :=
    UButtplugSubsystem.EnqueueMessages_spec D.MessageQueue
      { S with
          NextMessageId := (S.NextMessageId + 1) % UINT32_MODULUS
          MessageBuffer := S.MessageBuffer ++
            [{ Id := S.NextMessageId, Fields := .StopDeviceCmd D.DeviceIndex }] }
      (by simpa [UButtplugSubsystem.IsConnected] using hC)
  refine ⟨S2, E2, ?_, ?_, hF2, hSock2, hDev2, hEv2, hPing2, hLat2⟩
  · simp [UButtplugDevice.FlushMessageQueue, UButtplugDevice.GetMessageTimingGap, hGate,
      hStop, hStep, hRun2, bind, Except.bind, pure, Except.pure]
  · rw [hBuf2]
    simp

/-- A flush that passes the timing gate without a stop request: the queued features are
routed into the command messages, which are enqueued before the per-tick queue. -/
theorem UButtplugDevice.FlushMessageQueue_actuate (D : UButtplugDevice)
    (S : UButtplugSubsystem) (DeltaTime : ℚ)
    (hGate : ¬ FloatAdd D.TimeSinceLastMessage DeltaTime < D.GetMessageTimingGap)
    (hC : S.IsConnected = true) (hQ : D.QueuedAreActuators)
    (hStop : D.bHasQueuedStopDevice = false) :
    ∃ (S' : UButtplugSubsystem) (E : FButtplugMessageArray),
      D.FlushMessageQueue S DeltaTime =
        .ok ({ D with
                TimeSinceLastMessage := FloatAdd D.TimeSinceLastMessage DeltaTime
                Features := D.Features.map (fun F => { F with bHasQueuedActuation := false })
                MessageQueue := [] }, S') ∧
      S'.MessageBuffer = S.MessageBuffer ++ E ∧
      E.map (fun M => M.Fields) =
        (((D.Features.filter (fun F => F.bHasQueuedActuation)).foldl FFlushCommands.Route
            { LinearCmd := none, RotateCmd := none, ScalarCmd := none }).Messages
          D.DeviceIndex).map (fun M => M.Fields)
        ++ D.MessageQueue.map (fun M => M.Fields) ∧
      (∀ M, E.head? = some M → M.Id = S.NextMessageId) ∧
      S'.WebSocket = S.WebSocket ∧ S'.Devices = S.Devices ∧ S'.Events = S.Events ∧
      S'.PingTimer = S.PingTimer ∧ S'.LatentStartAction = S.LatentStartAction := by
  have hConn : ∀ T : UButtplugSubsystem, T.WebSocket = S.WebSocket → T.IsConnected = true := by
    intro T hT
    simpa [UButtplugSubsystem.IsConnected, hT] using hC
  unfold UButtplugDevice.GetMessageTimingGap at hGate
  have hFs := UButtplugDevice.FlushFeatures_spec D.Features
    { LinearCmd := none, RotateCmd := none, ScalarCmd := none } hQ
  obtain ⟨S1, E1, hRun1, hBuf1, hF1, hHead1, hNil1, hSock1, hDev1, hEv1, hPing1, hLat1⟩ :=
    UButtplugSubsystem.EnqueueMessages_spec
      (((D.Features.filter (fun F => F.bHasQueuedActuation)).foldl FFlushCommands.Route
          { LinearCmd := none, RotateCmd := none, ScalarCmd := none }).Messages
        D.DeviceIndex) S hC
  obtain ⟨S2, E2, hRun2, hBuf2, hF2, hHead2, -, hSock2, hDev2, hEv2, hPing2, hLat2⟩ :=
    UButtplugSubsystem.EnqueueMessages_spec D.MessageQueue S1 (hConn S1 hSock1)
  refine ⟨S2, E1 ++ E2, ?_, ?_, ?_, ?_, hSock2.trans hSock1, hDev2.trans hDev1,
    hEv2.trans hEv1, hPing2.trans hPing1, hLat2.trans hLat1⟩
  · simp [UButtplugDevice.FlushMessageQueue, UButtplugDevice.GetMessageTimingGap, hGate,
      hStop, hFs, hRun1, hRun2, bind, Except.bind, pure, Except.pure]
  · rw [hBuf2, hBuf1, List.append_assoc]
  · simp [hF1, hF2]
  · intro M hM
    cases E1 with
    | nil =>
        have hEmpty := hNil1 (by simpa using hF1.symm)
        rw [← hEmpty]
        exact hHead2 M (by simpa using hM)
    | cons a l => exact hHead1 M (by simpa using hM)

/-- A flush that passes the timing gate, in either branch. -/
theorem UButtplugDevice.FlushMessageQueue_open (D : UButtplugDevice) (S : UButtplugSubsystem)
    (DeltaTime : ℚ) (hGate : ¬ FloatAdd D.TimeSinceLastMessage DeltaTime < D.GetMessageTimingGap)
    (hC : S.IsConnected = true) (hQ : D.QueuedAreActuators) :
    ∃ (S' : UButtplugSubsystem) (E : FButtplugMessageArray),
      D.FlushMessageQueue S DeltaTime =
        .ok ({ D with
                TimeSinceLastMessage := FloatAdd D.TimeSinceLastMessage DeltaTime
                Features := D.Features.map (fun F => { F with bHasQueuedActuation := false })
                MessageQueue := [] }, S') ∧
      S'.MessageBuffer = S.MessageBuffer ++ E ∧
      E.map (fun M => M.Fields) =
        (if D.bHasQueuedStopDevice then [TButtplugMessage.StopDeviceCmd D.DeviceIndex]
         else
          (((D.Features.filter (fun F => F.bHasQueuedActuation)).foldl FFlushCommands.Route
              { LinearCmd := none, RotateCmd := none, ScalarCmd := none }).Messages
            D.DeviceIndex).map (fun M => M.Fields))
        ++ D.MessageQueue.map (fun M => M.Fields) ∧
      (∀ M, E.head? = some M → M.Id = S.NextMessageId) ∧
      S'.WebSocket = S.WebSocket ∧ S'.Devices = S.Devices ∧ S'.Events = S.Events ∧
      S'.PingTimer = S.PingTimer ∧ S'.LatentStartAction = S.LatentStartAction := by
  rcases Bool.eq_false_or_eq_true D.bHasQueuedStopDevice with hStop | hStop
  · obtain ⟨S', E, hRun, hBuf, hF, hRest⟩ :=
      UButtplugDevice.FlushMessageQueue_stop D S DeltaTime hGate hC hStop
    exact ⟨S', _ :: E, hRun, hBuf, by simp [hF, hStop], by simp, hRest⟩
  · obtain ⟨S', E, hRun, hBuf, hF, hRest⟩ :=
      UButtplugDevice.FlushMessageQueue_actuate D S DeltaTime hGate hC hQ hStop
    exact ⟨S', E, hRun, hBuf, by simpa [hStop] using hF, hRest⟩

theorem FFlushCommands.Messages_Route_ne_nil (C : FFlushCommands) (F : UButtplugFeature)
    (DeviceIndex : Nat) (h : F.IsActuator = true ∨ C.Messages DeviceIndex ≠ []) :
    (C.Route F).Messages DeviceIndex ≠ [] := by
  obtain ⟨L, R, Sc⟩ := C
  unfold FFlushCommands.Route
  by_cases hL : F.LinearCmdIndex = INDEX_NONE
  · by_cases hR : F.RotateCmdIndex = INDEX_NONE
    · by_cases hS : F.ScalarCmdIndex = INDEX_NONE
      · rcases h with h | h
        · simp [UButtplugFeature.IsActuator, hL, hR, hS] at h
        · simpa [hL, hR, hS] using h
      · cases L <;> cases R <;> simp [FFlushCommands.Messages, hL, hR, hS]
    · cases L <;> cases Sc <;> simp [FFlushCommands.Messages, hL, hR]
  · cases R <;> cases Sc <;> simp [FFlushCommands.Messages, hL]

theorem FFlushCommands.Messages_foldl_Route_ne_nil (Fs : List UButtplugFeature)
    (DeviceIndex : Nat) :
    ∀ C : FFlushCommands, (∀ F ∈ Fs, F.IsActuator = true) →
      (Fs ≠ [] ∨ C.Messages DeviceIndex ≠ []) →
      (Fs.foldl FFlushCommands.Route C).Messages DeviceIndex ≠ [] := by
  induction Fs with
  | nil => intro C _ h; simpa using h
  | cons F Rest ih =>
      intro C hAll _
      simp only [List.foldl_cons]
      apply ih
      · intro G hG; exact hAll G (by simp [hG])
      · right
        exact FFlushCommands.Messages_Route_ne_nil C F DeviceIndex (Or.inl (hAll F (by simp)))

/-- C1: starting from a freshly reset session, a connect request followed by the transport
opening leaves exactly one message in the outbound buffer, `RequestServerInfo` with id 1,
the client name and message version 3. When a `ServerInfo` with message version 3 and
`MaxPingTime` `m` is then handled, the session records the server name, appends
`RequestDeviceList` with id 2 to the buffer, sets the ping timer to `m / 2000` seconds
(3 seconds for `m = 6000`), resolves the pending connect request as `Succeeded` and fires
the connected event. -/
theorem C1_handshake_reaches_connected
    (S0 : UButtplugSubsystem) (Reason : String) (Format : String → String)
    (bDropsOnClose : Bool) (Handle : Nat) (InClientName InServerAddress ServerName : String)
    (Id m : Nat) :
    ∃ Opened Connected Cadence : UButtplugSubsystem,
      ((S0.Reset Reason).AsyncStartClient Format bDropsOnClose false Handle InClientName
        InServerAddress).SocketOpened = .ok Opened ∧
      Opened.MessageBuffer =
        [{ Id := 1,
           Fields := .RequestServerInfo
             (if InClientName.isEmpty then Format UButtplugSubsystem.DefaultClientNameFormat
              else Format InClientName) 3 }] ∧
      Opened.OnServerMessage { Id := Id, Fields := .ServerInfo ServerName 3 m }
        = .ok Connected ∧
      Connected.ServerName = ServerName ∧
      Connected.MessageBuffer =
        Opened.MessageBuffer ++ [{ Id := 2, Fields := .RequestDeviceList }] ∧
      Connected.PingTimer = some ((m : ℚ) / 2000) ∧
      Connected.Events = Opened.Events ++
        [.LatentStartActionReady Handle .Succeeded "", .OnConnected] ∧
      Connected.LatentStartAction = none ∧
      Connected.IsConnected = true ∧
      Opened.OnServerMessage { Id := Id, Fields := .ServerInfo ServerName 3 6000 }
        = .ok Cadence ∧
      Cadence.PingTimer = some 3 := by
  simp [UButtplugSubsystem.Reset, UButtplugSubsystem.AsyncStartClient,
    UButtplugSubsystem.StartClient, UButtplugSubsystem.SocketOpened,
    UButtplugSubsystem.OnSocketConnected, UButtplugSubsystem.EnqueueMessage,
    UButtplugSubsystem.IsConnected, UButtplugSubsystem.OnServerMessage,
    UButtplugSubsystem.OnServerInfo, UButtplugSubsystem.Fire,
    UButtplugSubsystem.StartPingTimer, FButtplugMessage.SpecVersion, UINT32_MODULUS, bind,
    Except.bind, pure, Except.pure]
  norm_num

/-! ## C2: version mismatch -/

/-- C2 (as amended): handling a `ServerInfo` whose message version is not 3, in a session
whose socket exists, stores the server name and calls `Close` with code 1008 on the
socket, and does nothing else: nothing is enqueued (no `RequestDeviceList`), the ping timer
is not started, no connected event fires, the socket is still held and a pending connect
request is still pending and unresolved. The session is disconnected (no socket, empty
buffer, no ping timer) and the pending connect request resolved as `ConnectionFailed` only
by the reset that runs when the transport later reports the close. -/
theorem C2_version_mismatch_closes_with_1008
    (S : UButtplugSubsystem) (Socket : IWebSocket) (hSocket : S.WebSocket = some Socket)
    (Id : Nat) (ServerName : String) (MessageVersion MaxPingTime : Nat)
    (hVersion : MessageVersion ≠ 3) :
    S.OnServerMessage
        { Id := Id, Fields := .ServerInfo ServerName MessageVersion MaxPingTime }
      = .ok { S with
                ServerName := ServerName
                WebSocket := some Socket.Close
                Events := S.Events ++
                  [.SocketClose 1008 "server responded with incompatible protocol version"] } ∧
    ∀ (StatusCode : Int) (Reason : String) (bWasClean : Bool),
      UButtplugSubsystem.SocketClosed
          { S with
              ServerName := ServerName
              WebSocket := some Socket.Close
              Events := S.Events ++
                [.SocketClose 1008 "server responded with incompatible protocol version"] }
          StatusCode Reason bWasClean
        = { S with
              ClientName := ""
              ServerName := ""
              ServerAddress := ""
              PingTimer := none
              NextMessageId := 1
              MessageBuffer := []
              WebSocket := none
              LatentStartAction := none
              Devices := (UButtplugSubsystem.DisconnectDevices S.Devices).1
              Events := S.Events ++
                [.SocketClose 1008 "server responded with incompatible protocol version"]
                ++ (UButtplugSubsystem.DisconnectDevices S.Devices).2
                ++ [.SocketClose 1001 Reason]
                ++ (match S.LatentStartAction with
                    | some Handle => [.LatentStartActionReady Handle .ConnectionFailed Reason]
                    | none => [])
                ++ [.OnDisconnected] } := by
  have hv : (MessageVersion == 3) = false := by simpa using hVersion
  refine ⟨?_, ?_⟩
  · simp [UButtplugSubsystem.OnServerMessage, UButtplugSubsystem.OnServerInfo,
      UButtplugSubsystem.CloseSocket, UButtplugSubsystem.Fire, FButtplugMessage.SpecVersion,
      hSocket, hv]
  · intro StatusCode Reason bWasClean
    cases hPending : S.LatentStartAction <;>
      simp [UButtplugSubsystem.SocketClosed, UButtplugSubsystem.OnSocketClosed,
        UButtplugSubsystem.Reset, UButtplugSubsystem.Fire, hPending]

/-- C2 at a concrete input: the handshaking sample session (socket open, connect request 7
pending) receives a `ServerInfo` with message version 2, and the transport then reports
the close. -/
theorem C2_version_mismatch_closes_with_1008_witness :
    Sample.Handshaking.WebSocket = some { bConnected := true, bDropsOnClose := false } ∧
    (2 : Nat) ≠ 3 ∧
    Sample.Handshaking.OnServerMessage { Id := 0, Fields := .ServerInfo "S" 2 6000 }
      = .ok { Sample.Handshaking with
                ServerName := "S"
                WebSocket := some (IWebSocket.Close { bConnected := true, bDropsOnClose := false })
                Events := Sample.Handshaking.Events ++
                  [.SocketClose 1008 "server responded with incompatible protocol version"] } :=
  ⟨rfl, by decide,
    (C2_version_mismatch_closes_with_1008 Sample.Handshaking _ rfl 0 "S" 2 6000
      (by decide)).1⟩

/-- Counterexample to C2 as stated: after the handshaking sample session (socket open,
connect request 7 pending) has handled a `ServerInfo` with message version 2, the session
still holds its socket, which still answers `IsConnected` with `true`, the connect request
is still pending, and the only thing recorded is the `Close` call: the request has not been
resolved and the session is not disconnected. -/
theorem C2_mismatch_leaves_the_connect_pending :
    (Sample.Handshaking.OnServerMessage { Id := 0, Fields := .ServerInfo "S" 2 6000 }).map
        (fun After => (After.WebSocket.isSome, After.IsConnected, After.LatentStartAction))
      = .ok (true, true, some 7) ∧
    (Sample.Handshaking.OnServerMessage { Id := 0, Fields := .ServerInfo "S" 2 6000 }).map
        (fun After => After.Events)
      = .ok (Sample.Handshaking.Events ++
          [.SocketClose 1008 "server responded with incompatible protocol version"]) := by
  constructor <;>
    simp [UButtplugSubsystem.OnServerMessage, UButtplugSubsystem.OnServerInfo,
      UButtplugSubsystem.CloseSocket, UButtplugSubsystem.Fire, FButtplugMessage.SpecVersion,
      UButtplugSubsystem.IsConnected, IWebSocket.Close, Sample.Handshaking, Except.map]

/-! ## C3: a frame whose decoding fails -/

/-- C3 (evaluation of the code at the failing input): on the garbled sample frame
`ReadButtplugMessagesFromJson` reports failure, yet `OnSocketMessage` dispatches the
message decoded before the unrecognised key and the scanning-finished event fires. -/
theorem C3_failed_frame_is_still_dispatched :
    (ReadButtplugMessagesFromJson Sample.GarbledFrame []).1 = false ∧
    ∃ After : UButtplugSubsystem,
      Sample.Connected.OnSocketMessage Sample.GarbledFrame = .ok After ∧
      After.Events = Sample.Connected.Events ++ [.OnScanningFinished] := by
  constructor
  · decide
  · simp [UButtplugSubsystem.OnSocketMessage, Sample.GarbledFrame,
      ReadButtplugMessagesFromJson, ReadButtplugMessagesFromJson.Values,
      ReadButtplugMessagesFromJson.Fields, FJsonValue.AsObject,
      EButtplugMessageType.GetEnumByName, EButtplugMessageType.GetIndexByNameString,
      EButtplugMessageType.Enumerators, EButtplugMessageType.GetEnumAsString,
      FButtplugMessage.FromJson, TButtplugMessage.FromJson,
      UButtplugSubsystem.DispatchMessages, UButtplugSubsystem.OnServerMessage,
      UButtplugSubsystem.Fire, bind, Except.bind]

/-! ## C4: which arrays decode -/

/-- C4: `ReadButtplugMessagesFromJson` applied to a parsed array returns success exactly
when every element is an object with at least one key and every key is, by exact match,
the name of a message kind. The empty array succeeds with an empty message list; an
object with a key that differs from a kind name only by case, and an object without keys,
make it fail. -/
theorem C4_read_succeeds_iff_every_key_is_a_kind :
    (∀ (JsonValueArray : List FJsonValue) (OutMessages : FButtplugMessageArray),
      (ReadButtplugMessagesFromJson (some JsonValueArray) OutMessages).1 = true ↔
        ∀ JsonValue ∈ JsonValueArray,
          JsonValue.AsObject ≠ [] ∧
          ∀ Field ∈ JsonValue.AsObject,
            ∃ T : EButtplugMessageType, T.GetEnumAsString = Field.1) ∧
    (∀ OutMessages : FButtplugMessageArray,
      ReadButtplugMessagesFromJson (some []) OutMessages = (true, [])) ∧
    (ReadButtplugMessagesFromJson
      (some [.object [("ok", .object [("Id", .number 1)])]]) []).1 = false ∧
    (ReadButtplugMessagesFromJson (some [.object []]) []).1 = false := by
  refine ⟨?_, ?_, by decide, by decide⟩
  · intro JsonValueArray OutMessages
    simp only [ReadButtplugMessagesFromJson, ReadButtplugMessagesFromJson.Values_flag,
      Bool.true_and, List.all_eq_true, Bool.and_eq_true, bne_iff_ne, ne_eq,
      List.length_eq_zero, EButtplugMessageType.GetEnumByName_isSome_iff]
  · intro OutMessages
    rfl

/-! ## C5: round trip through the wire form -/

/-- C5 (amended): for every message whose members fit their C++ types and which carries
no device attribute record, `WriteButtplugMessagesToJson` succeeds on `[msg]` and
`ReadButtplugMessagesFromJson` decodes its output successfully to exactly `[msg]`; on a
`DeviceList` or `DeviceAdded` that carries an attribute record the writer aborts with
`unimplemented`. -/
theorem C5_roundtrip_without_attribute_records
    (Message : FButtplugMessage) (OutMessages : FButtplugMessageArray) :
    (Message.InRange → Message.Fields.CarriesAttributes = false →
      ∃ Json, WriteButtplugMessagesToJson [Message] = .ok Json ∧
        ReadButtplugMessagesFromJson (some Json) OutMessages = (true, [Message])) ∧
    (Message.Fields.CarriesAttributes = true →
      WriteButtplugMessagesToJson [Message] = .error .Unimplemented) := by
  obtain ⟨Id, Fields⟩ := Message
  constructor
  · rintro ⟨hId, hFields⟩ hA
    simp only at hId hFields hA
    cases Fields <;>
      simp only [TButtplugMessage.InRange, TButtplugMessage.CarriesAttributes] at hFields hA
    case DeviceList Devices =>
      refine ⟨_, WriteButtplugMessagesToJson_singleton _ _
        (FButtplugMessage.ToJson_DeviceList Id Devices _
          (FButtplugMessage.Device.ArrayToJson_of_no_attributes Devices hA)), ?_⟩
      simp [FButtplugMessage.GetMessageType, TButtplugMessage.GetMessageType,
        ReadButtplugMessagesFromJson, ReadButtplugMessagesFromJson.Values,
        ReadButtplugMessagesFromJson.Fields, FJsonValue.AsObject_object,
        EButtplugMessageType.GetEnumAsString,
        EButtplugMessageType.GetEnumByName, EButtplugMessageType.GetIndexByNameString,
        EButtplugMessageType.Enumerators, FButtplugMessage.FromJson,
        FJsonSerializable.FromJsonResult, TButtplugMessage.FromJson,
        FJsonSerializerReader.SerializeUInt32, FJsonSerializerReader.SerializeString,
        FJsonSerializerReader.SerializeInt64, FJsonSerializerReader.SerializeArrayInt32,
        FJsonSerializerReader.SerializeArraySerializable, FJsonObject.GetField,
        RoundHalfUp_natCast, hId]
      apply map_eq_self_of_forall
      intro Device hDevice
      have hNone : Device.HasAttributes = false := by
        simpa using (List.any_eq_false.mp hA) Device hDevice
      simpa [FJsonValue.AsObject_object] using
        FButtplugMessage.Device.FromJson_flat Device (hFields Device hDevice) hNone
    case DeviceAdded Device =>
      refine ⟨_, WriteButtplugMessagesToJson_singleton _ _
        (FButtplugMessage.ToJson_DeviceAdded Id Device _
          (FButtplugMessage.Device.ToJson_of_no_attributes Device hA)), ?_⟩
      have hFlat := FButtplugMessage.Device.FromJson_flat Device hFields hA
      simp [FButtplugMessage.GetMessageType, TButtplugMessage.GetMessageType,
        ReadButtplugMessagesFromJson, ReadButtplugMessagesFromJson.Values,
        ReadButtplugMessagesFromJson.Fields, FJsonValue.AsObject_object,
        EButtplugMessageType.GetEnumAsString,
        EButtplugMessageType.GetEnumByName, EButtplugMessageType.GetIndexByNameString,
        EButtplugMessageType.Enumerators, FButtplugMessage.FromJson,
        FJsonSerializable.FromJsonResult, TButtplugMessage.FromJson,
        FJsonSerializerReader.SerializeUInt32, FJsonSerializerReader.SerializeString,
        FJsonSerializerReader.SerializeInt64, FJsonSerializerReader.SerializeArrayInt32,
        FJsonSerializerReader.SerializeArraySerializable, FJsonObject.GetField,
        RoundHalfUp_natCast, hId]
      rw [FButtplugMessage.Device.FromJson_cons_Id]
      exact hFlat
    case ScalarCmd DeviceIndex Scalars =>
      refine ⟨_, WriteButtplugMessagesToJson_singleton _ _ rfl, ?_⟩
      simp [FButtplugMessage.GetMessageType, TButtplugMessage.GetMessageType,
        ReadButtplugMessagesFromJson, ReadButtplugMessagesFromJson.Values,
        ReadButtplugMessagesFromJson.Fields, FJsonValue.AsObject_object,
        EButtplugMessageType.GetEnumAsString,
        EButtplugMessageType.GetEnumByName, EButtplugMessageType.GetIndexByNameString,
        EButtplugMessageType.Enumerators, FButtplugMessage.FromJson,
        FJsonSerializable.FromJsonResult, TButtplugMessage.FromJson,
        FJsonSerializerReader.SerializeUInt32, FJsonSerializerReader.SerializeString,
        FJsonSerializerReader.SerializeInt64, FJsonSerializerReader.SerializeArrayInt32,
        FJsonSerializerReader.SerializeArraySerializable, FJsonObject.GetField,
        RoundHalfUp_natCast, hId, hFields.1]
      exact map_eq_self_of_forall _ _ (fun Scalar hScalar =>
        FButtplugMessage.Scalar.roundtrip_Scalar Scalar (hFields.2 Scalar hScalar))
    case LinearCmd DeviceIndex Vectors =>
      refine ⟨_, WriteButtplugMessagesToJson_singleton _ _ rfl, ?_⟩
      simp [FButtplugMessage.GetMessageType, TButtplugMessage.GetMessageType,
        ReadButtplugMessagesFromJson, ReadButtplugMessagesFromJson.Values,
        ReadButtplugMessagesFromJson.Fields, FJsonValue.AsObject_object,
        EButtplugMessageType.GetEnumAsString,
        EButtplugMessageType.GetEnumByName, EButtplugMessageType.GetIndexByNameString,
        EButtplugMessageType.Enumerators, FButtplugMessage.FromJson,
        FJsonSerializable.FromJsonResult, TButtplugMessage.FromJson,
        FJsonSerializerReader.SerializeUInt32, FJsonSerializerReader.SerializeString,
        FJsonSerializerReader.SerializeInt64, FJsonSerializerReader.SerializeArrayInt32,
        FJsonSerializerReader.SerializeArraySerializable, FJsonObject.GetField,
        RoundHalfUp_natCast, hId, hFields.1]
      exact map_eq_self_of_forall _ _ (fun Vector hVector =>
        FButtplugMessage.Vector.roundtrip_Vector Vector (hFields.2 Vector hVector))
    case RotateCmd DeviceIndex Rotations =>
      refine ⟨_, WriteButtplugMessagesToJson_singleton _ _ rfl, ?_⟩
      simp [FButtplugMessage.GetMessageType, TButtplugMessage.GetMessageType,
        ReadButtplugMessagesFromJson, ReadButtplugMessagesFromJson.Values,
        ReadButtplugMessagesFromJson.Fields, FJsonValue.AsObject_object,
        EButtplugMessageType.GetEnumAsString,
        EButtplugMessageType.GetEnumByName, EButtplugMessageType.GetIndexByNameString,
        EButtplugMessageType.Enumerators, FButtplugMessage.FromJson,
        FJsonSerializable.FromJsonResult, TButtplugMessage.FromJson,
        FJsonSerializerReader.SerializeUInt32, FJsonSerializerReader.SerializeString,
        FJsonSerializerReader.SerializeInt64, FJsonSerializerReader.SerializeArrayInt32,
        FJsonSerializerReader.SerializeArraySerializable, FJsonObject.GetField,
        RoundHalfUp_natCast, hId, hFields.1]
      exact map_eq_self_of_forall _ _ (fun Rotation hRotation =>
        FButtplugMessage.Rotation.roundtrip_Rotation Rotation (hFields.2 Rotation hRotation))
    case SensorReading DeviceIndex SensorIndex SensorType Data =>
      refine ⟨_, WriteButtplugMessagesToJson_singleton _ _ rfl, ?_⟩
      simp [FButtplugMessage.GetMessageType, TButtplugMessage.GetMessageType,
        ReadButtplugMessagesFromJson, ReadButtplugMessagesFromJson.Values,
        ReadButtplugMessagesFromJson.Fields, FJsonValue.AsObject_object,
        EButtplugMessageType.GetEnumAsString,
        EButtplugMessageType.GetEnumByName, EButtplugMessageType.GetIndexByNameString,
        EButtplugMessageType.Enumerators, FButtplugMessage.FromJson,
        FJsonSerializable.FromJsonResult, TButtplugMessage.FromJson,
        FJsonSerializerReader.SerializeUInt32, FJsonSerializerReader.SerializeString,
        FJsonSerializerReader.SerializeInt64, FJsonSerializerReader.SerializeArrayInt32,
        FJsonSerializerReader.SerializeArraySerializable, FJsonObject.GetField,
        RoundHalfUp_natCast, hId, hFields.1, hFields.2.1]
      exact map_eq_self_of_forall _ _ (fun Value hValue => by
        simpa [FJsonValue.AsNumber_number] using
          RoundToInt32_intCast Value (hFields.2.2 Value hValue))
    case Error ErrorMessage Code =>
      refine ⟨_, WriteButtplugMessagesToJson_singleton _ _ rfl, ?_⟩
      simp [FButtplugMessage.GetMessageType, TButtplugMessage.GetMessageType,
        ReadButtplugMessagesFromJson, ReadButtplugMessagesFromJson.Values,
        ReadButtplugMessagesFromJson.Fields, FJsonValue.AsObject_object,
        EButtplugMessageType.GetEnumAsString,
        EButtplugMessageType.GetEnumByName, EButtplugMessageType.GetIndexByNameString,
        EButtplugMessageType.Enumerators, FButtplugMessage.FromJson,
        FJsonSerializable.FromJsonResult, TButtplugMessage.FromJson,
        FJsonSerializerReader.SerializeUInt32, FJsonSerializerReader.SerializeString,
        FJsonSerializerReader.SerializeInt64, FJsonSerializerReader.SerializeArrayInt32,
        FJsonSerializerReader.SerializeArraySerializable, FJsonObject.GetField,
        RoundHalfUp_natCast, hId]
      omega
    all_goals
      refine ⟨_, WriteButtplugMessagesToJson_singleton _ _ rfl, ?_⟩
      simp [FButtplugMessage.GetMessageType, TButtplugMessage.GetMessageType,
        ReadButtplugMessagesFromJson, ReadButtplugMessagesFromJson.Values,
        ReadButtplugMessagesFromJson.Fields, FJsonValue.AsObject_object,
        EButtplugMessageType.GetEnumAsString,
        EButtplugMessageType.GetEnumByName, EButtplugMessageType.GetIndexByNameString,
        EButtplugMessageType.Enumerators, FButtplugMessage.FromJson,
        FJsonSerializable.FromJsonResult, TButtplugMessage.FromJson,
        FJsonSerializerReader.SerializeUInt32, FJsonSerializerReader.SerializeString,
        FJsonSerializerReader.SerializeInt64, FJsonSerializerReader.SerializeArrayInt32,
        FJsonSerializerReader.SerializeArraySerializable, FJsonObject.GetField,
        RoundHalfUp_natCast, hId, hFields]
  · intro hA
    simp only at hA
    cases Fields <;> simp only [TButtplugMessage.CarriesAttributes] at hA <;>
      try (exact absurd hA (by decide))
    case DeviceList Devices =>
      apply WriteButtplugMessagesToJson_singleton_error
      simp [FButtplugMessage.ToJson, FButtplugMessage.Device.ArrayToJson_of_attributes Devices hA,
        bind, Except.bind]
    case DeviceAdded Device =>
      apply WriteButtplugMessagesToJson_singleton_error
      simp [FButtplugMessage.ToJson, FButtplugMessage.Device.ToJson_of_attributes Device hA,
        bind, Except.bind]

/-- Witness for C5: a `RequestServerInfo` round-trips, and the sample `DeviceAdded` with an
attribute record makes the writer abort. -/
theorem C5_roundtrip_without_attribute_records_witness :
    (∃ Json,
      WriteButtplugMessagesToJson [{ Id := 1, Fields := .RequestServerInfo "X" 3 }] = .ok Json ∧
      ReadButtplugMessagesFromJson (some Json) []
        = (true, [{ Id := 1, Fields := .RequestServerInfo "X" 3 }])) ∧
    WriteButtplugMessagesToJson [Sample.DeviceAdded] = .error .Unimplemented :=
  ⟨(C5_roundtrip_without_attribute_records { Id := 1, Fields := .RequestServerInfo "X" 3 }
      []).1 ⟨by decide, by simp [TButtplugMessage.InRange, MAX_uint32]⟩ rfl,
   (C5_roundtrip_without_attribute_records Sample.DeviceAdded []).2 rfl⟩

/-- Counterexample to C5 as stated: the sample `DeviceAdded`, which carries one attribute
record, has no encoding that decodes back to it, because the writer aborts on it. -/
theorem C5_device_added_with_attributes_is_not_written :
    ¬ ∃ Json, WriteButtplugMessagesToJson [Sample.DeviceAdded] = .ok Json ∧
        ReadButtplugMessagesFromJson (some Json) [] = (true, [Sample.DeviceAdded]) := by
  rintro ⟨Json, hWrite, -⟩
  have hAbort : WriteButtplugMessagesToJson [Sample.DeviceAdded] = .error .Unimplemented :=
    WriteButtplugMessagesToJson_singleton_error _ _
      (by simp [FButtplugMessage.ToJson, Sample.DeviceAdded,
            FButtplugMessage.Device.ToJson_of_attributes, FButtplugMessage.Device.HasAttributes,
            bind, Except.bind])
  rw [hAbort] at hWrite
  cases hWrite

/-! ## C6: message ids -/

/-- C6 (amended): `EnqueueMessage` fails its assertion when the session is not connected.
When connected it gives the message the id `NextMessageId`, appends it at the end of the
outbound buffer and sets `NextMessageId` to its successor modulo `2 ^ 32` (the successor
itself below `4294967295`). Hence, as long as the counter does not pass `2 ^ 32`, the
ids handed out to a run of messages are consecutive and strictly increasing, starting at
the counter: from the value 1 a reset leaves, the k-th message gets id k. -/
theorem C6_enqueue_assigns_sequential_ids :
    (∀ (S : UButtplugSubsystem) (M : FButtplugMessage),
      S.IsConnected = false → S.EnqueueMessage M = .error .CheckFailed) ∧
    (∀ (S : UButtplugSubsystem) (M : FButtplugMessage),
      S.IsConnected = true →
        ∃ S' : UButtplugSubsystem, S.EnqueueMessage M = .ok S' ∧
          S'.MessageBuffer = S.MessageBuffer ++ [{ M with Id := S.NextMessageId }] ∧
          S'.NextMessageId = (S.NextMessageId + 1) % 4294967296 ∧
          (S.NextMessageId < 4294967295 → S'.NextMessageId = S.NextMessageId + 1)) ∧
    (∀ (S : UButtplugSubsystem) (Ms : FButtplugMessageArray),
      S.IsConnected = true → S.NextMessageId + Ms.length ≤ 4294967296 →
        S.NextMessageId < 4294967296 →
        ∃ S' : UButtplugSubsystem, S.EnqueueMessages Ms = .ok S' ∧
          S'.MessageBuffer.map (fun M => M.Id) =
            S.MessageBuffer.map (fun M => M.Id) ++ List.range' S.NextMessageId Ms.length ∧
          S'.MessageBuffer.map (fun M => M.Fields) =
            S.MessageBuffer.map (fun M => M.Fields) ++ Ms.map (fun M => M.Fields)) := by
  refine ⟨?_, ?_, ?_⟩
  · intro S M h
    simp [UButtplugSubsystem.EnqueueMessage, h]
  · intro S M h
    refine ⟨_, UButtplugSubsystem.EnqueueMessage_ok S M h, rfl, rfl, ?_⟩
    intro hLt
    simp only [UINT32_MODULUS]
    omega
  · intro S Ms hC hLen hLt
    obtain ⟨S', hRun, hIds, hFields, -⟩ := UButtplugSubsystem.EnqueueMessages_ok Ms S hC hLt
    refine ⟨S', hRun, ?_, hFields⟩
    rw [hIds, List.range'_eq_map_range]
    congr 1
    apply List.map_congr_left
    intro i hi
    have hi' : i < Ms.length := List.mem_range.mp hi
    simp only [UINT32_MODULUS]
    omega

/-- Witness for C6: two messages enqueued in the freshly opened sample session get the
ids 1 and 2. -/
theorem C6_enqueue_assigns_sequential_ids_witness :
    Sample.Opened.IsConnected = true ∧
    ∃ S' : UButtplugSubsystem,
      Sample.Opened.EnqueueMessages
        [{ Id := 0, Fields := .RequestServerInfo "X" 3 }, { Id := 0, Fields := .Ping }]
        = .ok S' ∧
      S'.MessageBuffer.map (fun M => M.Id) = [1, 2] :=
  ⟨rfl,
    (C6_enqueue_assigns_sequential_ids.2.2 Sample.Opened
      [{ Id := 0, Fields := .RequestServerInfo "X" 3 }, { Id := 0, Fields := .Ping }]
      rfl (by decide) (by decide)).imp (fun _ h => ⟨h.1, h.2.1⟩)⟩

/-- Counterexample to C6 as stated: of `2 ^ 32` messages enqueued after a reset, the one
before last gets id 4294967295 and the last one, the `2 ^ 32`-th, gets id 0. -/
theorem C6_counter_wraps_after_4294967295_messages :
    ∃ S' : UButtplugSubsystem,
      Sample.Opened.EnqueueMessages
        (List.replicate 4294967296 { Id := 0, Fields := .Ping }) = .ok S' ∧
      (S'.MessageBuffer.map (fun M => M.Id))[4294967294]? = some 4294967295 ∧
      (S'.MessageBuffer.map (fun M => M.Id))[4294967295]? = some 0 := by
  obtain ⟨S', hRun, hIds, -⟩ :=
    UButtplugSubsystem.EnqueueMessages_ok
      (List.replicate 4294967296 { Id := 0, Fields := .Ping }) Sample.Opened rfl (by decide)
  refine ⟨S', hRun, ?_, ?_⟩
  · rw [hIds, List.length_replicate]
    show (([] : List Nat) ++ _)[4294967294]? = _
    rw [List.nil_append, List.getElem?_map, List.getElem?_range (by decide)]
    rfl
  · rw [hIds, List.length_replicate]
    show (([] : List Nat) ++ _)[4294967295]? = _
    rw [List.nil_append, List.getElem?_map, List.getElem?_range (by decide)]
    rfl

/-! ## C7: the tick -/

/-- C8: a `FlushMessageQueue` call at which the accumulated delta time (the `float` sum the
code keeps in `TimeSinceLastMessage`) is still below `GetMessageTimingGap()` emits nothing
and changes nothing but the timer (queued actuations, stop request and per-tick queue are
untouched); a call at which it has reached the gap, in a connected session, emits the
pending batch (at least one message when anything is pending) and clears the queued flags
and the per-tick queue. For the sample device with its gap set to `0.1f`, one queued
actuation and the deltas `0.05f`, `0.03f`, `0.05f`, the first and second call emit nothing
and the third emits exactly one `ScalarCmd`. -/
theorem C8_flush_waits_for_timing_gap :
    (∀ (D : UButtplugDevice) (S : UButtplugSubsystem) (DeltaTime : ℚ),
      FloatAdd D.TimeSinceLastMessage DeltaTime < D.GetMessageTimingGap →
        D.FlushMessageQueue S DeltaTime =
          .ok ({ D with TimeSinceLastMessage := FloatAdd D.TimeSinceLastMessage DeltaTime }, S)) ∧
    (∀ (D : UButtplugDevice) (S : UButtplugSubsystem) (DeltaTime : ℚ),
      ¬ FloatAdd D.TimeSinceLastMessage DeltaTime < D.GetMessageTimingGap →
      S.IsConnected = true → D.QueuedAreActuators → D.HasPending →
        ∃ (D' : UButtplugDevice) (S' : UButtplugSubsystem) (E : FButtplugMessageArray),
          D.FlushMessageQueue S DeltaTime = .ok (D', S') ∧
          S'.MessageBuffer = S.MessageBuffer ++ E ∧ E ≠ [] ∧
          D'.MessageQueue = [] ∧ D'.bHasQueuedStopDevice = D.bHasQueuedStopDevice ∧
          (∀ F ∈ D'.Features, F.bHasQueuedActuation = false) ∧
          D'.TimeSinceLastMessage = FloatAdd D.TimeSinceLastMessage DeltaTime) ∧
    (∃ (D1 D2 D3 : UButtplugDevice) (S3 : UButtplugSubsystem),
      (Sample.Device.SetMessageTimingGap (RoundToFloat (1 / 10))).FlushMessageQueue
          Sample.Connected (RoundToFloat (5 / 100))
        = .ok (D1, Sample.Connected) ∧
      D1.FlushMessageQueue Sample.Connected (RoundToFloat (3 / 100))
        = .ok (D2, Sample.Connected) ∧
      D2.FlushMessageQueue Sample.Connected (RoundToFloat (5 / 100)) = .ok (D3, S3) ∧
      D1.Features = [Sample.Vibrator] ∧ D2.Features = [Sample.Vibrator] ∧
      S3.MessageBuffer =
        [{ Id := 3, Fields := .ScalarCmd 5 [{ Index := 0, Value := 1 / 2,
                                              ActuatorType := "Vibrate" }] }]) := by
  refine ⟨UButtplugDevice.FlushMessageQueue_gated, ?_, ?_⟩
  · intro D S DeltaTime hGate hC hQ hP
    obtain ⟨S', E, hRun, hBuf, hF, -⟩ :=
      UButtplugDevice.FlushMessageQueue_open D S DeltaTime hGate hC hQ
    refine ⟨_, S', E, hRun, hBuf, ?_, rfl, rfl, ?_, rfl⟩
    · intro hE
      rw [hE] at hF
      simp only [List.map_nil] at hF
      have hF' := hF.symm
      rw [List.append_eq_nil] at hF'
      obtain ⟨hCmd, hQueue⟩ := hF'
      rcases hP with hStop | ⟨F, hF1, hF2⟩ | hMsgs
      · simp [hStop] at hCmd
      · cases hS : D.bHasQueuedStopDevice with
        | true => simp [hS] at hCmd
        | false =>
            simp only [hS, Bool.false_eq_true, if_false, List.map_eq_nil_iff] at hCmd
            refine FFlushCommands.Messages_foldl_Route_ne_nil _ D.DeviceIndex _ ?_ ?_ hCmd
            · intro G hG
              rw [List.mem_filter] at hG
              exact hQ G hG.1 hG.2
            · left
              intro hNil
              have : F ∈ D.Features.filter (fun F => F.bHasQueuedActuation) :=
                List.mem_filter.mpr ⟨hF1, hF2⟩
              rw [hNil] at this
              cases this
      · exact hMsgs (by simpa using hQueue)
    · intro F hF1
      simp only [List.mem_map] at hF1
      obtain ⟨G, -, rfl⟩ := hF1
      rfl
  · have h05 : RoundToFloat (5 / 100) = 13421773 / 268435456 := by
      rw [show (5 / 100 : ℚ) = 1 / 20 by norm_num, RoundToFloat.one_twentieth]
    have hGap : ∀ Time : ℚ,
        UButtplugDevice.GetMessageTimingGap
          { Sample.Device.SetMessageTimingGap (RoundToFloat (1 / 10)) with
              TimeSinceLastMessage := Time } = 13421773 / 134217728 := by
      intro Time
      rw [RoundToFloat.one_tenth]
      norm_num [UButtplugDevice.GetMessageTimingGap, UButtplugDevice.SetMessageTimingGap]
    have hGap0 :
        (Sample.Device.SetMessageTimingGap (RoundToFloat (1 / 10))).GetMessageTimingGap
          = 13421773 / 134217728 := by
      rw [RoundToFloat.one_tenth]
      norm_num [UButtplugDevice.GetMessageTimingGap, UButtplugDevice.SetMessageTimingGap]
    have hTime :
        (Sample.Device.SetMessageTimingGap (RoundToFloat (1 / 10))).TimeSinceLastMessage
          = 0 := rfl
    have hSum1 : FloatAdd 0 (RoundToFloat (5 / 100)) = 13421773 / 268435456 := by
      rw [h05, FloatAdd.zero_left _ (by norm_num [abs_of_nonneg]),
        RoundToFloat.of_exponent _ (-5) (by norm_num [abs_of_nonneg])
          (by norm_num [abs_of_nonneg])]
      norm_num [RoundHalfEven, ClampToFloat, FloatInfinity]
    have hSum2 : FloatAdd (13421773 / 268435456) (RoundToFloat (3 / 100))
        = 5368709 / 67108864 := by
      rw [RoundToFloat.three_hundredths, FloatAdd.twentieth_three_hundredths]
    have hSum3 : FloatAdd (5368709 / 67108864) (RoundToFloat (5 / 100))
        = 1090519 / 8388608 := by
      rw [h05, FloatAdd.eight_hundredths_twentieth]
    have hGate1 :
        FloatAdd (Sample.Device.SetMessageTimingGap (RoundToFloat (1 / 10))).TimeSinceLastMessage
            (RoundToFloat (5 / 100))
          < (Sample.Device.SetMessageTimingGap (RoundToFloat (1 / 10))).GetMessageTimingGap := by
      rw [hTime, hSum1, hGap0]
      norm_num
    have hGate2 :
        FloatAdd
            (UButtplugDevice.TimeSinceLastMessage
              { Sample.Device.SetMessageTimingGap (RoundToFloat (1 / 10)) with
                  TimeSinceLastMessage := 13421773 / 268435456 })
            (RoundToFloat (3 / 100))
          < UButtplugDevice.GetMessageTimingGap
              { Sample.Device.SetMessageTimingGap (RoundToFloat (1 / 10)) with
                  TimeSinceLastMessage := 13421773 / 268435456 } := by
      rw [hGap]
      show FloatAdd (13421773 / 268435456) (RoundToFloat (3 / 100)) < _
      rw [hSum2]
      norm_num
    have hGate3 :
        ¬ FloatAdd
            (UButtplugDevice.TimeSinceLastMessage
              { Sample.Device.SetMessageTimingGap (RoundToFloat (1 / 10)) with
                  TimeSinceLastMessage := 5368709 / 67108864 })
            (RoundToFloat (5 / 100))
          < UButtplugDevice.GetMessageTimingGap
              { Sample.Device.SetMessageTimingGap (RoundToFloat (1 / 10)) with
                  TimeSinceLastMessage := 5368709 / 67108864 } := by
      rw [hGap]
      show ¬ FloatAdd (5368709 / 67108864) (RoundToFloat (5 / 100)) < _
      rw [hSum3]
      norm_num
    have hFirst :
        (Sample.Device.SetMessageTimingGap (RoundToFloat (1 / 10))).FlushMessageQueue
            Sample.Connected (RoundToFloat (5 / 100))
          = .ok ({ Sample.Device.SetMessageTimingGap (RoundToFloat (1 / 10)) with
                    TimeSinceLastMessage := 13421773 / 268435456 }, Sample.Connected) := by
      rw [UButtplugDevice.FlushMessageQueue_gated _ _ _ hGate1, hTime, hSum1]
    have hSecond :
        UButtplugDevice.FlushMessageQueue
            { Sample.Device.SetMessageTimingGap (RoundToFloat (1 / 10)) with
                TimeSinceLastMessage := 13421773 / 268435456 }
            Sample.Connected (RoundToFloat (3 / 100))
          = .ok ({ Sample.Device.SetMessageTimingGap (RoundToFloat (1 / 10)) with
                    TimeSinceLastMessage := 5368709 / 67108864 }, Sample.Connected) := by
      rw [UButtplugDevice.FlushMessageQueue_gated _ _ _ hGate2]
      show Except.ok ({ Sample.Device.SetMessageTimingGap (RoundToFloat (1 / 10)) with
          TimeSinceLastMessage :=
            FloatAdd (13421773 / 268435456) (RoundToFloat (3 / 100)) }, Sample.Connected) = _
      rw [hSum2]
    obtain ⟨S3, E, hRun, hBuf, hF, hHead, -⟩ :=
      UButtplugDevice.FlushMessageQueue_open
        { Sample.Device.SetMessageTimingGap (RoundToFloat (1 / 10)) with
            TimeSinceLastMessage := 5368709 / 67108864 }
        Sample.Connected (RoundToFloat (5 / 100)) hGate3 rfl
        (by
          intro F hF _
          simp only [Sample.Device, UButtplugDevice.SetMessageTimingGap,
            List.mem_singleton] at hF
          subst hF
          decide)
    refine ⟨_, _, _, S3, hFirst, hSecond, hRun, rfl, rfl, ?_⟩
    rw [hBuf]
    simp [Sample.Device, Sample.Vibrator, UButtplugDevice.NewObject,
      UButtplugDevice.SetMessageTimingGap,
      UButtplugFeature.NewObject, FFlushCommands.Route, FFlushCommands.Messages, INDEX_NONE,
      EButtplugFeatureType.GetEnumAsString] at hF
    cases E with
    | nil => simp at hF
    | cons M Rest =>
        simp only [List.map_cons, List.cons.injEq, List.map_eq_nil_iff] at hF
        obtain ⟨hFields, hRest⟩ := hF
        subst hRest
        have hId := hHead M rfl
        cases M
        simp_all [Sample.Connected]

/-- C8 at concrete inputs. The sample device with gap `0.1f` is gated at a delta of
`0.05f`. With an accumulated time of `0.2f`, a gap of `0.3f` and a delta of `0.1f`, the
`float` sum is `0.3f`, which is not below the gap, and the device flushes its pending
actuation (the exact sum of `0.2f` and `0.1f` is below `0.3f`). -/
theorem C8_flush_waits_for_timing_gap_witness :
    (Sample.Device.SetMessageTimingGap (RoundToFloat (1 / 10))).FlushMessageQueue
        Sample.Connected (RoundToFloat (5 / 100)) =
      .ok ({ Sample.Device.SetMessageTimingGap (RoundToFloat (1 / 10)) with
              TimeSinceLastMessage := FloatAdd 0 (RoundToFloat (5 / 100)) },
           Sample.Connected) ∧
    FloatAdd (RoundToFloat (2 / 10)) (RoundToFloat (1 / 10)) = RoundToFloat (3 / 10) ∧
    RoundToFloat (2 / 10) + RoundToFloat (1 / 10) < RoundToFloat (3 / 10) ∧
    ∃ (D' : UButtplugDevice) (S' : UButtplugSubsystem) (E : FButtplugMessageArray),
      UButtplugDevice.FlushMessageQueue
          { Sample.Device.SetMessageTimingGap (RoundToFloat (3 / 10)) with
              TimeSinceLastMessage := RoundToFloat (2 / 10) }
          Sample.Connected (RoundToFloat (1 / 10)) = .ok (D', S') ∧
      S'.MessageBuffer = Sample.Connected.MessageBuffer ++ E ∧ E ≠ [] :=
  have h02 : RoundToFloat (2 / 10) = 13421773 / 67108864 := by
    rw [show (2 / 10 : ℚ) = 1 / 5 by norm_num, RoundToFloat.one_fifth]
  have h05 : RoundToFloat (5 / 100) = 13421773 / 268435456 := by
    rw [show (5 / 100 : ℚ) = 1 / 20 by norm_num, RoundToFloat.one_twentieth]
  have hSum : FloatAdd (RoundToFloat (2 / 10)) (RoundToFloat (1 / 10))
      = RoundToFloat (3 / 10) := by
    rw [h02, RoundToFloat.one_tenth, RoundToFloat.three_tenths, FloatAdd.fifth_tenth]
  ⟨C8_flush_waits_for_timing_gap.1 (Sample.Device.SetMessageTimingGap (RoundToFloat (1 / 10)))
      Sample.Connected (RoundToFloat (5 / 100))
      (by
        have hTime :
            (Sample.Device.SetMessageTimingGap (RoundToFloat (1 / 10))).TimeSinceLastMessage
              = 0 := rfl
        rw [hTime, h05, FloatAdd.zero_left _ (by norm_num [abs_of_nonneg]),
          RoundToFloat.of_exponent _ (-5) (by norm_num [abs_of_nonneg])
            (by norm_num [abs_of_nonneg]), RoundToFloat.one_tenth]
        norm_num [RoundHalfEven, ClampToFloat, FloatInfinity,
          UButtplugDevice.GetMessageTimingGap, UButtplugDevice.SetMessageTimingGap]),
   hSum,
   by rw [h02, RoundToFloat.one_tenth, RoundToFloat.three_tenths]; norm_num,
   (C8_flush_waits_for_timing_gap.2.1
      { Sample.Device.SetMessageTimingGap (RoundToFloat (3 / 10)) with
          TimeSinceLastMessage := RoundToFloat (2 / 10) }
      Sample.Connected (RoundToFloat (1 / 10))
      (by
        show ¬ FloatAdd (RoundToFloat (2 / 10)) (RoundToFloat (1 / 10)) < _
        rw [hSum, RoundToFloat.three_tenths]
        norm_num [UButtplugDevice.GetMessageTimingGap, UButtplugDevice.SetMessageTimingGap])
      rfl
      (by
        intro F hF _
        simp only [Sample.Device, UButtplugDevice.SetMessageTimingGap,
          List.mem_singleton] at hF
        subst hF
        decide)
      (Or.inr (Or.inl ⟨Sample.Vibrator, by
        simp [Sample.Device, UButtplugDevice.SetMessageTimingGap], rfl⟩))).imp
    (fun _ h => h.imp (fun _ h => h.imp (fun _ h => ⟨h.1, h.2.1, h.2.2.1⟩)))⟩

/-! ## C9: spacing of batches -/


/-- C9 (evaluation of the code at the failing input): the sample device has a timing gap
of 0.1 s. A flush with delta 0.2 s emits its queued `ScalarCmd`; after a new actuation is
queued, the next flush, only 0.01 s later, emits a second `ScalarCmd`: the accumulated
time is never reset, so once it has reached the gap every call passes the gate. -/
theorem C9_second_batch_inside_the_gap :
    Sample.Device.GetMessageTimingGap = 1 / 10 ∧
    (Sample.Device.FlushMessageQueue Sample.Connected (2 / 10)).map
        (fun Flushed => Flushed.2.MessageBuffer)
      = .ok [{ Id := 3, Fields := .ScalarCmd 5 [{ Index := 0, Value := 1 / 2,
                                                  ActuatorType := "Vibrate" }] }] ∧
    ((Sample.Device.FlushMessageQueue Sample.Connected (2 / 10)).bind
        (fun First =>
          (First.1.ActuateAll .Vibrate 1 (.Finite 0)).FlushMessageQueue First.2 (1 / 100))).map
        (fun Flushed => Flushed.2.MessageBuffer)
      = .ok [{ Id := 3, Fields := .ScalarCmd 5 [{ Index := 0, Value := 1 / 2,
                                                  ActuatorType := "Vibrate" }] },
             { Id := 4, Fields := .ScalarCmd 5 [{ Index := 0, Value := 1,
                                                  ActuatorType := "Vibrate" }] }] := by
  refine ⟨?_, ?_, ?_⟩
  · norm_num [Sample.Device, UButtplugDevice.NewObject, UButtplugDevice.GetMessageTimingGap]
  · norm_num [FloatAdd.zero_one_fifth, UButtplugDevice.FlushMessageQueue, UButtplugDevice.GetMessageTimingGap,
      Sample.Device, Sample.Vibrator, Sample.Connected, UButtplugDevice.NewObject,
      UButtplugFeature.NewObject, UButtplugDevice.FlushFeatures, FFlushCommands.Route,
      FFlushCommands.Messages, UButtplugFeature.IsActuator, INDEX_NONE,
      UButtplugSubsystem.EnqueueMessages, UButtplugSubsystem.EnqueueMessage,
      UButtplugSubsystem.IsConnected, EButtplugFeatureType.GetEnumAsString, UINT32_MODULUS,
      Except.map, bind, Except.bind, pure, Except.pure]
  · norm_num [FloatAdd.zero_one_fifth, FloatAdd.fifth_hundredth,
      UButtplugDevice.FlushMessageQueue,
      UButtplugDevice.GetMessageTimingGap,
      Sample.Device, Sample.Vibrator, Sample.Connected, UButtplugDevice.NewObject,
      UButtplugFeature.NewObject, UButtplugDevice.FlushFeatures, FFlushCommands.Route,
      FFlushCommands.Messages, UButtplugFeature.IsActuator, INDEX_NONE,
      UButtplugDevice.ActuateAll, UButtplugDevice.IsConnected, UButtplugFeature.Actuate,
      UButtplugSubsystem.EnqueueMessages, UButtplugSubsystem.EnqueueMessage,
      UButtplugSubsystem.IsConnected, EButtplugFeatureType.GetEnumAsString, UINT32_MODULUS,
      Except.map, bind, Except.bind, pure, Except.pure]

/-! ## C10: stop supersedes queued actuations -/

/-- C10: after `Stop()` on a connected device, a `FlushMessageQueue` call that passes the
timing gate in a connected session (the per-tick queue holding sensor commands only)
appends to the outbound buffer exactly one `StopDeviceCmd`, carrying the device's index
and the next message id, followed by the queued sensor commands; none of the appended
messages is a `ScalarCmd`, `RotateCmd` or `LinearCmd`, whatever actuations are queued, and
afterwards the queued-actuation flag of every feature of the device is cleared. -/
theorem C10_stop_supersedes_queued_actuation
    (D : UButtplugDevice) (S : UButtplugSubsystem) (DeltaTime : ℚ)
    (hDevice : D.IsConnected = true) (hSession : S.IsConnected = true)
    (hGate : ¬ FloatAdd D.TimeSinceLastMessage DeltaTime < D.GetMessageTimingGap)
    (hQueue : ∀ M ∈ D.MessageQueue, M.Fields.IsSensorCmd = true) :
    ∃ (D' : UButtplugDevice) (S' : UButtplugSubsystem) (E : FButtplugMessageArray),
      D.Stop.FlushMessageQueue S DeltaTime = .ok (D', S') ∧
      S'.MessageBuffer =
        S.MessageBuffer ++
          { Id := S.NextMessageId, Fields := .StopDeviceCmd D.DeviceIndex } :: E ∧
      E.map (fun M => M.Fields) = D.MessageQueue.map (fun M => M.Fields) ∧
      (∀ M ∈ E, M.Fields.IsSensorCmd = true) ∧
      (∀ M ∈ ({ Id := S.NextMessageId, Fields := .StopDeviceCmd D.DeviceIndex } :: E :
          FButtplugMessageArray), M.Fields.IsActuationCmd = false) ∧
      (∀ M ∈ E, M.GetMessageType ≠ .StopDeviceCmd) ∧
      D'.Features = D.Features.map (fun F => { F with bHasQueuedActuation := false }) ∧
      (∀ F ∈ D'.Features, F.bHasQueuedActuation = false) ∧
      D'.MessageQueue = [] := by
  have hStopped : D.Stop = { D with bHasQueuedStopDevice := true } := by
    simp [UButtplugDevice.Stop, hDevice]
  obtain ⟨S', E, hRun, hBuf, hF, -⟩ :=
    UButtplugDevice.FlushMessageQueue_stop { D with bHasQueuedStopDevice := true } S DeltaTime
      hGate hSession rfl
  have hSensor : ∀ M ∈ E, M.Fields.IsSensorCmd = true := by
    intro M hM
    have hMem : M.Fields ∈ E.map (fun M => M.Fields) := List.mem_map.mpr ⟨M, hM, rfl⟩
    rw [hF] at hMem
    obtain ⟨M', hM', hEq⟩ := List.mem_map.mp hMem
    have hEq' : M'.Fields = M.Fields := hEq
    rw [← hEq']
    exact hQueue M' hM'
  refine ⟨_, S', E, by rw [hStopped]; exact hRun, hBuf, hF, hSensor, ?_, ?_, rfl, ?_, rfl⟩
  · intro M hM
    rcases List.mem_cons.mp hM with rfl | hM
    · rfl
    · have := hSensor M hM
      cases hFields : M.Fields <;> simp_all [TButtplugMessage.IsSensorCmd,
        TButtplugMessage.IsActuationCmd]
  · intro M hM
    have := hSensor M hM
    cases M with
    | mk Id Fields =>
      cases Fields <;> simp_all [TButtplugMessage.IsSensorCmd, FButtplugMessage.GetMessageType,
        TButtplugMessage.GetMessageType]
  · intro F hF1
    simp only [List.mem_map] at hF1
    obtain ⟨G, -, rfl⟩ := hF1
    rfl

/-- Witness for C10: the sample device, which has an actuation queued, is stopped and
flushed with a delta that reaches its gap. -/
theorem C10_stop_supersedes_queued_actuation_witness :
    ∃ (D' : UButtplugDevice) (S' : UButtplugSubsystem) (E : FButtplugMessageArray),
      Sample.Device.Stop.FlushMessageQueue Sample.Connected (1 / 10) = .ok (D', S') ∧
      S'.MessageBuffer =
        Sample.Connected.MessageBuffer ++
          { Id := Sample.Connected.NextMessageId,
            Fields := .StopDeviceCmd Sample.Device.DeviceIndex } :: E ∧
      E.map (fun M => M.Fields) = Sample.Device.MessageQueue.map (fun M => M.Fields) :=
  (C10_stop_supersedes_queued_actuation Sample.Device Sample.Connected (1 / 10) rfl rfl
    (by norm_num [FloatAdd.zero_zero, FloatAdd.zero_one, FloatAdd.zero_one_tenth,
          FloatAdd.zero_one_fifth, FloatAdd.fifth_hundredth, FloatAdd.fifth_fifth,
          Sample.Device, UButtplugDevice.NewObject,
          UButtplugDevice.GetMessageTimingGap])
    (by simp [Sample.Device, UButtplugDevice.NewObject])).imp
    (fun _ h => h.imp (fun _ h => h.imp (fun _ h => ⟨h.1, h.2.1, h.2.2.1⟩)))


/-! ## Helper lemmas on the command batches -/

/-- Routing a list of features: each batch grows by the entries of the features it takes. -/
theorem FFlushCommands.foldl_Route (L : List UButtplugFeature) :
    ∀ C : FFlushCommands,
      L.foldl FFlushCommands.Route C =
        { LinearCmd :=
            if (L.filter (fun F => F.LinearCmdIndex != INDEX_NONE)).isEmpty then C.LinearCmd
            else some (C.LinearCmd.getD [] ++
              (L.filter (fun F => F.LinearCmdIndex != INDEX_NONE)).map (fun F =>
                { Index := F.LinearCmdIndex,
                  Duration := F.QueuedActuation.DurationMs,
                  Position := F.QueuedActuation.Value })),
          RotateCmd :=
            if (L.filter (fun F =>
                F.LinearCmdIndex == INDEX_NONE && F.RotateCmdIndex != INDEX_NONE)).isEmpty
            then C.RotateCmd
            else some (C.RotateCmd.getD [] ++
              (L.filter (fun F =>
                F.LinearCmdIndex == INDEX_NONE && F.RotateCmdIndex != INDEX_NONE)).map (fun F =>
                { Index := F.RotateCmdIndex,
                  Speed := |F.QueuedActuation.Value|,
                  Clockwise := decide (F.QueuedActuation.Value ≥ (0 : ℚ)) })),
          ScalarCmd :=
            if (L.filter (fun F =>
                F.LinearCmdIndex == INDEX_NONE && F.RotateCmdIndex == INDEX_NONE
                  && F.ScalarCmdIndex != INDEX_NONE)).isEmpty
            then C.ScalarCmd
            else some (C.ScalarCmd.getD [] ++
              (L.filter (fun F =>
                F.LinearCmdIndex == INDEX_NONE && F.RotateCmdIndex == INDEX_NONE
                  && F.ScalarCmdIndex != INDEX_NONE)).map (fun F =>
                { Index := F.ScalarCmdIndex,
                  Value := F.QueuedActuation.Value,
                  ActuatorType := F.FeatureType.GetEnumAsString })) } := by
  induction L with
  | nil => intro C; simp
  | cons F Rest ih =>
      intro C
      rw [List.foldl_cons, ih]
      by_cases hL : F.LinearCmdIndex = INDEX_NONE
      · by_cases hR : F.RotateCmdIndex = INDEX_NONE
        · by_cases hS : F.ScalarCmdIndex = INDEX_NONE
          · simp [FFlushCommands.Route, hL, hR, hS, List.filter_cons]
          · simp [FFlushCommands.Route, hL, hR, hS, List.filter_cons]
        · simp [FFlushCommands.Route, hL, hR, List.filter_cons]
      · simp [FFlushCommands.Route, hL, List.filter_cons]

/-- The commands the flush builds from the queued features are the batches of the spec. -/
theorem UButtplugDevice.Messages_eq_BatchedCommands (D : UButtplugDevice) :
    (((D.Features.filter (fun F => F.bHasQueuedActuation)).foldl FFlushCommands.Route
        { LinearCmd := none, RotateCmd := none, ScalarCmd := none }).Messages
      D.DeviceIndex).map (fun M => M.Fields) = D.BatchedCommands := by
  rw [FFlushCommands.foldl_Route]
  unfold UButtplugDevice.BatchedCommands UButtplugDevice.LinearEntries
    UButtplugDevice.RotateEntries UButtplugDevice.ScalarEntries UButtplugDevice.QueuedFeatures
    FFlushCommands.Messages
  simp only [Option.getD_none, List.nil_append, List.map_append]
  congr 1
  · congr 1
    · generalize List.filter _ (List.filter _ D.Features) = X
      cases X <;> simp
    · generalize List.filter _ (List.filter _ D.Features) = X
      cases X <;> simp
  · generalize List.filter _ (List.filter _ D.Features) = X
    cases X <;> simp

/-- A flush that passes the timing gate without a stop request enqueues the batches of
the spec, then the per-tick queue. -/
theorem UButtplugDevice.FlushMessageQueue_batched (D : UButtplugDevice)
    (S : UButtplugSubsystem) (DeltaTime : ℚ)
    (hGate : ¬ FloatAdd D.TimeSinceLastMessage DeltaTime < D.GetMessageTimingGap)
    (hC : S.IsConnected = true) (hQ : D.QueuedAreActuators)
    (hStop : D.bHasQueuedStopDevice = false) :
    ∃ (S' : UButtplugSubsystem) (E1 E2 : FButtplugMessageArray),
      D.FlushMessageQueue S DeltaTime =
        .ok ({ D with
                TimeSinceLastMessage := FloatAdd D.TimeSinceLastMessage DeltaTime
                Features := D.Features.map (fun F => { F with bHasQueuedActuation := false })
                MessageQueue := [] }, S') ∧
      S'.MessageBuffer = S.MessageBuffer ++ E1 ++ E2 ∧
      E1.map (fun M => M.Fields) = D.BatchedCommands ∧
      E2.map (fun M => M.Fields) = D.MessageQueue.map (fun M => M.Fields) := by
  obtain ⟨S', E, hF, hB, hE, -⟩ :=
    UButtplugDevice.FlushMessageQueue_actuate D S DeltaTime hGate hC hQ hStop
  rw [UButtplugDevice.Messages_eq_BatchedCommands] at hE
  obtain ⟨E1, E2, rfl, h1, h2⟩ := List.map_eq_append_iff.mp hE
  exact ⟨S', E1, E2, hF, by rw [hB, List.append_assoc], h1, h2⟩

/-- Every queued feature that is an actuator falls into exactly one batch. -/
theorem UButtplugDevice.entries_length (D : UButtplugDevice) (hQ : D.QueuedAreActuators) :
    D.LinearEntries.length + D.RotateEntries.length + D.ScalarEntries.length
      = D.QueuedFeatures.length := by
  have hAll : ∀ F ∈ D.QueuedFeatures, F.IsActuator = true := by
    intro F hF
    unfold UButtplugDevice.QueuedFeatures at hF
    rw [List.mem_filter] at hF
    exact hQ F hF.1 hF.2
  unfold UButtplugDevice.LinearEntries UButtplugDevice.RotateEntries
    UButtplugDevice.ScalarEntries
  simp only [List.length_map]
  generalize D.QueuedFeatures = L at hAll
  induction L with
  | nil => rfl
  | cons F Rest ih =>
      have hF : F.IsActuator = true := hAll F (by simp)
      have ih' := ih (fun G hG => hAll G (by simp [hG]))
      simp only [UButtplugFeature.IsActuator, bne_iff_ne, ne_eq, Bool.or_eq_true,
        decide_eq_true_eq] at hF
      by_cases hL : F.LinearCmdIndex = INDEX_NONE
      · by_cases hR : F.RotateCmdIndex = INDEX_NONE
        · by_cases hS : F.ScalarCmdIndex = INDEX_NONE
          · simp [hL, hR, hS] at hF
          · simp [List.filter_cons, hL, hR, hS]; omega
        · simp [List.filter_cons, hL, hR]; omega
      · simp [List.filter_cons, hL]; omega

/-! ## C11: how long a stop request lasts -/

/-- C11 (evaluation of the code at the failing input): `Stop` is called once on the
sample device, whose timing gap is 0.1 s. The next flush (delta 0.2 s) emits the
`StopDeviceCmd` and leaves the stop flag set. Then a new actuation is queued with no
further `Stop`, and the following flush (delta 0.2 s again) emits a second
`StopDeviceCmd` and no `ScalarCmd`, the new actuation being dropped: the stop flag is
never cleared. -/
theorem C11_stop_request_outlives_its_flush :
    (Sample.Device.Stop.FlushMessageQueue Sample.Connected (2 / 10)).map
        (fun Flushed => (Flushed.1.bHasQueuedStopDevice, Flushed.2.MessageBuffer))
      = .ok (true, [{ Id := 3, Fields := .StopDeviceCmd 5 }]) ∧
    ((Sample.Device.Stop.FlushMessageQueue Sample.Connected (2 / 10)).bind
        (fun First =>
          (First.1.ActuateAll .Vibrate 1 (.Finite 0)).FlushMessageQueue First.2 (2 / 10))).map
        (fun Flushed => (Flushed.1.Features.map (fun F => F.bHasQueuedActuation),
                         Flushed.2.MessageBuffer))
      = .ok ([false], [{ Id := 3, Fields := .StopDeviceCmd 5 },
                       { Id := 4, Fields := .StopDeviceCmd 5 }]) := by
  refine ⟨?_, ?_⟩
  · norm_num [FloatAdd.zero_zero, FloatAdd.zero_one, FloatAdd.zero_one_tenth,
      FloatAdd.zero_one_fifth, FloatAdd.fifth_hundredth, FloatAdd.fifth_fifth,
      UButtplugDevice.FlushMessageQueue, UButtplugDevice.GetMessageTimingGap,
      UButtplugDevice.Stop, UButtplugDevice.IsConnected,
      Sample.Device, Sample.Vibrator, Sample.Connected, UButtplugDevice.NewObject,
      UButtplugFeature.NewObject, INDEX_NONE,
      UButtplugSubsystem.EnqueueMessages, UButtplugSubsystem.EnqueueMessage,
      UButtplugSubsystem.IsConnected, UINT32_MODULUS,
      Except.map, bind, Except.bind, pure, Except.pure]
  · norm_num [FloatAdd.zero_zero, FloatAdd.zero_one, FloatAdd.zero_one_tenth,
      FloatAdd.zero_one_fifth, FloatAdd.fifth_hundredth, FloatAdd.fifth_fifth,
      UButtplugDevice.FlushMessageQueue, UButtplugDevice.GetMessageTimingGap,
      UButtplugDevice.Stop,
      Sample.Device, Sample.Vibrator, Sample.Connected, UButtplugDevice.NewObject,
      UButtplugFeature.NewObject, UButtplugFeature.IsActuator, INDEX_NONE,
      UButtplugDevice.ActuateAll, UButtplugDevice.IsConnected, UButtplugFeature.Actuate,
      UButtplugSubsystem.EnqueueMessages, UButtplugSubsystem.EnqueueMessage,
      UButtplugSubsystem.IsConnected, UINT32_MODULUS,
      Except.map, bind, Except.bind, pure, Except.pure]

/-! ## C12: batching of actuations -/

/-- C12: in a flush that passes the timing gate with no stop requested, the actuation
commands enqueued are `BatchedCommands`: at most one `LinearCmd`, one `RotateCmd` and one
`ScalarCmd`, each present exactly when a queued feature routes to it, holding one entry per
such feature in feature order, addressed by the slot index (linear before rotate before
scalar). Every queued feature has its entry in exactly one batch, features with nothing
queued have none, and every queued flag is cleared. -/
theorem C12_one_command_per_kind_per_flush (D : UButtplugDevice) (S : UButtplugSubsystem)
    (DeltaTime : ℚ)
    (hGate : ¬ FloatAdd D.TimeSinceLastMessage DeltaTime < D.GetMessageTimingGap)
    (hC : S.IsConnected = true) (hQ : D.QueuedAreActuators)
    (hStop : D.bHasQueuedStopDevice = false) :
    ∃ (D' : UButtplugDevice) (S' : UButtplugSubsystem) (E1 E2 : FButtplugMessageArray),
      D.FlushMessageQueue S DeltaTime = .ok (D', S') ∧
      S'.MessageBuffer = S.MessageBuffer ++ E1 ++ E2 ∧
      E1.map (fun M => M.Fields) = D.BatchedCommands ∧
      E2.map (fun M => M.Fields) = D.MessageQueue.map (fun M => M.Fields) ∧
      (D.BatchedCommands.filter
          (fun M => M.GetMessageType == EButtplugMessageType.LinearCmd)).length ≤ 1 ∧
      (D.BatchedCommands.filter
          (fun M => M.GetMessageType == EButtplugMessageType.RotateCmd)).length ≤ 1 ∧
      (D.BatchedCommands.filter
          (fun M => M.GetMessageType == EButtplugMessageType.ScalarCmd)).length ≤ 1 ∧
      D.LinearEntries.length + D.RotateEntries.length + D.ScalarEntries.length
        = (D.Features.filter (fun F => F.bHasQueuedActuation)).length ∧
      D'.Features = D.Features.map (fun F => { F with bHasQueuedActuation := false }) ∧
      (∀ F ∈ D'.Features, F.bHasQueuedActuation = false) := by
  obtain ⟨S', E1, E2, hF, hB, h1, h2⟩ :=
    UButtplugDevice.FlushMessageQueue_batched D S DeltaTime hGate hC hQ hStop
  refine ⟨_, S', E1, E2, hF, hB, h1, h2, ?_, ?_, ?_,
    UButtplugDevice.entries_length D hQ, rfl, ?_⟩
  · unfold UButtplugDevice.BatchedCommands
    split_ifs <;> simp [TButtplugMessage.GetMessageType]
  · unfold UButtplugDevice.BatchedCommands
    split_ifs <;> simp [TButtplugMessage.GetMessageType]
  · unfold UButtplugDevice.BatchedCommands
    split_ifs <;> simp [TButtplugMessage.GetMessageType]
  · intro F hF
    simp only [List.mem_map] at hF
    obtain ⟨G, -, rfl⟩ := hF
    rfl

/-- C12 at a concrete input: three queued scalar features give exactly one `ScalarCmd`
with three entries, indexed by the features' scalar slots. -/
theorem C12_one_command_per_kind_per_flush_witness :
    Sample.TripleVibrator.BatchedCommands =
      [.ScalarCmd 7 [{ Index := 0, Value := 1 / 4, ActuatorType := "Vibrate" },
                     { Index := 1, Value := 1 / 2, ActuatorType := "Vibrate" },
                     { Index := 2, Value := 3 / 4, ActuatorType := "Vibrate" }]] ∧
    ∃ (D' : UButtplugDevice) (S' : UButtplugSubsystem) (E1 E2 : FButtplugMessageArray),
      Sample.TripleVibrator.FlushMessageQueue Sample.Connected 0 = .ok (D', S') ∧
      S'.MessageBuffer = Sample.Connected.MessageBuffer ++ E1 ++ E2 ∧
      E1.map (fun M => M.Fields) = Sample.TripleVibrator.BatchedCommands ∧
      E2.map (fun M => M.Fields)
        = Sample.TripleVibrator.MessageQueue.map (fun M => M.Fields) ∧
      (Sample.TripleVibrator.BatchedCommands.filter
          (fun M => M.GetMessageType == EButtplugMessageType.LinearCmd)).length ≤ 1 ∧
      (Sample.TripleVibrator.BatchedCommands.filter
          (fun M => M.GetMessageType == EButtplugMessageType.RotateCmd)).length ≤ 1 ∧
      (Sample.TripleVibrator.BatchedCommands.filter
          (fun M => M.GetMessageType == EButtplugMessageType.ScalarCmd)).length ≤ 1 ∧
      Sample.TripleVibrator.LinearEntries.length + Sample.TripleVibrator.RotateEntries.length
          + Sample.TripleVibrator.ScalarEntries.length
        = (Sample.TripleVibrator.Features.filter (fun F => F.bHasQueuedActuation)).length ∧
      D'.Features
        = Sample.TripleVibrator.Features.map (fun F => { F with bHasQueuedActuation := false }) ∧
      (∀ F ∈ D'.Features, F.bHasQueuedActuation = false) :=
  ⟨by simp [UButtplugDevice.BatchedCommands, UButtplugDevice.LinearEntries,
        UButtplugDevice.RotateEntries, UButtplugDevice.ScalarEntries,
        UButtplugDevice.QueuedFeatures, Sample.TripleVibrator, Sample.VibratorAt,
        UButtplugDevice.NewObject, UButtplugFeature.NewObject, INDEX_NONE,
        EButtplugFeatureType.GetEnumAsString],
   C12_one_command_per_kind_per_flush Sample.TripleVibrator Sample.Connected 0
    (by norm_num [FloatAdd.zero_zero, FloatAdd.zero_one, FloatAdd.zero_one_tenth,
          FloatAdd.zero_one_fifth, FloatAdd.fifth_hundredth, FloatAdd.fifth_fifth,
          Sample.TripleVibrator, UButtplugDevice.NewObject,
          UButtplugDevice.GetMessageTimingGap])
    (by simp [Sample.Connected, UButtplugSubsystem.IsConnected])
    (by simp [UButtplugDevice.QueuedAreActuators, Sample.TripleVibrator, Sample.VibratorAt,
          UButtplugDevice.NewObject, UButtplugFeature.NewObject, UButtplugFeature.IsActuator,
          INDEX_NONE])
    (by simp [Sample.TripleVibrator, UButtplugDevice.NewObject])⟩

/-- A queued feature with a linear slot has its entry in the linear batch. -/
theorem UButtplugDevice.mem_LinearEntries (D : UButtplugDevice) (F : UButtplugFeature)
    (hF : F ∈ D.Features) (hQueued : F.bHasQueuedActuation = true)
    (hL : F.LinearCmdIndex ≠ INDEX_NONE) :
    ({ Index := F.LinearCmdIndex, Duration := F.QueuedActuation.DurationMs,
       Position := F.QueuedActuation.Value } : FButtplugMessage.Vector) ∈ D.LinearEntries := by
  unfold UButtplugDevice.LinearEntries UButtplugDevice.QueuedFeatures
  refine List.mem_map.mpr ⟨F, ?_, rfl⟩
  simp [List.mem_filter, hF, hQueued, hL]

/-- A queued feature with no linear slot and a rotate slot has its entry in the rotate
batch. -/
theorem UButtplugDevice.mem_RotateEntries (D : UButtplugDevice) (F : UButtplugFeature)
    (hF : F ∈ D.Features) (hQueued : F.bHasQueuedActuation = true)
    (hL : F.LinearCmdIndex = INDEX_NONE) (hR : F.RotateCmdIndex ≠ INDEX_NONE) :
    ({ Index := F.RotateCmdIndex, Speed := |F.QueuedActuation.Value|,
       Clockwise := decide (F.QueuedActuation.Value ≥ (0 : ℚ)) } : FButtplugMessage.Rotation)
      ∈ D.RotateEntries := by
  unfold UButtplugDevice.RotateEntries UButtplugDevice.QueuedFeatures
  refine List.mem_map.mpr ⟨F, ?_, rfl⟩
  simp [List.mem_filter, hF, hQueued, hL, hR]

/-- A queued feature with only a scalar slot has its entry in the scalar batch. -/
theorem UButtplugDevice.mem_ScalarEntries (D : UButtplugDevice) (F : UButtplugFeature)
    (hF : F ∈ D.Features) (hQueued : F.bHasQueuedActuation = true)
    (hL : F.LinearCmdIndex = INDEX_NONE) (hR : F.RotateCmdIndex = INDEX_NONE)
    (hS : F.ScalarCmdIndex ≠ INDEX_NONE) :
    ({ Index := F.ScalarCmdIndex, Value := F.QueuedActuation.Value,
       ActuatorType := F.FeatureType.GetEnumAsString } : FButtplugMessage.Scalar)
      ∈ D.ScalarEntries := by
  unfold UButtplugDevice.ScalarEntries UButtplugDevice.QueuedFeatures
  refine List.mem_map.mpr ⟨F, ?_, rfl⟩
  simp [List.mem_filter, hF, hQueued, hL, hR, hS]

/-- A non-empty batch is one of the batched commands. -/
theorem UButtplugDevice.mem_BatchedCommands (D : UButtplugDevice) :
    (D.LinearEntries ≠ [] →
      TButtplugMessage.LinearCmd D.DeviceIndex D.LinearEntries ∈ D.BatchedCommands) ∧
    (D.RotateEntries ≠ [] →
      TButtplugMessage.RotateCmd D.DeviceIndex D.RotateEntries ∈ D.BatchedCommands) ∧
    (D.ScalarEntries ≠ [] →
      TButtplugMessage.ScalarCmd D.DeviceIndex D.ScalarEntries ∈ D.BatchedCommands) := by
  unfold UButtplugDevice.BatchedCommands
  refine ⟨fun h => ?_, fun h => ?_, fun h => ?_⟩ <;> simp [h]

/-- The duration sent for a finite number of seconds whose millisecond count (the rounded
`float` product of the seconds and 1000) fits an `int32`: that count when it is not
negative, and that count plus `2 ^ 32` when it is. -/
theorem FQueuedActuation.DurationMs_Finite (Value Seconds : ℚ)
    (hLow : -2147483648 ≤ RoundHalfUp (FloatMul Seconds 1000))
    (hHigh : RoundHalfUp (FloatMul Seconds 1000) ≤ 2147483647) :
    (0 ≤ RoundHalfUp (FloatMul Seconds 1000) →
      ((FQueuedActuation.DurationMs { Value := Value, Duration := .Finite Seconds } : Nat) : Int)
        = RoundHalfUp (FloatMul Seconds 1000)) ∧
    (RoundHalfUp (FloatMul Seconds 1000) < 0 →
      ((FQueuedActuation.DurationMs { Value := Value, Duration := .Finite Seconds } : Nat) : Int)
        = RoundHalfUp (FloatMul Seconds 1000) + 4294967296) := by
  unfold FQueuedActuation.DurationMs RoundToInt32 Int32ToUInt32
  simp only
  rw [if_pos ⟨hLow, hHigh⟩]
  generalize RoundHalfUp (FloatMul Seconds 1000) = R at hLow hHigh
  refine ⟨fun hPos => ?_, fun hNeg => ?_⟩
  · rw [Int.emod_eq_of_lt hPos (by omega)]
    exact Int.toNat_of_nonneg hPos
  · have hMod : R % 4294967296 = R + 4294967296 := by omega
    rw [hMod]
    exact Int.toNat_of_nonneg (by omega)

/-- The values of the entries: a flush that passes the timing gate without a stop request,
on a device holding a feature `F` with queued actuation (value `v`, finite duration `d`
seconds), enqueues: when `F` has a linear slot and the `float` product of `d` and 1000
rounds to an `int32`, a `LinearCmd` with an entry at that slot with Position `v` and
Duration that rounded value when it is not negative, and that value plus `2 ^ 32` when it
is; else when `F` has a rotate slot, a `RotateCmd` with an entry at that slot with Speed
`|v|` and Clockwise true exactly when `v ≥ 0`; else when `F` has a scalar slot, a
`ScalarCmd` with an entry at that slot with Scalar `v` and ActuatorType the name of the
feature's type. -/
theorem UButtplugDevice.FlushMessageQueue_entry_values (D : UButtplugDevice) (S : UButtplugSubsystem)
    (DeltaTime : ℚ)
    (hGate : ¬ FloatAdd D.TimeSinceLastMessage DeltaTime < D.GetMessageTimingGap)
    (hC : S.IsConnected = true) (hQ : D.QueuedAreActuators)
    (hStop : D.bHasQueuedStopDevice = false)
    (F : UButtplugFeature) (hF : F ∈ D.Features) (hQueued : F.bHasQueuedActuation = true)
    (v d : ℚ) (hAct : F.QueuedActuation = { Value := v, Duration := .Finite d }) :
    ∃ (D' : UButtplugDevice) (S' : UButtplugSubsystem) (E : FButtplugMessageArray),
      D.FlushMessageQueue S DeltaTime = .ok (D', S') ∧
      S'.MessageBuffer = S.MessageBuffer ++ E ∧
      (F.LinearCmdIndex ≠ INDEX_NONE →
        -2147483648 ≤ RoundHalfUp (FloatMul d 1000) → RoundHalfUp (FloatMul d 1000) ≤ 2147483647 →
        ∃ M ∈ E, ∃ Vectors, M.Fields = .LinearCmd D.DeviceIndex Vectors ∧
          ∃ Entry ∈ Vectors, Entry.Index = F.LinearCmdIndex ∧ Entry.Position = v ∧
            (0 ≤ RoundHalfUp (FloatMul d 1000) →
              (Entry.Duration : Int) = RoundHalfUp (FloatMul d 1000)) ∧
            (RoundHalfUp (FloatMul d 1000) < 0 →
              (Entry.Duration : Int) = RoundHalfUp (FloatMul d 1000) + 4294967296)) ∧
      (F.LinearCmdIndex = INDEX_NONE → F.RotateCmdIndex ≠ INDEX_NONE →
        ∃ M ∈ E, ∃ Rotations, M.Fields = .RotateCmd D.DeviceIndex Rotations ∧
          ∃ Entry ∈ Rotations, Entry.Index = F.RotateCmdIndex ∧ Entry.Speed = |v| ∧
            (Entry.Clockwise = true ↔ v ≥ 0)) ∧
      (F.LinearCmdIndex = INDEX_NONE → F.RotateCmdIndex = INDEX_NONE →
        F.ScalarCmdIndex ≠ INDEX_NONE →
        ∃ M ∈ E, ∃ Scalars, M.Fields = .ScalarCmd D.DeviceIndex Scalars ∧
          ∃ Entry ∈ Scalars, Entry.Index = F.ScalarCmdIndex ∧ Entry.Value = v ∧
            Entry.ActuatorType = F.FeatureType.GetEnumAsString) := by
  obtain ⟨S', E1, E2, hFlush, hB, h1, -⟩ :=
    UButtplugDevice.FlushMessageQueue_batched D S DeltaTime hGate hC hQ hStop
  have hIn : ∀ T ∈ D.BatchedCommands, ∃ M ∈ E1 ++ E2, M.Fields = T := by
    intro T hT
    rw [← h1, List.mem_map] at hT
    obtain ⟨M, hM, rfl⟩ := hT
    exact ⟨M, List.mem_append_left _ hM, rfl⟩
  obtain ⟨hLin, hRot, hSca⟩ := UButtplugDevice.mem_BatchedCommands D
  refine ⟨_, S', E1 ++ E2, hFlush, by rw [hB, List.append_assoc], ?_, ?_, ?_⟩
  · intro hL hLow hHigh
    have hMem := UButtplugDevice.mem_LinearEntries D F hF hQueued hL
    obtain ⟨M, hM, hEq⟩ := hIn _ (hLin (List.ne_nil_of_mem hMem))
    refine ⟨M, hM, _, hEq, _, hMem, rfl, ?_, ?_⟩
    · simp [hAct]
    · simp only [hAct]
      exact FQueuedActuation.DurationMs_Finite v d hLow hHigh
  · intro hL hR
    have hMem := UButtplugDevice.mem_RotateEntries D F hF hQueued hL hR
    obtain ⟨M, hM, hEq⟩ := hIn _ (hRot (List.ne_nil_of_mem hMem))
    refine ⟨M, hM, _, hEq, _, hMem, rfl, ?_, ?_⟩
    · simp [hAct]
    · simp [hAct]
  · intro hL hR hSc
    have hMem := UButtplugDevice.mem_ScalarEntries D F hF hQueued hL hR hSc
    obtain ⟨M, hM, hEq⟩ := hIn _ (hSca (List.ne_nil_of_mem hMem))
    refine ⟨M, hM, _, hEq, _, hMem, rfl, ?_, rfl⟩
    simp [hAct]

/-- The values of the entries at a concrete input: the sample position feature, queued with
value one half and a duration of a second and a half, is sent with Duration 1500. -/
theorem UButtplugDevice.FlushMessageQueue_entry_values_sample :
    RoundHalfUp (FloatMul (3 / 2) 1000) = 1500 ∧
    ∃ (D' : UButtplugDevice) (S' : UButtplugSubsystem) (E : FButtplugMessageArray),
      (Sample.Stroker (3 / 2)).FlushMessageQueue Sample.Connected 0 = .ok (D', S') ∧
      S'.MessageBuffer = Sample.Connected.MessageBuffer ++ E ∧
      ((Sample.Positioner (3 / 2)).LinearCmdIndex ≠ INDEX_NONE →
        -2147483648 ≤ RoundHalfUp (FloatMul (3 / 2) 1000) →
        RoundHalfUp (FloatMul (3 / 2) 1000) ≤ 2147483647 →
        ∃ M ∈ E, ∃ Vectors, M.Fields = .LinearCmd (Sample.Stroker (3 / 2)).DeviceIndex Vectors ∧
          ∃ Entry ∈ Vectors, Entry.Index = (Sample.Positioner (3 / 2)).LinearCmdIndex ∧
            Entry.Position = 1 / 2 ∧
            (0 ≤ RoundHalfUp (FloatMul (3 / 2) 1000) →
              (Entry.Duration : Int) = RoundHalfUp (FloatMul (3 / 2) 1000)) ∧
            (RoundHalfUp (FloatMul (3 / 2) 1000) < 0 →
              (Entry.Duration : Int) = RoundHalfUp (FloatMul (3 / 2) 1000) + 4294967296)) ∧
      ((Sample.Positioner (3 / 2)).LinearCmdIndex = INDEX_NONE →
        (Sample.Positioner (3 / 2)).RotateCmdIndex ≠ INDEX_NONE →
        ∃ M ∈ E, ∃ Rotations,
          M.Fields = .RotateCmd (Sample.Stroker (3 / 2)).DeviceIndex Rotations ∧
          ∃ Entry ∈ Rotations, Entry.Index = (Sample.Positioner (3 / 2)).RotateCmdIndex ∧
            Entry.Speed = |(1 / 2 : ℚ)| ∧ (Entry.Clockwise = true ↔ (1 / 2 : ℚ) ≥ 0)) ∧
      ((Sample.Positioner (3 / 2)).LinearCmdIndex = INDEX_NONE →
        (Sample.Positioner (3 / 2)).RotateCmdIndex = INDEX_NONE →
        (Sample.Positioner (3 / 2)).ScalarCmdIndex ≠ INDEX_NONE →
        ∃ M ∈ E, ∃ Scalars,
          M.Fields = .ScalarCmd (Sample.Stroker (3 / 2)).DeviceIndex Scalars ∧
          ∃ Entry ∈ Scalars, Entry.Index = (Sample.Positioner (3 / 2)).ScalarCmdIndex ∧
            Entry.Value = 1 / 2 ∧
            Entry.ActuatorType = (Sample.Positioner (3 / 2)).FeatureType.GetEnumAsString) :=
  ⟨by norm_num [RoundHalfUp, FloatMul.three_halves_thousand],
   UButtplugDevice.FlushMessageQueue_entry_values (Sample.Stroker (3 / 2)) Sample.Connected 0
    (by norm_num [FloatAdd.zero_zero, FloatAdd.zero_one, FloatAdd.zero_one_tenth,
          FloatAdd.zero_one_fifth, FloatAdd.fifth_hundredth, FloatAdd.fifth_fifth,
          Sample.Stroker, UButtplugDevice.NewObject,
          UButtplugDevice.GetMessageTimingGap])
    (by simp [Sample.Connected, UButtplugSubsystem.IsConnected])
    (by simp [UButtplugDevice.QueuedAreActuators, Sample.Stroker, Sample.Positioner,
          UButtplugDevice.NewObject, UButtplugFeature.NewObject, UButtplugFeature.IsActuator,
          INDEX_NONE])
    (by simp [Sample.Stroker, UButtplugDevice.NewObject])
    (Sample.Positioner (3 / 2))
    (by simp [Sample.Stroker])
    (by simp [Sample.Positioner])
    (1 / 2) (3 / 2)
    (by simp [Sample.Positioner])⟩

/-- The duration sent for `0.0025f` seconds is 3: the `float` product with 1000 is `2.5f`
and rounds up, although the exact product is below two and a half. -/
theorem FQueuedActuation.DurationMs_of_float_product (Value : ℚ) :
    RoundToFloat (1 / 400) < 1 / 400 ∧
    FQueuedActuation.DurationMs
      { Value := Value, Duration := .Finite (RoundToFloat (1 / 400)) } = 3 := by
  rw [RoundToFloat.one_four_hundredth]
  refine ⟨by norm_num, ?_⟩
  norm_num [FQueuedActuation.DurationMs, FloatMul.four_hundredth_thousand, RoundToInt32,
    RoundHalfUp, Int32ToUInt32]
  rfl

/-! ## C13: the values of the entries -/

/-- C13 (evaluation of the code at the failing input): the sample position feature is
queued with value one half and the finite duration of minus one second. The `float`
product of the duration and 1000 is `-1000`, which rounds to `-1000`, but the entry of the
`LinearCmd` that the flush enqueues has Duration `4294966296`: the rounded `int32` is
stored in the `uint32` member and loses its sign. -/
theorem C13_negative_duration_is_sent_as_4294966296 :
    FloatMul (-1) 1000 = -1000 ∧
    RoundHalfUp (FloatMul (-1) 1000) = -1000 ∧
    ((Sample.Stroker (-1)).FlushMessageQueue Sample.Connected 0).map
        (fun Flushed => Flushed.2.MessageBuffer)
      = .ok [{ Id := 3, Fields := .LinearCmd 6 [{ Index := 0, Duration := 4294966296,
                                                  Position := 1 / 2 }] },
             { Id := 4, Fields := .SensorReadCmd 6 0 "Battery" }] := by
  refine ⟨FloatMul.neg_one_thousand, by norm_num [RoundHalfUp, FloatMul.neg_one_thousand],
    ?_⟩
  norm_num [FloatMul.neg_one_thousand, FloatAdd.zero_zero, FloatAdd.zero_one,
    FloatAdd.zero_one_tenth, FloatAdd.zero_one_fifth, FloatAdd.fifth_hundredth, FloatAdd.fifth_fifth,
    UButtplugDevice.FlushMessageQueue, UButtplugDevice.GetMessageTimingGap,
    Sample.Stroker, Sample.Positioner, Sample.Connected, UButtplugDevice.NewObject,
    UButtplugFeature.NewObject, UButtplugDevice.FlushFeatures, FFlushCommands.Route,
    FFlushCommands.Messages, UButtplugFeature.IsActuator, INDEX_NONE,
    FQueuedActuation.DurationMs, RoundToInt32, RoundHalfUp, Int32ToUInt32,
    UButtplugSubsystem.EnqueueMessages, UButtplugSubsystem.EnqueueMessage,
    UButtplugSubsystem.IsConnected, UINT32_MODULUS,
    Except.map, bind, Except.bind, pure, Except.pure]
  rfl

/-! ## C14: the per-tick queue -/

/-- C14: a flush that passes the timing gate hands the messages of the per-tick queue to
the session after the stop command or the actuation commands of that call, in queue order
and each once (the messages appended last carry the queue's contents, entry for entry),
and leaves the per-tick queue empty. -/
theorem C14_queue_follows_the_commands (D : UButtplugDevice) (S : UButtplugSubsystem)
    (DeltaTime : ℚ)
    (hGate : ¬ FloatAdd D.TimeSinceLastMessage DeltaTime < D.GetMessageTimingGap)
    (hC : S.IsConnected = true) (hQ : D.QueuedAreActuators) :
    ∃ (D' : UButtplugDevice) (S' : UButtplugSubsystem) (E1 E2 : FButtplugMessageArray),
      D.FlushMessageQueue S DeltaTime = .ok (D', S') ∧
      S'.MessageBuffer = S.MessageBuffer ++ E1 ++ E2 ∧
      E1.map (fun M => M.Fields) =
        (if D.bHasQueuedStopDevice then [TButtplugMessage.StopDeviceCmd D.DeviceIndex]
         else D.BatchedCommands) ∧
      E2.map (fun M => M.Fields) = D.MessageQueue.map (fun M => M.Fields) ∧
      D'.MessageQueue = [] := by
  rcases Bool.eq_false_or_eq_true D.bHasQueuedStopDevice with hStop | hStop
  · obtain ⟨S', E, hF, hB, hE, -⟩ :=
      UButtplugDevice.FlushMessageQueue_stop D S DeltaTime hGate hC hStop
    exact ⟨_, S', [{ Id := S.NextMessageId, Fields := .StopDeviceCmd D.DeviceIndex }], E, hF,
      by rw [hB]; simp, by simp [hStop], hE, rfl⟩
  · obtain ⟨S', E1, E2, hF, hB, h1, h2⟩ :=
      UButtplugDevice.FlushMessageQueue_batched D S DeltaTime hGate hC hQ hStop
    exact ⟨_, S', E1, E2, hF, hB, by simp [hStop, h1], h2, rfl⟩

/-- C14 at a concrete input: the sample stroker, holding a queued move and a sensor read
command in its per-tick queue. -/
theorem C14_queue_follows_the_commands_witness :
    (Sample.Stroker 1).MessageQueue ≠ [] ∧
    ∃ (D' : UButtplugDevice) (S' : UButtplugSubsystem) (E1 E2 : FButtplugMessageArray),
      (Sample.Stroker 1).FlushMessageQueue Sample.Connected 0 = .ok (D', S') ∧
      S'.MessageBuffer = Sample.Connected.MessageBuffer ++ E1 ++ E2 ∧
      E1.map (fun M => M.Fields) =
        (if (Sample.Stroker 1).bHasQueuedStopDevice
          then [TButtplugMessage.StopDeviceCmd (Sample.Stroker 1).DeviceIndex]
         else (Sample.Stroker 1).BatchedCommands) ∧
      E2.map (fun M => M.Fields) = (Sample.Stroker 1).MessageQueue.map (fun M => M.Fields) ∧
      D'.MessageQueue = [] :=
  ⟨by simp [Sample.Stroker],
   C14_queue_follows_the_commands (Sample.Stroker 1) Sample.Connected 0
    (by norm_num [FloatAdd.zero_zero, FloatAdd.zero_one, FloatAdd.zero_one_tenth,
          FloatAdd.zero_one_fifth, FloatAdd.fifth_hundredth, FloatAdd.fifth_fifth,
          Sample.Stroker, UButtplugDevice.NewObject,
          UButtplugDevice.GetMessageTimingGap])
    (by simp [Sample.Connected, UButtplugSubsystem.IsConnected])
    (by simp [UButtplugDevice.QueuedAreActuators, Sample.Stroker, Sample.Positioner,
          UButtplugDevice.NewObject, UButtplugFeature.NewObject, UButtplugFeature.IsActuator,
          INDEX_NONE])⟩

/-! ## Helper lemmas on the device table -/

/-- After `Add`, the key maps to the value added. -/
theorem TMap.Find_Add_self (M : List (Nat × UButtplugDevice)) (K : Nat) (V : UButtplugDevice) :
    TMap.Find (TMap.Add M K V) K = some V := by
  induction M with
  | nil => simp [TMap.Add, TMap.Find]
  | cons E Rest ih =>
      unfold TMap.Add
      by_cases h : E.1 = K
      · simp [h, TMap.Find]
      · simp only [beq_iff_eq, h, if_false]
        unfold TMap.Find at ih ⊢
        simp [List.find?_cons, h, ih]

/-- The `Add` of one key leaves every other key alone. -/
theorem TMap.Find_Add_other (M : List (Nat × UButtplugDevice)) (K K' : Nat)
    (V : UButtplugDevice) (hK : K' ≠ K) :
    TMap.Find (TMap.Add M K V) K' = TMap.Find M K' := by
  induction M with
  | nil => simp [TMap.Add, TMap.Find, List.find?_cons, Ne.symm hK]
  | cons E Rest ih =>
      unfold TMap.Add
      by_cases h : E.1 = K
      · have h' : ¬ E.1 = K' := fun h2 => hK (h2.symm.trans h)
        simp [h, TMap.Find, List.find?_cons, Ne.symm hK, h']
      · simp only [beq_iff_eq, h, if_false]
        unfold TMap.Find at ih ⊢
        by_cases h2 : E.1 = K'
        · simp [List.find?_cons, h2]
        · simp [List.find?_cons, h2, ih]

/-- The `Add` under a key that is present keeps the keys and their order. -/
theorem TMap.keys_Add_of_Find (M : List (Nat × UButtplugDevice)) (K : Nat)
    (V D : UButtplugDevice) (hFind : TMap.Find M K = some D) :
    (TMap.Add M K V).map Prod.fst = M.map Prod.fst := by
  induction M with
  | nil => simp [TMap.Find] at hFind
  | cons E Rest ih =>
      unfold TMap.Add
      by_cases h : E.1 = K
      · simp [h]
      · simp only [beq_iff_eq, h, if_false, List.map_cons]
        rw [ih]
        unfold TMap.Find at hFind ⊢
        simpa [List.find?_cons, h] using hFind

/-- The `Add` under a key that is absent appends the key. -/
theorem TMap.keys_Add_of_not_Find (M : List (Nat × UButtplugDevice)) (K : Nat)
    (V : UButtplugDevice) (hFind : TMap.Find M K = none) :
    (TMap.Add M K V).map Prod.fst = M.map Prod.fst ++ [K] := by
  induction M with
  | nil => simp [TMap.Add]
  | cons E Rest ih =>
      unfold TMap.Add
      by_cases h : E.1 = K
      · simp [TMap.Find, List.find?_cons, h] at hFind
      · simp only [beq_iff_eq, h, if_false, List.map_cons, List.cons_append]
        rw [ih]
        unfold TMap.Find at hFind ⊢
        simpa [List.find?_cons, h] using hFind

/-- Storing under a key the very value found there changes nothing. -/
theorem TMap.Add_of_Find (M : List (Nat × UButtplugDevice)) (K : Nat) (D : UButtplugDevice)
    (hFind : TMap.Find M K = some D) : TMap.Add M K D = M := by
  induction M with
  | nil => simp [TMap.Find] at hFind
  | cons E Rest ih =>
      unfold TMap.Add
      by_cases h : E.1 = K
      · obtain ⟨E1, E2⟩ := E
        simp only at h
        subst h
        simp [TMap.Find, List.find?_cons] at hFind
        simp [hFind]
      · simp only [beq_iff_eq, h, if_false]
        rw [ih]
        unfold TMap.Find at hFind ⊢
        simpa [List.find?_cons, h] using hFind

/-! ## Helper lemmas on the feature loops of `DeviceAdded` -/

/-- What a feature loop yields, seen through a projection that depends on the index only. -/
theorem UButtplugSubsystem.MakeFeatures_map_index {β : Type}
    (Make : Nat → FButtplugMessage.DeviceMessageAttributes → UButtplugFeature)
    (g : UButtplugFeature → β) (h : Nat → β) (hg : ∀ i a, g (Make i a) = h i) :
    ∀ (L : List FButtplugMessage.DeviceMessageAttributes) (k : Nat),
      (UButtplugSubsystem.MakeFeatures Make k L).map g
        = (List.range L.length).map (fun i => h (k + i)) := by
  intro L
  induction L with
  | nil => intro k; simp [UButtplugSubsystem.MakeFeatures]
  | cons A Rest ih =>
      intro k
      simp only [UButtplugSubsystem.MakeFeatures, List.map_cons, List.length_cons,
        List.range_succ_eq_map, hg, ih, List.map_map, Nat.add_zero]
      congr 1
      apply List.map_congr_left
      intro i _
      simp only [Function.comp, Nat.succ_eq_add_one]
      congr 1
      omega

/-- The command slots of the features of a freshly built device. -/
theorem UButtplugSubsystem.MakeDevice_CommandSlots (Device : FButtplugMessage.Device) :
    (UButtplugSubsystem.MakeDevice Device).Features.map (fun F => F.CommandSlots) =
      (List.range Device.Messages.ScalarCmd.length).map
          (fun i => (i, INDEX_NONE, INDEX_NONE, INDEX_NONE, INDEX_NONE))
      ++ (List.range Device.Messages.LinearCmd.length).map
          (fun i => (INDEX_NONE, i, INDEX_NONE, INDEX_NONE, INDEX_NONE))
      ++ (List.range Device.Messages.RotateCmd.length).map
          (fun i => (INDEX_NONE, INDEX_NONE, i, INDEX_NONE, INDEX_NONE))
      ++ (List.range Device.Messages.SensorReadCmd.length).map
          (fun i => (INDEX_NONE, INDEX_NONE, INDEX_NONE, i, INDEX_NONE))
      ++ (List.range Device.Messages.SensorSubscribeCmd.length).map
          (fun i => (INDEX_NONE, INDEX_NONE, INDEX_NONE, INDEX_NONE, i)) := by
  unfold UButtplugSubsystem.MakeDevice
  simp only [List.map_append]
  rw [UButtplugSubsystem.MakeFeatures_map_index UButtplugSubsystem.MakeScalarFeature _
        (fun i => (i, INDEX_NONE, INDEX_NONE, INDEX_NONE, INDEX_NONE)) (fun _ _ => rfl),
      UButtplugSubsystem.MakeFeatures_map_index UButtplugSubsystem.MakeLinearFeature _
        (fun i => (INDEX_NONE, i, INDEX_NONE, INDEX_NONE, INDEX_NONE)) (fun _ _ => rfl),
      UButtplugSubsystem.MakeFeatures_map_index UButtplugSubsystem.MakeRotateFeature _
        (fun i => (INDEX_NONE, INDEX_NONE, i, INDEX_NONE, INDEX_NONE)) (fun _ _ => rfl),
      UButtplugSubsystem.MakeFeatures_map_index UButtplugSubsystem.MakeSensorReadFeature _
        (fun i => (INDEX_NONE, INDEX_NONE, INDEX_NONE, i, INDEX_NONE)) (fun _ _ => rfl),
      UButtplugSubsystem.MakeFeatures_map_index UButtplugSubsystem.MakeSensorSubscribeFeature _
        (fun i => (INDEX_NONE, INDEX_NONE, INDEX_NONE, INDEX_NONE, i)) (fun _ _ => rfl)]
  simp

/-- A `DeviceAdded` for an index that is absent, or held by a device of another name,
stores a fresh device. -/
theorem UButtplugSubsystem.OnDeviceAdded_new (S : UButtplugSubsystem)
    (Device : FButtplugMessage.Device)
    (hNew : ∀ Existing, TMap.Find S.Devices Device.Index = some Existing →
      ¬ (Existing.DescriptiveName = Device.Name ∧ Existing.DisplayName = Device.DisplayName)) :
    S.OnDeviceAdded Device = S.AddNewDevice Device := by
  unfold UButtplugSubsystem.OnDeviceAdded
  cases hFind : TMap.Find S.Devices Device.Index with
  | none => rfl
  | some Existing => simp only [if_neg (hNew Existing hFind)]

/-! ## C15: a device is built from a `DeviceAdded` -/

/-- C16: a `DeviceAdded` whose index is in the device table. When name and display name
are those of the stored device, the stored device is kept with only its connected flag
set (features, readings and queued state untouched, whatever the message's attribute
arrays hold), the table keeps its keys, and the device's connected delegate and the
device-added event fire. When the name or the display name differs, the entry is replaced
by the freshly built device. -/
theorem C16_known_device_is_kept (S : UButtplugSubsystem) (Id : Nat)
    (Device : FButtplugMessage.Device) (Existing : UButtplugDevice)
    (hKnown : TMap.Find S.Devices Device.Index = some Existing) :
    ∃ S' : UButtplugSubsystem,
      S.OnServerMessage { Id := Id, Fields := .DeviceAdded Device } = .ok S' ∧
      S'.Devices.map Prod.fst = S.Devices.map Prod.fst ∧
      (∀ Other, Other ≠ Device.Index → TMap.Find S'.Devices Other = TMap.Find S.Devices Other) ∧
      S'.Events = S.Events ++
        [.Device Device.Index .OnConnected, .OnDeviceAdded Device.Index] ∧
      (Existing.DescriptiveName = Device.Name → Existing.DisplayName = Device.DisplayName →
        TMap.Find S'.Devices Device.Index = some { Existing with bConnected := true }) ∧
      (¬ (Existing.DescriptiveName = Device.Name ∧
            Existing.DisplayName = Device.DisplayName) →
        TMap.Find S'.Devices Device.Index
          = some { UButtplugSubsystem.MakeDevice Device with bConnected := true }) := by
  by_cases hSame :
      Existing.DescriptiveName = Device.Name ∧ Existing.DisplayName = Device.DisplayName
  · refine ⟨{ S with
        Devices := TMap.Add S.Devices Device.Index { Existing with bConnected := true }
        Events := S.Events ++
          [.Device Device.Index .OnConnected, .OnDeviceAdded Device.Index] }, ?_, ?_, ?_,
      rfl, ?_, ?_⟩
    · simp [UButtplugSubsystem.OnServerMessage, UButtplugSubsystem.OnDeviceAdded, hKnown,
        hSame, UButtplugDevice.SetConnected]
    · exact TMap.keys_Add_of_Find _ _ _ _ hKnown
    · intro Other hOther
      exact TMap.Find_Add_other _ _ _ _ hOther
    · intro _ _
      exact TMap.Find_Add_self _ _ _
    · intro hDiffer
      exact absurd hSame hDiffer
  · have hNew : ∀ E, TMap.Find S.Devices Device.Index = some E →
        ¬ (E.DescriptiveName = Device.Name ∧ E.DisplayName = Device.DisplayName) := by
      intro E hE
      rw [hKnown] at hE
      cases hE
      exact hSame
    refine ⟨S.AddNewDevice Device, ?_, ?_, ?_, rfl, ?_, ?_⟩
    · simp only [UButtplugSubsystem.OnServerMessage,
        UButtplugSubsystem.OnDeviceAdded_new S Device hNew]
    · exact TMap.keys_Add_of_Find _ _ _ _ hKnown
    · intro Other hOther
      exact TMap.Find_Add_other _ _ _ _ hOther
    · intro hName hDisplay
      exact absurd ⟨hName, hDisplay⟩ hSame
    · intro _
      exact TMap.Find_Add_self _ _ _

/-- C16 at a concrete input: the sample session holds device 5 under the name "Foo" with a
queued actuation; the sample `DeviceAdded` announces index 5 under the same name. -/
theorem C16_known_device_is_kept_witness :
    Sample.Device.DescriptiveName = Sample.Readded.Name ∧
    Sample.Device.DisplayName = Sample.Readded.DisplayName ∧
    ∃ S' : UButtplugSubsystem,
      Sample.Connected.OnServerMessage { Id := 0, Fields := .DeviceAdded Sample.Readded }
        = .ok S' ∧
      S'.Devices.map Prod.fst = Sample.Connected.Devices.map Prod.fst ∧
      (∀ Other, Other ≠ Sample.Readded.Index →
        TMap.Find S'.Devices Other = TMap.Find Sample.Connected.Devices Other) ∧
      S'.Events = Sample.Connected.Events ++
        [.Device Sample.Readded.Index .OnConnected, .OnDeviceAdded Sample.Readded.Index] ∧
      (Sample.Device.DescriptiveName = Sample.Readded.Name →
        Sample.Device.DisplayName = Sample.Readded.DisplayName →
        TMap.Find S'.Devices Sample.Readded.Index
          = some { Sample.Device with bConnected := true }) ∧
      (¬ (Sample.Device.DescriptiveName = Sample.Readded.Name ∧
            Sample.Device.DisplayName = Sample.Readded.DisplayName) →
        TMap.Find S'.Devices Sample.Readded.Index
          = some { UButtplugSubsystem.MakeDevice Sample.Readded with bConnected := true }) :=
  ⟨by simp [Sample.Device, Sample.Readded, UButtplugDevice.NewObject],
   by simp [Sample.Device, Sample.Readded, UButtplugDevice.NewObject],
   C16_known_device_is_kept Sample.Connected 0 Sample.Readded Sample.Device
    (by simp [Sample.Connected, Sample.Readded, TMap.Find])⟩

/-! ## C17: a device list is a run of `DeviceAdded` -/

/-- C17: handling a `DeviceList` with devices `d1 .. dn` gives the same result (session
state and events fired, the trace being part of the state) as dispatching
`DeviceAdded d1`, ..., `DeviceAdded dn` in list order; with no devices it changes
nothing. -/
theorem C17_device_list_is_a_run_of_device_added (S : UButtplugSubsystem) (Id : Nat)
    (Devices : List FButtplugMessage.Device) :
    S.OnServerMessage { Id := Id, Fields := .DeviceList Devices } =
      S.DispatchMessages
        (Devices.map (fun Device => { Id := Id, Fields := .DeviceAdded Device })) ∧
    S.OnServerMessage { Id := Id, Fields := .DeviceList [] } = .ok S := by
  refine ⟨?_, rfl⟩
  induction Devices generalizing S with
  | nil => rfl
  | cons Device Rest ih =>
      have hRest := ih (S.OnDeviceAdded Device)
      simp only [UButtplugSubsystem.OnServerMessage] at hRest ⊢
      simp only [List.map_cons, UButtplugSubsystem.DispatchMessages,
        UButtplugSubsystem.OnServerMessage, UButtplugSubsystem.OnDeviceList, bind,
        Except.bind]
      exact hRest

/-! ## C18: a device is removed -/

/-- C18: a `DeviceRemoved` whose index is not in the device table leaves the session as it
is (no event). Otherwise the device stays in the table under its index with only its
connected flag cleared (features and readings untouched), every other entry is left
alone, and the device's disconnected delegate and then the device-removed event fire,
once. -/
theorem C18_device_removed_marks_disconnected (S : UButtplugSubsystem) (Id : Nat)
    (DeviceIndex : Nat) :
    (TMap.Find S.Devices DeviceIndex = none →
      S.OnServerMessage { Id := Id, Fields := .DeviceRemoved DeviceIndex } = .ok S) ∧
    (∀ Device, TMap.Find S.Devices DeviceIndex = some Device →
      ∃ S' : UButtplugSubsystem,
        S.OnServerMessage { Id := Id, Fields := .DeviceRemoved DeviceIndex } = .ok S' ∧
        TMap.Find S'.Devices DeviceIndex = some { Device with bConnected := false } ∧
        S'.Devices.map Prod.fst = S.Devices.map Prod.fst ∧
        (∀ Other, Other ≠ DeviceIndex →
          TMap.Find S'.Devices Other = TMap.Find S.Devices Other) ∧
        S'.Events = S.Events ++
          [.Device DeviceIndex .OnDisconnected, .OnDeviceRemoved DeviceIndex] ∧
        S'.WebSocket = S.WebSocket ∧ S'.MessageBuffer = S.MessageBuffer ∧
        S'.NextMessageId = S.NextMessageId ∧ S'.PingTimer = S.PingTimer ∧
        S'.LatentStartAction = S.LatentStartAction) := by
  refine ⟨fun hNone => ?_, fun Device hFind => ?_⟩
  · simp [UButtplugSubsystem.OnServerMessage, UButtplugSubsystem.OnDeviceRemoved, hNone]
  · refine ⟨{ S with
        Devices := TMap.Add S.Devices DeviceIndex { Device with bConnected := false }
        Events := S.Events ++
          [.Device DeviceIndex .OnDisconnected, .OnDeviceRemoved DeviceIndex] }, ?_,
      TMap.Find_Add_self _ _ _, TMap.keys_Add_of_Find _ _ _ _ hFind,
      fun Other hOther => TMap.Find_Add_other _ _ _ _ hOther, rfl, rfl, rfl, rfl, rfl, rfl⟩
    simp [UButtplugSubsystem.OnServerMessage, UButtplugSubsystem.OnDeviceRemoved, hFind,
      UButtplugDevice.SetConnected]

/-- C18 at concrete inputs: in the sample session index 9 is unknown and index 5 is the
sample device. -/
theorem C18_device_removed_marks_disconnected_witness :
    Sample.Connected.OnServerMessage { Id := 0, Fields := .DeviceRemoved 9 }
      = .ok Sample.Connected ∧
    ∃ S' : UButtplugSubsystem,
      Sample.Connected.OnServerMessage { Id := 0, Fields := .DeviceRemoved 5 } = .ok S' ∧
      TMap.Find S'.Devices 5 = some { Sample.Device with bConnected := false } ∧
      S'.Devices.map Prod.fst = Sample.Connected.Devices.map Prod.fst ∧
      (∀ Other, Other ≠ 5 →
        TMap.Find S'.Devices Other = TMap.Find Sample.Connected.Devices Other) ∧
      S'.Events = Sample.Connected.Events ++
        [.Device 5 .OnDisconnected, .OnDeviceRemoved 5] ∧
      S'.WebSocket = Sample.Connected.WebSocket ∧
      S'.MessageBuffer = Sample.Connected.MessageBuffer ∧
      S'.NextMessageId = Sample.Connected.NextMessageId ∧
      S'.PingTimer = Sample.Connected.PingTimer ∧
      S'.LatentStartAction = Sample.Connected.LatentStartAction :=
  ⟨(C18_device_removed_marks_disconnected Sample.Connected 0 9).1
      (by simp [Sample.Connected, TMap.Find]),
   (C18_device_removed_marks_disconnected Sample.Connected 0 5).2 Sample.Device
      (by simp [Sample.Connected, TMap.Find])⟩

/-! ## Helper lemmas on the delivery of sensor readings -/

/-- The feature loop of `SensorReading`: the features that pass the spec's test take the
reading, the others are left alone; what fires is, feature after feature, what each
receiving feature fires. -/
theorem UButtplugSubsystem.DeliverSensorReading_spec (SensorType : String)
    (SensorIndex : Nat) (Data : List Int) (Fs : List UButtplugFeature) :
    ∀ k : Nat,
      UButtplugSubsystem.DeliverSensorReading (EButtplugFeatureType.GetEnumByName SensorType)
          SensorIndex Data k Fs =
        (Fs.map (fun F =>
            if F.ReceivesReading SensorType SensorIndex then (F.SetSensorReading Data).1
            else F),
         ((List.enumFrom k Fs).filter
            (fun P => P.2.ReceivesReading SensorType SensorIndex)).flatMap
            (fun P => (P.2.SetSensorReading Data).2.map (fun Event => (P.1, Event)))) := by
  induction Fs with
  | nil => intro k; simp [UButtplugSubsystem.DeliverSensorReading]
  | cons F Rest ih =>
      intro k
      unfold UButtplugSubsystem.DeliverSensorReading
      simp only [ih (k + 1)]
      by_cases hM : F.ReceivesReading SensorType SensorIndex = true
      · have hM' := hM
        simp only [UButtplugFeature.ReceivesReading, Bool.and_eq_true, Bool.or_eq_true,
          decide_eq_true_eq] at hM'
        simp [hM', hM, List.enumFrom_cons, List.filter_cons, List.flatMap_cons]
      · have hM' := hM
        simp only [UButtplugFeature.ReceivesReading, Bool.and_eq_true, Bool.or_eq_true,
          decide_eq_true_eq] at hM'
        simp [hM', hM, List.enumFrom_cons, List.filter_cons]

/-! ## C19: delivery of a sensor reading -/

/-- C19: a `SensorReading` for an unknown device index leaves the session as it is. For a
known device, exactly the features whose type is the one parsed from `SensorType` and
whose `SensorReadCmdIndex` or `SensorSubscribeCmdIndex` equals `SensorIndex` take `Data`
as their last reading and fire their sensor-reading delegate (followed by the completion
of their pending reads), all of them when several match, in feature order; every other
feature and every other device is left alone, and when no feature matches the session is
left as it is. -/
theorem C19_reading_goes_to_the_matching_features (S : UButtplugSubsystem) (Id : Nat)
    (DeviceIndex SensorIndex : Nat) (SensorType : String) (Data : List Int) :
    (TMap.Find S.Devices DeviceIndex = none →
      S.OnServerMessage
          { Id := Id, Fields := .SensorReading DeviceIndex SensorIndex SensorType Data }
        = .ok S) ∧
    (∀ Device, TMap.Find S.Devices DeviceIndex = some Device →
      ∃ S' : UButtplugSubsystem,
        S.OnServerMessage
            { Id := Id, Fields := .SensorReading DeviceIndex SensorIndex SensorType Data }
          = .ok S' ∧
        TMap.Find S'.Devices DeviceIndex = some
          { Device with
              Features := Device.Features.map (fun F =>
                if F.ReceivesReading SensorType SensorIndex then
                  { F with LastSensorReading := Data, LatentSensorActions := [] }
                else F) } ∧
        (∀ Other, Other ≠ DeviceIndex →
          TMap.Find S'.Devices Other = TMap.Find S.Devices Other) ∧
        S'.Events = S.Events ++
          (Device.Features.enum.filter
              (fun P => P.2.ReceivesReading SensorType SensorIndex)).flatMap
            (fun P =>
              FButtplugEvent.Feature DeviceIndex P.1 (.OnSensorReading Data) ::
                P.2.LatentSensorActions.map (fun Handle =>
                  FButtplugEvent.Feature DeviceIndex P.1
                    (.LatentSensorActionReady Handle Data))) ∧
        ((∀ F ∈ Device.Features, F.ReceivesReading SensorType SensorIndex = false) →
          S' = S)) := by
  refine ⟨fun hNone => ?_, fun Device hFind => ?_⟩
  · simp [UButtplugSubsystem.OnServerMessage, UButtplugSubsystem.OnSensorReading, hNone]
  · refine ⟨S.OnSensorReading DeviceIndex SensorIndex SensorType Data, ?_, ?_, ?_, ?_, ?_⟩
    · simp [UButtplugSubsystem.OnServerMessage]
    · simp only [UButtplugSubsystem.OnSensorReading, hFind,
        UButtplugSubsystem.DeliverSensorReading_spec, TMap.Find_Add_self,
        UButtplugFeature.SetSensorReading]
    · intro Other hOther
      simp only [UButtplugSubsystem.OnSensorReading, hFind]
      exact TMap.Find_Add_other _ _ _ _ hOther
    · simp only [UButtplugSubsystem.OnSensorReading, hFind,
        UButtplugSubsystem.DeliverSensorReading_spec, UButtplugFeature.SetSensorReading,
        List.enum]
      congr 1
      simp only [List.flatMap]
      rw [List.map_flatten, List.map_map]
      congr 1
      apply List.map_congr_left
      intro P _
      simp [Function.comp]
    · intro hNo
      have hMap : Device.Features.map (fun F =>
            if F.ReceivesReading SensorType SensorIndex then (F.SetSensorReading Data).1
            else F) = Device.Features :=
        map_eq_self_of_forall _ _ (fun F hF => by simp [hNo F hF])
      have hFilter : (List.enumFrom 0 Device.Features).filter
            (fun P => P.2.ReceivesReading SensorType SensorIndex) = [] := by
        rw [List.filter_eq_nil_iff]
        intro P hP
        have hAt := (List.mem_enumFrom hP).2.2
        have hIn : P.2 ∈ Device.Features := by
          rw [hAt]
          apply List.getElem_mem
        simp [hNo P.2 hIn]
      simp only [UButtplugSubsystem.OnSensorReading, hFind,
        UButtplugSubsystem.DeliverSensorReading_spec, hMap, hFilter]
      simp [TMap.Add_of_Find _ _ _ hFind]

/-- C19 at concrete inputs: in the sample session device 9 is unknown; device 8 holds a
vibrating feature in scalar slot 0 and a battery sensor in sensor-read slot 0, and a
`SensorReading` with type "Battery" and index 0 goes to the battery sensor only. -/
theorem C19_reading_goes_to_the_matching_features_witness :
    Sample.Gauge.Features.map (fun F => F.ReceivesReading "Battery" 0) = [false, true] ∧
    Sample.Sensing.OnServerMessage { Id := 0, Fields := .SensorReading 9 0 "Battery" [42] }
      = .ok Sample.Sensing ∧
    ∃ S' : UButtplugSubsystem,
      Sample.Sensing.OnServerMessage { Id := 0, Fields := .SensorReading 8 0 "Battery" [42] }
        = .ok S' ∧
      TMap.Find S'.Devices 8 = some
        { Sample.Gauge with
            Features := Sample.Gauge.Features.map (fun F =>
              if F.ReceivesReading "Battery" 0 then
                { F with LastSensorReading := [42], LatentSensorActions := [] }
              else F) } ∧
      (∀ Other, Other ≠ 8 →
        TMap.Find S'.Devices Other = TMap.Find Sample.Sensing.Devices Other) ∧
      S'.Events = Sample.Sensing.Events ++
        (Sample.Gauge.Features.enum.filter
            (fun P => P.2.ReceivesReading "Battery" 0)).flatMap
          (fun P =>
            FButtplugEvent.Feature 8 P.1 (.OnSensorReading [42]) ::
              P.2.LatentSensorActions.map (fun Handle =>
                FButtplugEvent.Feature 8 P.1 (.LatentSensorActionReady Handle [42]))) ∧
      ((∀ F ∈ Sample.Gauge.Features, F.ReceivesReading "Battery" 0 = false) →
        S' = Sample.Sensing) :=
  ⟨by simp [Sample.Gauge, Sample.VibratorAt, Sample.Battery, UButtplugDevice.NewObject,
        UButtplugFeature.NewObject, UButtplugFeature.ReceivesReading, INDEX_NONE,
        EButtplugFeatureType.GetEnumByName, EButtplugFeatureType.GetIndexByNameString,
        EButtplugFeatureType.Enumerators,
        EButtplugFeatureType.GetEnumAsString],
   (C19_reading_goes_to_the_matching_features Sample.Sensing 0 9 0 "Battery" [42]).1
      (by simp [Sample.Sensing, Sample.Connected, TMap.Find]),
   (C19_reading_goes_to_the_matching_features Sample.Sensing 0 8 0 "Battery" [42]).2
      Sample.Gauge (by simp [Sample.Sensing, Sample.Connected, TMap.Find])⟩

/-! ## Helper lemmas on the invariant of the features -/

/-- The invariant of a feature depends on its command slots only. -/
theorem UButtplugFeature.IsActuatorOrSensor_of_slots (F G : UButtplugFeature)
    (h : G.CommandSlots = F.CommandSlots) (hF : F.IsActuatorOrSensor) :
    G.IsActuatorOrSensor := by
  simp only [UButtplugFeature.CommandSlots, Prod.mk.injEq] at h
  obtain ⟨h1, h2, h3, h4, h5⟩ := h
  unfold UButtplugFeature.IsActuatorOrSensor UButtplugFeature.IsActuator
    UButtplugFeature.IsSensor at *
  rw [h1, h2, h3, h4, h5]
  exact hF

/-- A device whose features have the command slots of a well-formed one is well-formed. -/
theorem UButtplugDevice.FeaturesWellFormed_of_slots (D D' : UButtplugDevice)
    (h : D'.Features.map (fun F => F.CommandSlots) = D.Features.map (fun F => F.CommandSlots))
    (hD : D.FeaturesWellFormed) : D'.FeaturesWellFormed := by
  intro G hG
  have hIn : G.CommandSlots ∈ D'.Features.map (fun F => F.CommandSlots) :=
    List.mem_map.mpr ⟨G, hG, rfl⟩
  rw [h, List.mem_map] at hIn
  obtain ⟨F, hF, hEq⟩ := hIn
  exact UButtplugFeature.IsActuatorOrSensor_of_slots F G hEq.symm (hD F hF)

/-- Updating the feature at a position by one with the same command slots keeps the
command slots of the list. -/
theorem UButtplugDevice.SetFeature_slots (D : UButtplugDevice) (i : Nat)
    (F G : UButtplugFeature) (hAt : D.Features.get? i = some F)
    (hEq : G.CommandSlots = F.CommandSlots) :
    (D.SetFeature i G).Features.map (fun F => F.CommandSlots)
      = D.Features.map (fun F => F.CommandSlots) := by
  unfold UButtplugDevice.SetFeature
  simp only
  generalize D.Features = L at hAt
  induction L generalizing i with
  | nil => simp
  | cons A Rest ih =>
      cases i with
      | zero =>
          simp only [List.get?_cons_zero, Option.some.injEq] at hAt
          subst hAt
          simp [hEq]
      | succ j =>
          simp only [List.get?_cons_succ] at hAt
          simp only [List.set_cons_succ, List.map_cons, ih j hAt]

/-- Actuating a feature keeps its command slots. -/
theorem UButtplugFeature.Actuate_slots (F : UButtplugFeature) (Value : ℚ) (Duration : FFloat) :
    (F.Actuate Value Duration).CommandSlots = F.CommandSlots := by
  unfold UButtplugFeature.Actuate
  split <;> rfl

/-- The feature loop of the flush keeps the command slots. -/
theorem UButtplugDevice.FlushFeatures_slots (Fs : List UButtplugFeature) :
    ∀ (C : FFlushCommands) (Fs' : List UButtplugFeature) (C' : FFlushCommands),
      UButtplugDevice.FlushFeatures Fs C = .ok (Fs', C') →
      Fs'.map (fun F => F.CommandSlots) = Fs.map (fun F => F.CommandSlots) := by
  induction Fs with
  | nil =>
      intro C Fs' C' h
      simp only [UButtplugDevice.FlushFeatures, Except.ok.injEq, Prod.mk.injEq] at h
      rw [← h.1]
  | cons F Rest ih =>
      intro C Fs' C' h
      unfold UButtplugDevice.FlushFeatures at h
      by_cases hQ : F.bHasQueuedActuation = true
      · by_cases hA : F.IsActuator = true
        · simp only [hQ, hA, if_true, Bool.not_true, Bool.false_eq_true, if_false] at h
          cases hR : UButtplugDevice.FlushFeatures Rest (C.Route F) with
          | error e => simp [hR, bind, Except.bind] at h
          | ok Done =>
              simp only [hR, bind, Except.bind, pure, Except.pure, Except.ok.injEq,
                Prod.mk.injEq] at h
              rw [← h.1]
              simp only [List.map_cons, ih _ _ _ hR]
              rfl
        · simp [hQ, hA] at h
      · simp only [hQ, Bool.false_eq_true, if_false] at h
        cases hR : UButtplugDevice.FlushFeatures Rest C with
        | error e => simp [hR, bind, Except.bind] at h
        | ok Done =>
            simp only [hR, bind, Except.bind, pure, Except.pure, Except.ok.injEq,
              Prod.mk.injEq] at h
            rw [← h.1]
            simp only [List.map_cons, ih _ _ _ hR]

/-- Enqueueing a message leaves the device table alone. -/
theorem UButtplugSubsystem.EnqueueMessage_Devices (S S' : UButtplugSubsystem)
    (M : FButtplugMessage) (h : S.EnqueueMessage M = .ok S') : S'.Devices = S.Devices := by
  unfold UButtplugSubsystem.EnqueueMessage at h
  split at h
  · cases h
  · cases h
    rfl

/-- Enqueueing messages leaves the device table alone. -/
theorem UButtplugSubsystem.EnqueueMessages_Devices (Ms : FButtplugMessageArray) :
    ∀ (S S' : UButtplugSubsystem), S.EnqueueMessages Ms = .ok S' → S'.Devices = S.Devices := by
  induction Ms with
  | nil =>
      intro S S' h
      simp only [UButtplugSubsystem.EnqueueMessages, Except.ok.injEq] at h
      rw [← h]
  | cons M Rest ih =>
      intro S S' h
      unfold UButtplugSubsystem.EnqueueMessages at h
      cases hM : S.EnqueueMessage M with
      | error e => simp [hM, bind, Except.bind] at h
      | ok Next =>
          simp only [hM, bind, Except.bind] at h
          rw [ih Next S' h, UButtplugSubsystem.EnqueueMessage_Devices S Next M hM]

/-- A flush that returns keeps the command slots of the device's features and the
session's device table. -/
theorem UButtplugDevice.FlushMessageQueue_slots (D D' : UButtplugDevice)
    (S S' : UButtplugSubsystem) (DeltaTime : ℚ)
    (h : D.FlushMessageQueue S DeltaTime = .ok (D', S')) :
    D'.Features.map (fun F => F.CommandSlots) = D.Features.map (fun F => F.CommandSlots) ∧
    S'.Devices = S.Devices := by
  unfold UButtplugDevice.FlushMessageQueue at h
  simp only at h
  split at h
  · simp only [Except.ok.injEq, Prod.mk.injEq] at h
    rw [← h.1, ← h.2]
    exact ⟨rfl, rfl⟩
  · by_cases hStop : D.bHasQueuedStopDevice = true
    · simp only [hStop, if_true] at h
      cases hE : S.EnqueueMessage { Id := 0, Fields := .StopDeviceCmd D.DeviceIndex } with
      | error e => simp [hE, bind, Except.bind] at h
      | ok Next =>
          simp only [hE, bind, Except.bind, pure, Except.pure] at h
          cases hQ : Next.EnqueueMessages D.MessageQueue with
          | error e => simp [hQ] at h
          | ok Final =>
              simp only [hQ, Except.ok.injEq, Prod.mk.injEq] at h
              rw [← h.1, ← h.2]
              refine ⟨?_, ?_⟩
              · simp only [List.map_map]
                rfl
              · rw [UButtplugSubsystem.EnqueueMessages_Devices _ _ _ hQ,
                  UButtplugSubsystem.EnqueueMessage_Devices _ _ _ hE]
    · simp only [hStop, Bool.false_eq_true, if_false] at h
      cases hF : UButtplugDevice.FlushFeatures D.Features
          { LinearCmd := none, RotateCmd := none, ScalarCmd := none } with
      | error e => simp [hF, bind, Except.bind] at h
      | ok Done =>
          simp only [hF, bind, Except.bind, pure, Except.pure] at h
          cases hE : S.EnqueueMessages (Done.2.Messages D.DeviceIndex) with
          | error e => simp [hE] at h
          | ok Next =>
              simp only [hE] at h
              cases hQ : Next.EnqueueMessages D.MessageQueue with
              | error e => simp [hQ] at h
              | ok Final =>
                  simp only [hQ, Except.ok.injEq, Prod.mk.injEq] at h
                  rw [← h.1, ← h.2]
                  refine ⟨?_, ?_⟩
                  · exact UButtplugDevice.FlushFeatures_slots _ _ Done.1 Done.2 hF
                  · rw [UButtplugSubsystem.EnqueueMessages_Devices _ _ _ hQ,
                      UButtplugSubsystem.EnqueueMessages_Devices _ _ _ hE]

/-- A feature with exactly one command slot set satisfies the invariant. -/
theorem UButtplugFeature.IsActuatorOrSensor_of_one_slot (F : UButtplugFeature) (i : Nat)
    (hi : i ≠ INDEX_NONE)
    (h : F.CommandSlots = (i, INDEX_NONE, INDEX_NONE, INDEX_NONE, INDEX_NONE) ∨
         F.CommandSlots = (INDEX_NONE, i, INDEX_NONE, INDEX_NONE, INDEX_NONE) ∨
         F.CommandSlots = (INDEX_NONE, INDEX_NONE, i, INDEX_NONE, INDEX_NONE) ∨
         F.CommandSlots = (INDEX_NONE, INDEX_NONE, INDEX_NONE, i, INDEX_NONE) ∨
         F.CommandSlots = (INDEX_NONE, INDEX_NONE, INDEX_NONE, INDEX_NONE, i)) :
    F.IsActuatorOrSensor := by
  unfold UButtplugFeature.IsActuatorOrSensor UButtplugFeature.IsActuator
    UButtplugFeature.IsSensor
  simp only [UButtplugFeature.CommandSlots, Prod.mk.injEq] at h
  rcases h with h | h | h | h | h <;> obtain ⟨h1, h2, h3, h4, h5⟩ := h <;>
    simp [h1, h2, h3, h4, h5, hi, List.filter_cons]

/-- The device built from a `DeviceAdded` whose arrays fit satisfies the invariant. -/
theorem UButtplugSubsystem.MakeDevice_FeaturesWellFormed (Device : FButtplugMessage.Device)
    (hFit : Device.ArraysFit = true) :
    (UButtplugSubsystem.MakeDevice Device).FeaturesWellFormed := by
  simp only [FButtplugMessage.Device.ArraysFit, Bool.and_eq_true, decide_eq_true_eq] at hFit
  obtain ⟨⟨⟨⟨h1, h2⟩, h3⟩, h4⟩, h5⟩ := hFit
  intro F hF
  have hIn : F.CommandSlots ∈
      (UButtplugSubsystem.MakeDevice Device).Features.map (fun F => F.CommandSlots) :=
    List.mem_map.mpr ⟨F, hF, rfl⟩
  rw [UButtplugSubsystem.MakeDevice_CommandSlots] at hIn
  simp only [List.mem_append, List.mem_map, List.mem_range] at hIn
  rcases hIn with (((⟨i, hi, hEq⟩ | ⟨i, hi, hEq⟩) | ⟨i, hi, hEq⟩) | ⟨i, hi, hEq⟩) | ⟨i, hi, hEq⟩
  · exact UButtplugFeature.IsActuatorOrSensor_of_one_slot F i
      (by simp only [INDEX_NONE]; omega) (Or.inl hEq.symm)
  · exact UButtplugFeature.IsActuatorOrSensor_of_one_slot F i
      (by simp only [INDEX_NONE]; omega) (Or.inr (Or.inl hEq.symm))
  · exact UButtplugFeature.IsActuatorOrSensor_of_one_slot F i
      (by simp only [INDEX_NONE]; omega) (Or.inr (Or.inr (Or.inl hEq.symm)))
  · exact UButtplugFeature.IsActuatorOrSensor_of_one_slot F i
      (by simp only [INDEX_NONE]; omega) (Or.inr (Or.inr (Or.inr (Or.inl hEq.symm))))
  · exact UButtplugFeature.IsActuatorOrSensor_of_one_slot F i
      (by simp only [INDEX_NONE]; omega) (Or.inr (Or.inr (Or.inr (Or.inr hEq.symm))))

/-- An entry of the table after an `Add` is an old entry or the one added. -/
theorem TMap.mem_Add (M : List (Nat × UButtplugDevice)) (K : Nat) (V : UButtplugDevice)
    (E : Nat × UButtplugDevice) (hE : E ∈ TMap.Add M K V) : E ∈ M ∨ E = (K, V) := by
  induction M with
  | nil =>
      simp only [TMap.Add, List.mem_singleton] at hE
      exact Or.inr hE
  | cons A Rest ih =>
      unfold TMap.Add at hE
      by_cases h : A.1 = K
      · simp only [h, beq_self_eq_true, if_true, List.mem_cons] at hE
        rcases hE with hE | hE
        · exact Or.inr hE
        · exact Or.inl (List.mem_cons_of_mem _ hE)
      · simp only [beq_iff_eq, h, if_false, List.mem_cons] at hE
        rcases hE with hE | hE
        · exact Or.inl (by simp [hE])
        · rcases ih hE with h1 | h1
          · exact Or.inl (List.mem_cons_of_mem _ h1)
          · exact Or.inr h1

/-- What `Find` returns is held by the table. -/
theorem TMap.mem_of_Find (M : List (Nat × UButtplugDevice)) (K : Nat) (D : UButtplugDevice)
    (hFind : TMap.Find M K = some D) : ∃ E ∈ M, E.2 = D := by
  unfold TMap.Find at hFind
  cases hF : M.find? (fun Entry => Entry.1 == K) with
  | none => simp [hF] at hFind
  | some E =>
      simp only [hF, Option.map_some', Option.some.injEq] at hFind
      exact ⟨E, List.mem_of_find?_eq_some hF, hFind⟩

/-- Adding a well-formed device keeps the table well-formed. -/
theorem TMap.Add_FeaturesWellFormed (M : List (Nat × UButtplugDevice)) (K : Nat)
    (V : UButtplugDevice) (hM : ∀ E ∈ M, E.2.FeaturesWellFormed)
    (hV : V.FeaturesWellFormed) : ∀ E ∈ TMap.Add M K V, E.2.FeaturesWellFormed := by
  intro E hE
  rcases TMap.mem_Add M K V E hE with h | h
  · exact hM E h
  · rw [h]
    exact hV

/-- Marking every device disconnected keeps the table well-formed. -/
theorem UButtplugSubsystem.DisconnectDevices_FeaturesWellFormed
    (M : List (Nat × UButtplugDevice)) (hM : ∀ E ∈ M, E.2.FeaturesWellFormed) :
    ∀ E ∈ (UButtplugSubsystem.DisconnectDevices M).1, E.2.FeaturesWellFormed := by
  induction M with
  | nil => intro E hE; simp [UButtplugSubsystem.DisconnectDevices] at hE
  | cons A Rest ih =>
      intro E hE
      simp only [UButtplugSubsystem.DisconnectDevices, List.mem_cons] at hE
      rcases hE with hE | hE
      · rw [hE]
        exact hM A (by simp)
      · exact ih (fun E hE => hM E (List.mem_cons_of_mem _ hE)) E hE

/-- `Reset` keeps the table well-formed. -/
theorem UButtplugSubsystem.Reset_FeaturesWellFormed (S : UButtplugSubsystem) (Reason : String)
    (hS : S.FeaturesWellFormed) : (S.Reset Reason).FeaturesWellFormed :=
  UButtplugSubsystem.DisconnectDevices_FeaturesWellFormed S.Devices hS

/-- The device loop of `Tick` keeps the table well-formed, and the flushes leave the
session's own table alone. -/
theorem UButtplugSubsystem.FlushDevices_FeaturesWellFormed
    (M : List (Nat × UButtplugDevice)) :
    ∀ (S : UButtplugSubsystem) (DeltaTime : ℚ) (M' : List (Nat × UButtplugDevice))
      (S' : UButtplugSubsystem),
      UButtplugSubsystem.FlushDevices M S DeltaTime = .ok (M', S') →
      (∀ E ∈ M, E.2.FeaturesWellFormed) →
      (∀ E ∈ M', E.2.FeaturesWellFormed) ∧ S'.Devices = S.Devices := by
  induction M with
  | nil =>
      intro S DeltaTime M' S' h _
      simp only [UButtplugSubsystem.FlushDevices, Except.ok.injEq, Prod.mk.injEq] at h
      rw [← h.1, ← h.2]
      exact ⟨fun E hE => by simp at hE, rfl⟩
  | cons A Rest ih =>
      intro S DeltaTime M' S' h hM
      unfold UButtplugSubsystem.FlushDevices at h
      cases hA : A.2.FlushMessageQueue S DeltaTime with
      | error e => simp [hA, bind, Except.bind] at h
      | ok Flushed =>
          obtain ⟨D1, S1⟩ := Flushed
          simp only [hA, bind, Except.bind] at h
          cases hR : UButtplugSubsystem.FlushDevices Rest S1 DeltaTime with
          | error e => simp [hR] at h
          | ok Others =>
              obtain ⟨M2, S2⟩ := Others
              simp only [hR, pure, Except.pure, Except.ok.injEq, Prod.mk.injEq] at h
              obtain ⟨hSlots, hDev⟩ :=
                UButtplugDevice.FlushMessageQueue_slots A.2 D1 S S1 DeltaTime hA
              obtain ⟨hRest, hDev2⟩ :=
                ih S1 DeltaTime M2 S2 hR (fun E hE => hM E (List.mem_cons_of_mem _ hE))
              rw [← h.1, ← h.2]
              refine ⟨?_, by rw [hDev2, hDev]⟩
              intro E hE
              simp only [List.mem_cons] at hE
              rcases hE with hE | hE
              · rw [hE]
                exact UButtplugDevice.FeaturesWellFormed_of_slots A.2 D1 hSlots
                  (hM A (by simp))
              · exact hRest E hE

/-- `Tick` keeps the table well-formed. -/
theorem UButtplugSubsystem.Tick_FeaturesWellFormed (S S' : UButtplugSubsystem)
    (DeltaTime : ℚ) (hS : S.FeaturesWellFormed) (h : S.Tick DeltaTime = .ok S') :
    S'.FeaturesWellFormed := by
  unfold UButtplugSubsystem.Tick at h
  by_cases hC : S.IsConnected = true
  · simp only [hC, if_true] at h
    cases hF : UButtplugSubsystem.FlushDevices S.Devices S DeltaTime with
    | error e => simp [hF, bind, Except.bind] at h
    | ok Flushed =>
        obtain ⟨M1, S1⟩ := Flushed
        obtain ⟨hWf, -⟩ :=
          UButtplugSubsystem.FlushDevices_FeaturesWellFormed S.Devices S DeltaTime M1 S1 hF hS
        simp only [hF, bind, Except.bind] at h
        split at h
        · cases hW : WriteButtplugMessagesToJson S1.MessageBuffer with
          | error e => simp [hW] at h
          | ok Json =>
              simp only [hW, pure, Except.pure, Except.ok.injEq] at h
              rw [← h]
              exact hWf
        · simp only [pure, Except.pure, Except.ok.injEq] at h
          rw [← h]
          exact hWf
  · simp only [hC, Bool.false_eq_true, if_false, pure, Except.pure, Except.ok.injEq] at h
    rw [← h]
    exact hS

/-- Closing the socket leaves the device table alone. -/
theorem UButtplugSubsystem.CloseSocket_Devices (S S' : UButtplugSubsystem) (CloseCode : Int)
    (Reason : String) (h : S.CloseSocket CloseCode Reason = .ok S') :
    S'.Devices = S.Devices := by
  unfold UButtplugSubsystem.CloseSocket at h
  split at h
  · cases h
  · cases h
    rfl

/-- A bind that returns: its first part returned, and so did the rest. -/
theorem Except.bind_ok_inv {ε α β : Type} (x : Except ε α) (f : α → Except ε β) (b : β)
    (h : x.bind f = .ok b) : ∃ a, x = .ok a ∧ f a = .ok b := by
  cases x with
  | error e => simp [Except.bind] at h
  | ok a => exact ⟨a, rfl, h⟩

/-- The `ServerInfo` handler leaves the device table alone. -/
theorem UButtplugSubsystem.OnServerInfo_Devices (S S' : UButtplugSubsystem)
    (ServerName : String) (MessageVersion MaxPingTime : Nat)
    (h : S.OnServerInfo ServerName MessageVersion MaxPingTime = .ok S') :
    S'.Devices = S.Devices := by
  unfold UButtplugSubsystem.OnServerInfo at h
  simp only at h
  split at h
  · obtain ⟨Next, hE, hP⟩ := Except.bind_ok_inv _ _ _ h
    simp only [pure, Except.pure, Except.ok.injEq] at hP
    rw [← hP]
    have hNext := UButtplugSubsystem.EnqueueMessage_Devices _ _ _ hE
    show Next.Devices = S.Devices
    rw [hNext]
    cases S.LatentStartAction <;> rfl
  · have hClose := UButtplugSubsystem.CloseSocket_Devices _ S' _ _ h
    exact hClose

/-- The `DeviceAdded` handler keeps the table well-formed when the arrays fit. -/
theorem UButtplugSubsystem.OnDeviceAdded_FeaturesWellFormed (S : UButtplugSubsystem)
    (Device : FButtplugMessage.Device) (hS : S.FeaturesWellFormed)
    (hFit : Device.ArraysFit = true) : (S.OnDeviceAdded Device).FeaturesWellFormed := by
  have hNew : (S.AddNewDevice Device).FeaturesWellFormed :=
    TMap.Add_FeaturesWellFormed _ _ _ hS
      (UButtplugSubsystem.MakeDevice_FeaturesWellFormed Device hFit)
  unfold UButtplugSubsystem.OnDeviceAdded
  cases hFind : TMap.Find S.Devices Device.Index with
  | none => exact hNew
  | some Existing =>
      simp only
      split
      · obtain ⟨E, hE, hEq⟩ := TMap.mem_of_Find _ _ _ hFind
        refine TMap.Add_FeaturesWellFormed _ _ _ hS ?_
        have := hS E hE
        rw [hEq] at this
        exact this
      · exact hNew

/-- The `DeviceList` handler keeps the table well-formed when the arrays fit. -/
theorem UButtplugSubsystem.OnDeviceList_FeaturesWellFormed
    (Devices : List FButtplugMessage.Device) :
    ∀ S : UButtplugSubsystem, S.FeaturesWellFormed →
      (∀ Device ∈ Devices, Device.ArraysFit = true) →
      (S.OnDeviceList Devices).FeaturesWellFormed := by
  induction Devices with
  | nil => intro S hS _; exact hS
  | cons Device Rest ih =>
      intro S hS hFit
      unfold UButtplugSubsystem.OnDeviceList
      exact ih _ (UButtplugSubsystem.OnDeviceAdded_FeaturesWellFormed S Device hS
        (hFit Device (by simp))) (fun D hD => hFit D (List.mem_cons_of_mem _ hD))

/-- The `DeviceRemoved` handler keeps the table well-formed. -/
theorem UButtplugSubsystem.OnDeviceRemoved_FeaturesWellFormed (S : UButtplugSubsystem)
    (DeviceIndex : Nat) (hS : S.FeaturesWellFormed) :
    (S.OnDeviceRemoved DeviceIndex).FeaturesWellFormed := by
  unfold UButtplugSubsystem.OnDeviceRemoved
  cases hFind : TMap.Find S.Devices DeviceIndex with
  | none => exact hS
  | some Device =>
      obtain ⟨E, hE, hEq⟩ := TMap.mem_of_Find _ _ _ hFind
      refine TMap.Add_FeaturesWellFormed _ _ _ hS ?_
      have := hS E hE
      rw [hEq] at this
      exact this

/-- The `SensorReading` handler keeps the table well-formed. -/
theorem UButtplugSubsystem.OnSensorReading_FeaturesWellFormed (S : UButtplugSubsystem)
    (DeviceIndex SensorIndex : Nat) (SensorType : String) (Data : List Int)
    (hS : S.FeaturesWellFormed) :
    (S.OnSensorReading DeviceIndex SensorIndex SensorType Data).FeaturesWellFormed := by
  unfold UButtplugSubsystem.OnSensorReading
  cases hFind : TMap.Find S.Devices DeviceIndex with
  | none => exact hS
  | some Device =>
      obtain ⟨E, hE, hEq⟩ := TMap.mem_of_Find _ _ _ hFind
      have hD : Device.FeaturesWellFormed := by
        have := hS E hE
        rw [hEq] at this
        exact this
      refine TMap.Add_FeaturesWellFormed _ _ _ hS ?_
      refine UButtplugDevice.FeaturesWellFormed_of_slots Device _ ?_ hD
      simp only [UButtplugSubsystem.DeliverSensorReading_spec, List.map_map]
      apply List.map_congr_left
      intro F _
      simp only [Function.comp]
      split <;> rfl

/-- Every handler of an inbound message keeps the table well-formed when the arrays of
the message fit. -/
theorem UButtplugSubsystem.OnServerMessage_FeaturesWellFormed (S S' : UButtplugSubsystem)
    (M : FButtplugMessage) (hS : S.FeaturesWellFormed) (hFit : M.Fields.ArraysFit = true)
    (h : S.OnServerMessage M = .ok S') : S'.FeaturesWellFormed := by
  have hSame : S'.Devices = S.Devices → S'.FeaturesWellFormed := by
    intro hEq
    unfold UButtplugSubsystem.FeaturesWellFormed
    rw [hEq]
    exact hS
  have hClient : S.OnClientMessage = .ok S' → S'.FeaturesWellFormed :=
    fun hC => hSame (UButtplugSubsystem.CloseSocket_Devices _ _ _ _ hC)
  unfold UButtplugSubsystem.OnServerMessage at h
  cases hK : M.Fields with
  | Ok => simp only [hK, Except.ok.injEq] at h; rw [← h]; exact hS
  | Error _ _ => simp only [hK, Except.ok.injEq] at h; rw [← h]; exact hS
  | Ping => simp only [hK] at h; exact hClient h
  | RequestServerInfo _ _ => simp only [hK] at h; exact hClient h
  | ServerInfo N V P =>
      simp only [hK] at h
      exact hSame (UButtplugSubsystem.OnServerInfo_Devices _ _ _ _ _ h)
  | StartScanning => simp only [hK] at h; exact hClient h
  | StopScanning => simp only [hK] at h; exact hClient h
  | ScanningFinished => simp only [hK, Except.ok.injEq] at h; rw [← h]; exact hS
  | RequestDeviceList => simp only [hK] at h; exact hClient h
  | DeviceList Devices =>
      simp only [hK, Except.ok.injEq] at h
      rw [← h]
      rw [hK] at hFit
      simp only [TButtplugMessage.ArraysFit, List.all_eq_true] at hFit
      exact UButtplugSubsystem.OnDeviceList_FeaturesWellFormed Devices S hS hFit
  | DeviceAdded Device =>
      simp only [hK, Except.ok.injEq] at h
      rw [← h]
      rw [hK] at hFit
      exact UButtplugSubsystem.OnDeviceAdded_FeaturesWellFormed S Device hS hFit
  | DeviceRemoved DeviceIndex =>
      simp only [hK, Except.ok.injEq] at h
      rw [← h]
      exact UButtplugSubsystem.OnDeviceRemoved_FeaturesWellFormed S DeviceIndex hS
  | StopDeviceCmd _ => simp only [hK] at h; exact hClient h
  | StopAllDevices => simp only [hK] at h; exact hClient h
  | ScalarCmd _ _ => simp only [hK] at h; exact hClient h
  | LinearCmd _ _ => simp only [hK] at h; exact hClient h
  | RotateCmd _ _ => simp only [hK] at h; exact hClient h
  | SensorReadCmd _ _ _ => simp only [hK] at h; exact hClient h
  | SensorReading DeviceIndex SensorIndex SensorType Data =>
      simp only [hK, Except.ok.injEq] at h
      rw [← h]
      exact UButtplugSubsystem.OnSensorReading_FeaturesWellFormed S _ _ _ _ hS
  | SensorSubscribeCmd _ _ _ => simp only [hK] at h; exact hClient h
  | SensorUnsubscribeCmd _ _ _ => simp only [hK] at h; exact hClient h

/-- The dispatch loop keeps the table well-formed when the arrays of the messages fit. -/
theorem UButtplugSubsystem.DispatchMessages_FeaturesWellFormed (Ms : FButtplugMessageArray) :
    ∀ S S' : UButtplugSubsystem, S.FeaturesWellFormed →
      (∀ M ∈ Ms, M.Fields.ArraysFit = true) →
      S.DispatchMessages Ms = .ok S' → S'.FeaturesWellFormed := by
  induction Ms with
  | nil =>
      intro S S' hS _ h
      simp only [UButtplugSubsystem.DispatchMessages, Except.ok.injEq] at h
      rw [← h]
      exact hS
  | cons M Rest ih =>
      intro S S' hS hFit h
      unfold UButtplugSubsystem.DispatchMessages at h
      cases hM : S.OnServerMessage M with
      | error e => simp [hM, bind, Except.bind] at h
      | ok Next =>
          simp only [hM, bind, Except.bind] at h
          exact ih Next S'
            (UButtplugSubsystem.OnServerMessage_FeaturesWellFormed S Next M hS
              (hFit M (by simp)) hM)
            (fun M' hM' => hFit M' (List.mem_cons_of_mem _ hM')) h

/-- A call on a feature keeps the command slots of the device's features. -/
theorem UButtplugDevice.CallFeature_slots (D : UButtplugDevice) (i : Nat) (C : FFeatureCall) :
    (D.CallFeature i C).1.Features.map (fun F => F.CommandSlots)
      = D.Features.map (fun F => F.CommandSlots) := by
  unfold UButtplugDevice.CallFeature
  cases hAt : D.Features.get? i with
  | none => rfl
  | some F =>
      cases C with
      | Actuate Value Duration =>
          exact UButtplugDevice.SetFeature_slots D i F _ hAt
            (UButtplugFeature.Actuate_slots F Value Duration)
      | Stop =>
          exact UButtplugDevice.SetFeature_slots D i F _ hAt
            (UButtplugFeature.Actuate_slots F 0 (.Finite 0))
      | Subscribe =>
          simp only [UButtplugFeature.Subscribe]
          split <;> rfl
      | Unsubscribe =>
          simp only [UButtplugFeature.Unsubscribe]
          split <;> rfl
      | Read =>
          simp only [UButtplugFeature.Read]
          split
          · rfl
          · exact UButtplugDevice.SetFeature_slots D i F _ hAt rfl
      | AsyncRead bExistingAction Handle =>
          simp only [UButtplugFeature.AsyncRead]
          split
          · rfl
          · have hHeld : (D.SetFeature i
                { F with LatentSensorActions := F.LatentSensorActions ++ [Handle] }).Features.map
                  (fun F => F.CommandSlots) = D.Features.map (fun F => F.CommandSlots) :=
              UButtplugDevice.SetFeature_slots D i F _ hAt rfl
            split
            · simp only [UButtplugFeature.Read]
              split
              · exact hHeld
              · have hTwice : ∀ G : UButtplugFeature,
                    (D.SetFeature i
                      { F with LatentSensorActions := F.LatentSensorActions ++ [Handle] }).SetFeature
                        i G = D.SetFeature i G := by
                  intro G
                  simp [UButtplugDevice.SetFeature, List.set_set]
                rw [hTwice]
                exact UButtplugDevice.SetFeature_slots D i F _ hAt rfl
            · exact hHeld
      | NotifyActionAborted Handle =>
          exact UButtplugDevice.SetFeature_slots D i F _ hAt rfl

/-- A call on a device keeps the command slots of its features. -/
theorem UButtplugDevice.Call_slots (D : UButtplugDevice) (C : FDeviceCall) :
    (D.Call C).1.Features.map (fun F => F.CommandSlots)
      = D.Features.map (fun F => F.CommandSlots) := by
  cases C with
  | SetMessageTimingGap Override => rfl
  | ActuateAll ActuatorType Value Duration =>
      simp only [UButtplugDevice.Call, UButtplugDevice.ActuateAll]
      split
      · rfl
      · simp only [List.map_map]
        apply List.map_congr_left
        intro F _
        simp only [Function.comp]
        split
        · exact UButtplugFeature.Actuate_slots F Value Duration
        · rfl
  | StopAll ActuatorType =>
      simp only [UButtplugDevice.Call, UButtplugDevice.StopAll]
      split
      · rfl
      · simp only [List.map_map]
        apply List.map_congr_left
        intro F _
        simp only [Function.comp]
        split
        · exact UButtplugFeature.Actuate_slots F 0 .Infinity
        · rfl
  | Stop =>
      simp only [UButtplugDevice.Call, UButtplugDevice.Stop]
      split <;> rfl
  | Feature FeatureIndex Call => exact UButtplugDevice.CallFeature_slots D FeatureIndex Call

/-- A call on a device of the table keeps the table well-formed. -/
theorem UButtplugSubsystem.CallDevice_FeaturesWellFormed (S : UButtplugSubsystem)
    (DeviceIndex : Nat) (Call : FDeviceCall) (hS : S.FeaturesWellFormed) :
    (S.CallDevice DeviceIndex Call).FeaturesWellFormed := by
  unfold UButtplugSubsystem.CallDevice
  cases hFind : TMap.Find S.Devices DeviceIndex with
  | none => exact hS
  | some Device =>
      obtain ⟨E, hE, hEq⟩ := TMap.mem_of_Find _ _ _ hFind
      have hD : Device.FeaturesWellFormed := by
        have := hS E hE
        rw [hEq] at this
        exact this
      exact TMap.Add_FeaturesWellFormed _ _ _ hS
        (UButtplugDevice.FeaturesWellFormed_of_slots Device _
          (UButtplugDevice.Call_slots Device Call) hD)

/-- Starting a client leaves the device table alone. -/
theorem UButtplugSubsystem.StartClient_Devices (S : UButtplugSubsystem)
    (Format : String → String) (bDropsOnClose : Bool) (InClientName InServerAddress : String) :
    (S.StartClient Format bDropsOnClose InClientName InServerAddress).Devices = S.Devices := by
  unfold UButtplugSubsystem.StartClient
  split <;> rfl

/-- Every step keeps the table well-formed when the arrays it carries fit. -/
theorem UButtplugSubsystem.Step_FeaturesWellFormed (S S' : UButtplugSubsystem)
    (Taken : FSessionStep) (hS : S.FeaturesWellFormed) (hFit : Taken.ArraysFit = true)
    (h : S.Step Taken = .ok S') : S'.FeaturesWellFormed := by
  have hSame : S'.Devices = S.Devices → S'.FeaturesWellFormed := by
    intro hEq
    unfold UButtplugSubsystem.FeaturesWellFormed
    rw [hEq]
    exact hS
  cases Taken with
  | Initialize AppName =>
      simp only [UButtplugSubsystem.Step, Except.ok.injEq] at h
      rw [← h]
      exact hS
  | Deinitialize =>
      simp only [UButtplugSubsystem.Step, Except.ok.injEq] at h
      rw [← h]
      exact UButtplugSubsystem.Reset_FeaturesWellFormed S "Shutting down" hS
  | StartClient Format bDropsOnClose InClientName InServerAddress =>
      simp only [UButtplugSubsystem.Step, Except.ok.injEq] at h
      apply hSame
      rw [← h]
      exact UButtplugSubsystem.StartClient_Devices S _ _ _ _
  | AsyncStartClient Format bDropsOnClose bExistingAction Handle InClientName
      InServerAddress =>
      simp only [UButtplugSubsystem.Step, Except.ok.injEq] at h
      apply hSame
      rw [← h]
      unfold UButtplugSubsystem.AsyncStartClient
      split
      · rfl
      · split
        · rfl
        · split
          · rfl
          · exact UButtplugSubsystem.StartClient_Devices _ _ _ _ _
  | NotifyActionAborted Handle =>
      simp only [UButtplugSubsystem.Step, UButtplugSubsystem.NotifyActionAborted] at h
      split at h
      · simp only [Except.ok.injEq] at h
        rw [← h]
        exact hS
      · cases h
  | StopClient =>
      simp only [UButtplugSubsystem.Step, Except.ok.injEq] at h
      rw [← h]
      exact UButtplugSubsystem.Reset_FeaturesWellFormed S "stopping client" hS
  | StartScanning =>
      exact hSame (UButtplugSubsystem.EnqueueMessage_Devices _ _ _ h)
  | StopScanning =>
      exact hSame (UButtplugSubsystem.EnqueueMessage_Devices _ _ _ h)
  | Tick DeltaTime =>
      exact UButtplugSubsystem.Tick_FeaturesWellFormed S S' DeltaTime hS h
  | TickPingTimer =>
      simp only [UButtplugSubsystem.Step, UButtplugSubsystem.TickPingTimer] at h
      split at h
      · exact hSame (UButtplugSubsystem.EnqueueMessage_Devices _ _ _ h)
      · simp only [Except.ok.injEq] at h
        rw [← h]
        exact hS
  | SocketOpened =>
      have hDev := UButtplugSubsystem.EnqueueMessage_Devices _ S' _ h
      exact hSame hDev
  | SocketConnectionError Error =>
      simp only [UButtplugSubsystem.Step, Except.ok.injEq] at h
      rw [← h]
      exact UButtplugSubsystem.Reset_FeaturesWellFormed S Error hS
  | SocketClosed StatusCode Reason bWasClean =>
      simp only [UButtplugSubsystem.Step, Except.ok.injEq] at h
      rw [← h]
      exact UButtplugSubsystem.Reset_FeaturesWellFormed
        { S with
            WebSocket := S.WebSocket.map (fun Socket => { Socket with bConnected := false }) }
        Reason hS
  | SocketMessage MessageString =>
      simp only [FSessionStep.ArraysFit, List.all_eq_true] at hFit
      exact UButtplugSubsystem.DispatchMessages_FeaturesWellFormed _ S S' hS hFit h
  | Device DeviceIndex Call =>
      simp only [UButtplugSubsystem.Step, Except.ok.injEq] at h
      rw [← h]
      exact UButtplugSubsystem.CallDevice_FeaturesWellFormed S DeviceIndex Call hS

/-- Every run of steps from a well-formed table ends in a well-formed table. -/
theorem UButtplugSubsystem.Run_FeaturesWellFormed (Steps : List FSessionStep) :
    ∀ S S' : UButtplugSubsystem, S.FeaturesWellFormed →
      (∀ Taken ∈ Steps, Taken.ArraysFit = true) →
      S.Run Steps = .ok S' → S'.FeaturesWellFormed := by
  induction Steps with
  | nil =>
      intro S S' hS _ h
      simp only [UButtplugSubsystem.Run, Except.ok.injEq] at h
      rw [← h]
      exact hS
  | cons Taken Rest ih =>
      intro S S' hS hFit h
      unfold UButtplugSubsystem.Run at h
      obtain ⟨Next, hStep, hRest⟩ := Except.bind_ok_inv _ _ _ h
      exact ih Next S'
        (UButtplugSubsystem.Step_FeaturesWellFormed S Next Taken hS
          (hFit Taken (by simp)) hStep)
        (fun T hT => hFit T (List.mem_cons_of_mem _ hT)) hRest

/-! ## C20: every feature is an actuator or a sensor -/

/-- C20: in every session state reached from a new session by calls of the interface,
engine callbacks and inbound frames (the attribute arrays of the frames fitting a
`TArray`), every feature of every device in the device table is an actuator or a sensor
and not both, and an actuator has exactly one of `ScalarCmdIndex`, `RotateCmdIndex` and
`LinearCmdIndex` set. -/
theorem C20_every_feature_is_actuator_or_sensor (Steps : List FSessionStep)
    (S : UButtplugSubsystem)
    (hFit : ∀ Taken ∈ Steps, Taken.ArraysFit = true)
    (hRun : UButtplugSubsystem.NewObject.Run Steps = .ok S) :
    ∀ Entry ∈ S.Devices, ∀ Feature ∈ Entry.2.Features,
      ((Feature.IsActuator = true ∧ Feature.IsSensor = false) ∨
        (Feature.IsActuator = false ∧ Feature.IsSensor = true)) ∧
      (Feature.IsActuator = true →
        ([Feature.ScalarCmdIndex, Feature.RotateCmdIndex, Feature.LinearCmdIndex].filter
          (fun Slot => Slot != INDEX_NONE)).length = 1) :=
  UButtplugSubsystem.Run_FeaturesWellFormed Steps UButtplugSubsystem.NewObject S
    (fun E hE => by simp [UButtplugSubsystem.NewObject] at hE) hFit hRun

/-- The sample steps end in the sample session. -/
theorem Sample.Run_Steps : UButtplugSubsystem.NewObject.Run Sample.Steps = .ok Sample.Listed := by
  simp [Sample.Steps, Sample.Listed, Sample.DeviceFrame, UButtplugSubsystem.Run,
    UButtplugSubsystem.Step, UButtplugSubsystem.NewObject, UButtplugSubsystem.Initialize,
    UButtplugSubsystem.StartClient, UButtplugSubsystem.SocketOpened,
    UButtplugSubsystem.OnSocketConnected, UButtplugSubsystem.EnqueueMessage,
    UButtplugSubsystem.IsConnected, FButtplugMessage.SpecVersion, UINT32_MODULUS,
    UButtplugSubsystem.OnSocketMessage,
    ReadButtplugMessagesFromJson, ReadButtplugMessagesFromJson.Values,
    ReadButtplugMessagesFromJson.Fields, FJsonValue.AsObject,
    EButtplugMessageType.GetEnumByName, EButtplugMessageType.GetIndexByNameString,
    EButtplugMessageType.Enumerators, EButtplugMessageType.GetEnumAsString,
    FButtplugMessage.FromJson, TButtplugMessage.FromJson,
    UButtplugSubsystem.DispatchMessages, UButtplugSubsystem.OnServerMessage,
    UButtplugSubsystem.OnDeviceAdded, UButtplugSubsystem.AddNewDevice,
    UButtplugSubsystem.MakeDevice, UButtplugSubsystem.MakeFeatures,
    UButtplugSubsystem.MakeScalarFeature, UButtplugSubsystem.MakeSensorReadFeature,
    UButtplugDevice.SetConnected, UButtplugDevice.NewObject, UButtplugFeature.NewObject,
    TMap.Find, TMap.Add, FButtplugMessage.Device.FromJson,
    FButtplugMessage.DeviceMessages.FromJson, FButtplugMessage.DeviceMessageAttributes.FromJson,
    FButtplugMessage.DeviceMessageAttributes.LoadSensorRangeFromJson,
    FJsonSerializerReader.SerializeString, FJsonSerializerReader.SerializeUInt32,
    FJsonSerializerReader.SerializeArraySerializable, FJsonObject.GetField,
    EButtplugFeatureType.GetEnumByName, EButtplugFeatureType.GetIndexByNameString,
    EButtplugFeatureType.Enumerators, EButtplugFeatureType.GetEnumAsString,
    UInt32ToInt32, RoundHalfUp, MAX_uint32, bind, Except.bind]
  have hFloor : ⌊(2⁻¹ : ℚ)⌋ = 0 := by
    rw [Int.floor_eq_iff]
    norm_num
  have hName : "X".isEmpty = false := by decide
  simp only [hFloor, hName]
  have h5 : Int.toNat 5 = 5 := rfl
  have h20 : Int.toNat 20 = 20 := rfl
  have h100 : Int.toNat 100 = 100 := rfl
  norm_num [h5, h20, h100]

/-- C20 at a concrete input: the sample steps end in a session whose table holds one
device with a scalar actuator and a battery sensor. -/
theorem C20_every_feature_is_actuator_or_sensor_witness :
    Sample.Listed.Devices.map (fun Entry => Entry.2.Features.length) = [2] ∧
    ∀ Entry ∈ Sample.Listed.Devices, ∀ Feature ∈ Entry.2.Features,
      ((Feature.IsActuator = true ∧ Feature.IsSensor = false) ∨
        (Feature.IsActuator = false ∧ Feature.IsSensor = true)) ∧
      (Feature.IsActuator = true →
        ([Feature.ScalarCmdIndex, Feature.RotateCmdIndex, Feature.LinearCmdIndex].filter
          (fun Slot => Slot != INDEX_NONE)).length = 1) :=
  ⟨by simp [Sample.Listed],
   C20_every_feature_is_actuator_or_sensor Sample.Steps Sample.Listed
    (by
      intro Taken hTaken
      simp only [Sample.Steps, List.mem_cons, List.mem_singleton, List.not_mem_nil,
        or_false] at hTaken
      rcases hTaken with h | h | h | h <;> subst h
      · rfl
      · rfl
      · rfl
      · decide)
    Sample.Run_Steps⟩

/-! ## Helper lemmas on the reset -/

/-- The device loop of `Reset`: every entry is marked disconnected in place and fires its
own `OnDisconnected`, in table order. -/
theorem UButtplugSubsystem.DisconnectDevices_eq (M : List (Nat × UButtplugDevice)) :
    UButtplugSubsystem.DisconnectDevices M =
      (M.map (fun E => (E.1, { E.2 with bConnected := false })),
       M.map (fun E => FButtplugEvent.Device E.1 .OnDisconnected)) := by
  induction M with
  | nil => rfl
  | cons A Rest ih =>
      simp only [UButtplugSubsystem.DisconnectDevices, ih, UButtplugDevice.SetConnected,
        List.map_cons]
      rfl

/-- What `Reset` leaves. -/
theorem UButtplugSubsystem.Reset_eq (S : UButtplugSubsystem) (Reason : String) :
    S.Reset Reason =
      { S with
          ClientName := ""
          ServerName := ""
          ServerAddress := ""
          PingTimer := none
          NextMessageId := 1
          MessageBuffer := []
          WebSocket := none
          LatentStartAction := none
          Devices := S.Devices.map (fun E => (E.1, { E.2 with bConnected := false }))
          Events := S.Events
            ++ S.Devices.map (fun E => FButtplugEvent.Device E.1 .OnDisconnected)
            ++ (if S.WebSocket.isSome then [FButtplugEvent.SocketClose 1001 Reason] else [])
            ++ (match S.LatentStartAction with
                | some Handle =>
                    [FButtplugEvent.LatentStartActionReady Handle .ConnectionFailed Reason]
                | none => []) } := by
  unfold UButtplugSubsystem.Reset
  rw [UButtplugSubsystem.DisconnectDevices_eq]

/-! ## C21: what a reset leaves -/

/-- C21: after transport close, transport error or `StopClient` (reason `r`: the close
reason, the error, or "stopping client"), the next message id is 1, the outbound buffer
is empty, there is no socket, the ping timer is cleared, every device of the table is the
device it was with its connected flag cleared, no connect request is pending, and the
request that was pending, if any, has been resolved as `ConnectionFailed` with error
message `r`. The third component of each triple is what the operation fires after the
reset. -/
theorem C21_reset_clears_the_session (S : UButtplugSubsystem) (StatusCode : Int)
    (Reason : String) (bWasClean : Bool) :
    ∀ P ∈ [(S.OnSocketClosed StatusCode Reason bWasClean, Reason, [FButtplugEvent.OnDisconnected]),
           (S.OnSocketConnectionError Reason, Reason, []),
           (S.StopClient, "stopping client", [])],
      P.1.NextMessageId = 1 ∧
      P.1.MessageBuffer = [] ∧
      P.1.WebSocket = none ∧
      P.1.IsConnected = false ∧
      P.1.PingTimer = none ∧
      P.1.Devices = S.Devices.map (fun E => (E.1, { E.2 with bConnected := false })) ∧
      (∀ E ∈ P.1.Devices, E.2.bConnected = false) ∧
      P.1.LatentStartAction = none ∧
      P.1.Events = S.Events
        ++ S.Devices.map (fun E => FButtplugEvent.Device E.1 .OnDisconnected)
        ++ (if S.WebSocket.isSome then [FButtplugEvent.SocketClose 1001 P.2.1] else [])
        ++ (match S.LatentStartAction with
            | some Handle =>
                [FButtplugEvent.LatentStartActionReady Handle .ConnectionFailed P.2.1]
            | none => [])
        ++ P.2.2 := by
  intro P hP
  simp only [List.mem_cons, List.mem_singleton, List.not_mem_nil, or_false] at hP
  rcases hP with rfl | rfl | rfl <;>
    simp [UButtplugSubsystem.OnSocketClosed, UButtplugSubsystem.OnSocketConnectionError,
      UButtplugSubsystem.StopClient, UButtplugSubsystem.Reset_eq, UButtplugSubsystem.Fire,
      UButtplugSubsystem.IsConnected] <;>
    (intro a b x y _ _ h
     subst h
     rfl)

/-- C21 at a concrete input: the handshaking sample session, with connect request 7
pending, is stopped. -/
theorem C21_reset_clears_the_session_witness :
    Sample.Handshaking.StopClient.NextMessageId = 1 ∧
    Sample.Handshaking.StopClient.MessageBuffer = [] ∧
    Sample.Handshaking.StopClient.WebSocket = none ∧
    Sample.Handshaking.StopClient.LatentStartAction = none ∧
    Sample.Handshaking.StopClient.Events = Sample.Handshaking.Events
      ++ Sample.Handshaking.Devices.map (fun E => FButtplugEvent.Device E.1 .OnDisconnected)
      ++ (if Sample.Handshaking.WebSocket.isSome
            then [FButtplugEvent.SocketClose 1001 "stopping client"] else [])
      ++ (match Sample.Handshaking.LatentStartAction with
          | some Handle =>
              [FButtplugEvent.LatentStartActionReady Handle .ConnectionFailed
                "stopping client"]
          | none => [])
      ++ [] :=
  have h := C21_reset_clears_the_session Sample.Handshaking 1000 "bye" true
    (Sample.Handshaking.StopClient, "stopping client", []) (by simp)
  ⟨h.1, h.2.1, h.2.2.1, h.2.2.2.2.2.2.2.1, h.2.2.2.2.2.2.2.2⟩

/-! ## Helper lemmas on the keys of the device table -/

/-- An `Add` keeps the keys of the table, in order, and may append one. -/
theorem TMap.keys_Add (M : List (Nat × UButtplugDevice)) (K : Nat) (V : UButtplugDevice) :
    ∃ New, (TMap.Add M K V).map Prod.fst = M.map Prod.fst ++ New := by
  cases hFind : TMap.Find M K with
  | none => exact ⟨[K], TMap.keys_Add_of_not_Find M K V hFind⟩
  | some D => exact ⟨[], by rw [TMap.keys_Add_of_Find M K V D hFind, List.append_nil]⟩

/-- Storing, under a key that is present, a device that agrees with the stored one under a
projection leaves the table as it is under that projection. -/
theorem TMap.map_Add_of_Find {β : Type} (g : UButtplugDevice → β)
    (M : List (Nat × UButtplugDevice)) (K : Nat) (V D : UButtplugDevice)
    (hFind : TMap.Find M K = some D) (hg : g V = g D) :
    (TMap.Add M K V).map (fun E => (E.1, g E.2)) = M.map (fun E => (E.1, g E.2)) := by
  induction M with
  | nil => simp [TMap.Find] at hFind
  | cons A Rest ih =>
      unfold TMap.Add
      by_cases h : A.1 = K
      · obtain ⟨A1, A2⟩ := A
        simp only at h
        subst h
        simp only [TMap.Find, List.find?_cons, beq_self_eq_true, Option.map_some',
          Option.some.injEq] at hFind
        subst hFind
        simp [hg]
      · simp only [beq_iff_eq, h, if_false, List.map_cons]
        rw [ih]
        unfold TMap.Find at hFind ⊢
        simpa [List.find?_cons, h] using hFind

/-- A flush that returns leaves the session's device table alone. -/
theorem UButtplugSubsystem.FlushDevices_keys (M : List (Nat × UButtplugDevice)) :
    ∀ (S : UButtplugSubsystem) (DeltaTime : ℚ) (M' : List (Nat × UButtplugDevice))
      (S' : UButtplugSubsystem),
      UButtplugSubsystem.FlushDevices M S DeltaTime = .ok (M', S') →
      M'.map Prod.fst = M.map Prod.fst := by
  induction M with
  | nil =>
      intro S DeltaTime M' S' h
      simp only [UButtplugSubsystem.FlushDevices, Except.ok.injEq, Prod.mk.injEq] at h
      rw [← h.1]
  | cons A Rest ih =>
      intro S DeltaTime M' S' h
      unfold UButtplugSubsystem.FlushDevices at h
      obtain ⟨Flushed, hA, h⟩ := Except.bind_ok_inv _ _ _ h
      obtain ⟨Others, hR, h⟩ := Except.bind_ok_inv _ _ _ h
      simp only [pure, Except.pure, Except.ok.injEq, Prod.mk.injEq] at h
      rw [← h.1]
      simp only [List.map_cons, ih _ _ _ _ hR]

/-- `Tick` keeps the keys of the table. -/
theorem UButtplugSubsystem.Tick_keys (S S' : UButtplugSubsystem) (DeltaTime : ℚ)
    (h : S.Tick DeltaTime = .ok S') : S'.Devices.map Prod.fst = S.Devices.map Prod.fst := by
  unfold UButtplugSubsystem.Tick at h
  by_cases hC : S.IsConnected = true
  · simp only [hC, if_true] at h
    obtain ⟨Flushed, hF, h⟩ := Except.bind_ok_inv _ _ _ h
    obtain ⟨M1, S1⟩ := Flushed
    have hKeys := UButtplugSubsystem.FlushDevices_keys S.Devices S DeltaTime M1 S1 hF
    split at h
    · obtain ⟨Json, -, h⟩ := Except.bind_ok_inv _ _ _ h
      simp only [pure, Except.pure, Except.ok.injEq] at h
      rw [← h]
      exact hKeys
    · simp only [pure, Except.pure, Except.ok.injEq] at h
      rw [← h]
      exact hKeys
  · simp only [hC, Bool.false_eq_true, if_false, pure, Except.pure, Except.ok.injEq] at h
    rw [← h]

/-- The `DeviceAdded` handler keeps the keys of the table and may append one. -/
theorem UButtplugSubsystem.OnDeviceAdded_keys (S : UButtplugSubsystem)
    (Device : FButtplugMessage.Device) :
    ∃ New, (S.OnDeviceAdded Device).Devices.map Prod.fst = S.Devices.map Prod.fst ++ New := by
  unfold UButtplugSubsystem.OnDeviceAdded
  cases hFind : TMap.Find S.Devices Device.Index with
  | none => exact TMap.keys_Add _ _ _
  | some Existing =>
      simp only
      split
      · exact TMap.keys_Add _ _ _
      · exact TMap.keys_Add _ _ _

/-- The `DeviceList` handler keeps the keys of the table and may append some. -/
theorem UButtplugSubsystem.OnDeviceList_keys (Devices : List FButtplugMessage.Device) :
    ∀ S : UButtplugSubsystem,
      ∃ New, (S.OnDeviceList Devices).Devices.map Prod.fst = S.Devices.map Prod.fst ++ New := by
  induction Devices with
  | nil => intro S; exact ⟨[], by simp [UButtplugSubsystem.OnDeviceList]⟩
  | cons Device Rest ih =>
      intro S
      unfold UButtplugSubsystem.OnDeviceList
      obtain ⟨New1, h1⟩ := UButtplugSubsystem.OnDeviceAdded_keys S Device
      obtain ⟨New2, h2⟩ := ih (S.OnDeviceAdded Device)
      exact ⟨New1 ++ New2, by rw [h2, h1, List.append_assoc]⟩

/-- The `DeviceRemoved` handler keeps the keys of the table and the features of every
device. -/
theorem UButtplugSubsystem.OnDeviceRemoved_keys (S : UButtplugSubsystem) (DeviceIndex : Nat) :
    (S.OnDeviceRemoved DeviceIndex).Devices.map (fun E => (E.1, E.2.Features))
      = S.Devices.map (fun E => (E.1, E.2.Features)) := by
  unfold UButtplugSubsystem.OnDeviceRemoved
  cases hFind : TMap.Find S.Devices DeviceIndex with
  | none => rfl
  | some Device =>
      exact TMap.map_Add_of_Find (fun D => D.Features) _ _ _ _ hFind rfl

/-- Every handler of an inbound message keeps the keys of the table and may append
some. -/
theorem UButtplugSubsystem.OnServerMessage_keys (S S' : UButtplugSubsystem)
    (M : FButtplugMessage) (h : S.OnServerMessage M = .ok S') :
    ∃ New, S'.Devices.map Prod.fst = S.Devices.map Prod.fst ++ New := by
  have hSame : S'.Devices = S.Devices →
      ∃ New, S'.Devices.map Prod.fst = S.Devices.map Prod.fst ++ New :=
    fun hEq => ⟨[], by rw [hEq, List.append_nil]⟩
  have hClient : S.OnClientMessage = .ok S' →
      ∃ New, S'.Devices.map Prod.fst = S.Devices.map Prod.fst ++ New :=
    fun hC => hSame (UButtplugSubsystem.CloseSocket_Devices _ _ _ _ hC)
  unfold UButtplugSubsystem.OnServerMessage at h
  cases hK : M.Fields with
  | Ok => simp only [hK, Except.ok.injEq] at h; exact hSame (by rw [← h])
  | Error _ _ => simp only [hK, Except.ok.injEq] at h; exact hSame (by rw [← h])
  | Ping => simp only [hK] at h; exact hClient h
  | RequestServerInfo _ _ => simp only [hK] at h; exact hClient h
  | ServerInfo N V P =>
      simp only [hK] at h
      exact hSame (UButtplugSubsystem.OnServerInfo_Devices _ _ _ _ _ h)
  | StartScanning => simp only [hK] at h; exact hClient h
  | StopScanning => simp only [hK] at h; exact hClient h
  | ScanningFinished => simp only [hK, Except.ok.injEq] at h; exact hSame (by rw [← h]; rfl)
  | RequestDeviceList => simp only [hK] at h; exact hClient h
  | DeviceList Devices =>
      simp only [hK, Except.ok.injEq] at h
      rw [← h]
      exact UButtplugSubsystem.OnDeviceList_keys Devices S
  | DeviceAdded Device =>
      simp only [hK, Except.ok.injEq] at h
      rw [← h]
      exact UButtplugSubsystem.OnDeviceAdded_keys S Device
  | DeviceRemoved DeviceIndex =>
      simp only [hK, Except.ok.injEq] at h
      rw [← h]
      have hKeys := congrArg (List.map Prod.fst)
        (UButtplugSubsystem.OnDeviceRemoved_keys S DeviceIndex)
      simp only [List.map_map] at hKeys
      exact ⟨[], by rw [List.append_nil]; exact hKeys⟩
  | StopDeviceCmd _ => simp only [hK] at h; exact hClient h
  | StopAllDevices => simp only [hK] at h; exact hClient h
  | ScalarCmd _ _ => simp only [hK] at h; exact hClient h
  | LinearCmd _ _ => simp only [hK] at h; exact hClient h
  | RotateCmd _ _ => simp only [hK] at h; exact hClient h
  | SensorReadCmd _ _ _ => simp only [hK] at h; exact hClient h
  | SensorReading DeviceIndex SensorIndex SensorType Data =>
      simp only [hK, Except.ok.injEq] at h
      rw [← h]
      unfold UButtplugSubsystem.OnSensorReading
      cases hFind : TMap.Find S.Devices DeviceIndex with
      | none => exact ⟨[], by simp⟩
      | some Device => exact TMap.keys_Add _ _ _
  | SensorSubscribeCmd _ _ _ => simp only [hK] at h; exact hClient h
  | SensorUnsubscribeCmd _ _ _ => simp only [hK] at h; exact hClient h

/-- The dispatch loop keeps the keys of the table and may append some. -/
theorem UButtplugSubsystem.DispatchMessages_keys (Ms : FButtplugMessageArray) :
    ∀ S S' : UButtplugSubsystem, S.DispatchMessages Ms = .ok S' →
      ∃ New, S'.Devices.map Prod.fst = S.Devices.map Prod.fst ++ New := by
  induction Ms with
  | nil =>
      intro S S' h
      simp only [UButtplugSubsystem.DispatchMessages, Except.ok.injEq] at h
      exact ⟨[], by rw [← h, List.append_nil]⟩
  | cons M Rest ih =>
      intro S S' h
      unfold UButtplugSubsystem.DispatchMessages at h
      obtain ⟨Next, hM, hRest⟩ := Except.bind_ok_inv _ _ _ h
      obtain ⟨New1, h1⟩ := UButtplugSubsystem.OnServerMessage_keys S Next M hM
      obtain ⟨New2, h2⟩ := ih Next S' hRest
      exact ⟨New1 ++ New2, by rw [h2, h1, List.append_assoc]⟩

/-- Every step keeps the keys of the table and may append some. -/
theorem UButtplugSubsystem.Step_keys (S S' : UButtplugSubsystem) (Taken : FSessionStep)
    (h : S.Step Taken = .ok S') :
    ∃ New, S'.Devices.map Prod.fst = S.Devices.map Prod.fst ++ New := by
  have hKeys : S'.Devices.map Prod.fst = S.Devices.map Prod.fst →
      ∃ New, S'.Devices.map Prod.fst = S.Devices.map Prod.fst ++ New :=
    fun hEq => ⟨[], by rw [hEq, List.append_nil]⟩
  have hSame : S'.Devices = S.Devices →
      ∃ New, S'.Devices.map Prod.fst = S.Devices.map Prod.fst ++ New :=
    fun hEq => hKeys (by rw [hEq])
  have hReset : ∀ (T : UButtplugSubsystem) (Reason : String),
      (T.Reset Reason).Devices.map Prod.fst = T.Devices.map Prod.fst := by
    intro T Reason
    rw [UButtplugSubsystem.Reset_eq]
    simp [List.map_map, Function.comp]
  cases Taken with
  | Initialize AppName =>
      simp only [UButtplugSubsystem.Step, Except.ok.injEq] at h
      exact hSame (by rw [← h]; rfl)
  | Deinitialize =>
      simp only [UButtplugSubsystem.Step, Except.ok.injEq] at h
      exact hKeys (by rw [← h]; exact hReset S "Shutting down")
  | StartClient Format bDropsOnClose InClientName InServerAddress =>
      simp only [UButtplugSubsystem.Step, Except.ok.injEq] at h
      exact hSame (by rw [← h]; exact UButtplugSubsystem.StartClient_Devices S _ _ _ _)
  | AsyncStartClient Format bDropsOnClose bExistingAction Handle InClientName
      InServerAddress =>
      simp only [UButtplugSubsystem.Step, Except.ok.injEq] at h
      apply hSame
      rw [← h]
      unfold UButtplugSubsystem.AsyncStartClient
      split
      · rfl
      · split
        · rfl
        · split
          · rfl
          · exact UButtplugSubsystem.StartClient_Devices _ _ _ _ _
  | NotifyActionAborted Handle =>
      simp only [UButtplugSubsystem.Step, UButtplugSubsystem.NotifyActionAborted] at h
      split at h
      · simp only [Except.ok.injEq] at h
        exact hSame (by rw [← h])
      · cases h
  | StopClient =>
      simp only [UButtplugSubsystem.Step, Except.ok.injEq] at h
      exact hKeys (by rw [← h]; exact hReset S "stopping client")
  | StartScanning => exact hSame (UButtplugSubsystem.EnqueueMessage_Devices _ _ _ h)
  | StopScanning => exact hSame (UButtplugSubsystem.EnqueueMessage_Devices _ _ _ h)
  | Tick DeltaTime => exact hKeys (UButtplugSubsystem.Tick_keys S S' DeltaTime h)
  | TickPingTimer =>
      simp only [UButtplugSubsystem.Step, UButtplugSubsystem.TickPingTimer] at h
      split at h
      · exact hSame (UButtplugSubsystem.EnqueueMessage_Devices _ _ _ h)
      · simp only [Except.ok.injEq] at h
        exact hSame (by rw [← h])
  | SocketOpened =>
      have hDev := UButtplugSubsystem.EnqueueMessage_Devices _ S' _ h
      exact hSame hDev
  | SocketConnectionError Error =>
      simp only [UButtplugSubsystem.Step, Except.ok.injEq] at h
      exact hKeys (by rw [← h]; exact hReset S Error)
  | SocketClosed StatusCode Reason bWasClean =>
      simp only [UButtplugSubsystem.Step, Except.ok.injEq] at h
      exact hKeys (by
        rw [← h]
        exact hReset
          { S with
              WebSocket :=
                S.WebSocket.map (fun Socket => { Socket with bConnected := false }) }
          Reason)
  | SocketMessage MessageString =>
      exact UButtplugSubsystem.DispatchMessages_keys _ S S' h
  | Device DeviceIndex Call =>
      simp only [UButtplugSubsystem.Step, Except.ok.injEq] at h
      rw [← h]
      unfold UButtplugSubsystem.CallDevice
      cases hFind : TMap.Find S.Devices DeviceIndex with
      | none => exact ⟨[], by simp⟩
      | some Device => exact TMap.keys_Add _ _ _

/-- Every run of steps keeps the keys of the table and may append some. -/
theorem UButtplugSubsystem.Run_keys (Steps : List FSessionStep) :
    ∀ S S' : UButtplugSubsystem, S.Run Steps = .ok S' →
      ∃ New, S'.Devices.map Prod.fst = S.Devices.map Prod.fst ++ New := by
  induction Steps with
  | nil =>
      intro S S' h
      simp only [UButtplugSubsystem.Run, Except.ok.injEq] at h
      exact ⟨[], by rw [← h, List.append_nil]⟩
  | cons Taken Rest ih =>
      intro S S' h
      unfold UButtplugSubsystem.Run at h
      obtain ⟨Next, hStep, hRest⟩ := Except.bind_ok_inv _ _ _ h
      obtain ⟨New1, h1⟩ := UButtplugSubsystem.Step_keys S Next Taken hStep
      obtain ⟨New2, h2⟩ := ih Next S' hRest
      exact ⟨New1 ++ New2, by rw [h2, h1, List.append_assoc]⟩

/-! ## C22: the device table only grows -/

/-- C22: no operation removes an entry from the device table. `Reset` and the
`DeviceRemoved` handler leave the indices of the table and the feature list of every
device as they are; the `DeviceAdded` handler keeps the indices, appending the message's
index when the table does not hold it, and leaves every other entry alone; and after any
run of steps the indices the table held are still there, in order, followed by those
added since. -/
theorem C22_no_entry_leaves_the_device_table :
    (∀ (S : UButtplugSubsystem) (Reason : String),
      (S.Reset Reason).Devices.map (fun E => (E.1, E.2.Features))
        = S.Devices.map (fun E => (E.1, E.2.Features))) ∧
    (∀ (S : UButtplugSubsystem) (Id DeviceIndex : Nat),
      ∃ S' : UButtplugSubsystem,
        S.OnServerMessage { Id := Id, Fields := .DeviceRemoved DeviceIndex } = .ok S' ∧
        S'.Devices.map (fun E => (E.1, E.2.Features))
          = S.Devices.map (fun E => (E.1, E.2.Features))) ∧
    (∀ (S : UButtplugSubsystem) (Id : Nat) (Device : FButtplugMessage.Device),
      ∃ S' : UButtplugSubsystem,
        S.OnServerMessage { Id := Id, Fields := .DeviceAdded Device } = .ok S' ∧
        S'.Devices.map Prod.fst =
          S.Devices.map Prod.fst ++
            (if TMap.Contains S.Devices Device.Index then [] else [Device.Index]) ∧
        (∀ Other, Other ≠ Device.Index →
          TMap.Find S'.Devices Other = TMap.Find S.Devices Other)) ∧
    (∀ (Steps : List FSessionStep) (S S' : UButtplugSubsystem),
      S.Run Steps = .ok S' →
      ∃ New, S'.Devices.map Prod.fst = S.Devices.map Prod.fst ++ New) := by
  refine ⟨fun S Reason => ?_, fun S Id DeviceIndex => ?_, fun S Id Device => ?_,
    fun Steps S S' h => UButtplugSubsystem.Run_keys Steps S S' h⟩
  · rw [UButtplugSubsystem.Reset_eq]
    simp [List.map_map, Function.comp]
  · exact ⟨S.OnDeviceRemoved DeviceIndex, rfl,
      UButtplugSubsystem.OnDeviceRemoved_keys S DeviceIndex⟩
  · refine ⟨S.OnDeviceAdded Device, rfl, ?_, ?_⟩
    · unfold UButtplugSubsystem.OnDeviceAdded TMap.Contains
      cases hFind : TMap.Find S.Devices Device.Index with
      | none =>
          simp only [Option.isSome_none, Bool.false_eq_true, if_false]
          exact TMap.keys_Add_of_not_Find _ _ _ hFind
      | some Existing =>
          simp only [Option.isSome_some, if_true, List.append_nil]
          split
          · exact TMap.keys_Add_of_Find _ _ _ _ hFind
          · exact TMap.keys_Add_of_Find _ _ _ _ hFind
    · intro Other hOther
      unfold UButtplugSubsystem.OnDeviceAdded
      cases hFind : TMap.Find S.Devices Device.Index with
      | none => exact TMap.Find_Add_other _ _ _ _ hOther
      | some Existing =>
          simp only
          split
          · exact TMap.Find_Add_other _ _ _ _ hOther
          · exact TMap.Find_Add_other _ _ _ _ hOther

/-- C22 at a concrete input: the sample steps, run from a session that already holds the
sample device and the sample gauge, end with indices 5 and 8 still in the table. -/
theorem C22_no_entry_leaves_the_device_table_witness :
    ∃ (S' : UButtplugSubsystem) (New : List Nat),
      Sample.Sensing.Run [.StopClient, .SocketMessage Sample.DeviceFrame] = .ok S' ∧
      S'.Devices.map Prod.fst = [5, 8] ++ New :=
  have hRun : ∃ S', Sample.Sensing.Run [.StopClient, .SocketMessage Sample.DeviceFrame]
      = .ok S' := by
    simp [UButtplugSubsystem.Run, UButtplugSubsystem.Step, UButtplugSubsystem.OnSocketMessage,
      Sample.DeviceFrame,
      ReadButtplugMessagesFromJson, ReadButtplugMessagesFromJson.Values,
      ReadButtplugMessagesFromJson.Fields, FJsonValue.AsObject,
      EButtplugMessageType.GetEnumByName, EButtplugMessageType.GetIndexByNameString,
      EButtplugMessageType.Enumerators, EButtplugMessageType.GetEnumAsString,
      FButtplugMessage.FromJson, TButtplugMessage.FromJson,
      UButtplugSubsystem.DispatchMessages, UButtplugSubsystem.OnServerMessage,
      bind, Except.bind]
  hRun.elim (fun S' h =>
    (C22_no_entry_leaves_the_device_table.2.2.2 _ Sample.Sensing S' h).elim
      (fun New hNew => ⟨S', New, h, hNew⟩))

/-! ## C23: who fires a disconnected event -/

/-- C23 (as amended): of transport close, transport error and `StopClient`, only
transport close fires the session's disconnected event, once; transport error and
`StopClient` do not fire it; and each of the three fires the disconnected delegate of
every device of the table, once per device, in table order. -/
theorem C23_who_fires_disconnected (S : UButtplugSubsystem) (StatusCode : Int)
    (Reason : String) (bWasClean : Bool) :
    ∃ Closed Failed Stopped : List FButtplugEvent,
      (S.OnSocketClosed StatusCode Reason bWasClean).Events = S.Events ++ Closed ∧
      (S.OnSocketConnectionError Reason).Events = S.Events ++ Failed ∧
      S.StopClient.Events = S.Events ++ Stopped ∧
      (Closed.filter (fun Event => Event.IsSessionDisconnected)).length = 1 ∧
      (Failed.filter (fun Event => Event.IsSessionDisconnected)).length = 0 ∧
      (Stopped.filter (fun Event => Event.IsSessionDisconnected)).length = 0 ∧
      Closed.filter (fun Event => Event.IsDeviceDisconnected)
        = S.Devices.map (fun E => FButtplugEvent.Device E.1 .OnDisconnected) ∧
      Failed.filter (fun Event => Event.IsDeviceDisconnected)
        = S.Devices.map (fun E => FButtplugEvent.Device E.1 .OnDisconnected) ∧
      Stopped.filter (fun Event => Event.IsDeviceDisconnected)
        = S.Devices.map (fun E => FButtplugEvent.Device E.1 .OnDisconnected) := by
  have hDev : ∀ M : List (Nat × UButtplugDevice),
      (M.map (fun E => FButtplugEvent.Device E.1 .OnDisconnected)).filter
          (fun Event => Event.IsDeviceDisconnected)
        = M.map (fun E => FButtplugEvent.Device E.1 .OnDisconnected) := by
    intro M
    rw [List.filter_eq_self]
    intro Event hEvent
    simp only [List.mem_map] at hEvent
    obtain ⟨E, -, rfl⟩ := hEvent
    rfl
  have hSes : ∀ M : List (Nat × UButtplugDevice),
      (M.map (fun E => FButtplugEvent.Device E.1 .OnDisconnected)).filter
          (fun Event => Event.IsSessionDisconnected) = [] := by
    intro M
    rw [List.filter_eq_nil_iff]
    intro Event hEvent
    simp only [List.mem_map] at hEvent
    obtain ⟨E, -, rfl⟩ := hEvent
    simp [FButtplugEvent.IsSessionDisconnected]
  have hRest : ∀ R : String,
      ((if S.WebSocket.isSome then [FButtplugEvent.SocketClose 1001 R] else [])
        ++ (match S.LatentStartAction with
            | some Handle =>
                [FButtplugEvent.LatentStartActionReady Handle .ConnectionFailed R]
            | none => [])).filter (fun Event => Event.IsSessionDisconnected) = [] ∧
      ((if S.WebSocket.isSome then [FButtplugEvent.SocketClose 1001 R] else [])
        ++ (match S.LatentStartAction with
            | some Handle =>
                [FButtplugEvent.LatentStartActionReady Handle .ConnectionFailed R]
            | none => [])).filter (fun Event => Event.IsDeviceDisconnected) = [] := by
    intro R
    cases S.WebSocket <;> cases S.LatentStartAction <;>
      simp [FButtplugEvent.IsSessionDisconnected, FButtplugEvent.IsDeviceDisconnected]
  refine ⟨S.Devices.map (fun E => FButtplugEvent.Device E.1 .OnDisconnected)
      ++ ((if S.WebSocket.isSome then [FButtplugEvent.SocketClose 1001 Reason] else [])
        ++ (match S.LatentStartAction with
            | some Handle =>
                [FButtplugEvent.LatentStartActionReady Handle .ConnectionFailed Reason]
            | none => []))
      ++ [FButtplugEvent.OnDisconnected],
    S.Devices.map (fun E => FButtplugEvent.Device E.1 .OnDisconnected)
      ++ ((if S.WebSocket.isSome then [FButtplugEvent.SocketClose 1001 Reason] else [])
        ++ (match S.LatentStartAction with
            | some Handle =>
                [FButtplugEvent.LatentStartActionReady Handle .ConnectionFailed Reason]
            | none => [])),
    S.Devices.map (fun E => FButtplugEvent.Device E.1 .OnDisconnected)
      ++ ((if S.WebSocket.isSome then [FButtplugEvent.SocketClose 1001 "stopping client"]
            else [])
        ++ (match S.LatentStartAction with
            | some Handle =>
                [FButtplugEvent.LatentStartActionReady Handle .ConnectionFailed
                  "stopping client"]
            | none => [])),
    ?_, ?_, ?_, ?_, ?_, ?_, ?_, ?_, ?_⟩
  · simp [UButtplugSubsystem.OnSocketClosed, UButtplugSubsystem.Reset_eq,
      UButtplugSubsystem.Fire]
  · simp [UButtplugSubsystem.OnSocketConnectionError, UButtplugSubsystem.Reset_eq]
  · simp [UButtplugSubsystem.StopClient, UButtplugSubsystem.Reset_eq]
  · rw [List.filter_append, List.filter_append, hSes, (hRest Reason).1]
    rfl
  · rw [List.filter_append, hSes, (hRest Reason).1]
    rfl
  · rw [List.filter_append, hSes, (hRest "stopping client").1]
    rfl
  · rw [List.filter_append, List.filter_append, hDev, (hRest Reason).2]
    simp [FButtplugEvent.IsDeviceDisconnected]
  · rw [List.filter_append, hDev, (hRest Reason).2, List.append_nil]
  · rw [List.filter_append, hDev, (hRest "stopping client").2, List.append_nil]

/-- C23 (counterexample to the claim as stated): the connected sample session holds
device 5. `StopClient` and a transport error fire the disconnected delegate of device 5
and no session-level disconnected event; a transport close fires the delegate of
device 5 and then the session-level event. -/
theorem C23_stop_client_fires_for_the_device_not_the_session :
    Sample.Connected.StopClient.Events =
      [.Device 5 .OnDisconnected, .SocketClose 1001 "stopping client"] ∧
    (Sample.Connected.OnSocketConnectionError "refused").Events =
      [.Device 5 .OnDisconnected, .SocketClose 1001 "refused"] ∧
    (Sample.Connected.OnSocketClosed 1006 "lost" false).Events =
      [.Device 5 .OnDisconnected, .SocketClose 1001 "lost", .OnDisconnected] := by
  simp [UButtplugSubsystem.StopClient, UButtplugSubsystem.OnSocketConnectionError,
    UButtplugSubsystem.OnSocketClosed, UButtplugSubsystem.Reset_eq, UButtplugSubsystem.Fire,
    Sample.Connected]

/-- C23 (as amended) at a concrete input: the connected sample session. -/
theorem C23_who_fires_disconnected_witness :
    ∃ Closed Failed Stopped : List FButtplugEvent,
      (Sample.Connected.OnSocketClosed 1006 "lost" false).Events
        = Sample.Connected.Events ++ Closed ∧
      (Sample.Connected.OnSocketConnectionError "lost").Events
        = Sample.Connected.Events ++ Failed ∧
      Sample.Connected.StopClient.Events = Sample.Connected.Events ++ Stopped ∧
      (Closed.filter (fun Event => Event.IsSessionDisconnected)).length = 1 ∧
      (Failed.filter (fun Event => Event.IsSessionDisconnected)).length = 0 ∧
      (Stopped.filter (fun Event => Event.IsSessionDisconnected)).length = 0 ∧
      Closed.filter (fun Event => Event.IsDeviceDisconnected)
        = Sample.Connected.Devices.map (fun E => FButtplugEvent.Device E.1 .OnDisconnected) ∧
      Failed.filter (fun Event => Event.IsDeviceDisconnected)
        = Sample.Connected.Devices.map (fun E => FButtplugEvent.Device E.1 .OnDisconnected) ∧
      Stopped.filter (fun Event => Event.IsDeviceDisconnected)
        = Sample.Connected.Devices.map (fun E => FButtplugEvent.Device E.1 .OnDisconnected) :=
  C23_who_fires_disconnected Sample.Connected 1006 "lost" false

/-! ## Helper lemmas: a pending connect request has a socket -/

/-- Enqueueing a message leaves socket and pending request alone. -/
theorem UButtplugSubsystem.EnqueueMessage_link (S S' : UButtplugSubsystem)
    (M : FButtplugMessage) (h : S.EnqueueMessage M = .ok S') :
    S'.WebSocket = S.WebSocket ∧ S'.LatentStartAction = S.LatentStartAction := by
  unfold UButtplugSubsystem.EnqueueMessage at h
  split at h
  · cases h
  · cases h
    exact ⟨rfl, rfl⟩

/-- Enqueueing messages leaves socket and pending request alone. -/
theorem UButtplugSubsystem.EnqueueMessages_link (Ms : FButtplugMessageArray) :
    ∀ (S S' : UButtplugSubsystem), S.EnqueueMessages Ms = .ok S' →
      S'.WebSocket = S.WebSocket ∧ S'.LatentStartAction = S.LatentStartAction := by
  induction Ms with
  | nil =>
      intro S S' h
      simp only [UButtplugSubsystem.EnqueueMessages, Except.ok.injEq] at h
      rw [← h]
      exact ⟨rfl, rfl⟩
  | cons M Rest ih =>
      intro S S' h
      unfold UButtplugSubsystem.EnqueueMessages at h
      obtain ⟨Next, hM, hRest⟩ := Except.bind_ok_inv _ _ _ h
      obtain ⟨h1, h2⟩ := UButtplugSubsystem.EnqueueMessage_link S Next M hM
      obtain ⟨h3, h4⟩ := ih Next S' hRest
      exact ⟨h3.trans h1, h4.trans h2⟩

/-- A flush that returns leaves socket and pending request alone. -/
theorem UButtplugDevice.FlushMessageQueue_link (D D' : UButtplugDevice)
    (S S' : UButtplugSubsystem) (DeltaTime : ℚ)
    (h : D.FlushMessageQueue S DeltaTime = .ok (D', S')) :
    S'.WebSocket = S.WebSocket ∧ S'.LatentStartAction = S.LatentStartAction := by
  unfold UButtplugDevice.FlushMessageQueue at h
  simp only at h
  split at h
  · simp only [Except.ok.injEq, Prod.mk.injEq] at h
    rw [← h.2]
    exact ⟨rfl, rfl⟩
  · split at h
    · obtain ⟨Next, hE, h⟩ := Except.bind_ok_inv _ _ _ h
      obtain ⟨Branch, hB, h⟩ := Except.bind_ok_inv _ _ _ h
      obtain ⟨Final, hFinal, hPure⟩ := Except.bind_ok_inv _ _ _ h
      simp only [pure, Except.pure, Except.ok.injEq, Prod.mk.injEq] at hPure hB
      obtain ⟨h1, h2⟩ := UButtplugSubsystem.EnqueueMessage_link _ _ _ hE
      obtain ⟨h3, h4⟩ := UButtplugSubsystem.EnqueueMessages_link _ _ _ hFinal
      rw [← hB] at h3 h4
      rw [← hPure.2]
      exact ⟨h3.trans h1, h4.trans h2⟩
    · obtain ⟨Done, -, h⟩ := Except.bind_ok_inv _ _ _ h
      obtain ⟨Next, hE, h⟩ := Except.bind_ok_inv _ _ _ h
      obtain ⟨Branch, hB, h⟩ := Except.bind_ok_inv _ _ _ h
      obtain ⟨Final, hFinal, hPure⟩ := Except.bind_ok_inv _ _ _ h
      simp only [pure, Except.pure, Except.ok.injEq, Prod.mk.injEq] at hPure hB
      obtain ⟨h1, h2⟩ := UButtplugSubsystem.EnqueueMessages_link _ _ _ hE
      obtain ⟨h3, h4⟩ := UButtplugSubsystem.EnqueueMessages_link _ _ _ hFinal
      rw [← hB] at h3 h4
      rw [← hPure.2]
      exact ⟨h3.trans h1, h4.trans h2⟩

/-- The device loop of `Tick` leaves socket and pending request alone. -/
theorem UButtplugSubsystem.FlushDevices_link (M : List (Nat × UButtplugDevice)) :
    ∀ (S : UButtplugSubsystem) (DeltaTime : ℚ) (M' : List (Nat × UButtplugDevice))
      (S' : UButtplugSubsystem),
      UButtplugSubsystem.FlushDevices M S DeltaTime = .ok (M', S') →
      S'.WebSocket = S.WebSocket ∧ S'.LatentStartAction = S.LatentStartAction := by
  induction M with
  | nil =>
      intro S DeltaTime M' S' h
      simp only [UButtplugSubsystem.FlushDevices, Except.ok.injEq, Prod.mk.injEq] at h
      rw [← h.2]
      exact ⟨rfl, rfl⟩
  | cons A Rest ih =>
      intro S DeltaTime M' S' h
      unfold UButtplugSubsystem.FlushDevices at h
      obtain ⟨Flushed, hA, h⟩ := Except.bind_ok_inv _ _ _ h
      obtain ⟨Others, hR, h⟩ := Except.bind_ok_inv _ _ _ h
      simp only [pure, Except.pure, Except.ok.injEq, Prod.mk.injEq] at h
      obtain ⟨h1, h2⟩ := UButtplugDevice.FlushMessageQueue_link A.2 Flushed.1 S Flushed.2
        DeltaTime hA
      obtain ⟨h3, h4⟩ := ih Flushed.2 DeltaTime Others.1 Others.2 hR
      rw [← h.2]
      exact ⟨h3.trans h1, h4.trans h2⟩

/-- `Tick` leaves socket and pending request alone. -/
theorem UButtplugSubsystem.Tick_link (S S' : UButtplugSubsystem) (DeltaTime : ℚ)
    (h : S.Tick DeltaTime = .ok S') :
    S'.WebSocket = S.WebSocket ∧ S'.LatentStartAction = S.LatentStartAction := by
  unfold UButtplugSubsystem.Tick at h
  by_cases hC : S.IsConnected = true
  · simp only [hC, if_true] at h
    obtain ⟨Flushed, hF, h⟩ := Except.bind_ok_inv _ _ _ h
    have hLink := UButtplugSubsystem.FlushDevices_link S.Devices S DeltaTime Flushed.1
      Flushed.2 hF
    split at h
    · obtain ⟨Json, -, h⟩ := Except.bind_ok_inv _ _ _ h
      simp only [pure, Except.pure, Except.ok.injEq] at h
      rw [← h]
      exact hLink
    · simp only [pure, Except.pure, Except.ok.injEq] at h
      rw [← h]
      exact hLink
  · simp only [hC, Bool.false_eq_true, if_false, pure, Except.pure, Except.ok.injEq] at h
    rw [← h]
    exact ⟨rfl, rfl⟩

/-- Every handler of an inbound message keeps a pending request with its socket. -/
theorem UButtplugSubsystem.OnServerMessage_link (S S' : UButtplugSubsystem)
    (M : FButtplugMessage)
    (hS : S.LatentStartAction.isSome = true → S.WebSocket.isSome = true)
    (h : S.OnServerMessage M = .ok S') :
    S'.LatentStartAction.isSome = true → S'.WebSocket.isSome = true := by
  have hClose : ∀ (T : UButtplugSubsystem) (Code : Int) (Reason : String),
      T.CloseSocket Code Reason = .ok S' → S'.WebSocket.isSome = true := by
    intro T Code Reason hT
    unfold UButtplugSubsystem.CloseSocket at hT
    split at hT
    · cases hT
    · cases hT
      rfl
  have hClient : S.OnClientMessage = .ok S' →
      S'.LatentStartAction.isSome = true → S'.WebSocket.isSome = true :=
    fun hC _ => hClose _ _ _ hC
  unfold UButtplugSubsystem.OnServerMessage at h
  cases hK : M.Fields with
  | Ok => simp only [hK, Except.ok.injEq] at h; rw [← h]; exact hS
  | Error _ _ => simp only [hK, Except.ok.injEq] at h; rw [← h]; exact hS
  | Ping => simp only [hK] at h; exact hClient h
  | RequestServerInfo _ _ => simp only [hK] at h; exact hClient h
  | ServerInfo N V P =>
      simp only [hK] at h
      unfold UButtplugSubsystem.OnServerInfo at h
      simp only at h
      split at h
      · obtain ⟨Next, hE, hP⟩ := Except.bind_ok_inv _ _ _ h
        simp only [pure, Except.pure, Except.ok.injEq] at hP
        obtain ⟨h1, h2⟩ := UButtplugSubsystem.EnqueueMessage_link _ _ _ hE
        rw [← hP]
        intro hLatent
        have hLatent' : Next.LatentStartAction.isSome = true := hLatent
        have hSocket : Next.WebSocket = S.WebSocket := by
          rw [h1]
          cases S.LatentStartAction <;> rfl
        show Next.WebSocket.isSome = true
        rw [hSocket]
        apply hS
        rw [h2] at hLatent'
        cases hL : S.LatentStartAction with
        | none => simp [hL] at hLatent'
        | some Handle => rfl
      · exact fun _ => hClose _ _ _ h
  | StartScanning => simp only [hK] at h; exact hClient h
  | StopScanning => simp only [hK] at h; exact hClient h
  | ScanningFinished => simp only [hK, Except.ok.injEq] at h; rw [← h]; exact hS
  | RequestDeviceList => simp only [hK] at h; exact hClient h
  | DeviceList Devices =>
      simp only [hK, Except.ok.injEq] at h
      rw [← h]
      have hBoth : ∀ (Ds : List FButtplugMessage.Device) (T : UButtplugSubsystem),
          (T.OnDeviceList Ds).WebSocket = T.WebSocket ∧
          (T.OnDeviceList Ds).LatentStartAction = T.LatentStartAction := by
        intro Ds
        induction Ds with
        | nil => intro T; exact ⟨rfl, rfl⟩
        | cons D Rest ih =>
            intro T
            unfold UButtplugSubsystem.OnDeviceList
            obtain ⟨h1, h2⟩ := ih (T.OnDeviceAdded D)
            have h3 : (T.OnDeviceAdded D).WebSocket = T.WebSocket ∧
                (T.OnDeviceAdded D).LatentStartAction = T.LatentStartAction := by
              unfold UButtplugSubsystem.OnDeviceAdded
              cases TMap.Find T.Devices D.Index with
              | none => exact ⟨rfl, rfl⟩
              | some Existing =>
                  simp only
                  split <;> exact ⟨rfl, rfl⟩
            exact ⟨h1.trans h3.1, h2.trans h3.2⟩
      rw [(hBoth Devices S).1, (hBoth Devices S).2]
      exact hS
  | DeviceAdded Device =>
      simp only [hK, Except.ok.injEq] at h
      rw [← h]
      have h3 : (S.OnDeviceAdded Device).WebSocket = S.WebSocket ∧
          (S.OnDeviceAdded Device).LatentStartAction = S.LatentStartAction := by
        unfold UButtplugSubsystem.OnDeviceAdded
        cases TMap.Find S.Devices Device.Index with
        | none => exact ⟨rfl, rfl⟩
        | some Existing =>
            simp only
            split <;> exact ⟨rfl, rfl⟩
      rw [h3.1, h3.2]
      exact hS
  | DeviceRemoved DeviceIndex =>
      simp only [hK, Except.ok.injEq] at h
      rw [← h]
      have h3 : (S.OnDeviceRemoved DeviceIndex).WebSocket = S.WebSocket ∧
          (S.OnDeviceRemoved DeviceIndex).LatentStartAction = S.LatentStartAction := by
        unfold UButtplugSubsystem.OnDeviceRemoved
        cases TMap.Find S.Devices DeviceIndex <;> exact ⟨rfl, rfl⟩
      rw [h3.1, h3.2]
      exact hS
  | StopDeviceCmd _ => simp only [hK] at h; exact hClient h
  | StopAllDevices => simp only [hK] at h; exact hClient h
  | ScalarCmd _ _ => simp only [hK] at h; exact hClient h
  | LinearCmd _ _ => simp only [hK] at h; exact hClient h
  | RotateCmd _ _ => simp only [hK] at h; exact hClient h
  | SensorReadCmd _ _ _ => simp only [hK] at h; exact hClient h
  | SensorReading DeviceIndex SensorIndex SensorType Data =>
      simp only [hK, Except.ok.injEq] at h
      rw [← h]
      have h3 : (S.OnSensorReading DeviceIndex SensorIndex SensorType Data).WebSocket
            = S.WebSocket ∧
          (S.OnSensorReading DeviceIndex SensorIndex SensorType Data).LatentStartAction
            = S.LatentStartAction := by
        unfold UButtplugSubsystem.OnSensorReading
        cases TMap.Find S.Devices DeviceIndex <;> exact ⟨rfl, rfl⟩
      rw [h3.1, h3.2]
      exact hS
  | SensorSubscribeCmd _ _ _ => simp only [hK] at h; exact hClient h
  | SensorUnsubscribeCmd _ _ _ => simp only [hK] at h; exact hClient h

/-- The dispatch loop keeps a pending request with its socket. -/
theorem UButtplugSubsystem.DispatchMessages_link (Ms : FButtplugMessageArray) :
    ∀ S S' : UButtplugSubsystem,
      (S.LatentStartAction.isSome = true → S.WebSocket.isSome = true) →
      S.DispatchMessages Ms = .ok S' →
      S'.LatentStartAction.isSome = true → S'.WebSocket.isSome = true := by
  induction Ms with
  | nil =>
      intro S S' hS h
      simp only [UButtplugSubsystem.DispatchMessages, Except.ok.injEq] at h
      rw [← h]
      exact hS
  | cons M Rest ih =>
      intro S S' hS h
      unfold UButtplugSubsystem.DispatchMessages at h
      obtain ⟨Next, hM, hRest⟩ := Except.bind_ok_inv _ _ _ h
      exact ih Next S' (UButtplugSubsystem.OnServerMessage_link S Next M hS hM) hRest

/-- Every step keeps a pending request with its socket. -/
theorem UButtplugSubsystem.Step_link (S S' : UButtplugSubsystem) (Taken : FSessionStep)
    (hS : S.LatentStartAction.isSome = true → S.WebSocket.isSome = true)
    (h : S.Step Taken = .ok S') :
    S'.LatentStartAction.isSome = true → S'.WebSocket.isSome = true := by
  have hSame : S'.WebSocket = S.WebSocket ∧ S'.LatentStartAction = S.LatentStartAction →
      S'.LatentStartAction.isSome = true → S'.WebSocket.isSome = true := by
    intro hEq
    rw [hEq.1, hEq.2]
    exact hS
  have hReset : ∀ (T : UButtplugSubsystem) (Reason : String),
      (T.Reset Reason).LatentStartAction.isSome = true → (T.Reset Reason).WebSocket.isSome = true := by
    intro T Reason hL
    rw [UButtplugSubsystem.Reset_eq] at hL
    simp at hL
  cases Taken with
  | Initialize AppName =>
      simp only [UButtplugSubsystem.Step, Except.ok.injEq] at h
      rw [← h]
      exact hS
  | Deinitialize =>
      simp only [UButtplugSubsystem.Step, Except.ok.injEq] at h
      rw [← h]
      exact hReset S "Shutting down"
  | StartClient Format bDropsOnClose InClientName InServerAddress =>
      simp only [UButtplugSubsystem.Step, Except.ok.injEq] at h
      rw [← h]
      unfold UButtplugSubsystem.StartClient
      split
      · exact hS
      · exact fun _ => rfl
  | AsyncStartClient Format bDropsOnClose bExistingAction Handle InClientName
      InServerAddress =>
      simp only [UButtplugSubsystem.Step, Except.ok.injEq] at h
      rw [← h]
      unfold UButtplugSubsystem.AsyncStartClient
      split
      · exact hS
      · split
        · exact hS
        · split
          · exact hS
          · unfold UButtplugSubsystem.StartClient
            split
            · rename_i hNo _ hYes
              exact absurd hYes hNo
            · exact fun _ => rfl
  | NotifyActionAborted Handle =>
      simp only [UButtplugSubsystem.Step, UButtplugSubsystem.NotifyActionAborted] at h
      split at h
      · simp only [Except.ok.injEq] at h
        rw [← h]
        intro hL
        simp at hL
      · cases h
  | StopClient =>
      simp only [UButtplugSubsystem.Step, Except.ok.injEq] at h
      rw [← h]
      exact hReset S "stopping client"
  | StartScanning => exact hSame (UButtplugSubsystem.EnqueueMessage_link _ _ _ h)
  | StopScanning => exact hSame (UButtplugSubsystem.EnqueueMessage_link _ _ _ h)
  | Tick DeltaTime => exact hSame (UButtplugSubsystem.Tick_link S S' DeltaTime h)
  | TickPingTimer =>
      simp only [UButtplugSubsystem.Step, UButtplugSubsystem.TickPingTimer] at h
      split at h
      · exact hSame (UButtplugSubsystem.EnqueueMessage_link _ _ _ h)
      · simp only [Except.ok.injEq] at h
        rw [← h]
        exact hS
  | SocketOpened =>
      obtain ⟨h1, h2⟩ := UButtplugSubsystem.EnqueueMessage_link _ S' _ h
      intro hL
      rw [h1]
      rw [h2] at hL
      have := hS hL
      cases hW : S.WebSocket with
      | none => simp [hW] at this
      | some Socket => rfl
  | SocketConnectionError Error =>
      simp only [UButtplugSubsystem.Step, Except.ok.injEq] at h
      rw [← h]
      exact hReset S Error
  | SocketClosed StatusCode Reason bWasClean =>
      simp only [UButtplugSubsystem.Step, Except.ok.injEq] at h
      rw [← h]
      exact hReset
        { S with
            WebSocket := S.WebSocket.map (fun Socket => { Socket with bConnected := false }) }
        Reason
  | SocketMessage MessageString =>
      exact UButtplugSubsystem.DispatchMessages_link _ S S' hS h
  | Device DeviceIndex Call =>
      simp only [UButtplugSubsystem.Step, Except.ok.injEq] at h
      rw [← h]
      unfold UButtplugSubsystem.CallDevice
      cases TMap.Find S.Devices DeviceIndex <;> exact hS

/-- In every session reached by a run of steps from a new session, a pending connect
request has its socket. -/
theorem UButtplugSubsystem.Run_link (Steps : List FSessionStep) :
    ∀ S S' : UButtplugSubsystem,
      (S.LatentStartAction.isSome = true → S.WebSocket.isSome = true) →
      S.Run Steps = .ok S' →
      S'.LatentStartAction.isSome = true → S'.WebSocket.isSome = true := by
  induction Steps with
  | nil =>
      intro S S' hS h
      simp only [UButtplugSubsystem.Run, Except.ok.injEq] at h
      rw [← h]
      exact hS
  | cons Taken Rest ih =>
      intro S S' hS h
      unfold UButtplugSubsystem.Run at h
      obtain ⟨Next, hStep, hRest⟩ := Except.bind_ok_inv _ _ _ h
      exact ih Next S' (UButtplugSubsystem.Step_link S Next Taken hS hStep) hRest

/-! ## C24: a connect request while busy -/

/-- C24 (as amended): in a session whose socket exists or with a connect request pending, an
`AsyncStartClient` request from a caller for which the latent action manager holds no
action yet changes nothing in the session (socket, client name, server address, pending
request, next message id, buffer, device table) and is resolved at once as
`ConnectionFailed` with a non-empty error message; a request from a caller whose action
the latent action manager already holds returns at once and resolves nothing; and
`StartClient`, which has no result to report, returns the session as it was, provided the
socket exists, which is the case whenever the session was reached by a run of steps from
a new session (there a pending request always has its socket). -/
theorem C24_connect_while_busy_fails_fast (S : UButtplugSubsystem)
    (hBusy : S.WebSocket.isSome = true ∨ S.LatentStartAction.isSome = true)
    (Format : String → String) (bDropsOnClose : Bool) (Handle : Nat)
    (InClientName InServerAddress : String) :
    (∃ ErrorMessage : String, ErrorMessage ≠ "" ∧
      S.AsyncStartClient Format bDropsOnClose false Handle InClientName InServerAddress =
        { S with
            Events := S.Events ++
              [.LatentStartActionReady Handle .ConnectionFailed ErrorMessage] }) ∧
    S.AsyncStartClient Format bDropsOnClose true Handle InClientName InServerAddress = S ∧
    ((S.WebSocket.isSome = true ∨
        ∃ Steps : List FSessionStep, UButtplugSubsystem.NewObject.Run Steps = .ok S) →
      S.StartClient Format bDropsOnClose InClientName InServerAddress = S) := by
  refine ⟨?_, ?_, ?_⟩
  · by_cases hSocket : S.WebSocket.isSome = true
    · exact ⟨"already connected", by decide, by
        simp [UButtplugSubsystem.AsyncStartClient, hSocket, UButtplugSubsystem.Fire]⟩
    · have hPending : S.LatentStartAction.isSome = true := by
        rcases hBusy with h | h
        · exact absurd h hSocket
        · exact h
      exact ⟨"already connecting", by decide, by
        simp [UButtplugSubsystem.AsyncStartClient, hSocket, hPending,
          UButtplugSubsystem.Fire]⟩
  · simp [UButtplugSubsystem.AsyncStartClient]
  · intro hReached
    have hSocket : S.WebSocket.isSome = true := by
      rcases hReached with h | ⟨Steps, hRun⟩
      · exact h
      · rcases hBusy with h | h
        · exact h
        · exact UButtplugSubsystem.Run_link Steps UButtplugSubsystem.NewObject S
            (fun hNew => hNew) hRun h
    simp [UButtplugSubsystem.StartClient, hSocket]

/-- C24 at a concrete input: the handshaking sample session (socket open, request 7
pending) is asked to connect again under handle 8. -/
theorem C24_connect_while_busy_fails_fast_witness :
    Sample.Handshaking.WebSocket.isSome = true ∧
    (∃ ErrorMessage : String, ErrorMessage ≠ "" ∧
      Sample.Handshaking.AsyncStartClient (fun Name => Name) false false 8 "Y" "ws://other" =
        { Sample.Handshaking with
            Events := Sample.Handshaking.Events ++
              [.LatentStartActionReady 8 .ConnectionFailed ErrorMessage] }) ∧
    Sample.Handshaking.AsyncStartClient (fun Name => Name) false true 8 "Y" "ws://other"
      = Sample.Handshaking ∧
    Sample.Handshaking.StartClient (fun Name => Name) false "Y" "ws://other"
      = Sample.Handshaking :=
  have h := C24_connect_while_busy_fails_fast Sample.Handshaking (Or.inl rfl)
    (fun Name => Name) false 8 "Y" "ws://other"
  ⟨rfl, h.1, h.2.1, h.2.2 (Or.inl rfl)⟩

/-- Counterexample to C24 as stated: in the handshaking sample session the connect request
with handle 7 is in flight. The caller of that request asks to connect again while the
latent action manager still holds its action: `AsyncStartClient` returns the session as it
was, and nothing is recorded, so this request is not resolved as `ConnectionFailed`, nor
at all. -/
theorem C24_repeated_request_is_not_resolved :
    Sample.Handshaking.LatentStartAction = some 7 ∧
    Sample.Handshaking.AsyncStartClient (fun Name => Name) false true 7 "X"
        "ws://127.0.0.1:12345"
      = Sample.Handshaking ∧
    (Sample.Handshaking.AsyncStartClient (fun Name => Name) false true 7 "X"
        "ws://127.0.0.1:12345").Events
      = [.SocketConnect "ws://127.0.0.1:12345"] :=
  ⟨rfl, rfl, rfl⟩

/-! ## C25: client-to-server kinds arriving from the server -/

/-- C25: an inbound message of a client-to-server-only kind, handled in a session whose
socket exists, makes the handler call `Close` with code 1008 on the socket and nothing
else: the device table (devices and their features), the buffer, the message counter, the
timer and the pending request are as they were. -/
theorem C25_client_to_server_kind_closes_with_1008 (S : UButtplugSubsystem)
    (Socket : IWebSocket) (hSocket : S.WebSocket = some Socket) (M : FButtplugMessage)
    (hKind : M.Fields.IsClientToServerOnly = true) :
    S.OnServerMessage M =
      .ok { S with
              WebSocket := some Socket.Close
              Events := S.Events ++
                [.SocketClose 1008 "server sent a client-to-server message unexpectedly"] } := by
  obtain ⟨Id, Fields⟩ := M
  cases Fields <;>
    simp [TButtplugMessage.IsClientToServerOnly] at hKind <;>
    simp [UButtplugSubsystem.OnServerMessage, UButtplugSubsystem.OnClientMessage,
      UButtplugSubsystem.CloseSocket, UButtplugSubsystem.Fire, hSocket]

/-- C25 at a concrete input: the connected sample session receives a `StopAllDevices`. -/
theorem C25_client_to_server_kind_closes_with_1008_witness :
    Sample.Connected.OnServerMessage { Id := 0, Fields := .StopAllDevices } =
      .ok { Sample.Connected with
              WebSocket := some (IWebSocket.Close { bConnected := true, bDropsOnClose := false })
              Events := Sample.Connected.Events ++
                [.SocketClose 1008 "server sent a client-to-server message unexpectedly"] } :=
  C25_client_to_server_kind_closes_with_1008 Sample.Connected
    { bConnected := true, bDropsOnClose := false } rfl { Id := 0, Fields := .StopAllDevices } rfl

/-! ## C26: `Ok`, `Error` and `Ping` arriving from the server -/

/-- C26 (as amended): handling an inbound `Ok` or `Error` returns the session as it was
(nothing closed, enqueued, fired or changed). An inbound `Ping` has no handler of its own:
it takes the handler of the client-to-server kinds, which calls `Close` with code 1008 on
the socket. -/
theorem C26_ok_and_error_only_log (S : UButtplugSubsystem) (Id : Nat) :
    S.OnServerMessage { Id := Id, Fields := .Ok } = .ok S ∧
    (∀ (ErrorMessage : String) (Code : Nat),
      S.OnServerMessage { Id := Id, Fields := .Error ErrorMessage Code } = .ok S) ∧
    (∀ Socket : IWebSocket, S.WebSocket = some Socket →
      S.OnServerMessage { Id := Id, Fields := .Ping } =
        .ok { S with
                WebSocket := some Socket.Close
                Events := S.Events ++
                  [.SocketClose 1008
                    "server sent a client-to-server message unexpectedly"] }) := by
  refine ⟨rfl, fun _ _ => rfl, fun Socket hSocket => ?_⟩
  simp [UButtplugSubsystem.OnServerMessage, UButtplugSubsystem.OnClientMessage,
    UButtplugSubsystem.CloseSocket, UButtplugSubsystem.Fire, hSocket]

/-- C26 (as amended) at a concrete input: the connected sample session. -/
theorem C26_ok_and_error_only_log_witness :
    Sample.Connected.OnServerMessage { Id := 4, Fields := .Ok } = .ok Sample.Connected ∧
    Sample.Connected.OnServerMessage { Id := 4, Fields := .Error "unknown device" 4 }
      = .ok Sample.Connected :=
  ⟨(C26_ok_and_error_only_log Sample.Connected 4).1,
   (C26_ok_and_error_only_log Sample.Connected 4).2.1 "unknown device" 4⟩

/-- C26 (counterexample to the claim as stated): the connected sample session handles an
inbound `Ping`: `Close` is called on the socket with code 1008. -/
theorem C26_inbound_ping_closes_with_1008 :
    (Sample.Connected.OnServerMessage { Id := 0, Fields := .Ping }).map
        (fun After => After.Events)
      = .ok [.SocketClose 1008 "server sent a client-to-server message unexpectedly"] := by
  simp [UButtplugSubsystem.OnServerMessage, UButtplugSubsystem.OnClientMessage,
    UButtplugSubsystem.CloseSocket, UButtplugSubsystem.Fire, Sample.Connected, Except.map]

/-! ## C27: subscribing -/

/-- C27 (evaluation of the code at the failing input): the device the `DeviceAdded`
handler builds from a record with one `SensorSubscribeCmd` entry has one feature, with
`SensorSubscribeCmdIndex` 0 and `SensorReadCmdIndex` unset. `Subscribe` and `Unsubscribe`
on it enqueue their command with `SensorIndex` 4294967295, the unset
`SensorReadCmdIndex`, not the feature's `SensorSubscribeCmdIndex` 0. -/
theorem C27_subscribe_addresses_the_read_slot :
    Sample.Pad.Features.map
        (fun F => (F.SensorSubscribeCmdIndex, F.SensorReadCmdIndex, F.CanSubscribe))
      = [(0, 4294967295, true)] ∧
    (Sample.Pad.CallFeature 0 .Subscribe).1.MessageQueue
      = [{ Id := 0, Fields := .SensorSubscribeCmd 9 4294967295 "Pressure" }] ∧
    (Sample.Pad.CallFeature 0 .Unsubscribe).1.MessageQueue
      = [{ Id := 0, Fields := .SensorUnsubscribeCmd 9 4294967295 "Pressure" }] := by
  simp [Sample.Pad, Sample.Subscribable, UButtplugSubsystem.MakeDevice,
    UButtplugSubsystem.MakeFeatures, UButtplugSubsystem.MakeSensorSubscribeFeature,
    UButtplugDevice.SetConnected, UButtplugDevice.NewObject, UButtplugFeature.NewObject,
    UButtplugDevice.CallFeature, UButtplugFeature.Subscribe, UButtplugFeature.Unsubscribe,
    UButtplugFeature.CanSubscribe, UButtplugFeature.EnqueueSubscribeCmd,
    UButtplugFeature.EnqueueUnsubscribeCmd, INDEX_NONE,
    EButtplugFeatureType.GetEnumByName, EButtplugFeatureType.GetIndexByNameString,
    EButtplugFeatureType.Enumerators, EButtplugFeatureType.GetEnumAsString]

/-! ## C28: reading -/

/-- C28: `Read` on a feature whose `SensorReadCmdIndex` is set appends one `SensorReadCmd`
(the device's index, the feature's `SensorReadCmdIndex`, the name of its type) to the
per-tick queue of its device, fires nothing and leaves the features, with their pending
reads, as they were. On a feature whose `SensorReadCmdIndex` is unset it leaves the queue
alone and delivers the empty reading at once: the sensor-reading delegate fires and every
pending read is completed with the empty reading, leaving none pending. -/
theorem C28_read_enqueues_or_resolves_empty (Device : UButtplugDevice) (FeatureIndex : Nat)
    (Feature : UButtplugFeature) (hAt : Device.Features.get? FeatureIndex = some Feature) :
    (Feature.SensorReadCmdIndex ≠ INDEX_NONE →
      Device.CallFeature FeatureIndex .Read =
        ({ Device with
            MessageQueue := Device.MessageQueue ++
              [{ Id := 0,
                 Fields := .SensorReadCmd Device.DeviceIndex Feature.SensorReadCmdIndex
                   Feature.FeatureType.GetEnumAsString }] }, [])) ∧
    (Feature.SensorReadCmdIndex = INDEX_NONE →
      Device.CallFeature FeatureIndex .Read =
        ({ Device with
            Features := Device.Features.set FeatureIndex
              { Feature with LastSensorReading := [], LatentSensorActions := [] } },
         FFeatureEvent.OnSensorReading [] ::
           Feature.LatentSensorActions.map
             (fun Handle => FFeatureEvent.LatentSensorActionReady Handle []))) := by
  have hAt' : Device.Features[FeatureIndex]? = some Feature := by
    rw [← List.get?_eq_getElem?]
    exact hAt
  refine ⟨fun hSet => ?_, fun hUnset => ?_⟩
  · simp [UButtplugDevice.CallFeature, hAt', UButtplugFeature.Read, UButtplugFeature.CanRead,
      hSet, UButtplugFeature.EnqueueReadCmd]
  · simp [UButtplugDevice.CallFeature, hAt', UButtplugFeature.Read, UButtplugFeature.CanRead,
      hUnset, UButtplugFeature.SetSensorReading, UButtplugDevice.SetFeature]

/-- C28 at concrete inputs: on the sample gauge the battery sensor (position 1) can be
read, and on the sample pad the pressure sensor (position 0) cannot. -/
theorem C28_read_enqueues_or_resolves_empty_witness :
    (Sample.Gauge.CallFeature 1 .Read).1.MessageQueue
      = [{ Id := 0, Fields := .SensorReadCmd 8 0 "Battery" }] ∧
    (Sample.Gauge.CallFeature 1 .Read).2 = [] ∧
    (Sample.Pad.CallFeature 0 .Read).1.MessageQueue = [] ∧
    (Sample.Pad.CallFeature 0 .Read).2 = [FFeatureEvent.OnSensorReading []] :=
  have hGauge := (C28_read_enqueues_or_resolves_empty Sample.Gauge 1 Sample.Battery rfl).1
    (by decide)
  have hPad := (C28_read_enqueues_or_resolves_empty Sample.Pad 0
    (UButtplugSubsystem.MakeSensorSubscribeFeature 0
      { FeatureDescriptor := "pressure", StepCount := 0, ActuatorType := "",
        SensorType := "Pressure", SensorRange := [{ Min := 0, Max := 1000 }] }) rfl).2 rfl
  ⟨by rw [hGauge]; rfl, by rw [hGauge], by rw [hPad]; rfl, by rw [hPad]; rfl⟩

/-! ## Helper lemmas on pending reads -/

/-- The feature stored at a position is the feature found there. -/
theorem UButtplugDevice.found_SetFeature (D : UButtplugDevice) (i : Nat)
    (F G : UButtplugFeature) (hAt : D.Features.get? i = some F) :
    (D.SetFeature i G).Features.get? i = some G := by
  have hLt : i < D.Features.length := by
    rw [List.get?_eq_getElem?] at hAt
    exact (List.getElem?_eq_some_iff.mp hAt).1
  simp only [UButtplugDevice.SetFeature, List.get?_eq_getElem?]
  rw [List.getElem?_set_self hLt]

/-- Storing at a position the element found there changes nothing. -/
theorem set_eq_self_of_found {α : Type} (L : List α) (i : Nat) (x : α)
    (hAt : L.get? i = some x) : L.set i x = L := by
  induction L generalizing i with
  | nil => rfl
  | cons A Rest ih =>
      cases i with
      | zero =>
          simp only [List.get?_cons_zero, Option.some.injEq] at hAt
          rw [hAt, List.set_cons_zero]
      | succ j =>
          simp only [List.get?_cons_succ] at hAt
          rw [List.set_cons_succ, ih j hAt]

/-- Storing twice at a position keeps the second feature. -/
theorem UButtplugDevice.SetFeature_SetFeature (D : UButtplugDevice) (i : Nat)
    (F G : UButtplugFeature) : (D.SetFeature i F).SetFeature i G = D.SetFeature i G := by
  simp [UButtplugDevice.SetFeature, List.set_set]

/-- An `AsyncRead` of a new caller on a feature with a read pending only joins the pending
reads. -/
theorem UButtplugDevice.CallFeature_AsyncRead_pending (D : UButtplugDevice) (i : Nat)
    (F : UButtplugFeature) (hAt : D.Features.get? i = some F)
    (hPending : F.LatentSensorActions ≠ []) (Handle : Nat) :
    D.CallFeature i (.AsyncRead false Handle) =
      (D.SetFeature i { F with LatentSensorActions := F.LatentSensorActions ++ [Handle] },
       []) := by
  have hAt' : D.Features[i]? = some F := by
    rw [← List.get?_eq_getElem?]
    exact hAt
  have hLen : (F.LatentSensorActions ++ [Handle]).length ≠ 1 := by
    cases hL : F.LatentSensorActions with
    | nil => exact absurd hL hPending
    | cons A Rest => simp
  simp [UButtplugDevice.CallFeature, hAt', UButtplugFeature.AsyncRead, hLen, hPending]

/-- A run of `AsyncRead` calls of new callers on a feature with a read pending only joins
the pending reads. -/
theorem UButtplugDevice.CallFeatureMany_AsyncRead_pending (Handles : List Nat) :
    ∀ (D : UButtplugDevice) (i : Nat) (F : UButtplugFeature),
      D.Features.get? i = some F → F.LatentSensorActions ≠ [] →
      D.CallFeatureMany i (Handles.map (fun Handle => FFeatureCall.AsyncRead false Handle)) =
        (D.SetFeature i { F with LatentSensorActions := F.LatentSensorActions ++ Handles },
         []) := by
  induction Handles with
  | nil =>
      intro D i F hAt _
      simp only [List.map_nil, UButtplugDevice.CallFeatureMany, List.append_nil,
        UButtplugDevice.SetFeature]
      rw [set_eq_self_of_found D.Features i F hAt]
  | cons Handle Rest ih =>
      intro D i F hAt hPending
      simp only [List.map_cons, UButtplugDevice.CallFeatureMany,
        UButtplugDevice.CallFeature_AsyncRead_pending D i F hAt hPending Handle]
      rw [ih _ i { F with LatentSensorActions := F.LatentSensorActions ++ [Handle] }
        (UButtplugDevice.found_SetFeature D i F _ hAt) (by simp)]
      simp [UButtplugDevice.SetFeature_SetFeature]

/-! ## C29: concurrent reads share one request -/

/-- C29: on a feature that can be read and has no read pending, a run of `n ≥ 1`
`AsyncRead` calls of new callers (handles `Handles`), with nothing else happening to the
device in between, appends exactly one `SensorReadCmd` to the per-tick queue of the device
and resolves nothing; the feature then holds all `n` handles as pending, and the next
`SetSensorReading Data` on it completes every one of them with `Data`, leaving none
pending. -/
theorem C29_concurrent_reads_share_one_request (Device : UButtplugDevice) (FeatureIndex : Nat)
    (Feature : UButtplugFeature) (hAt : Device.Features.get? FeatureIndex = some Feature)
    (hRead : Feature.SensorReadCmdIndex ≠ INDEX_NONE)
    (hIdle : Feature.LatentSensorActions = [])
    (Handles : List Nat) (hMany : Handles ≠ []) (Data : List Int) :
    ∃ Pending : UButtplugFeature,
      Device.CallFeatureMany FeatureIndex
          (Handles.map (fun Handle => FFeatureCall.AsyncRead false Handle)) =
        ({ Device with
            MessageQueue := Device.MessageQueue ++
              [{ Id := 0,
                 Fields := .SensorReadCmd Device.DeviceIndex Feature.SensorReadCmdIndex
                   Feature.FeatureType.GetEnumAsString }]
            Features := Device.Features.set FeatureIndex Pending }, []) ∧
      Pending = { Feature with LatentSensorActions := Handles } ∧
      (Pending.SetSensorReading Data).2 =
        FFeatureEvent.OnSensorReading Data ::
          Handles.map (fun Handle => FFeatureEvent.LatentSensorActionReady Handle Data) ∧
      (Pending.SetSensorReading Data).1.LatentSensorActions = [] ∧
      (Pending.SetSensorReading Data).1.LastSensorReading = Data := by
  refine ⟨{ Feature with LatentSensorActions := Handles }, ?_, rfl, rfl, rfl, rfl⟩
  cases Handles with
  | nil => exact absurd rfl hMany
  | cons First Rest =>
      have hAt' : Device.Features[FeatureIndex]? = some Feature := by
        rw [← List.get?_eq_getElem?]
        exact hAt
      have hFirst : Device.CallFeature FeatureIndex (.AsyncRead false First) =
          ({ Device with
              MessageQueue := Device.MessageQueue ++
                [{ Id := 0,
                   Fields := .SensorReadCmd Device.DeviceIndex Feature.SensorReadCmdIndex
                     Feature.FeatureType.GetEnumAsString }]
              Features := Device.Features.set FeatureIndex
                { Feature with LatentSensorActions := [First] } }, []) := by
        simp [UButtplugDevice.CallFeature, hAt', UButtplugFeature.AsyncRead, hIdle,
          UButtplugFeature.Read, UButtplugFeature.CanRead, hRead,
          UButtplugFeature.EnqueueReadCmd, UButtplugDevice.SetFeature]
      have hHeld : ({ Device with
              MessageQueue := Device.MessageQueue ++
                [{ Id := 0,
                   Fields := .SensorReadCmd Device.DeviceIndex Feature.SensorReadCmdIndex
                     Feature.FeatureType.GetEnumAsString }]
              Features := Device.Features.set FeatureIndex
                { Feature with LatentSensorActions := [First] } } :
            UButtplugDevice).Features.get? FeatureIndex
          = some { Feature with LatentSensorActions := [First] } :=
        UButtplugDevice.found_SetFeature Device FeatureIndex Feature _ hAt
      simp only [List.map_cons, UButtplugDevice.CallFeatureMany, hFirst]
      rw [UButtplugDevice.CallFeatureMany_AsyncRead_pending Rest _ FeatureIndex
        { Feature with LatentSensorActions := [First] } hHeld (by simp)]
      simp [UButtplugDevice.SetFeature, List.set_set]

/-- C29 at a concrete input: three callers (handles 1, 2, 3) read the battery sensor of a
gauge on which no read is pending. -/
theorem C29_concurrent_reads_share_one_request_witness :
    ∃ Pending : UButtplugFeature,
      ((Sample.Gauge.SetFeature 1 { Sample.Battery with LatentSensorActions := [] }).CallFeatureMany
          1 [.AsyncRead false 1, .AsyncRead false 2, .AsyncRead false 3]).1.MessageQueue
        = [{ Id := 0, Fields := .SensorReadCmd 8 0 "Battery" }] ∧
      Pending.LatentSensorActions = [1, 2, 3] ∧
      (Pending.SetSensorReading [42]).2 =
        [.OnSensorReading [42], .LatentSensorActionReady 1 [42],
         .LatentSensorActionReady 2 [42], .LatentSensorActionReady 3 [42]] :=
  (C29_concurrent_reads_share_one_request
      (Sample.Gauge.SetFeature 1 { Sample.Battery with LatentSensorActions := [] }) 1
      { Sample.Battery with LatentSensorActions := [] } rfl (by decide) rfl [1, 2, 3]
      (by decide) [42]).imp
    (fun Pending h =>
      ⟨by
        have hRun := h.1
        simp only [List.map_cons, List.map_nil] at hRun
        rw [hRun]
        rfl,
       by rw [h.2.1], by rw [h.2.1]; rfl⟩)

/-! ## C30: a reading arrives -/

/-- C30: `SetSensorReading Data` sets the last reading to `Data`, fires the sensor-reading
delegate once with `Data`, then completes every pending read with `Data`, and leaves no
read pending. Cancelling a pending read beforehand removes its handle from the pending
reads and changes nothing else, on the feature or on its device, and fires nothing; the
cancelled handle is not completed by the reading that follows, and every other pending
handle still is. -/
theorem C30_reading_resolves_the_pending_reads (Feature : UButtplugFeature)
    (Data : List Int) (Handle : Nat) :
    Feature.SetSensorReading Data =
      ({ Feature with LastSensorReading := Data, LatentSensorActions := [] },
       FFeatureEvent.OnSensorReading Data ::
         Feature.LatentSensorActions.map
           (fun Held => FFeatureEvent.LatentSensorActionReady Held Data)) ∧
    Feature.NotifyActionAborted Handle =
      { Feature with
          LatentSensorActions := Feature.LatentSensorActions.filter (fun Held => Held != Handle) } ∧
    (∀ (Device : UButtplugDevice) (FeatureIndex : Nat),
      Device.Features.get? FeatureIndex = some Feature →
      Device.CallFeature FeatureIndex (.NotifyActionAborted Handle) =
        ({ Device with
            Features := Device.Features.set FeatureIndex (Feature.NotifyActionAborted Handle) },
         [])) ∧
    (∀ Reading : List Int,
      FFeatureEvent.LatentSensorActionReady Handle Reading ∉
        ((Feature.NotifyActionAborted Handle).SetSensorReading Data).2) ∧
    (∀ Other ∈ Feature.LatentSensorActions, Other ≠ Handle →
      FFeatureEvent.LatentSensorActionReady Other Data ∈
        ((Feature.NotifyActionAborted Handle).SetSensorReading Data).2) := by
  refine ⟨rfl, rfl, fun Device FeatureIndex hAt => ?_, fun Reading => ?_,
    fun Other hOther hNe => ?_⟩
  · have hAt' : Device.Features[FeatureIndex]? = some Feature := by
      rw [← List.get?_eq_getElem?]
      exact hAt
    simp [UButtplugDevice.CallFeature, hAt', UButtplugDevice.SetFeature]
  · simp [UButtplugFeature.SetSensorReading, UButtplugFeature.NotifyActionAborted]
    intro Held _ hNe hEq
    exact absurd hEq hNe
  · simp [UButtplugFeature.SetSensorReading, UButtplugFeature.NotifyActionAborted, hOther,
      hNe]

/-- C30 at a concrete input: the sample battery sensor with reads 11 and 12 pending; read
11 is cancelled, then the reading 42 arrives. -/
theorem C30_reading_resolves_the_pending_reads_witness :
    (({ Sample.Battery with LatentSensorActions := [11, 12] }.NotifyActionAborted
        11).SetSensorReading [42]).2
      = [.OnSensorReading [42], .LatentSensorActionReady 12 [42]] ∧
    FFeatureEvent.LatentSensorActionReady 12 [42] ∈
      (({ Sample.Battery with LatentSensorActions := [11, 12] }.NotifyActionAborted
        11).SetSensorReading [42]).2 :=
  ⟨by decide,
   (C30_reading_resolves_the_pending_reads
      { Sample.Battery with LatentSensorActions := [11, 12] } [42] 11).2.2.2.2 12
      (by decide) (by decide)⟩

/-! ## C31: `ActuateAll` and `StopAll` -/

/-- C31: on a disconnected device `ActuateAll` and `StopAll` return the device as it was.
On a connected device `ActuateAll` with value `Value` and duration `Duration` records the
queued actuation `(Value, Duration)` (value, duration, the queued flag and the reset
timer) on each feature that has the requested type and is an actuator, `StopAll` records
`(0, INFINITY)` on each of them, and every other feature and every other member of the
device is as it was. -/
theorem C31_actuate_all_and_stop_all_touch_the_typed_actuators (Device : UButtplugDevice)
    (ActuatorType : EButtplugFeatureType) (Value : ℚ) (Duration : FFloat) :
    (Device.IsConnected = false →
      Device.ActuateAll ActuatorType Value Duration = Device ∧
      Device.StopAll ActuatorType = Device) ∧
    (Device.IsConnected = true →
      Device.ActuateAll ActuatorType Value Duration =
        { Device with
            Features := Device.Features.map (fun Feature =>
              if Feature.FeatureType = ActuatorType ∧ Feature.IsActuator = true then
                { Feature with
                    QueuedActuation := { Value := Value, Duration := Duration }
                    bHasQueuedActuation := true
                    ResetTimer := some Duration }
              else Feature) } ∧
      Device.StopAll ActuatorType =
        { Device with
            Features := Device.Features.map (fun Feature =>
              if Feature.FeatureType = ActuatorType ∧ Feature.IsActuator = true then
                { Feature with
                    QueuedActuation := { Value := 0, Duration := .Infinity }
                    bHasQueuedActuation := true
                    ResetTimer := some .Infinity }
              else Feature) }) := by
  refine ⟨?_, ?_⟩
  · intro hOff
    simp [UButtplugDevice.ActuateAll, UButtplugDevice.StopAll, hOff]
  · intro hOn
    refine ⟨?_, ?_⟩
    · simp only [UButtplugDevice.ActuateAll, hOn, Bool.not_true, Bool.false_eq_true,
        if_false]
      congr 1
      apply List.map_congr_left
      intro Feature _
      by_cases h : Feature.FeatureType = ActuatorType ∧ Feature.IsActuator = true
      · simp [h, UButtplugFeature.Actuate]
      · simp [h]
    · simp only [UButtplugDevice.StopAll, hOn, Bool.not_true, Bool.false_eq_true,
        if_false]
      congr 1
      apply List.map_congr_left
      intro Feature _
      by_cases h : Feature.FeatureType = ActuatorType ∧ Feature.IsActuator = true
      · simp [h, UButtplugFeature.Actuate]
      · simp [h]

/-- C31 at a concrete input: the connected sample gauge (a vibrating actuator and a
battery sensor) is asked to vibrate at 1 for two seconds, and to stop vibrating. -/
theorem C31_actuate_all_and_stop_all_touch_the_typed_actuators_witness :
    Sample.Gauge.IsConnected = true ∧
    Sample.Gauge.ActuateAll .Vibrate 1 (.Finite 2) =
      { Sample.Gauge with
          Features :=
            [{ Sample.VibratorAt 0 0 with
                 QueuedActuation := { Value := 1, Duration := .Finite 2 }
                 bHasQueuedActuation := true
                 ResetTimer := some (.Finite 2) },
             Sample.Battery] } ∧
    Sample.Gauge.StopAll .Vibrate =
      { Sample.Gauge with
          Features :=
            [{ Sample.VibratorAt 0 0 with
                 QueuedActuation := { Value := 0, Duration := .Infinity }
                 bHasQueuedActuation := true
                 ResetTimer := some .Infinity },
             Sample.Battery] } :=
  ⟨rfl, by
    have h := (C31_actuate_all_and_stop_all_touch_the_typed_actuators Sample.Gauge .Vibrate 1
      (.Finite 2)).2 rfl
    refine ⟨?_, ?_⟩
    · rw [h.1]; decide
    · rw [h.2]; decide⟩

/-! ## C32: the message timing gap -/

/-- C32: `GetMessageTimingGap` returns the override when the override is not negative and
the default otherwise; a device as `NewObject` creates it, whatever default it is then
given, returns that default; and after `SetMessageTimingGap` with a negative value the
default is returned, whatever override was in force before. -/
theorem C32_timing_gap_is_override_or_default (Device : UButtplugDevice) :
    (0 ≤ Device.MessageTimingGapOverride →
      Device.GetMessageTimingGap = Device.MessageTimingGapOverride) ∧
    (Device.MessageTimingGapOverride < 0 →
      Device.GetMessageTimingGap = Device.DefaultMessageTimingGap) ∧
    (∀ Default : ℚ,
      UButtplugDevice.GetMessageTimingGap
        { UButtplugDevice.NewObject with DefaultMessageTimingGap := Default } = Default) ∧
    (∀ Record : FButtplugMessage.Device,
      (UButtplugSubsystem.MakeDevice Record).GetMessageTimingGap =
        (UButtplugSubsystem.MakeDevice Record).DefaultMessageTimingGap) ∧
    (∀ Override : ℚ, Override < 0 →
      (Device.SetMessageTimingGap Override).GetMessageTimingGap =
        Device.DefaultMessageTimingGap) ∧
    (∀ Override : ℚ, 0 ≤ Override →
      (Device.SetMessageTimingGap Override).GetMessageTimingGap = Override) := by
  refine ⟨?_, ?_, ?_, ?_, ?_, ?_⟩
  · intro h
    simp [UButtplugDevice.GetMessageTimingGap, h]
  · intro h
    simp [UButtplugDevice.GetMessageTimingGap, not_le.mpr h]
  · intro Default
    simp [UButtplugDevice.GetMessageTimingGap, UButtplugDevice.NewObject]
  · intro Record
    simp [UButtplugDevice.GetMessageTimingGap, UButtplugSubsystem.MakeDevice,
      UButtplugDevice.NewObject]
  · intro Override h
    simp [UButtplugDevice.GetMessageTimingGap, UButtplugDevice.SetMessageTimingGap,
      not_le.mpr h]
  · intro Override h
    simp [UButtplugDevice.GetMessageTimingGap, UButtplugDevice.SetMessageTimingGap, h]

/-- C32 at a concrete input: the sample device (default gap 1/10, no override) is given
the override 1/4 and then the override -1. -/
theorem C32_timing_gap_is_override_or_default_witness :
    Sample.Device.GetMessageTimingGap = 1 / 10 ∧
    (Sample.Device.SetMessageTimingGap (1 / 4)).GetMessageTimingGap = 1 / 4 ∧
    ((Sample.Device.SetMessageTimingGap (1 / 4)).SetMessageTimingGap (-1)).GetMessageTimingGap
      = 1 / 10 :=
  ⟨(C32_timing_gap_is_override_or_default Sample.Device).2.1 (by decide),
   (C32_timing_gap_is_override_or_default Sample.Device).2.2.2.2.2 (1 / 4) (by norm_num),
   (C32_timing_gap_is_override_or_default
      (Sample.Device.SetMessageTimingGap (1 / 4))).2.2.2.2.1 (-1) (by norm_num)⟩

/-! ## C33: the battery level -/

/-- C33 (evaluation of the code at the failing input): a device is added with one battery
sensor of range 10 to 110, and a reading of 60 arrives for it. `GetBatteryLevel` returns
7/10, the sum of reading and range minimum over the range size, whereas the fraction of
the range the reading has covered, (60 - 10) / (110 - 10), is 1/2. -/
theorem C33_battery_level_adds_the_range_minimum :
    (TMap.Find
        ((Sample.Connected.OnDeviceAdded Sample.Metered).OnSensorReading 4 0 "Battery"
          [60]).Devices 4).map
        (fun Device =>
          (Device.Features.map
            (fun Feature => (Feature.FeatureType, Feature.IsSensor, Feature.LastSensorReading,
              Feature.SensorRange)),
           Device.GetBatteryLevel))
      = some ([(.Battery, true, [60], [{ Min := 10, Max := 110 }])], .ok (some (7 / 10))) ∧
    ((60 : ℚ) - 10) / (110 - 10) = 1 / 2 ∧
    (7 / 10 : ℚ) ≠ 1 / 2 := by
  refine ⟨?_, by norm_num, by norm_num⟩
  have hBattery : EButtplugFeatureType.GetEnumByName "Battery" = .Battery := by decide
  have h100 : Int.toNat 100 = 100 := rfl
  have h70 : Int.toNat 70 = 70 := rfl
  norm_num [hBattery, h100, h70, Sample.Connected, Sample.Device, Sample.Metered, UButtplugSubsystem.OnDeviceAdded,
    UButtplugSubsystem.AddNewDevice, UButtplugSubsystem.OnSensorReading,
    UButtplugSubsystem.DeliverSensorReading, UButtplugSubsystem.MakeDevice,
    UButtplugSubsystem.MakeFeatures, UButtplugSubsystem.MakeSensorReadFeature,
    UButtplugDevice.SetConnected, UButtplugDevice.NewObject, UButtplugFeature.NewObject,
    UButtplugFeature.SetSensorReading, UButtplugFeature.IsSensor,
    TMap.Find, TMap.Add, TMap.Contains, UButtplugSubsystem.Fire, INDEX_NONE,
    UButtplugDevice.GetBatteryLevel, UButtplugDevice.GetBatteryLevel.Loop,
    FInt32Interval.Size, WrapInt32, UInt32ToInt32, Int32ToUInt32]

/-! ## C34: `CanActuate` -/

/-- C34 (evaluation of the code at the failing input): the device of the sample session,
reached by the sample steps, is connected and has a vibrating actuator and a battery
sensor. `CanActuate` answers `true` for the type `Battery`, although no feature of that
type is an actuator and `ActuateAll` at that type leaves the device as it was. -/
theorem C34_can_actuate_ignores_is_actuator :
    UButtplugSubsystem.NewObject.Run Sample.Steps = .ok Sample.Listed ∧
    ∃ Device : UButtplugDevice,
      TMap.Find Sample.Listed.Devices 5 = some Device ∧
      Device.IsConnected = true ∧
      Device.Features.map (fun Feature => (Feature.FeatureType, Feature.IsActuator))
        = [(.Vibrate, true), (.Battery, false)] ∧
      Device.CanActuate .Battery = true ∧
      Device.ActuateAll .Battery 1 (.Finite 0) = Device :=
  ⟨Sample.Run_Steps, _, rfl, rfl, by decide, by decide, by
    simp [UButtplugDevice.ActuateAll, UButtplugDevice.IsConnected, UButtplugFeature.IsActuator,
      UButtplugFeature.NewObject, UButtplugDevice.NewObject, INDEX_NONE]⟩

/-! ## C35: which features take a reading -/

/-- C35 (evaluation of the code at the failing input): the sample session, reached by the
sample steps, receives a `SensorReading` for device 5 with `SensorType` "Vibrate" and
`SensorIndex` 4294967295, the value an unset command slot holds. The reading lands on the
vibrating actuator (feature 0, `IsSensor` false): its last reading becomes `[1]` and its
`OnSensorReading` fires. -/
theorem C35_reading_with_index_none_lands_on_an_actuator :
    UButtplugSubsystem.NewObject.Run Sample.Steps = .ok Sample.Listed ∧
    (TMap.Find Sample.Listed.Devices 5).map
        (fun Device =>
          Device.Features.map (fun Feature => (Feature.IsSensor, Feature.LastSensorReading)))
      = some [(false, []), (true, [])] ∧
    (Sample.Listed.OnServerMessage
        { Id := 0, Fields := .SensorReading 5 4294967295 "Vibrate" [1] }).map
        (fun After =>
          (TMap.Find After.Devices 5).map
            (fun Device =>
              Device.Features.map
                (fun Feature => (Feature.IsSensor, Feature.LastSensorReading))))
      = .ok (some [(false, [1]), (true, [])]) ∧
    (Sample.Listed.OnServerMessage
        { Id := 0, Fields := .SensorReading 5 4294967295 "Vibrate" [1] }).map
        (fun After => After.Events)
      = .ok (Sample.Listed.Events ++ [.Feature 5 0 (.OnSensorReading [1])]) := by
  have hVibrate : EButtplugFeatureType.GetEnumByName "Vibrate" = .Vibrate := by decide
  refine ⟨Sample.Run_Steps, by decide, ?_, ?_⟩
  · simp [hVibrate, Sample.Listed, UButtplugSubsystem.OnServerMessage,
      UButtplugSubsystem.OnSensorReading, UButtplugSubsystem.DeliverSensorReading,
      UButtplugFeature.SetSensorReading, UButtplugFeature.IsSensor,
      UButtplugDevice.NewObject, UButtplugFeature.NewObject,
      TMap.Find, TMap.Add, INDEX_NONE, Except.map]
  · simp [hVibrate, Sample.Listed, UButtplugSubsystem.OnServerMessage,
      UButtplugSubsystem.OnSensorReading, UButtplugSubsystem.DeliverSensorReading,
      UButtplugFeature.SetSensorReading, UButtplugFeature.IsSensor,
      UButtplugDevice.NewObject, UButtplugFeature.NewObject,
      TMap.Find, TMap.Add, INDEX_NONE, Except.map]

/-! ## C36: commands for a disconnected device -/

/-- C36 (evaluation of the code at the failing input): in the sample session, reached by
the sample steps, device 5 is removed by the server, which clears its connected flag.
`Actuate` is then called on its vibrating feature and `Read` on its battery sensor. The
device loop of the next `Tick` hands the session a `ScalarCmd` and a `SensorReadCmd` for
device 5, whose connected flag is still false, and `Tick` sends them in its frame. -/
theorem C36_disconnected_device_still_gets_commands :
    UButtplugSubsystem.NewObject.Run Sample.Steps = .ok Sample.Listed ∧
    (TMap.Find (Sample.Listed.OnDeviceRemoved 5).Devices 5).map
        (fun Device => Device.IsConnected) = some false ∧
    (UButtplugSubsystem.FlushDevices
        (((Sample.Listed.OnDeviceRemoved 5).CallDevice 5
            (.Feature 0 (.Actuate 1 (.Finite 0)))).CallDevice 5 (.Feature 1 .Read)).Devices
        (((Sample.Listed.OnDeviceRemoved 5).CallDevice 5
            (.Feature 0 (.Actuate 1 (.Finite 0)))).CallDevice 5 (.Feature 1 .Read)) 1).map
        (fun Flushed =>
          (Flushed.1.map (fun Entry => (Entry.1, Entry.2.IsConnected)),
           Flushed.2.MessageBuffer))
      = .ok ([(5, false)],
             [{ Id := 1, Fields := .RequestServerInfo "X" 3 },
              { Id := 2, Fields := .ScalarCmd 5
                  [{ Index := 0, Value := 1, ActuatorType := "Vibrate" }] },
              { Id := 3, Fields := .SensorReadCmd 5 0 "Battery" }]) ∧
    ∃ Json : List FJsonValue,
      WriteButtplugMessagesToJson
          [{ Id := 1, Fields := .RequestServerInfo "X" 3 },
           { Id := 2, Fields := .ScalarCmd 5
                  [{ Index := 0, Value := 1, ActuatorType := "Vibrate" }] },
           { Id := 3, Fields := .SensorReadCmd 5 0 "Battery" }] = .ok Json ∧
      ((((Sample.Listed.OnDeviceRemoved 5).CallDevice 5
            (.Feature 0 (.Actuate 1 (.Finite 0)))).CallDevice 5 (.Feature 1 .Read)).Tick 1).map
          (fun After => After.Events)
        = .ok (Sample.Listed.Events ++
            [.Device 5 .OnDisconnected, .OnDeviceRemoved 5, .SocketSend Json]) := by
  have hCalled :
      ((Sample.Listed.OnDeviceRemoved 5).CallDevice 5
          (.Feature 0 (.Actuate 1 (.Finite 0)))).CallDevice 5 (.Feature 1 .Read)
        = { Sample.Listed with
              Devices :=
                [(5, { UButtplugDevice.NewObject with
                         DescriptiveName := "Foo"
                         DefaultMessageTimingGap := 1 / 10
                         DeviceIndex := 5
                         bConnected := false
                         MessageQueue := [{ Id := 0, Fields := .SensorReadCmd 5 0 "Battery" }]
                         Features :=
                           [{ UButtplugFeature.NewObject with
                                ScalarCmdIndex := 0, ActuatorStepCount := 20
                                FeatureType := .Vibrate
                                bHasQueuedActuation := true
                                QueuedActuation := { Value := 1, Duration := .Finite 0 }
                                ResetTimer := some (.Finite 0) },
                            { UButtplugFeature.NewObject with
                                SensorReadCmdIndex := 0, FeatureType := .Battery }] })]
              Events := Sample.Listed.Events ++
                [.Device 5 .OnDisconnected, .OnDeviceRemoved 5] } := by
    simp [Sample.Listed, UButtplugSubsystem.OnDeviceRemoved, UButtplugSubsystem.CallDevice,
      UButtplugDevice.Call, UButtplugDevice.CallFeature, UButtplugDevice.SetFeature,
      UButtplugDevice.SetConnected, UButtplugFeature.Actuate, UButtplugFeature.Read,
      UButtplugFeature.EnqueueReadCmd, UButtplugFeature.CanRead, UButtplugFeature.IsActuator,
      UButtplugDevice.NewObject, UButtplugFeature.NewObject,
      EButtplugFeatureType.GetEnumAsString, TMap.Find, TMap.Add, INDEX_NONE]
  refine ⟨Sample.Run_Steps, ?_, ?_, ?_⟩
  · simp [Sample.Listed, UButtplugSubsystem.OnDeviceRemoved, UButtplugDevice.SetConnected,
      UButtplugDevice.IsConnected, TMap.Find, TMap.Add]
  · rw [hCalled]
    norm_num [FloatAdd.zero_zero, FloatAdd.zero_one, FloatAdd.zero_one_tenth,
      FloatAdd.zero_one_fifth, FloatAdd.fifth_hundredth, FloatAdd.fifth_fifth,
      Sample.Listed, UButtplugSubsystem.FlushDevices,
      UButtplugDevice.FlushMessageQueue, UButtplugDevice.GetMessageTimingGap,
      UButtplugDevice.NewObject, UButtplugFeature.NewObject, UButtplugDevice.FlushFeatures,
      FFlushCommands.Route, FFlushCommands.Messages, UButtplugFeature.IsActuator, INDEX_NONE,
      UButtplugSubsystem.EnqueueMessages, UButtplugSubsystem.EnqueueMessage,
      UButtplugSubsystem.IsConnected, UButtplugDevice.IsConnected,
      EButtplugFeatureType.GetEnumAsString, UINT32_MODULUS,
      Except.map, bind, Except.bind, pure, Except.pure]
  · refine ⟨_, rfl, ?_⟩
    rw [hCalled]
    norm_num [FloatAdd.zero_zero, FloatAdd.zero_one, FloatAdd.zero_one_tenth,
      FloatAdd.zero_one_fifth, FloatAdd.fifth_hundredth, FloatAdd.fifth_fifth,
      Sample.Listed, UButtplugSubsystem.Tick, UButtplugSubsystem.FlushDevices,
      UButtplugDevice.FlushMessageQueue, UButtplugDevice.GetMessageTimingGap,
      UButtplugDevice.NewObject, UButtplugFeature.NewObject, UButtplugDevice.FlushFeatures,
      FFlushCommands.Route, FFlushCommands.Messages, UButtplugFeature.IsActuator, INDEX_NONE,
      UButtplugSubsystem.EnqueueMessages, UButtplugSubsystem.EnqueueMessage,
      UButtplugSubsystem.IsConnected, UButtplugDevice.IsConnected,
      EButtplugFeatureType.GetEnumAsString, UINT32_MODULUS, UButtplugSubsystem.Fire,
      WriteButtplugMessagesToJson, WriteButtplugMessagesToJson.Elements,
      FButtplugMessage.ToJson, FButtplugMessage.Scalar.ToJson, FButtplugMessage.GetMessageType,
      EButtplugMessageType.GetEnumAsString,
      Except.map, bind, Except.bind, pure, Except.pure]

/-! ## Helper lemmas on feature types and on a single queued feature -/

/-- The name of a feature type resolves to that type. -/
theorem EButtplugFeatureType.GetEnumByName_GetEnumAsString (T : EButtplugFeatureType) :
    EButtplugFeatureType.GetEnumByName T.GetEnumAsString = T := by
  cases T <;> decide

/-- A string that names no feature type resolves to `Unknown`. -/
theorem EButtplugFeatureType.GetEnumByName_of_not_name (InName : String)
    (h : ¬ ∃ T : EButtplugFeatureType, T.GetEnumAsString = InName) :
    EButtplugFeatureType.GetEnumByName InName = .Unknown := by
  unfold EButtplugFeatureType.GetEnumByName EButtplugFeatureType.GetIndexByNameString
  cases hFind : List.find? (fun T => T.GetEnumAsString == InName)
      EButtplugFeatureType.Enumerators with
  | none => rfl
  | some T =>
      exfalso
      have hT := List.find?_some hFind
      exact h ⟨T, by simpa using hT⟩

/-- The feature a feature loop builds at a position of its attribute array. -/
theorem UButtplugSubsystem.MakeFeatures_get
    (Make : Nat → FButtplugMessage.DeviceMessageAttributes → UButtplugFeature) :
    ∀ (L : List FButtplugMessage.DeviceMessageAttributes) (k i : Nat)
      (A : FButtplugMessage.DeviceMessageAttributes),
      L.get? i = some A →
      (UButtplugSubsystem.MakeFeatures Make k L).get? i = some (Make (k + i) A) := by
  intro L
  induction L with
  | nil => intro k i A h; simp at h
  | cons B Rest ih =>
      intro k i A h
      cases i with
      | zero =>
          simp only [List.get?_cons_zero, Option.some.injEq] at h
          subst h
          simp [UButtplugSubsystem.MakeFeatures]
      | succ j =>
          simp only [List.get?_cons_succ] at h
          simp only [UButtplugSubsystem.MakeFeatures, List.get?_cons_succ]
          rw [ih (k + 1) j A h]
          congr 2
          omega

/-- Every feature a feature loop builds is made from one of the records. -/
theorem UButtplugSubsystem.mem_MakeFeatures
    (Make : Nat → FButtplugMessage.DeviceMessageAttributes → UButtplugFeature) :
    ∀ (L : List FButtplugMessage.DeviceMessageAttributes) (k : Nat) (F : UButtplugFeature),
      F ∈ UButtplugSubsystem.MakeFeatures Make k L → ∃ j A, F = Make j A := by
  intro L
  induction L with
  | nil => intro k F h; simp [UButtplugSubsystem.MakeFeatures] at h
  | cons B Rest ih =>
      intro k F h
      simp only [UButtplugSubsystem.MakeFeatures, List.mem_cons] at h
      rcases h with h | h
      · exact ⟨k, B, h⟩
      · exact ih (k + 1) F h

/-- No feature of a freshly built device has an actuation queued. -/
theorem UButtplugSubsystem.MakeDevice_not_queued (Device : FButtplugMessage.Device) :
    ∀ F ∈ (UButtplugSubsystem.MakeDevice Device).Features, F.bHasQueuedActuation = false := by
  intro F hF
  simp only [UButtplugSubsystem.MakeDevice, List.mem_append] at hF
  rcases hF with (((h | h) | h) | h) | h <;>
    obtain ⟨j, A, rfl⟩ := UButtplugSubsystem.mem_MakeFeatures _ _ _ _ h <;> rfl

/-- The feature a freshly built device holds at a position of the `ScalarCmd` attribute
array. -/
theorem UButtplugSubsystem.MakeDevice_get_scalar (Device : FButtplugMessage.Device) (i : Nat)
    (A : FButtplugMessage.DeviceMessageAttributes)
    (hAt : Device.Messages.ScalarCmd.get? i = some A) :
    (UButtplugSubsystem.MakeDevice Device).Features.get? i
      = some (UButtplugSubsystem.MakeScalarFeature i A) := by
  have hGet := UButtplugSubsystem.MakeFeatures_get UButtplugSubsystem.MakeScalarFeature
    Device.Messages.ScalarCmd 0 i A hAt
  rw [Nat.zero_add] at hGet
  simp only [UButtplugSubsystem.MakeDevice, List.append_assoc]
  rw [List.get?_eq_getElem?] at hGet ⊢
  have hLt := (List.getElem?_eq_some_iff.mp hGet).1
  rw [List.getElem?_append_left hLt]
  exact hGet

/-- Filtering a list in which one position was set to the only element that passes. -/
theorem filter_set_of_none_pass {α : Type} (p : α → Bool) (G : α) (hG : p G = true) :
    ∀ (L : List α) (i : Nat), i < L.length → (∀ x ∈ L, p x = false) →
      (L.set i G).filter p = [G] := by
  intro L
  induction L with
  | nil => intro i h; simp at h
  | cons B Rest ih =>
      intro i hLt hAll
      cases i with
      | zero =>
          have hRest : Rest.filter p = [] := by
            rw [List.filter_eq_nil_iff]
            intro x hx
            simp [hAll x (List.mem_cons_of_mem _ hx)]
          simp [List.filter_cons, hG, hRest]
      | succ j =>
          have hB : p B = false := hAll B (List.mem_cons_self _ _)
          simp only [List.set_cons_succ, List.filter_cons, hB, Bool.false_eq_true, if_false]
          exact ih j (by simpa using hLt) (fun x hx => hAll x (List.mem_cons_of_mem _ hx))

/-! ## C37: the actuator type of a `ScalarCmd` entry -/

/-- C37 (as amended): a device is built from a record whose `ScalarCmd` array holds the
attribute record `A` at position `i`, the feature at that position is actuated with value
`v`, and the device is flushed in a connected session once its timing gap has passed (the
`float` time accumulated from zero is not below the gap). The flush enqueues exactly one
message, a `ScalarCmd` for the device with the single entry
(`i`, `v`, `Sent`), where `Sent` is the advertised string `A.ActuatorType` when that
string is the name of a feature type, and "Unknown" when it is not. -/
theorem C37_scalar_entry_carries_the_parsed_type_name (Record : FButtplugMessage.Device)
    (i : Nat) (A : FButtplugMessage.DeviceMessageAttributes)
    (hAt : Record.Messages.ScalarCmd.get? i = some A) (hSlot : i ≠ INDEX_NONE)
    (S : UButtplugSubsystem) (hC : S.IsConnected = true) (DeltaTime : ℚ)
    (hGate : (Record.MessageTimingGap : ℚ) / 1000 ≤ FloatAdd 0 DeltaTime)
    (v : ℚ) (d : FFloat) :
    ∃ (D' : UButtplugDevice) (S' : UButtplugSubsystem) (Sent : String),
      ((((UButtplugSubsystem.MakeDevice Record).SetConnected true).1.CallFeature i
          (.Actuate v d)).1.FlushMessageQueue S DeltaTime) = .ok (D', S') ∧
      S'.MessageBuffer.map (fun M => M.Fields) =
        S.MessageBuffer.map (fun M => M.Fields) ++
          [.ScalarCmd Record.Index [{ Index := i, Value := v, ActuatorType := Sent }]] ∧
      ((∃ T : EButtplugFeatureType, T.GetEnumAsString = A.ActuatorType) →
        Sent = A.ActuatorType) ∧
      ((¬ ∃ T : EButtplugFeatureType, T.GetEnumAsString = A.ActuatorType) →
        Sent = "Unknown") := by
  have hGet := UButtplugSubsystem.MakeDevice_get_scalar Record i A hAt
  have hLt : i < (UButtplugSubsystem.MakeDevice Record).Features.length := by
    rw [List.get?_eq_getElem?] at hGet
    exact (List.getElem?_eq_some_iff.mp hGet).1
  have hActuator : (UButtplugSubsystem.MakeScalarFeature i A).IsActuator = true := by
    simp [UButtplugFeature.IsActuator, UButtplugSubsystem.MakeScalarFeature, hSlot]
  -- the device that is flushed
  have hDevice :
      (((UButtplugSubsystem.MakeDevice Record).SetConnected true).1.CallFeature i
          (.Actuate v d)).1
        = { UButtplugSubsystem.MakeDevice Record with
              bConnected := true
              Features := (UButtplugSubsystem.MakeDevice Record).Features.set i
                { UButtplugSubsystem.MakeScalarFeature i A with
                    QueuedActuation := { Value := v, Duration := d }
                    bHasQueuedActuation := true
                    ResetTimer := some d } } := by
    have hGet' : (UButtplugSubsystem.MakeDevice Record).Features[i]?
        = some (UButtplugSubsystem.MakeScalarFeature i A) := by
      rw [← List.get?_eq_getElem?]; exact hGet
    simp [UButtplugDevice.CallFeature, UButtplugDevice.SetConnected, hGet',
      UButtplugDevice.SetFeature, UButtplugFeature.Actuate, hActuator]
  rw [hDevice]
  generalize hG : ({ UButtplugSubsystem.MakeScalarFeature i A with
      QueuedActuation := { Value := v, Duration := d }
      bHasQueuedActuation := true
      ResetTimer := some d } : UButtplugFeature) = G
  have hGQueued : G.bHasQueuedActuation = true := by rw [← hG]
  have hGLinear : G.LinearCmdIndex = INDEX_NONE := by rw [← hG]; rfl
  have hGRotate : G.RotateCmdIndex = INDEX_NONE := by rw [← hG]; rfl
  have hGScalar : G.ScalarCmdIndex = i := by rw [← hG]; rfl
  have hGType : G.FeatureType = EButtplugFeatureType.GetEnumByName A.ActuatorType := by
    rw [← hG]; rfl
  have hGValue : G.QueuedActuation.Value = v := by rw [← hG]
  have hGActuator : G.IsActuator = true := by
    simp [UButtplugFeature.IsActuator, hGScalar, hSlot]
  generalize hD : ({ UButtplugSubsystem.MakeDevice Record with
      bConnected := true
      Features := (UButtplugSubsystem.MakeDevice Record).Features.set i G }
        : UButtplugDevice) = D
  have hFeatures : D.Features = (UButtplugSubsystem.MakeDevice Record).Features.set i G := by
    rw [← hD]
  have hQueuedFeatures : D.QueuedFeatures = [G] := by
    unfold UButtplugDevice.QueuedFeatures
    rw [hFeatures]
    exact filter_set_of_none_pass (fun Feature => Feature.bHasQueuedActuation) G hGQueued _ i
      hLt (UButtplugSubsystem.MakeDevice_not_queued Record)
  have hBatched : D.BatchedCommands =
      [.ScalarCmd Record.Index
        [{ Index := i
           Value := v
           ActuatorType :=
             (EButtplugFeatureType.GetEnumByName A.ActuatorType).GetEnumAsString }]] := by
    have hIndex : D.DeviceIndex = Record.Index := by rw [← hD]; rfl
    simp [UButtplugDevice.BatchedCommands, UButtplugDevice.LinearEntries,
      UButtplugDevice.RotateEntries, UButtplugDevice.ScalarEntries, hQueuedFeatures,
      hGLinear, hGRotate, hGScalar, hGType, hGValue, hSlot, hIndex]
  have hQ : D.QueuedAreActuators := by
    intro F hF hQueued
    have hIn : F ∈ D.QueuedFeatures := by
      unfold UButtplugDevice.QueuedFeatures
      exact List.mem_filter.mpr ⟨hF, hQueued⟩
    rw [hQueuedFeatures, List.mem_singleton] at hIn
    rw [hIn]
    exact hGActuator
  have hStop : D.bHasQueuedStopDevice = false := by rw [← hD]; rfl
  have hQueue : D.MessageQueue = [] := by rw [← hD]; rfl
  have hPass : ¬ FloatAdd D.TimeSinceLastMessage DeltaTime < D.GetMessageTimingGap := by
    have hTime : D.TimeSinceLastMessage = 0 := by rw [← hD]; rfl
    have hGap : D.GetMessageTimingGap = (Record.MessageTimingGap : ℚ) / 1000 := by
      rw [← hD]
      simp [UButtplugDevice.GetMessageTimingGap, UButtplugSubsystem.MakeDevice,
        UButtplugDevice.NewObject]
    rw [hTime, hGap]
    exact not_lt.mpr hGate
  obtain ⟨S', E1, E2, hFlush, hBuffer, hE1, hE2⟩ :=
    UButtplugDevice.FlushMessageQueue_batched D S DeltaTime hPass hC hQ hStop
  refine ⟨_, S', (EButtplugFeatureType.GetEnumByName A.ActuatorType).GetEnumAsString,
    hFlush, ?_, ?_, ?_⟩
  · rw [hBuffer, List.map_append, List.map_append, hE1, hE2, hQueue, hBatched]
    simp
  · rintro ⟨T, hT⟩
    rw [← hT, EButtplugFeatureType.GetEnumByName_GetEnumAsString]
  · intro hNone
    rw [EButtplugFeatureType.GetEnumByName_of_not_name _ hNone]
    rfl

/-- C37 at a concrete input: the sample record advertising one scalar actuator of type
"Vibrate" is built, actuated at 1 and flushed in the connected sample session. -/
theorem C37_scalar_entry_carries_the_parsed_type_name_witness :
    Sample.Readded.Messages.ScalarCmd.get? 0
      = some { FeatureDescriptor := "", StepCount := 20, ActuatorType := "Vibrate",
               SensorType := "", SensorRange := [] } ∧
    ∃ (D' : UButtplugDevice) (S' : UButtplugSubsystem) (Sent : String),
      ((((UButtplugSubsystem.MakeDevice Sample.Readded).SetConnected true).1.CallFeature 0
          (.Actuate 1 (.Finite 0))).1.FlushMessageQueue Sample.Connected 1) = .ok (D', S') ∧
      S'.MessageBuffer.map (fun M => M.Fields) =
        Sample.Connected.MessageBuffer.map (fun M => M.Fields) ++
          [.ScalarCmd 5 [{ Index := 0, Value := 1, ActuatorType := Sent }]] ∧
      Sent = "Vibrate" :=
  ⟨rfl,
    (C37_scalar_entry_carries_the_parsed_type_name Sample.Readded 0 _ rfl (by decide)
      Sample.Connected rfl 1 (by norm_num [Sample.Readded, FloatAdd.zero_one]) 1
      (.Finite 0)).imp
      (fun _ h => h.imp (fun _ h => h.imp (fun _ h =>
        ⟨h.1, h.2.1, h.2.2.1 ⟨.Vibrate, rfl⟩⟩)))⟩

/-- Counterexample to C37 as stated: the sample record advertises a scalar actuator of
type "Heat", which is not the name of a feature type. The device built from it, actuated
at 1 and flushed in the connected sample session, sends its `ScalarCmd` entry with
`ActuatorType` "Unknown", not the advertised "Heat". -/
theorem C37_unlisted_actuator_type_is_sent_as_Unknown :
    Sample.Heated.Messages.ScalarCmd.map (fun A => A.ActuatorType) = ["Heat"] ∧
    ((((UButtplugSubsystem.MakeDevice Sample.Heated).SetConnected true).1.CallFeature 0
        (.Actuate 1 (.Finite 0))).1.FlushMessageQueue Sample.Connected 1).map
        (fun Flushed => Flushed.2.MessageBuffer)
      = .ok [{ Id := 3, Fields := .ScalarCmd 3
                 [{ Index := 0, Value := 1, ActuatorType := "Unknown" }] }] := by
  have hHeat : EButtplugFeatureType.GetEnumByName "Heat" = .Unknown := by decide
  refine ⟨rfl, ?_⟩
  norm_num [FloatAdd.zero_zero, FloatAdd.zero_one, FloatAdd.zero_one_tenth,
    FloatAdd.zero_one_fifth, FloatAdd.fifth_hundredth, FloatAdd.fifth_fifth,
    hHeat, Sample.Heated, Sample.Connected, UButtplugSubsystem.MakeDevice,
    UButtplugSubsystem.MakeFeatures, UButtplugSubsystem.MakeScalarFeature,
    UButtplugDevice.SetConnected, UButtplugDevice.CallFeature, UButtplugDevice.SetFeature,
    UButtplugFeature.Actuate,
    UButtplugDevice.FlushMessageQueue, UButtplugDevice.GetMessageTimingGap,
    UButtplugDevice.NewObject, UButtplugFeature.NewObject, UButtplugDevice.FlushFeatures,
    FFlushCommands.Route, FFlushCommands.Messages, UButtplugFeature.IsActuator, INDEX_NONE,
    UButtplugSubsystem.EnqueueMessages, UButtplugSubsystem.EnqueueMessage,
    UButtplugSubsystem.IsConnected, EButtplugFeatureType.GetEnumAsString, UINT32_MODULUS,
    Except.map, bind, Except.bind, pure, Except.pure]

/-! ## C38: the sensor range read by `GetBatteryLevel` -/

/-- C38 (evaluation of the code at the failing input): the sample steps add device 5 from
a frame whose battery `SensorReadCmd` record has no `SensorRange`, so the battery sensor
has an empty range list. After a `SensorReading` for that sensor with data `[50]` the
sensor has a non-empty last reading and still no range, and `GetBatteryLevel` indexes the
empty list: the range check fails. -/
theorem C38_battery_without_range_fails_the_range_check :
    UButtplugSubsystem.NewObject.Run Sample.Steps = .ok Sample.Listed ∧
    (Sample.Listed.OnServerMessage
        { Id := 0, Fields := .SensorReading 5 0 "Battery" [50] }).map
        (fun After =>
          (TMap.Find After.Devices 5).map
            (fun Device =>
              (Device.Features.map
                (fun Feature => (Feature.FeatureType, Feature.IsSensor,
                  Feature.LastSensorReading, Feature.SensorRange)),
               Device.GetBatteryLevel)))
      = .ok (some ([(.Vibrate, false, [], []), (.Battery, true, [50], [])],
                   .error .CheckFailed)) := by
  have hBattery : EButtplugFeatureType.GetEnumByName "Battery" = .Battery := by decide
  refine ⟨Sample.Run_Steps, ?_⟩
  simp [hBattery, Sample.Listed, UButtplugSubsystem.OnServerMessage,
    UButtplugSubsystem.OnSensorReading, UButtplugSubsystem.DeliverSensorReading,
    UButtplugFeature.SetSensorReading, UButtplugFeature.IsSensor,
    UButtplugDevice.NewObject, UButtplugFeature.NewObject,
    UButtplugDevice.GetBatteryLevel, UButtplugDevice.GetBatteryLevel.Loop,
    TMap.Find, TMap.Add, INDEX_NONE, Except.map]

/-! ## C39: a pending connect request has its socket -/

/-- C39: in every session reached by a run of steps from a new session, a pending connect
request (`LatentStartAction` non-null) implies that the socket exists (`WebSocket` valid).
Hence a new `AsyncStartClient` request made while a connect request is pending never takes
the "already connecting" branch: it changes nothing in the session and is resolved as
`ConnectionFailed` with the message "already connected". -/
theorem C39_pending_connect_has_its_socket (Steps : List FSessionStep)
    (S : UButtplugSubsystem) (hRun : UButtplugSubsystem.NewObject.Run Steps = .ok S)
    (hPending : S.LatentStartAction.isSome = true) :
    S.WebSocket.isSome = true ∧
    ∀ (Format : String → String) (bDropsOnClose : Bool) (Handle : Nat)
      (InClientName InServerAddress : String),
      S.AsyncStartClient Format bDropsOnClose false Handle InClientName InServerAddress =
        { S with
            Events := S.Events ++
              [.LatentStartActionReady Handle .ConnectionFailed "already connected"] } := by
  have hSocket : S.WebSocket.isSome = true :=
    UButtplugSubsystem.Run_link Steps UButtplugSubsystem.NewObject S (fun hNew => hNew)
      hRun hPending
  refine ⟨hSocket, ?_⟩
  intro Format bDropsOnClose Handle InClientName InServerAddress
  simp [UButtplugSubsystem.AsyncStartClient, hSocket, UButtplugSubsystem.Fire]

/-- C39 at a concrete input: a session is initialised and asked to connect under handle 7;
while that request is pending a second request arrives under handle 8. -/
theorem C39_pending_connect_has_its_socket_witness :
    ∃ S : UButtplugSubsystem,
      UButtplugSubsystem.NewObject.Run
        [.Initialize "App",
         .AsyncStartClient (fun Name => Name) false false 7 "X" "ws://127.0.0.1:12345"]
        = .ok S ∧
      S.LatentStartAction = some 7 ∧
      S.WebSocket.isSome = true ∧
      S.AsyncStartClient (fun Name => Name) false false 8 "Y" "ws://other" =
        { S with
            Events := S.Events ++
              [.LatentStartActionReady 8 .ConnectionFailed "already connected"] } :=
  ⟨_, rfl, rfl,
    (C39_pending_connect_has_its_socket
      [.Initialize "App",
       .AsyncStartClient (fun Name => Name) false false 7 "X" "ws://127.0.0.1:12345"]
      _ rfl rfl).1,
    (C39_pending_connect_has_its_socket
      [.Initialize "App",
       .AsyncStartClient (fun Name => Name) false false 7 "X" "ws://127.0.0.1:12345"]
      _ rfl rfl).2 (fun Name => Name) false 8 "Y" "ws://other"⟩

end Buttplug
